import Mathlib

/-!
Verification of the Mamdani-style fuzzy inference service in
`api_servicio.py`.

The repository configures two input linguistic variables
(`tiempo_espera`, `calidad_comida`), one output variable
(`calidad_servicio`), triangular membership functions, and nine rules,
then evaluates them through a fuzzy-control engine and exposes a
`clasificar` handler.  The configuration (universes, label parameters,
rule base, handler shape) is translated directly from the source file;
the inference engine itself is not part of the source tree, so its
semantics (triangular membership evaluation, min/max rule combination,
clipping, max-aggregation, centroid defuzzification, degenerate-result
error) are modelled from the specification.

Real-valued quantities are embedded as rationals (`ℚ`).
-/

namespace ApiServicio

/-- Modelled from the spec: triangular membership function with
parameters `(a, b, c)` — degree 0 at and before `a`, rising linearly to
1 at `b`, falling linearly to 0 at `c` and beyond; a zero-length edge
(`a = b` or `b = c`) acts as a vertical step, with degree 1 exactly at
`b`.  The engine's membership-function library is not under `src/`. -/
def trimf (a b c x : ℚ) : ℚ :=
  if x = b then 1
  else if a < x ∧ x < b then (x - a) / (b - a)
  else if b < x ∧ x < c then (c - x) / (c - b)
  else 0

/-- Universe of `tiempo_espera`: `np.arange(0, 61, 1)` (source line 56). -/
def universeTiempo : List ℚ := (List.range 61).map (fun n : ℕ => (n : ℚ))

/-- Universe of `calidad_comida`: `np.arange(0, 11, 1)` (source line 57). -/
def universeComida : List ℚ := (List.range 11).map (fun n : ℕ => (n : ℚ))

/-- Universe of `calidad_servicio`: `np.arange(0, 101, 1)` (source line 58). -/
def universeServicio : List ℚ := (List.range 101).map (fun n : ℕ => (n : ℚ))

/-- `tiempo_espera['Bajo'] = trimf(..., [0, 0, 15])` (source line 61). -/
def tiempoBajo (x : ℚ) : ℚ := trimf 0 0 15 x

/-- `tiempo_espera['Medio'] = trimf(..., [10, 25, 40])` (source line 62). -/
def tiempoMedio (x : ℚ) : ℚ := trimf 10 25 40 x

/-- `tiempo_espera['Alto'] = trimf(..., [20, 60, 60])` (source line 64). -/
def tiempoAlto (x : ℚ) : ℚ := trimf 20 60 60 x

/-- `calidad_comida['Mala'] = trimf(..., [0, 0, 4])` (source line 66). -/
def comidaMala (x : ℚ) : ℚ := trimf 0 0 4 x

/-- `calidad_comida['Aceptable'] = trimf(..., [3, 6, 8])` (source line 67). -/
def comidaAceptable (x : ℚ) : ℚ := trimf 3 6 8 x

/-- `calidad_comida['Excelente'] = trimf(..., [7, 10, 10])` (source line 68). -/
def comidaExcelente (x : ℚ) : ℚ := trimf 7 10 10 x

/-- `calidad_servicio['Mala'] = trimf(..., [0, 0, 30])` (source line 70). -/
def servicioMala (x : ℚ) : ℚ := trimf 0 0 30 x

/-- `calidad_servicio['Regular'] = trimf(..., [20, 45, 70])` (source line 71). -/
def servicioRegular (x : ℚ) : ℚ := trimf 20 45 70 x

/-- `calidad_servicio['Buena'] = trimf(..., [60, 80, 95])` (source line 72). -/
def servicioBuena (x : ℚ) : ℚ := trimf 60 80 95 x

/-- `calidad_servicio['Excelente'] = trimf(..., [90, 100, 100])` (source line 73). -/
def servicioExcelente (x : ℚ) : ℚ := trimf 90 100 100 x

/-- Antecedent expression tree over `(variable, label)` terms, combined
with fuzzy AND / OR, mirroring expressions such as
`tiempo_espera['Bajo'] & calidad_comida['Mala']` in the source. -/
inductive FuzzExpr where
  | term (var : String) (label : String)
  | and (l r : FuzzExpr)
  | or (l r : FuzzExpr)
deriving DecidableEq

/-- Modelled from the spec: recursive antecedent evaluation — a leaf
yields the fuzzified degree of its `(variable, label)` pair, an
AND-node the `min` of its children, an OR-node the `max`.  The rule
evaluator is not under `src/`. -/
def FuzzExpr.eval (fuzz : String → String → ℚ) : FuzzExpr → ℚ
  | .term v l => fuzz v l
  | .and l r => min (l.eval fuzz) (r.eval fuzz)
  | .or l r => max (l.eval fuzz) (r.eval fuzz)

/-- A rule: an antecedent tree plus one consequent label of the single
output variable `calidad_servicio`. -/
structure Rule where
  antecedent : FuzzExpr
  consequent : String
deriving DecidableEq

/-- `rule1` (source line 76). -/
def rule1 : Rule :=
  ⟨.and (.term "tiempo_espera" "Bajo") (.term "calidad_comida" "Mala"), "Regular"⟩

/-- `rule2` (source line 77). -/
def rule2 : Rule :=
  ⟨.and (.term "tiempo_espera" "Bajo") (.term "calidad_comida" "Aceptable"), "Buena"⟩

/-- `rule3` (source line 78). -/
def rule3 : Rule :=
  ⟨.and (.term "tiempo_espera" "Bajo") (.term "calidad_comida" "Excelente"), "Excelente"⟩

/-- `rule4` (source line 79). -/
def rule4 : Rule :=
  ⟨.and (.term "tiempo_espera" "Medio") (.term "calidad_comida" "Mala"), "Mala"⟩

/-- `rule5` (source line 80). -/
def rule5 : Rule :=
  ⟨.and (.term "tiempo_espera" "Medio") (.term "calidad_comida" "Aceptable"), "Regular"⟩

/-- `rule6` (source line 81). -/
def rule6 : Rule :=
  ⟨.and (.term "tiempo_espera" "Medio") (.term "calidad_comida" "Excelente"), "Buena"⟩

/-- `rule7` (source line 82). -/
def rule7 : Rule :=
  ⟨.and (.term "tiempo_espera" "Alto") (.term "calidad_comida" "Mala"), "Mala"⟩

/-- `rule8` (source line 83). -/
def rule8 : Rule :=
  ⟨.and (.term "tiempo_espera" "Alto") (.term "calidad_comida" "Aceptable"), "Regular"⟩

/-- `rule9` (source line 84). -/
def rule9 : Rule :=
  ⟨.and (.term "tiempo_espera" "Alto") (.term "calidad_comida" "Excelente"), "Buena"⟩

/-- The rule base passed to `ctrl.ControlSystem` as `control_sistema`
(source line 87). -/
def control_sistema : List Rule :=
  [rule1, rule2, rule3, rule4, rule5, rule6, rule7, rule8, rule9]

/-- Membership function of a `tiempo_espera` label. -/
def membershipTiempo (label : String) : ℚ → ℚ :=
  if label = "Bajo" then tiempoBajo
  else if label = "Medio" then tiempoMedio
  else if label = "Alto" then tiempoAlto
  else fun _ => 0

/-- Membership function of a `calidad_comida` label. -/
def membershipComida (label : String) : ℚ → ℚ :=
  if label = "Mala" then comidaMala
  else if label = "Aceptable" then comidaAceptable
  else if label = "Excelente" then comidaExcelente
  else fun _ => 0

/-- Membership function of a `calidad_servicio` label. -/
def membershipServicio (label : String) : ℚ → ℚ :=
  if label = "Mala" then servicioMala
  else if label = "Regular" then servicioRegular
  else if label = "Buena" then servicioBuena
  else if label = "Excelente" then servicioExcelente
  else fun _ => 0

/-- Modelled from the spec: fuzzification of the two crisp inputs —
each input variable's labels are evaluated at that variable's crisp
value; degrees beyond the outer edges of the universe are 0 (the
fuzzifier is not under `src/`). -/
def fuzzify (te cc : ℚ) (var label : String) : ℚ :=
  if var = "tiempo_espera" then membershipTiempo label te
  else if var = "calidad_comida" then membershipComida label cc
  else 0

/-- Firing strength of one rule for crisp inputs `(te, cc)`. -/
def firingStrength (r : Rule) (te cc : ℚ) : ℚ :=
  r.antecedent.eval (fuzzify te cc)

/-- Modelled from the spec: implication — the clipped consequent curve
of a rule at output-universe point `u` is the pointwise `min` of the
firing strength and the consequent label's membership curve. -/
def clippedDegree (r : Rule) (te cc u : ℚ) : ℚ :=
  min (firingStrength r te cc) (membershipServicio r.consequent u)

/-- Modelled from the spec: aggregation — pointwise `max`, over all
rules, of the clipped consequent curves, starting from the all-zero
fuzzy set. -/
def aggregatedDegree (te cc u : ℚ) : ℚ :=
  control_sistema.foldl (fun acc r => max acc (clippedDegree r te cc u)) 0

/-- The aggregated fuzzy set for `calidad_servicio`, sampled over its
discretized universe. -/
def aggregatedList (te cc : ℚ) : List ℚ :=
  universeServicio.map (aggregatedDegree te cc)

/-- Centroid numerator `Σ(x_i * μ(x_i))` over the sampled aggregated
set, accumulated in ascending universe order. -/
def centroidNum (te cc : ℚ) : ℚ :=
  (universeServicio.zip (aggregatedList te cc)).foldl (fun acc p => acc + p.1 * p.2) 0

/-- Centroid denominator `Σ(μ(x_i))` over the sampled aggregated set,
accumulated in ascending universe order. -/
def centroidDen (te cc : ℚ) : ℚ :=
  (aggregatedList te cc).foldl (fun acc y => acc + y) 0

/-- The failure kinds an evaluation can surface. -/
inductive FisError where
  | degenerateResult
deriving DecidableEq

instance : DecidableEq (Except FisError ℚ) := fun a b =>
  match a, b with
  | .ok x, .ok y =>
    if h : x = y then .isTrue (by rw [h]) else .isFalse (fun hc => h (Except.ok.inj hc))
  | .error x, .error y =>
    if h : x = y then .isTrue (by rw [h]) else .isFalse (fun hc => h (Except.error.inj hc))
  | .ok _, .error _ => .isFalse (fun hc => Except.noConfusion hc)
  | .error _, .ok _ => .isFalse (fun hc => Except.noConfusion hc)

/-- Modelled from the spec: `compute` — centroid defuzzification
`Σ(x_i * μ(x_i)) / Σ(μ(x_i))`; a zero denominator is a
`DegenerateResultError`, surfaced distinctly from any numeric result. -/
def compute (te cc : ℚ) : Except FisError ℚ :=
  if centroidDen te cc = 0 then .error .degenerateResult
  else .ok (centroidNum te cc / centroidDen te cc)

/-- The crisp value of `calidad_servicio` as a function of the wait
time, at food quality fixed to 9 (the value used by the monotonicity
property). -/
def crispWait (te : ℚ) : ℚ := centroidNum te 9 / centroidDen te 9

/-- Round half to even, the rounding mode of Python's built-in
`round`. -/
def roundHalfEven (q : ℚ) : ℤ :=
  if q - ⌊q⌋ < 1/2 then ⌊q⌋
  else if 1/2 < q - ⌊q⌋ then ⌊q⌋ + 1
  else if 2 ∣ ⌊q⌋ then ⌊q⌋ else ⌊q⌋ + 1

/-- `round(puntuacion_final, 2)` (source line 114): rounding to two
decimal places. -/
def round2 (q : ℚ) : ℚ := (roundHalfEven (100 * q) : ℚ) / 100

/-- The JSON body returned by the `clasificar` handler: a score that is
either a number or `None`, plus a status string (source lines 113-122). -/
structure Response where
  puntuacion_final : Option ℚ
  estado : String
deriving DecidableEq

/-- The stringified form of an evaluation failure, interpolated into
the handler's error message (source line 121). -/
def FisError.describe : FisError → String
  | .degenerateResult => "DegenerateResultError"

/-- The `clasificar` handler (source lines 95-122): run the inference,
round a successful crisp result to two decimals with status
`Clasificación exitosa`; map any evaluation failure to a `None` score
plus an error status string. -/
def clasificar (te cc : ℚ) : Response :=
  match compute te cc with
  | .ok v => ⟨some (round2 v), "Clasificación exitosa"⟩
  | .error e => ⟨none, "Error en la clasificación: " ++ e.describe⟩

/-- The mutable state of the shared `ControlSystemSimulation`
(`clasificador_servicio`, source line 88) that persists between handler
calls: the last inputs written and the last computed output. -/
structure SimState where
  inputTiempo : Option ℚ
  inputComida : Option ℚ
  output : Option ℚ
deriving DecidableEq

/-- One handler call acting on the shared simulation state: assign both
inputs (source lines 103-104), run `compute` (source line 107), store
and return the result (source lines 110-122). -/
def clasificarStep (s : SimState) (te cc : ℚ) : SimState × Response :=
  match compute te cc with
  | .ok v => (⟨some te, some cc, some v⟩, ⟨some (round2 v), "Clasificación exitosa"⟩)
  | .error e =>
    (⟨some te, some cc, s.output⟩, ⟨none, "Error en la clasificación: " ++ e.describe⟩)

section RatEval

attribute [local semireducible] Rat.add Rat.mul Rat.sub Rat.inv

/-! ### Basic facts about the membership-function library -/

lemma trimf_nonneg (a b c x : ℚ) : 0 ≤ trimf a b c x := by
  unfold trimf
  split_ifs with h1 h2 h3
  · norm_num
  · exact div_nonneg (by linarith [h2.1]) (by linarith [h2.1, h2.2])
  · exact div_nonneg (by linarith [h3.2]) (by linarith [h3.1, h3.2])
  · exact le_refl 0

lemma trimf_le_one (a b c x : ℚ) : trimf a b c x ≤ 1 := by
  unfold trimf
  split_ifs with h1 h2 h3
  · exact le_refl 1
  · rw [div_le_one (by linarith [h2.1, h2.2])]
    linarith [h2.2]
  · rw [div_le_one (by linarith [h3.1, h3.2])]
    linarith [h3.1]
  · norm_num

lemma membershipTiempo_nonneg (l : String) (x : ℚ) : 0 ≤ membershipTiempo l x := by
  unfold membershipTiempo tiempoBajo tiempoMedio tiempoAlto
  split_ifs <;> first | apply trimf_nonneg | exact le_refl 0

lemma membershipComida_nonneg (l : String) (x : ℚ) : 0 ≤ membershipComida l x := by
  unfold membershipComida comidaMala comidaAceptable comidaExcelente
  split_ifs <;> first | apply trimf_nonneg | exact le_refl 0

lemma membershipServicio_nonneg (l : String) (x : ℚ) : 0 ≤ membershipServicio l x := by
  unfold membershipServicio servicioMala servicioRegular servicioBuena servicioExcelente
  split_ifs <;> first | apply trimf_nonneg | exact le_refl 0

lemma fuzzify_nonneg (te cc : ℚ) (v l : String) : 0 ≤ fuzzify te cc v l := by
  unfold fuzzify
  split_ifs
  · exact membershipTiempo_nonneg l te
  · exact membershipComida_nonneg l cc
  · exact le_refl 0

lemma FuzzExpr.eval_nonneg (fuzz : String → String → ℚ)
    (h : ∀ v l, 0 ≤ fuzz v l) : ∀ e : FuzzExpr, 0 ≤ e.eval fuzz := by
  intro e
  induction e with
  | term v l => exact h v l
  | and l r ihl ihr => exact le_min ihl ihr
  | or l r ihl ihr => exact le_trans ihl (le_max_left _ _)

lemma firingStrength_nonneg (r : Rule) (te cc : ℚ) : 0 ≤ firingStrength r te cc :=
  FuzzExpr.eval_nonneg _ (fuzzify_nonneg te cc) r.antecedent

lemma clippedDegree_nonneg (r : Rule) (te cc u : ℚ) : 0 ≤ clippedDegree r te cc u :=
  le_min (firingStrength_nonneg r te cc) (membershipServicio_nonneg r.consequent u)

/-! ### Facts about folds used by aggregation and defuzzification -/

lemma init_le_foldl_max (g : Rule → ℚ) :
    ∀ (l : List Rule) (a : ℚ), a ≤ l.foldl (fun acc r => max acc (g r)) a := by
  intro l
  induction l with
  | nil => intro a; simp
  | cons x xs ih => intro a; exact le_trans (le_max_left a (g x)) (ih (max a (g x)))

lemma elem_le_foldl_max (g : Rule → ℚ) :
    ∀ (l : List Rule) (a : ℚ) (r : Rule), r ∈ l →
      g r ≤ l.foldl (fun acc r => max acc (g r)) a := by
  intro l
  induction l with
  | nil => intro a r hr; cases hr
  | cons x xs ih =>
    intro a r hr
    rcases List.mem_cons.mp hr with hr | hr
    · subst hr
      exact le_trans (le_max_right a (g r)) (init_le_foldl_max g xs (max a (g r)))
    · exact ih (max a (g x)) r hr

lemma foldl_max_all_zero (g : Rule → ℚ) :
    ∀ l : List Rule, (∀ r ∈ l, g r = 0) →
      l.foldl (fun acc r => max acc (g r)) 0 = 0 := by
  intro l
  induction l with
  | nil => intro _; rfl
  | cons x xs ih =>
    intro h
    have hx : g x = 0 := h x (List.mem_cons_self x xs)
    simp only [List.foldl_cons, hx, max_self]
    exact ih (fun r hr => h r (List.mem_cons_of_mem x hr))

lemma foldl_add_eq (l : List ℚ) : ∀ a : ℚ, l.foldl (fun acc y => acc + y) a = a + l.sum := by
  induction l with
  | nil => intro a; simp
  | cons x xs ih =>
    intro a
    simp only [List.foldl_cons, List.sum_cons, ih (a + x)]
    ring

lemma foldl_addmul_eq (l : List (ℚ × ℚ)) :
    ∀ a : ℚ, l.foldl (fun acc p => acc + p.1 * p.2) a = a + (l.map (fun p => p.1 * p.2)).sum := by
  induction l with
  | nil => intro a; simp
  | cons x xs ih =>
    intro a
    simp only [List.foldl_cons, List.map_cons, List.sum_cons, ih (a + x.1 * x.2)]
    ring

lemma centroidDen_eq_sum (te cc : ℚ) :
    centroidDen te cc = (universeServicio.map (aggregatedDegree te cc)).sum := by
  unfold centroidDen aggregatedList
  rw [foldl_add_eq, zero_add]

lemma centroidNum_eq_sum (te cc : ℚ) :
    centroidNum te cc = (universeServicio.map (fun u => u * aggregatedDegree te cc u)).sum := by
  unfold centroidNum aggregatedList
  rw [foldl_addmul_eq, zero_add]
  have hz : universeServicio.zip (universeServicio.map (aggregatedDegree te cc)) =
      universeServicio.map (fun u => (u, aggregatedDegree te cc u)) := by
    conv_lhs => rw [← List.map_id universeServicio]
    exact List.zip_map' id (aggregatedDegree te cc) universeServicio
  rw [hz, List.map_map]
  congr 1

lemma aggregatedDegree_nonneg (te cc u : ℚ) : 0 ≤ aggregatedDegree te cc u :=
  init_le_foldl_max _ control_sistema 0

lemma universeServicio_bounds : ∀ u ∈ universeServicio, 0 ≤ u ∧ u ≤ 100 := by
  intro u hu
  unfold universeServicio at hu
  obtain ⟨n, hn, rfl⟩ := List.mem_map.mp hu
  have hn' : n < 101 := List.mem_range.mp hn
  refine ⟨by positivity, ?_⟩
  have h2 : n ≤ 100 := Nat.lt_succ_iff.mp hn'
  exact_mod_cast h2

lemma fuzzify_tiempo (te cc : ℚ) (l : String) :
    fuzzify te cc "tiempo_espera" l = membershipTiempo l te := rfl

lemma fuzzify_comida (te cc : ℚ) (l : String) :
    fuzzify te cc "calidad_comida" l = membershipComida l cc := by
  unfold fuzzify
  rw [if_neg (by decide), if_pos rfl]

/-- C1: for every pair of crisp inputs and every point of the
discretized output universe, the aggregated fuzzy set of
`calidad_servicio` is the pointwise maximum over the nine rules of the
rule's clipped consequent curve — the pointwise `min` of the rule's
firing strength and the consequent label's curve — where each firing
strength is the `min` of the two fuzzified antecedent leaves. -/
theorem aggregated_is_max_of_clipped (te cc u : ℚ) (hu : u ∈ universeServicio) :
    aggregatedDegree te cc u =
      max (max (max (max (max (max (max (max
        (min (min (tiempoBajo te) (comidaMala cc)) (servicioRegular u))
        (min (min (tiempoBajo te) (comidaAceptable cc)) (servicioBuena u)))
        (min (min (tiempoBajo te) (comidaExcelente cc)) (servicioExcelente u)))
        (min (min (tiempoMedio te) (comidaMala cc)) (servicioMala u)))
        (min (min (tiempoMedio te) (comidaAceptable cc)) (servicioRegular u)))
        (min (min (tiempoMedio te) (comidaExcelente cc)) (servicioBuena u)))
        (min (min (tiempoAlto te) (comidaMala cc)) (servicioMala u)))
        (min (min (tiempoAlto te) (comidaAceptable cc)) (servicioRegular u)))
        (min (min (tiempoAlto te) (comidaExcelente cc)) (servicioBuena u)) := by
  have h1 : 0 ≤ min (min (tiempoBajo te) (comidaMala cc)) (servicioRegular u) :=
    le_min (le_min (trimf_nonneg 0 0 15 te) (trimf_nonneg 0 0 4 cc))
      (trimf_nonneg 20 45 70 u)
  simp only [aggregatedDegree, control_sistema, List.foldl_cons, List.foldl_nil,
    clippedDegree, firingStrength, rule1, rule2, rule3, rule4, rule5, rule6, rule7,
    rule8, rule9, FuzzExpr.eval, fuzzify_tiempo, fuzzify_comida]
  simp only [membershipTiempo, membershipComida, membershipServicio,
    if_pos, if_neg, String.reduceEq, reduceIte]
  rw [max_eq_right h1]

/-- Witness for C1 at inputs `(20, 9)` and universe point `u = 80`. -/
theorem aggregated_is_max_of_clipped_witness :
    (80:ℚ) ∈ universeServicio ∧
    aggregatedDegree 20 9 80 =
      max (max (max (max (max (max (max (max
        (min (min (tiempoBajo 20) (comidaMala 9)) (servicioRegular 80))
        (min (min (tiempoBajo 20) (comidaAceptable 9)) (servicioBuena 80)))
        (min (min (tiempoBajo 20) (comidaExcelente 9)) (servicioExcelente 80)))
        (min (min (tiempoMedio 20) (comidaMala 9)) (servicioMala 80)))
        (min (min (tiempoMedio 20) (comidaAceptable 9)) (servicioRegular 80)))
        (min (min (tiempoMedio 20) (comidaExcelente 9)) (servicioBuena 80)))
        (min (min (tiempoAlto 20) (comidaMala 9)) (servicioMala 80)))
        (min (min (tiempoAlto 20) (comidaAceptable 9)) (servicioRegular 80)))
        (min (min (tiempoAlto 20) (comidaExcelente 9)) (servicioBuena 80)) :=
  ⟨by decide,
   aggregated_is_max_of_clipped 20 9 80 (by decide)⟩

/-- C3: for every triangular membership function with `a ≤ b ≤ c` and
every `x`: the degree lies in `[0,1]`; the degree at `b` is 1; and the
degree is 0 for `x ≤ a` and for `x ≥ c`, except at the degenerate case
where the zero-length edge makes `x` coincide with the peak `b`. -/
theorem trimf_spec (a b c x : ℚ) (hab : a ≤ b) (hbc : b ≤ c) :
    (0 ≤ trimf a b c x ∧ trimf a b c x ≤ 1) ∧
    trimf a b c b = 1 ∧
    (x ≤ a → x ≠ b → trimf a b c x = 0) ∧
    (c ≤ x → x ≠ b → trimf a b c x = 0) := by
  refine ⟨⟨trimf_nonneg a b c x, trimf_le_one a b c x⟩, ?_, ?_, ?_⟩
  · unfold trimf
    rw [if_pos rfl]
  · intro hxa hxb
    unfold trimf
    rw [if_neg hxb, if_neg (by rintro ⟨h1, -⟩; linarith), if_neg (by rintro ⟨h1, -⟩; linarith)]
  · intro hcx hxb
    unfold trimf
    rw [if_neg hxb, if_neg (by rintro ⟨-, h2⟩; linarith), if_neg (by rintro ⟨-, h2⟩; linarith)]

/-- Witness for C3 at the degenerate triangle `[0, 0, 15]` of the label
`tiempo_espera['Bajo']` and `x = 20`. -/
theorem trimf_spec_witness :
    (0:ℚ) ≤ 0 ∧ (0:ℚ) ≤ 15 ∧
    ((0 ≤ trimf 0 0 15 20 ∧ trimf 0 0 15 20 ≤ 1) ∧
     trimf 0 0 15 0 = 1 ∧
     ((20:ℚ) ≤ 0 → (20:ℚ) ≠ 0 → trimf 0 0 15 20 = 0) ∧
     ((15:ℚ) ≤ 20 → (20:ℚ) ≠ 0 → trimf 0 0 15 20 = 0)) :=
  ⟨by norm_num, by norm_num, trimf_spec 0 0 15 20 (by norm_num) (by norm_num)⟩

/-! ### Degenerate evaluations -/

lemma aggregatedDegree_of_no_fire (te cc : ℚ)
    (h : ∀ r ∈ control_sistema, firingStrength r te cc = 0) (u : ℚ) :
    aggregatedDegree te cc u = 0 := by
  apply foldl_max_all_zero
  intro r hr
  unfold clippedDegree
  rw [h r hr]
  exact min_eq_left (membershipServicio_nonneg r.consequent u)

lemma centroidDen_of_no_fire (te cc : ℚ)
    (h : ∀ r ∈ control_sistema, firingStrength r te cc = 0) :
    centroidDen te cc = 0 := by
  rw [centroidDen_eq_sum]
  apply List.sum_eq_zero
  intro x hx
  obtain ⟨u, _, heq⟩ := List.mem_map.mp hx
  subst heq
  exact aggregatedDegree_of_no_fire te cc h u

lemma clasificar_of_no_fire (te cc : ℚ)
    (h : ∀ r ∈ control_sistema, firingStrength r te cc = 0) :
    centroidDen te cc = 0 ∧
    compute te cc = .error .degenerateResult ∧
    clasificar te cc = ⟨none, "Error en la clasificación: DegenerateResultError"⟩ := by
  have hden := centroidDen_of_no_fire te cc h
  have hc : compute te cc = .error .degenerateResult := by
    unfold compute
    rw [if_pos hden]
  refine ⟨hden, hc, ?_⟩
  unfold clasificar
  rw [hc]
  rfl

/-- C2: whenever the aggregated fuzzy set for `calidad_servicio` is not
identically zero on the discretized universe, the crisp result is the
centroid `Σ(x_i * μ(x_i)) / Σ(μ(x_i))` over all sample points in
ascending order. -/
theorem compute_is_centroid (te cc : ℚ)
    (h : ∃ u ∈ universeServicio, aggregatedDegree te cc u ≠ 0) :
    compute te cc =
      .ok ((universeServicio.map (fun x => x * aggregatedDegree te cc x)).sum /
           (universeServicio.map (fun x => aggregatedDegree te cc x)).sum) := by
  obtain ⟨u, hu, hne⟩ := h
  have hpos : 0 < aggregatedDegree te cc u :=
    lt_of_le_of_ne (aggregatedDegree_nonneg te cc u) (Ne.symm hne)
  have hmem : aggregatedDegree te cc u ∈ universeServicio.map (aggregatedDegree te cc) :=
    List.mem_map_of_mem _ hu
  have hnn : ∀ x ∈ universeServicio.map (aggregatedDegree te cc), 0 ≤ x := by
    intro x hx
    obtain ⟨w, _, heq⟩ := List.mem_map.mp hx
    subst heq
    exact aggregatedDegree_nonneg te cc w
  have hsum : 0 < (universeServicio.map (aggregatedDegree te cc)).sum :=
    lt_of_lt_of_le hpos (List.single_le_sum hnn _ hmem)
  have hden : centroidDen te cc ≠ 0 := by
    rw [centroidDen_eq_sum]
    exact ne_of_gt hsum
  unfold compute
  rw [if_neg hden, centroidNum_eq_sum, centroidDen_eq_sum]

/-- Witness for C2 at inputs `(20, 9)`, where the aggregated degree at
universe point 80 is nonzero. -/
theorem compute_is_centroid_witness :
    ((80:ℚ) ∈ universeServicio ∧ aggregatedDegree 20 9 80 ≠ 0) ∧
    compute 20 9 =
      .ok ((universeServicio.map (fun x => x * aggregatedDegree 20 9 x)).sum /
           (universeServicio.map (fun x => aggregatedDegree 20 9 x)).sum) :=
  ⟨⟨by decide, by decide⟩,
   compute_is_centroid 20 9
     ⟨80, by decide, by decide⟩⟩

/-- C4: whenever no rule fires with nonzero strength, the
defuzzification denominator is zero and the evaluation surfaces a
`DegenerateResultError` — distinct from any numeric result, never a
silent numeric zero. -/
theorem degenerate_is_error (te cc : ℚ)
    (h : ∀ r ∈ control_sistema, firingStrength r te cc = 0) :
    centroidDen te cc = 0 ∧
    compute te cc = .error .degenerateResult ∧
    clasificar te cc = ⟨none, "Error en la clasificación: DegenerateResultError"⟩ :=
  clasificar_of_no_fire te cc h

/-- Witness for C4 at inputs `(70, 5)`: the wait time lies beyond every
`tiempo_espera` label's support, so no rule fires. -/
theorem degenerate_is_error_witness :
    (∀ r ∈ control_sistema, firingStrength r 70 5 = 0) ∧
    (centroidDen 70 5 = 0 ∧
     compute 70 5 = .error .degenerateResult ∧
     clasificar 70 5 = ⟨none, "Error en la clasificación: DegenerateResultError"⟩) :=
  ⟨by decide,
   degenerate_is_error 70 5 (by decide)⟩

lemma tiempo_zeros_of_out (te : ℚ) (h : te < 0 ∨ 60 < te) :
    tiempoBajo te = 0 ∧ tiempoMedio te = 0 ∧ tiempoAlto te = 0 := by
  refine ⟨?_, ?_, ?_⟩
  · rcases h with h | h <;>
      (unfold tiempoBajo trimf;
       rw [if_neg (by intro he; rw [he] at h; norm_num at h),
         if_neg (by rintro ⟨h1, h2⟩; linarith),
         if_neg (by rintro ⟨h1, h2⟩; linarith)])
  · rcases h with h | h <;>
      (unfold tiempoMedio trimf;
       rw [if_neg (by intro he; rw [he] at h; norm_num at h),
         if_neg (by rintro ⟨h1, h2⟩; linarith),
         if_neg (by rintro ⟨h1, h2⟩; linarith)])
  · rcases h with h | h <;>
      (unfold tiempoAlto trimf;
       rw [if_neg (by intro he; rw [he] at h; norm_num at h),
         if_neg (by rintro ⟨h1, h2⟩; linarith),
         if_neg (by rintro ⟨h1, h2⟩; linarith)])

lemma comida_zeros_of_out (cc : ℚ) (h : cc < 0 ∨ 10 < cc) :
    comidaMala cc = 0 ∧ comidaAceptable cc = 0 ∧ comidaExcelente cc = 0 := by
  refine ⟨?_, ?_, ?_⟩
  · rcases h with h | h <;>
      (unfold comidaMala trimf;
       rw [if_neg (by intro he; rw [he] at h; norm_num at h),
         if_neg (by rintro ⟨h1, h2⟩; linarith),
         if_neg (by rintro ⟨h1, h2⟩; linarith)])
  · rcases h with h | h <;>
      (unfold comidaAceptable trimf;
       rw [if_neg (by intro he; rw [he] at h; norm_num at h),
         if_neg (by rintro ⟨h1, h2⟩; linarith),
         if_neg (by rintro ⟨h1, h2⟩; linarith)])
  · rcases h with h | h <;>
      (unfold comidaExcelente trimf;
       rw [if_neg (by intro he; rw [he] at h; norm_num at h),
         if_neg (by rintro ⟨h1, h2⟩; linarith),
         if_neg (by rintro ⟨h1, h2⟩; linarith)])

lemma no_fire_of_tiempo_zeros (te cc : ℚ) (hB : tiempoBajo te = 0)
    (hM : tiempoMedio te = 0) (hA : tiempoAlto te = 0) :
    ∀ r ∈ control_sistema, firingStrength r te cc = 0 := by
  intro r hr
  simp only [control_sistema, List.mem_cons, List.not_mem_nil, or_false] at hr
  rcases hr with rfl | rfl | rfl | rfl | rfl | rfl | rfl | rfl | rfl <;>
    simp only [firingStrength, rule1, rule2, rule3, rule4, rule5, rule6, rule7,
      rule8, rule9, FuzzExpr.eval, fuzzify_tiempo, fuzzify_comida,
      membershipTiempo, membershipComida, String.reduceEq, reduceIte] <;>
    simp only [hB, hM, hA] <;>
    first
      | exact min_eq_left (trimf_nonneg 0 0 4 cc)
      | exact min_eq_left (trimf_nonneg 3 6 8 cc)
      | exact min_eq_left (trimf_nonneg 7 10 10 cc)

lemma no_fire_of_comida_zeros (te cc : ℚ) (hMa : comidaMala cc = 0)
    (hAc : comidaAceptable cc = 0) (hEx : comidaExcelente cc = 0) :
    ∀ r ∈ control_sistema, firingStrength r te cc = 0 := by
  intro r hr
  simp only [control_sistema, List.mem_cons, List.not_mem_nil, or_false] at hr
  rcases hr with rfl | rfl | rfl | rfl | rfl | rfl | rfl | rfl | rfl <;>
    simp only [firingStrength, rule1, rule2, rule3, rule4, rule5, rule6, rule7,
      rule8, rule9, FuzzExpr.eval, fuzzify_tiempo, fuzzify_comida,
      membershipTiempo, membershipComida, String.reduceEq, reduceIte] <;>
    simp only [hMa, hAc, hEx] <;>
    first
      | exact min_eq_right (trimf_nonneg 0 0 15 te)
      | exact min_eq_right (trimf_nonneg 10 25 40 te)
      | exact min_eq_right (trimf_nonneg 20 60 60 te)

/-- C5: a numeric input outside either input variable's declared
universe range — wait time outside `[0, 60]` or food quality outside
`[0, 10]` — is accepted: that variable's membership degrees are all 0
beyond the outer edges, and the evaluation ends in the
degenerate-result response rather than an out-of-range fault. -/
theorem out_of_range_accepted (te cc : ℚ)
    (h : (te < 0 ∨ 60 < te) ∨ (cc < 0 ∨ 10 < cc)) :
    ((te < 0 ∨ 60 < te) →
      tiempoBajo te = 0 ∧ tiempoMedio te = 0 ∧ tiempoAlto te = 0) ∧
    ((cc < 0 ∨ 10 < cc) →
      comidaMala cc = 0 ∧ comidaAceptable cc = 0 ∧ comidaExcelente cc = 0) ∧
    clasificar te cc = ⟨none, "Error en la clasificación: DegenerateResultError"⟩ := by
  have hall : ∀ r ∈ control_sistema, firingStrength r te cc = 0 := by
    rcases h with h | h
    · obtain ⟨hB, hM, hA⟩ := tiempo_zeros_of_out te h
      exact no_fire_of_tiempo_zeros te cc hB hM hA
    · obtain ⟨hMa, hAc, hEx⟩ := comida_zeros_of_out cc h
      exact no_fire_of_comida_zeros te cc hMa hAc hEx
  exact ⟨tiempo_zeros_of_out te, comida_zeros_of_out cc,
    (clasificar_of_no_fire te cc hall).2.2⟩

/-- Witness for C5 at inputs `(30, 15)`: the wait time is inside its
universe, the food quality lies above its universe `[0, 10]`. -/
theorem out_of_range_accepted_witness :
    (((30:ℚ) < 0 ∨ (60:ℚ) < 30) ∨ ((15:ℚ) < 0 ∨ (10:ℚ) < 15)) ∧
    ((((30:ℚ) < 0 ∨ (60:ℚ) < 30) →
       tiempoBajo 30 = 0 ∧ tiempoMedio 30 = 0 ∧ tiempoAlto 30 = 0) ∧
     (((15:ℚ) < 0 ∨ (10:ℚ) < 15) →
       comidaMala 15 = 0 ∧ comidaAceptable 15 = 0 ∧ comidaExcelente 15 = 0) ∧
     clasificar 30 15 = ⟨none, "Error en la clasificación: DegenerateResultError"⟩) :=
  ⟨by norm_num, out_of_range_accepted 30 15 (by norm_num)⟩

/-! ### Range of the defuzzified output -/

lemma consequent_peak (r : Rule) (hr : r ∈ control_sistema) :
    ∃ p ∈ universeServicio, membershipServicio r.consequent p = 1 := by
  simp only [control_sistema, List.mem_cons, List.not_mem_nil, or_false] at hr
  rcases hr with rfl | rfl | rfl | rfl | rfl | rfl | rfl | rfl | rfl <;>
    first
      | exact ⟨0, by decide, by decide⟩
      | exact ⟨45, by decide, by decide⟩
      | exact ⟨80, by decide, by decide⟩
      | exact ⟨100, by decide, by decide⟩

lemma aggregated_map_nonneg (te cc : ℚ) :
    ∀ x ∈ universeServicio.map (aggregatedDegree te cc), 0 ≤ x := by
  intro x hx
  obtain ⟨w, _, heq⟩ := List.mem_map.mp hx
  subst heq
  exact aggregatedDegree_nonneg te cc w

/-- C6: whenever at least one rule fires with positive strength, the
evaluation succeeds and the crisp output lies within the declared
`[0, 100]` universe of `calidad_servicio`. -/
theorem output_in_range (te cc : ℚ)
    (h : ∃ r ∈ control_sistema, 0 < firingStrength r te cc) :
    ∃ v, compute te cc = .ok v ∧ 0 ≤ v ∧ v ≤ 100 := by
  obtain ⟨r, hr, hs⟩ := h
  obtain ⟨p, hp, hp1⟩ := consequent_peak r hr
  have hclip : 0 < clippedDegree r te cc p := by
    unfold clippedDegree
    rw [hp1]
    exact lt_min hs one_pos
  have hagg : 0 < aggregatedDegree te cc p :=
    lt_of_lt_of_le hclip (elem_le_foldl_max _ control_sistema 0 r hr)
  have hden_pos : 0 < centroidDen te cc := by
    rw [centroidDen_eq_sum]
    exact lt_of_lt_of_le hagg
      (List.single_le_sum (aggregated_map_nonneg te cc) _ (List.mem_map_of_mem _ hp))
  have hnum_nonneg : 0 ≤ centroidNum te cc := by
    rw [centroidNum_eq_sum]
    apply List.sum_nonneg
    intro x hx
    obtain ⟨w, hw, heq⟩ := List.mem_map.mp hx
    subst heq
    exact mul_nonneg (universeServicio_bounds w hw).1 (aggregatedDegree_nonneg te cc w)
  have hnum_le : centroidNum te cc ≤ 100 * centroidDen te cc := by
    rw [centroidNum_eq_sum, centroidDen_eq_sum, ← List.sum_map_mul_left]
    apply List.sum_le_sum
    intro i hi
    exact mul_le_mul_of_nonneg_right (universeServicio_bounds i hi).2
      (aggregatedDegree_nonneg te cc i)
  refine ⟨centroidNum te cc / centroidDen te cc, ?_, ?_, ?_⟩
  · unfold compute
    rw [if_neg (ne_of_gt hden_pos)]
  · exact div_nonneg hnum_nonneg (le_of_lt hden_pos)
  · rw [div_le_iff₀ hden_pos]
    linarith [hnum_le]

/-- Witness for C6 at inputs `(20, 9)`, where `rule6` fires with
strength 2/3. -/
theorem output_in_range_witness :
    (rule6 ∈ control_sistema ∧ 0 < firingStrength rule6 20 9) ∧
    ∃ v, compute 20 9 = .ok v ∧ 0 ≤ v ∧ v ≤ 100 :=
  ⟨⟨by decide, by decide⟩,
   output_in_range 20 9
     ⟨rule6, by decide, by decide⟩⟩

/-! ### The handler -/

/-- C7: evaluating the same control system twice with the same inputs
yields identical responses — the second call, acting on whatever
simulation state the first call left, returns exactly the first call's
response, and the response does not depend on the incoming simulation
state at all. -/
theorem repeat_evaluation_identical (s : SimState) (te cc : ℚ) :
    (clasificarStep (clasificarStep s te cc).1 te cc).2 = (clasificarStep s te cc).2 ∧
    ∀ s' : SimState, (clasificarStep s' te cc).2 = (clasificarStep s te cc).2 := by
  constructor
  · cases hc : compute te cc <;> (unfold clasificarStep; rw [hc])
  · intro s'
    cases hc : compute te cc <;> (unfold clasificarStep; rw [hc])

/-- C9: the handler always produces a response body: a successful
evaluation yields the rounded score with a success status, and every
failure kind is mapped to a `None` score plus a human-readable status
string — never a propagated exception. -/
theorem handler_total_response (te cc : ℚ) :
    (∃ v, compute te cc = .ok v ∧
      clasificar te cc = ⟨some (round2 v), "Clasificación exitosa"⟩) ∨
    (∃ e, compute te cc = .error e ∧
      clasificar te cc = ⟨none, "Error en la clasificación: " ++ FisError.describe e⟩) := by
  cases hc : compute te cc with
  | ok v =>
    refine Or.inl ⟨v, rfl, ?_⟩
    unfold clasificar
    rw [hc]
  | error e =>
    refine Or.inr ⟨e, rfl, ?_⟩
    unfold clasificar
    rw [hc]

/-- C10: a successful evaluation returns `round(v, 2)` — the crisp
centroid rounded to exactly two decimal places — as `puntuacion_final`,
never the raw unrounded value. -/
theorem output_rounded (te cc v : ℚ) (h : compute te cc = .ok v) :
    clasificar te cc = ⟨some (round2 v), "Clasificación exitosa"⟩ := by
  unfold clasificar
  rw [h]

/-! ### Concrete evaluations -/

set_option maxRecDepth 4000 in
lemma universeServicio_literal :
    universeServicio =
      ([0,1,2,3,4,5,6,7,8,9,10,11,12,13,14,15,16,17,18,19,20,21,22,23,24,25,26,27,28,29,30,
       31,32,33,34,35,36,37,38,39,40,41,42,43,44,45,46,47,48,49,50,51,52,53,54,55,56,57,58,
       59,60,61,62,63,64,65,66,67,68,69,70,71,72,73,74,75,76,77,78,79,80,81,82,83,84,85,86,
       87,88,89,90,91,92,93,94,95,96,97,98,99,100] : List ℚ) := by
  decide

set_option maxRecDepth 4000 in
lemma aggregatedList_20_9 :
    aggregatedList 20 9 =
      ([0,0,0,0,0,0,0,0,0,0,0,0,0,0,0,0,0,0,0,0,0,0,0,0,0,0,0,0,0,0,0,0,0,0,0,0,0,0,0,0,0,0,
       0,0,0,0,0,0,0,0,0,0,0,0,0,0,0,0,0,0,0,1/20,1/10,3/20,1/5,1/4,3/10,7/20,2/5,9/20,1/2,
       11/20,3/5,13/20,2/3,2/3,2/3,2/3,2/3,2/3,2/3,2/3,2/3,2/3,2/3,2/3,3/5,8/15,7/15,2/5,1/3,
       4/15,1/5,2/15,1/15,0,0,0,0,0,0] : List ℚ) := by
  decide

set_option maxRecDepth 4000 in
lemma denChunk0_20_9 :
    (([0,0,0,0,0,0,0,0,0,0,0,0,0,0,0,0,0,0,0,0] : List ℚ).foldl
        (fun acc y => acc + y) (0)) = 0 := by
  decide

set_option maxRecDepth 4000 in
lemma denChunk1_20_9 :
    (([0,0,0,0,0,0,0,0,0,0,0,0,0,0,0,0,0,0,0,0] : List ℚ).foldl
        (fun acc y => acc + y) (0)) = 0 := by
  decide

set_option maxRecDepth 4000 in
lemma denChunk2_20_9 :
    (([0,0,0,0,0,0,0,0,0,0,0,0,0,0,0,0,0,0,0,0] : List ℚ).foldl
        (fun acc y => acc + y) (0)) = 0 := by
  decide

set_option maxRecDepth 4000 in
lemma denChunk3_20_9 :
    (([0,1/20,1/10,3/20,1/5,1/4,3/10,7/20,2/5,9/20,1/2,11/20,3/5,13/20,2/3,2/3,2/3,2/3,2/3,
       2/3] : List ℚ).foldl
        (fun acc y => acc + y) (0)) = 171/20 := by
  decide

set_option maxRecDepth 4000 in
lemma denChunk4_20_9 :
    (([2/3,2/3,2/3,2/3,2/3,2/3,3/5,8/15,7/15,2/5,1/3,4/15,1/5,2/15,1/15,0,0,0,0,0] : List ℚ).foldl
        (fun acc y => acc + y) (171/20)) = 311/20 := by
  decide

set_option maxRecDepth 4000 in
lemma denChunk5_20_9 :
    (([0] : List ℚ).foldl
        (fun acc y => acc + y) (311/20)) = 311/20 := by
  decide

set_option maxRecDepth 4000 in
lemma aggSplit_20_9 :
    ([0,0,0,0,0,0,0,0,0,0,0,0,0,0,0,0,0,0,0,0,0,0,0,0,0,0,0,0,0,0,0,0,0,0,0,0,0,0,0,0,0,0,0,
      0,0,0,0,0,0,0,0,0,0,0,0,0,0,0,0,0,0,1/20,1/10,3/20,1/5,1/4,3/10,7/20,2/5,9/20,1/2,
      11/20,3/5,13/20,2/3,2/3,2/3,2/3,2/3,2/3,2/3,2/3,2/3,2/3,2/3,2/3,3/5,8/15,7/15,2/5,1/3,
      4/15,1/5,2/15,1/15,0,0,0,0,0,0] : List ℚ) =
      ([0,0,0,0,0,0,0,0,0,0,0,0,0,0,0,0,0,0,0,0] : List ℚ) ++
      ([0,0,0,0,0,0,0,0,0,0,0,0,0,0,0,0,0,0,0,0] : List ℚ) ++
      ([0,0,0,0,0,0,0,0,0,0,0,0,0,0,0,0,0,0,0,0] : List ℚ) ++
      ([0,1/20,1/10,3/20,1/5,1/4,3/10,7/20,2/5,9/20,1/2,11/20,3/5,13/20,2/3,2/3,2/3,2/3,2/3,
      2/3] : List ℚ) ++
      ([2/3,2/3,2/3,2/3,2/3,2/3,3/5,8/15,7/15,2/5,1/3,4/15,1/5,2/15,1/15,0,0,0,0,0] : List ℚ) ++
      ([0] : List ℚ) := by
  decide

lemma centroidDen_20_9 : centroidDen 20 9 = 311/20 := by
  unfold centroidDen
  rw [aggregatedList_20_9, aggSplit_20_9]
  simp only [List.foldl_append]
  rw [denChunk0_20_9, denChunk1_20_9, denChunk2_20_9, denChunk3_20_9, denChunk4_20_9, denChunk5_20_9]

set_option maxRecDepth 4000 in
lemma zipPairs_20_9 :
    (([0,1,2,3,4,5,6,7,8,9,10,11,12,13,14,15,16,17,18,19,20,21,22,23,24,25,26,27,28,29,30,
       31,32,33,34,35,36,37,38,39,40,41,42,43,44,45,46,47,48,49,50,51,52,53,54,55,56,57,58,
       59,60,61,62,63,64,65,66,67,68,69,70,71,72,73,74,75,76,77,78,79,80,81,82,83,84,85,86,
       87,88,89,90,91,92,93,94,95,96,97,98,99,100] : List ℚ).zip
     ([0,0,0,0,0,0,0,0,0,0,0,0,0,0,0,0,0,0,0,0,0,0,0,0,0,0,0,0,0,0,0,0,0,0,0,0,0,0,0,0,0,0,
       0,0,0,0,0,0,0,0,0,0,0,0,0,0,0,0,0,0,0,1/20,1/10,3/20,1/5,1/4,3/10,7/20,2/5,9/20,1/2,
       11/20,3/5,13/20,2/3,2/3,2/3,2/3,2/3,2/3,2/3,2/3,2/3,2/3,2/3,2/3,3/5,8/15,7/15,2/5,1/3,
       4/15,1/5,2/15,1/15,0,0,0,0,0,0] : List ℚ)) =
      ([(0,0),(1,0),(2,0),(3,0),(4,0),(5,0),(6,0),(7,0),(8,0),(9,0),(10,0),(11,0),(12,0),(13,
      0),(14,0),(15,0),(16,0),(17,0),(18,0),(19,0)] : List (ℚ × ℚ)) ++
      ([(20,0),(21,0),(22,0),(23,0),(24,0),(25,0),(26,0),(27,0),(28,0),(29,0),(30,0),(31,0),
      (32,0),(33,0),(34,0),(35,0),(36,0),(37,0),(38,0),(39,0)] : List (ℚ × ℚ)) ++
      ([(40,0),(41,0),(42,0),(43,0),(44,0),(45,0),(46,0),(47,0),(48,0),(49,0),(50,0),(51,0),
      (52,0),(53,0),(54,0),(55,0),(56,0),(57,0),(58,0),(59,0)] : List (ℚ × ℚ)) ++
      ([(60,0),(61,1/20),(62,1/10),(63,3/20),(64,1/5),(65,1/4),(66,3/10),(67,7/20),(68,2/5),
      (69,9/20),(70,1/2),(71,11/20),(72,3/5),(73,13/20),(74,2/3),(75,2/3),(76,2/3),(77,2/3),
      (78,2/3),(79,2/3)] : List (ℚ × ℚ)) ++
      ([(80,2/3),(81,2/3),(82,2/3),(83,2/3),(84,2/3),(85,2/3),(86,3/5),(87,8/15),(88,7/15),
      (89,2/5),(90,1/3),(91,4/15),(92,1/5),(93,2/15),(94,1/15),(95,0),(96,0),(97,0),(98,0),
      (99,0)] : List (ℚ × ℚ)) ++
      ([(100,0)] : List (ℚ × ℚ)) := by
  decide

set_option maxRecDepth 4000 in
lemma numChunk0_20_9 :
    (([(0,0),(1,0),(2,0),(3,0),(4,0),(5,0),(6,0),(7,0),(8,0),(9,0),(10,0),(11,0),(12,0),(13,
       0),(14,0),(15,0),(16,0),(17,0),(18,0),(19,0)] : List (ℚ × ℚ)).foldl
        (fun acc p => acc + p.1 * p.2) (0)) = 0 := by
  decide

set_option maxRecDepth 4000 in
lemma numChunk1_20_9 :
    (([(20,0),(21,0),(22,0),(23,0),(24,0),(25,0),(26,0),(27,0),(28,0),(29,0),(30,0),(31,0),
       (32,0),(33,0),(34,0),(35,0),(36,0),(37,0),(38,0),(39,0)] : List (ℚ × ℚ)).foldl
        (fun acc p => acc + p.1 * p.2) (0)) = 0 := by
  decide

set_option maxRecDepth 4000 in
lemma numChunk2_20_9 :
    (([(40,0),(41,0),(42,0),(43,0),(44,0),(45,0),(46,0),(47,0),(48,0),(49,0),(50,0),(51,0),
       (52,0),(53,0),(54,0),(55,0),(56,0),(57,0),(58,0),(59,0)] : List (ℚ × ℚ)).foldl
        (fun acc p => acc + p.1 * p.2) (0)) = 0 := by
  decide

set_option maxRecDepth 4000 in
lemma numChunk3_20_9 :
    (([(60,0),(61,1/20),(62,1/10),(63,3/20),(64,1/5),(65,1/4),(66,3/10),(67,7/20),(68,2/5),
       (69,9/20),(70,1/2),(71,11/20),(72,3/5),(73,13/20),(74,2/3),(75,2/3),(76,2/3),(77,2/3),
       (78,2/3),(79,2/3)] : List (ℚ × ℚ)).foldl
        (fun acc p => acc + p.1 * p.2) (0)) = 12399/20 := by
  decide

set_option maxRecDepth 4000 in
lemma numChunk4_20_9 :
    (([(80,2/3),(81,2/3),(82,2/3),(83,2/3),(84,2/3),(85,2/3),(86,3/5),(87,8/15),(88,7/15),
       (89,2/5),(90,1/3),(91,4/15),(92,1/5),(93,2/15),(94,1/15),(95,0),(96,0),(97,0),(98,0),
       (99,0)] : List (ℚ × ℚ)).foldl
        (fun acc p => acc + p.1 * p.2) (12399/20)) = 24319/20 := by
  decide

set_option maxRecDepth 4000 in
lemma numChunk5_20_9 :
    (([(100,0)] : List (ℚ × ℚ)).foldl
        (fun acc p => acc + p.1 * p.2) (24319/20)) = 24319/20 := by
  decide

lemma centroidNum_20_9 : centroidNum 20 9 = 24319/20 := by
  unfold centroidNum
  rw [universeServicio_literal, aggregatedList_20_9, zipPairs_20_9]
  simp only [List.foldl_append]
  rw [numChunk0_20_9, numChunk1_20_9, numChunk2_20_9, numChunk3_20_9, numChunk4_20_9, numChunk5_20_9]

lemma compute_20_9 : compute 20 9 = .ok (24319/311) := by
  unfold compute
  rw [centroidDen_20_9, centroidNum_20_9, if_neg (by norm_num)]
  congr 1

set_option maxRecDepth 4000 in
lemma aggregatedList_15_9 :
    aggregatedList 15 9 =
      ([0,0,0,0,0,0,0,0,0,0,0,0,0,0,0,0,0,0,0,0,0,0,0,0,0,0,0,0,0,0,0,0,0,0,0,0,0,0,0,0,0,0,
       0,0,0,0,0,0,0,0,0,0,0,0,0,0,0,0,0,0,0,1/20,1/10,3/20,1/5,1/4,3/10,1/3,1/3,1/3,1/3,1/3,
       1/3,1/3,1/3,1/3,1/3,1/3,1/3,1/3,1/3,1/3,1/3,1/3,1/3,1/3,1/3,1/3,1/3,1/3,1/3,4/15,1/5,
       2/15,1/15,0,0,0,0,0,0] : List ℚ) := by
  decide

set_option maxRecDepth 4000 in
lemma denChunk0_15_9 :
    (([0,0,0,0,0,0,0,0,0,0,0,0,0,0,0,0,0,0,0,0] : List ℚ).foldl
        (fun acc y => acc + y) (0)) = 0 := by
  decide

set_option maxRecDepth 4000 in
lemma denChunk1_15_9 :
    (([0,0,0,0,0,0,0,0,0,0,0,0,0,0,0,0,0,0,0,0] : List ℚ).foldl
        (fun acc y => acc + y) (0)) = 0 := by
  decide

set_option maxRecDepth 4000 in
lemma denChunk2_15_9 :
    (([0,0,0,0,0,0,0,0,0,0,0,0,0,0,0,0,0,0,0,0] : List ℚ).foldl
        (fun acc y => acc + y) (0)) = 0 := by
  decide

set_option maxRecDepth 4000 in
lemma denChunk3_15_9 :
    (([0,1/20,1/10,3/20,1/5,1/4,3/10,1/3,1/3,1/3,1/3,1/3,1/3,1/3,1/3,1/3,1/3,1/3,1/3,1/3] : List ℚ).foldl
        (fun acc y => acc + y) (0)) = 323/60 := by
  decide

set_option maxRecDepth 4000 in
lemma denChunk4_15_9 :
    (([1/3,1/3,1/3,1/3,1/3,1/3,1/3,1/3,1/3,1/3,1/3,4/15,1/5,2/15,1/15,0,0,0,0,0] : List ℚ).foldl
        (fun acc y => acc + y) (323/60)) = 583/60 := by
  decide

set_option maxRecDepth 4000 in
lemma denChunk5_15_9 :
    (([0] : List ℚ).foldl
        (fun acc y => acc + y) (583/60)) = 583/60 := by
  decide

set_option maxRecDepth 4000 in
lemma aggSplit_15_9 :
    ([0,0,0,0,0,0,0,0,0,0,0,0,0,0,0,0,0,0,0,0,0,0,0,0,0,0,0,0,0,0,0,0,0,0,0,0,0,0,0,0,0,0,0,
      0,0,0,0,0,0,0,0,0,0,0,0,0,0,0,0,0,0,1/20,1/10,3/20,1/5,1/4,3/10,1/3,1/3,1/3,1/3,1/3,
      1/3,1/3,1/3,1/3,1/3,1/3,1/3,1/3,1/3,1/3,1/3,1/3,1/3,1/3,1/3,1/3,1/3,1/3,1/3,4/15,1/5,
      2/15,1/15,0,0,0,0,0,0] : List ℚ) =
      ([0,0,0,0,0,0,0,0,0,0,0,0,0,0,0,0,0,0,0,0] : List ℚ) ++
      ([0,0,0,0,0,0,0,0,0,0,0,0,0,0,0,0,0,0,0,0] : List ℚ) ++
      ([0,0,0,0,0,0,0,0,0,0,0,0,0,0,0,0,0,0,0,0] : List ℚ) ++
      ([0,1/20,1/10,3/20,1/5,1/4,3/10,1/3,1/3,1/3,1/3,1/3,1/3,1/3,1/3,1/3,1/3,1/3,1/3,1/3] : List ℚ) ++
      ([1/3,1/3,1/3,1/3,1/3,1/3,1/3,1/3,1/3,1/3,1/3,4/15,1/5,2/15,1/15,0,0,0,0,0] : List ℚ) ++
      ([0] : List ℚ) := by
  decide

lemma centroidDen_15_9 : centroidDen 15 9 = 583/60 := by
  unfold centroidDen
  rw [aggregatedList_15_9, aggSplit_15_9]
  simp only [List.foldl_append]
  rw [denChunk0_15_9, denChunk1_15_9, denChunk2_15_9, denChunk3_15_9, denChunk4_15_9, denChunk5_15_9]

set_option maxRecDepth 4000 in
lemma zipPairs_15_9 :
    (([0,1,2,3,4,5,6,7,8,9,10,11,12,13,14,15,16,17,18,19,20,21,22,23,24,25,26,27,28,29,30,
       31,32,33,34,35,36,37,38,39,40,41,42,43,44,45,46,47,48,49,50,51,52,53,54,55,56,57,58,
       59,60,61,62,63,64,65,66,67,68,69,70,71,72,73,74,75,76,77,78,79,80,81,82,83,84,85,86,
       87,88,89,90,91,92,93,94,95,96,97,98,99,100] : List ℚ).zip
     ([0,0,0,0,0,0,0,0,0,0,0,0,0,0,0,0,0,0,0,0,0,0,0,0,0,0,0,0,0,0,0,0,0,0,0,0,0,0,0,0,0,0,
       0,0,0,0,0,0,0,0,0,0,0,0,0,0,0,0,0,0,0,1/20,1/10,3/20,1/5,1/4,3/10,1/3,1/3,1/3,1/3,1/3,
       1/3,1/3,1/3,1/3,1/3,1/3,1/3,1/3,1/3,1/3,1/3,1/3,1/3,1/3,1/3,1/3,1/3,1/3,1/3,4/15,1/5,
       2/15,1/15,0,0,0,0,0,0] : List ℚ)) =
      ([(0,0),(1,0),(2,0),(3,0),(4,0),(5,0),(6,0),(7,0),(8,0),(9,0),(10,0),(11,0),(12,0),(13,
      0),(14,0),(15,0),(16,0),(17,0),(18,0),(19,0)] : List (ℚ × ℚ)) ++
      ([(20,0),(21,0),(22,0),(23,0),(24,0),(25,0),(26,0),(27,0),(28,0),(29,0),(30,0),(31,0),
      (32,0),(33,0),(34,0),(35,0),(36,0),(37,0),(38,0),(39,0)] : List (ℚ × ℚ)) ++
      ([(40,0),(41,0),(42,0),(43,0),(44,0),(45,0),(46,0),(47,0),(48,0),(49,0),(50,0),(51,0),
      (52,0),(53,0),(54,0),(55,0),(56,0),(57,0),(58,0),(59,0)] : List (ℚ × ℚ)) ++
      ([(60,0),(61,1/20),(62,1/10),(63,3/20),(64,1/5),(65,1/4),(66,3/10),(67,1/3),(68,1/3),
      (69,1/3),(70,1/3),(71,1/3),(72,1/3),(73,1/3),(74,1/3),(75,1/3),(76,1/3),(77,1/3),(78,
      1/3),(79,1/3)] : List (ℚ × ℚ)) ++
      ([(80,1/3),(81,1/3),(82,1/3),(83,1/3),(84,1/3),(85,1/3),(86,1/3),(87,1/3),(88,1/3),(89,
      1/3),(90,1/3),(91,4/15),(92,1/5),(93,2/15),(94,1/15),(95,0),(96,0),(97,0),(98,0),(99,
      0)] : List (ℚ × ℚ)) ++
      ([(100,0)] : List (ℚ × ℚ)) := by
  decide

set_option maxRecDepth 4000 in
lemma numChunk0_15_9 :
    (([(0,0),(1,0),(2,0),(3,0),(4,0),(5,0),(6,0),(7,0),(8,0),(9,0),(10,0),(11,0),(12,0),(13,
       0),(14,0),(15,0),(16,0),(17,0),(18,0),(19,0)] : List (ℚ × ℚ)).foldl
        (fun acc p => acc + p.1 * p.2) (0)) = 0 := by
  decide

set_option maxRecDepth 4000 in
lemma numChunk1_15_9 :
    (([(20,0),(21,0),(22,0),(23,0),(24,0),(25,0),(26,0),(27,0),(28,0),(29,0),(30,0),(31,0),
       (32,0),(33,0),(34,0),(35,0),(36,0),(37,0),(38,0),(39,0)] : List (ℚ × ℚ)).foldl
        (fun acc p => acc + p.1 * p.2) (0)) = 0 := by
  decide

set_option maxRecDepth 4000 in
lemma numChunk2_15_9 :
    (([(40,0),(41,0),(42,0),(43,0),(44,0),(45,0),(46,0),(47,0),(48,0),(49,0),(50,0),(51,0),
       (52,0),(53,0),(54,0),(55,0),(56,0),(57,0),(58,0),(59,0)] : List (ℚ × ℚ)).foldl
        (fun acc p => acc + p.1 * p.2) (0)) = 0 := by
  decide

set_option maxRecDepth 4000 in
lemma numChunk3_15_9 :
    (([(60,0),(61,1/20),(62,1/10),(63,3/20),(64,1/5),(65,1/4),(66,3/10),(67,1/3),(68,1/3),
       (69,1/3),(70,1/3),(71,1/3),(72,1/3),(73,1/3),(74,1/3),(75,1/3),(76,1/3),(77,1/3),(78,
       1/3),(79,1/3)] : List (ℚ × ℚ)).foldl
        (fun acc p => acc + p.1 * p.2) (0)) = 23033/60 := by
  decide

set_option maxRecDepth 4000 in
lemma numChunk4_15_9 :
    (([(80,1/3),(81,1/3),(82,1/3),(83,1/3),(84,1/3),(85,1/3),(86,1/3),(87,1/3),(88,1/3),(89,
       1/3),(90,1/3),(91,4/15),(92,1/5),(93,2/15),(94,1/15),(95,0),(96,0),(97,0),(98,0),(99,
       0)] : List (ℚ × ℚ)).foldl
        (fun acc p => acc + p.1 * p.2) (23033/60)) = 45413/60 := by
  decide

set_option maxRecDepth 4000 in
lemma numChunk5_15_9 :
    (([(100,0)] : List (ℚ × ℚ)).foldl
        (fun acc p => acc + p.1 * p.2) (45413/60)) = 45413/60 := by
  decide

lemma centroidNum_15_9 : centroidNum 15 9 = 45413/60 := by
  unfold centroidNum
  rw [universeServicio_literal, aggregatedList_15_9, zipPairs_15_9]
  simp only [List.foldl_append]
  rw [numChunk0_15_9, numChunk1_15_9, numChunk2_15_9, numChunk3_15_9, numChunk4_15_9, numChunk5_15_9]

lemma compute_15_9 : compute 15 9 = .ok (45413/583) := by
  unfold compute
  rw [centroidDen_15_9, centroidNum_15_9, if_neg (by norm_num)]
  congr 1

set_option maxRecDepth 4000 in
lemma aggregatedList_0_9 :
    aggregatedList 0 9 =
      ([0,0,0,0,0,0,0,0,0,0,0,0,0,0,0,0,0,0,0,0,0,0,0,0,0,0,0,0,0,0,0,0,0,0,0,0,0,0,0,0,0,0,
       0,0,0,0,0,0,0,0,0,0,0,0,0,0,0,0,0,0,0,0,0,0,0,0,0,0,0,0,0,0,0,0,0,0,0,0,0,0,0,0,0,0,0,
       0,0,0,0,0,0,1/10,1/5,3/10,2/5,1/2,3/5,2/3,2/3,2/3,2/3] : List ℚ) := by
  decide

set_option maxRecDepth 4000 in
lemma denChunk0_0_9 :
    (([0,0,0,0,0,0,0,0,0,0,0,0,0,0,0,0,0,0,0,0] : List ℚ).foldl
        (fun acc y => acc + y) (0)) = 0 := by
  decide

set_option maxRecDepth 4000 in
lemma denChunk1_0_9 :
    (([0,0,0,0,0,0,0,0,0,0,0,0,0,0,0,0,0,0,0,0] : List ℚ).foldl
        (fun acc y => acc + y) (0)) = 0 := by
  decide

set_option maxRecDepth 4000 in
lemma denChunk2_0_9 :
    (([0,0,0,0,0,0,0,0,0,0,0,0,0,0,0,0,0,0,0,0] : List ℚ).foldl
        (fun acc y => acc + y) (0)) = 0 := by
  decide

set_option maxRecDepth 4000 in
lemma denChunk3_0_9 :
    (([0,0,0,0,0,0,0,0,0,0,0,0,0,0,0,0,0,0,0,0] : List ℚ).foldl
        (fun acc y => acc + y) (0)) = 0 := by
  decide

set_option maxRecDepth 4000 in
lemma denChunk4_0_9 :
    (([0,0,0,0,0,0,0,0,0,0,0,1/10,1/5,3/10,2/5,1/2,3/5,2/3,2/3,2/3] : List ℚ).foldl
        (fun acc y => acc + y) (0)) = 41/10 := by
  decide

set_option maxRecDepth 4000 in
lemma denChunk5_0_9 :
    (([2/3] : List ℚ).foldl
        (fun acc y => acc + y) (41/10)) = 143/30 := by
  decide

set_option maxRecDepth 4000 in
lemma aggSplit_0_9 :
    ([0,0,0,0,0,0,0,0,0,0,0,0,0,0,0,0,0,0,0,0,0,0,0,0,0,0,0,0,0,0,0,0,0,0,0,0,0,0,0,0,0,0,0,
      0,0,0,0,0,0,0,0,0,0,0,0,0,0,0,0,0,0,0,0,0,0,0,0,0,0,0,0,0,0,0,0,0,0,0,0,0,0,0,0,0,0,0,
      0,0,0,0,0,1/10,1/5,3/10,2/5,1/2,3/5,2/3,2/3,2/3,2/3] : List ℚ) =
      ([0,0,0,0,0,0,0,0,0,0,0,0,0,0,0,0,0,0,0,0] : List ℚ) ++
      ([0,0,0,0,0,0,0,0,0,0,0,0,0,0,0,0,0,0,0,0] : List ℚ) ++
      ([0,0,0,0,0,0,0,0,0,0,0,0,0,0,0,0,0,0,0,0] : List ℚ) ++
      ([0,0,0,0,0,0,0,0,0,0,0,0,0,0,0,0,0,0,0,0] : List ℚ) ++
      ([0,0,0,0,0,0,0,0,0,0,0,1/10,1/5,3/10,2/5,1/2,3/5,2/3,2/3,2/3] : List ℚ) ++
      ([2/3] : List ℚ) := by
  decide

lemma centroidDen_0_9 : centroidDen 0 9 = 143/30 := by
  unfold centroidDen
  rw [aggregatedList_0_9, aggSplit_0_9]
  simp only [List.foldl_append]
  rw [denChunk0_0_9, denChunk1_0_9, denChunk2_0_9, denChunk3_0_9, denChunk4_0_9, denChunk5_0_9]

set_option maxRecDepth 4000 in
lemma zipPairs_0_9 :
    (([0,1,2,3,4,5,6,7,8,9,10,11,12,13,14,15,16,17,18,19,20,21,22,23,24,25,26,27,28,29,30,
       31,32,33,34,35,36,37,38,39,40,41,42,43,44,45,46,47,48,49,50,51,52,53,54,55,56,57,58,
       59,60,61,62,63,64,65,66,67,68,69,70,71,72,73,74,75,76,77,78,79,80,81,82,83,84,85,86,
       87,88,89,90,91,92,93,94,95,96,97,98,99,100] : List ℚ).zip
     ([0,0,0,0,0,0,0,0,0,0,0,0,0,0,0,0,0,0,0,0,0,0,0,0,0,0,0,0,0,0,0,0,0,0,0,0,0,0,0,0,0,0,
       0,0,0,0,0,0,0,0,0,0,0,0,0,0,0,0,0,0,0,0,0,0,0,0,0,0,0,0,0,0,0,0,0,0,0,0,0,0,0,0,0,0,0,
       0,0,0,0,0,0,1/10,1/5,3/10,2/5,1/2,3/5,2/3,2/3,2/3,2/3] : List ℚ)) =
      ([(0,0),(1,0),(2,0),(3,0),(4,0),(5,0),(6,0),(7,0),(8,0),(9,0),(10,0),(11,0),(12,0),(13,
      0),(14,0),(15,0),(16,0),(17,0),(18,0),(19,0)] : List (ℚ × ℚ)) ++
      ([(20,0),(21,0),(22,0),(23,0),(24,0),(25,0),(26,0),(27,0),(28,0),(29,0),(30,0),(31,0),
      (32,0),(33,0),(34,0),(35,0),(36,0),(37,0),(38,0),(39,0)] : List (ℚ × ℚ)) ++
      ([(40,0),(41,0),(42,0),(43,0),(44,0),(45,0),(46,0),(47,0),(48,0),(49,0),(50,0),(51,0),
      (52,0),(53,0),(54,0),(55,0),(56,0),(57,0),(58,0),(59,0)] : List (ℚ × ℚ)) ++
      ([(60,0),(61,0),(62,0),(63,0),(64,0),(65,0),(66,0),(67,0),(68,0),(69,0),(70,0),(71,0),
      (72,0),(73,0),(74,0),(75,0),(76,0),(77,0),(78,0),(79,0)] : List (ℚ × ℚ)) ++
      ([(80,0),(81,0),(82,0),(83,0),(84,0),(85,0),(86,0),(87,0),(88,0),(89,0),(90,0),(91,
      1/10),(92,1/5),(93,3/10),(94,2/5),(95,1/2),(96,3/5),(97,2/3),(98,2/3),(99,2/3)] : List (ℚ × ℚ)) ++
      ([(100,2/3)] : List (ℚ × ℚ)) := by
  decide

set_option maxRecDepth 4000 in
lemma numChunk0_0_9 :
    (([(0,0),(1,0),(2,0),(3,0),(4,0),(5,0),(6,0),(7,0),(8,0),(9,0),(10,0),(11,0),(12,0),(13,
       0),(14,0),(15,0),(16,0),(17,0),(18,0),(19,0)] : List (ℚ × ℚ)).foldl
        (fun acc p => acc + p.1 * p.2) (0)) = 0 := by
  decide

set_option maxRecDepth 4000 in
lemma numChunk1_0_9 :
    (([(20,0),(21,0),(22,0),(23,0),(24,0),(25,0),(26,0),(27,0),(28,0),(29,0),(30,0),(31,0),
       (32,0),(33,0),(34,0),(35,0),(36,0),(37,0),(38,0),(39,0)] : List (ℚ × ℚ)).foldl
        (fun acc p => acc + p.1 * p.2) (0)) = 0 := by
  decide

set_option maxRecDepth 4000 in
lemma numChunk2_0_9 :
    (([(40,0),(41,0),(42,0),(43,0),(44,0),(45,0),(46,0),(47,0),(48,0),(49,0),(50,0),(51,0),
       (52,0),(53,0),(54,0),(55,0),(56,0),(57,0),(58,0),(59,0)] : List (ℚ × ℚ)).foldl
        (fun acc p => acc + p.1 * p.2) (0)) = 0 := by
  decide

set_option maxRecDepth 4000 in
lemma numChunk3_0_9 :
    (([(60,0),(61,0),(62,0),(63,0),(64,0),(65,0),(66,0),(67,0),(68,0),(69,0),(70,0),(71,0),
       (72,0),(73,0),(74,0),(75,0),(76,0),(77,0),(78,0),(79,0)] : List (ℚ × ℚ)).foldl
        (fun acc p => acc + p.1 * p.2) (0)) = 0 := by
  decide

set_option maxRecDepth 4000 in
lemma numChunk4_0_9 :
    (([(80,0),(81,0),(82,0),(83,0),(84,0),(85,0),(86,0),(87,0),(88,0),(89,0),(90,0),(91,
       1/10),(92,1/5),(93,3/10),(94,2/5),(95,1/2),(96,3/5),(97,2/3),(98,2/3),(99,2/3)] : List (ℚ × ℚ)).foldl
        (fun acc p => acc + p.1 * p.2) (0)) = 3941/10 := by
  decide

set_option maxRecDepth 4000 in
lemma numChunk5_0_9 :
    (([(100,2/3)] : List (ℚ × ℚ)).foldl
        (fun acc p => acc + p.1 * p.2) (3941/10)) = 13823/30 := by
  decide

lemma centroidNum_0_9 : centroidNum 0 9 = 13823/30 := by
  unfold centroidNum
  rw [universeServicio_literal, aggregatedList_0_9, zipPairs_0_9]
  simp only [List.foldl_append]
  rw [numChunk0_0_9, numChunk1_0_9, numChunk2_0_9, numChunk3_0_9, numChunk4_0_9, numChunk5_0_9]

lemma compute_0_9 : compute 0 9 = .ok (13823/143) := by
  unfold compute
  rw [centroidDen_0_9, centroidNum_0_9, if_neg (by norm_num)]
  congr 1

/-- Witness for C10: at inputs `(20, 9)` the crisp centroid is
`24319/311` and the handler returns it rounded to two decimals. -/
theorem output_rounded_witness :
    compute 20 9 = .ok (24319/311) ∧
    clasificar 20 9 = ⟨some (round2 (24319/311)), "Clasificación exitosa"⟩ :=
  ⟨compute_20_9, output_rounded 20 9 (24319/311) compute_20_9⟩

/-! ### Monotonicity in the wait time at fixed food quality 9 -/

lemma comidaMala_9 : comidaMala 9 = 0 := by decide

lemma comidaAceptable_9 : comidaAceptable 9 = 0 := by decide

lemma comidaExcelente_9 : comidaExcelente 9 = 2/3 := by decide

lemma tiempoBajo_ge_of_small (te : ℚ) (h0 : 0 ≤ te) (h5 : te ≤ 5) :
    2/3 ≤ tiempoBajo te := by
  unfold tiempoBajo trimf
  rcases eq_or_lt_of_le h0 with heq | hpos
  · rw [← heq]
    norm_num
  · rw [if_neg (ne_of_gt hpos), if_neg (by rintro ⟨h1, h2⟩; linarith),
      if_pos ⟨hpos, by linarith⟩]
    rw [le_div_iff₀ (by norm_num)]
    linarith

lemma tiempoMedio_zero_of_small (te : ℚ) (h0 : 0 ≤ te) (h5 : te ≤ 5) :
    tiempoMedio te = 0 := by
  unfold tiempoMedio trimf
  rw [if_neg (by intro he; rw [he] at h5; norm_num at h5),
    if_neg (by rintro ⟨h1, h2⟩; linarith),
    if_neg (by rintro ⟨h1, h2⟩; linarith)]

lemma tiempoAlto_zero_of_small (te : ℚ) (h0 : 0 ≤ te) (h5 : te ≤ 5) :
    tiempoAlto te = 0 := by
  unfold tiempoAlto trimf
  rw [if_neg (by intro he; rw [he] at h5; norm_num at h5),
    if_neg (by rintro ⟨h1, h2⟩; linarith),
    if_neg (by rintro ⟨h1, h2⟩; linarith)]

lemma aggregated_small (te u : ℚ) (h0 : 0 ≤ te) (h5 : te ≤ 5) :
    aggregatedDegree te 9 u = min (2/3) (servicioExcelente u) := by
  simp only [aggregatedDegree, control_sistema, List.foldl_cons, List.foldl_nil,
    clippedDegree, firingStrength, rule1, rule2, rule3, rule4, rule5, rule6, rule7,
    rule8, rule9, FuzzExpr.eval, fuzzify_tiempo, fuzzify_comida,
    membershipTiempo, membershipComida, membershipServicio, String.reduceEq, reduceIte]
  rw [comidaMala_9, comidaAceptable_9, comidaExcelente_9,
    tiempoMedio_zero_of_small te h0 h5, tiempoAlto_zero_of_small te h0 h5,
    (min_eq_right (show (0:ℚ) ≤ tiempoBajo te from trimf_nonneg 0 0 15 te) :
      min (tiempoBajo te) (0:ℚ) = 0),
    (min_eq_right (tiempoBajo_ge_of_small te h0 h5) :
      min (tiempoBajo te) (2/3:ℚ) = 2/3),
    (show min (0:ℚ) (0:ℚ) = 0 from min_self 0),
    (show min (0:ℚ) (2/3:ℚ) = 0 from by norm_num),
    (min_eq_left (show (0:ℚ) ≤ servicioMala u from trimf_nonneg 0 0 30 u) :
      min (0:ℚ) (servicioMala u) = 0),
    (min_eq_left (show (0:ℚ) ≤ servicioRegular u from trimf_nonneg 20 45 70 u) :
      min (0:ℚ) (servicioRegular u) = 0),
    (min_eq_left (show (0:ℚ) ≤ servicioBuena u from trimf_nonneg 60 80 95 u) :
      min (0:ℚ) (servicioBuena u) = 0)]
  have hK : (0:ℚ) ≤ min (2/3) (servicioExcelente u) :=
    le_min (by norm_num) (trimf_nonneg 90 100 100 u)
  simp only [max_self, max_eq_right hK, max_eq_left hK]

lemma aggregatedList_small (te : ℚ) (h0 : 0 ≤ te) (h5 : te ≤ 5) :
    aggregatedList te 9 = aggregatedList 0 9 := by
  unfold aggregatedList
  apply List.map_congr_left
  intro u _
  rw [aggregated_small te u h0 h5, aggregated_small 0 u (le_refl 0) (by norm_num)]

lemma tiempoBajo_eq (te : ℚ) (h0 : 0 ≤ te) (h15 : te ≤ 15) :
    tiempoBajo te = (15 - te) / 15 := by
  unfold tiempoBajo trimf
  rcases eq_or_lt_of_le h0 with heq | hpos
  · rw [← heq]
    norm_num
  · rcases eq_or_lt_of_le h15 with heq15 | hlt
    · rw [heq15]
      norm_num
    · rw [if_neg (ne_of_gt hpos), if_neg (by rintro ⟨h1, h2⟩; linarith),
        if_pos ⟨hpos, hlt⟩]
      ring

lemma tiempoMedio_zero_of_le10 (te : ℚ) (h10 : te ≤ 10) : tiempoMedio te = 0 := by
  unfold tiempoMedio trimf
  rw [if_neg (by intro he; rw [he] at h10; norm_num at h10),
    if_neg (by rintro ⟨h1, h2⟩; linarith),
    if_neg (by rintro ⟨h1, h2⟩; linarith)]

lemma tiempoMedio_eq (te : ℚ) (h10 : 10 ≤ te) (h15 : te ≤ 15) :
    tiempoMedio te = (te - 10) / 15 := by
  unfold tiempoMedio trimf
  rcases eq_or_lt_of_le h10 with heq | hpos
  · rw [← heq]
    norm_num
  · rw [if_neg (by intro he; rw [he] at h15; norm_num at h15),
      if_pos ⟨hpos, by linarith⟩]
    ring

lemma tiempoAlto_zero_of_le15 (te : ℚ) (h15 : te ≤ 15) : tiempoAlto te = 0 := by
  unfold tiempoAlto trimf
  rw [if_neg (by intro he; rw [he] at h15; norm_num at h15),
    if_neg (by rintro ⟨h1, h2⟩; linarith),
    if_neg (by rintro ⟨h1, h2⟩; linarith)]

lemma tiempoBajo_le_23 (te : ℚ) (h5 : 5 ≤ te) (h15 : te ≤ 15) :
    tiempoBajo te ≤ 2/3 := by
  rw [tiempoBajo_eq te (by linarith) h15, div_le_iff₀ (by norm_num)]
  linarith

lemma tiempoMedio_le_23 (te : ℚ) (h15 : te ≤ 15) : tiempoMedio te ≤ 2/3 := by
  rcases le_total te 10 with h | h
  · rw [tiempoMedio_zero_of_le10 te h]
    norm_num
  · rw [tiempoMedio_eq te h h15, div_le_iff₀ (by norm_num)]
    linarith

lemma aggregated_wait (te u : ℚ) (h5 : 5 ≤ te) (h15 : te ≤ 15) :
    aggregatedDegree te 9 u =
      max (min (tiempoBajo te) (servicioExcelente u))
          (min (tiempoMedio te) (servicioBuena u)) := by
  simp only [aggregatedDegree, control_sistema, List.foldl_cons, List.foldl_nil,
    clippedDegree, firingStrength, rule1, rule2, rule3, rule4, rule5, rule6, rule7,
    rule8, rule9, FuzzExpr.eval, fuzzify_tiempo, fuzzify_comida,
    membershipTiempo, membershipComida, membershipServicio, String.reduceEq, reduceIte]
  rw [comidaMala_9, comidaAceptable_9, comidaExcelente_9, tiempoAlto_zero_of_le15 te h15,
    (min_eq_right (show (0:ℚ) ≤ tiempoBajo te from trimf_nonneg 0 0 15 te) :
      min (tiempoBajo te) (0:ℚ) = 0),
    (min_eq_left (tiempoBajo_le_23 te h5 h15) :
      min (tiempoBajo te) (2/3:ℚ) = tiempoBajo te),
    (min_eq_right (show (0:ℚ) ≤ tiempoMedio te from trimf_nonneg 10 25 40 te) :
      min (tiempoMedio te) (0:ℚ) = 0),
    (min_eq_left (tiempoMedio_le_23 te h15) :
      min (tiempoMedio te) (2/3:ℚ) = tiempoMedio te),
    (show min (0:ℚ) (0:ℚ) = 0 from min_self 0),
    (show min (0:ℚ) (2/3:ℚ) = 0 from by norm_num),
    (min_eq_left (show (0:ℚ) ≤ servicioRegular u from trimf_nonneg 20 45 70 u) :
      min (0:ℚ) (servicioRegular u) = 0),
    (min_eq_left (show (0:ℚ) ≤ servicioBuena u from trimf_nonneg 60 80 95 u) :
      min (0:ℚ) (servicioBuena u) = 0),
    (min_eq_left (show (0:ℚ) ≤ servicioMala u from trimf_nonneg 0 0 30 u) :
      min (0:ℚ) (servicioMala u) = 0)]
  have hK1 : (0:ℚ) ≤ min (tiempoBajo te) (servicioExcelente u) :=
    le_min (trimf_nonneg 0 0 15 te) (trimf_nonneg 90 100 100 u)
  have hK12 : (0:ℚ) ≤ max (min (tiempoBajo te) (servicioExcelente u))
      (min (tiempoMedio te) (servicioBuena u)) :=
    le_trans hK1 (le_max_left _ _)
  simp only [max_self, max_eq_right hK1, max_eq_left hK1, max_eq_left hK12]

lemma frac_mono (A B C E t1 t2 : ℚ) (h12 : t1 ≤ t2) (hD1 : 0 < C + E * t1)
    (hD2 : 0 < C + E * t2) (hkey : B * C ≤ A * E) :
    (A + B * t2) / (C + E * t2) ≤ (A + B * t1) / (C + E * t1) := by
  rw [div_le_div_iff₀ hD2 hD1]
  nlinarith [mul_nonneg (sub_nonneg.mpr h12) (sub_nonneg.mpr hkey)]

lemma mono_glue (f : ℚ → ℚ) (a b c : ℚ)
    (h1 : ∀ t1 t2 : ℚ, a ≤ t1 → t1 ≤ t2 → t2 ≤ b → f t2 ≤ f t1)
    (h2 : ∀ t1 t2 : ℚ, b ≤ t1 → t1 ≤ t2 → t2 ≤ c → f t2 ≤ f t1) :
    ∀ t1 t2 : ℚ, a ≤ t1 → t1 ≤ t2 → t2 ≤ c → f t2 ≤ f t1 := by
  intro t1 t2 ha h12 hc
  rcases le_total t2 b with hb | hb
  · exact h1 t1 t2 ha h12 hb
  · rcases le_total t1 b with hc' | hc'
    · exact le_trans (h2 b t2 (le_refl b) hb hc) (h1 t1 b ha hc' (le_refl b))
    · exact h2 t1 t2 hc' h12 hc

lemma centroidDen_pos_of_fire (te cc : ℚ)
    (h : ∃ r ∈ control_sistema, 0 < firingStrength r te cc) :
    0 < centroidDen te cc := by
  obtain ⟨r, hr, hs⟩ := h
  obtain ⟨p, hp, hp1⟩ := consequent_peak r hr
  have hclip : 0 < clippedDegree r te cc p := by
    unfold clippedDegree
    rw [hp1]
    exact lt_min hs one_pos
  have hagg : 0 < aggregatedDegree te cc p :=
    lt_of_lt_of_le hclip (elem_le_foldl_max _ control_sistema 0 r hr)
  rw [centroidDen_eq_sum]
  exact lt_of_lt_of_le hagg
    (List.single_le_sum (aggregated_map_nonneg te cc) _ (List.mem_map_of_mem _ hp))

lemma fires_on_wait (te : ℚ) (h0 : 0 ≤ te) (h15 : te ≤ 15) :
    ∃ r ∈ control_sistema, 0 < firingStrength r te 9 := by
  rcases lt_or_le te 15 with hlt | hge
  · refine ⟨rule3, by decide, ?_⟩
    have h3 : firingStrength rule3 te 9 = min (tiempoBajo te) (comidaExcelente 9) := by
      simp only [firingStrength, rule3, FuzzExpr.eval, fuzzify_tiempo, fuzzify_comida,
        membershipTiempo, membershipComida, String.reduceEq, reduceIte]
    rw [h3, comidaExcelente_9]
    refine lt_min ?_ (by norm_num)
    rw [tiempoBajo_eq te h0 h15]
    exact div_pos (by linarith) (by norm_num)
  · have heq : te = 15 := le_antisymm h15 hge
    refine ⟨rule6, by decide, ?_⟩
    rw [heq]
    decide

lemma compute_ok_wait (te : ℚ) (h0 : 0 ≤ te) (h15 : te ≤ 15) :
    compute te 9 = .ok (crispWait te) := by
  have hpos := centroidDen_pos_of_fire te 9 (fires_on_wait te h0 h15)
  unfold compute crispWait
  rw [if_neg (ne_of_gt hpos)]

lemma denS0 (te : ℚ) (hp : 0 ≤ te) (hq : te ≤ 5) :
    centroidDen te 9 = 143/30 + 0 * te := by
  have h : centroidDen te 9 = centroidDen 0 9 := by
    unfold centroidDen
    rw [aggregatedList_small te hp hq]
  rw [h, centroidDen_0_9]
  ring

lemma numS0 (te : ℚ) (hp : 0 ≤ te) (hq : te ≤ 5) :
    centroidNum te 9 = 13823/30 + 0 * te := by
  have h : centroidNum te 9 = centroidNum 0 9 := by
    unfold centroidNum
    rw [aggregatedList_small te hp hq]
  rw [h, centroidNum_0_9]
  ring

lemma monoS0 : ∀ t1 t2 : ℚ, 0 ≤ t1 → t1 ≤ t2 → t2 ≤ 5 → crispWait t2 ≤ crispWait t1 := by
  intro t1 t2 hp h12 hq
  unfold crispWait
  rw [denS0 t1 hp (by linarith), numS0 t1 hp (by linarith),
    denS0 t2 (by linarith) hq, numS0 t2 (by linarith) hq]
  exact frac_mono (13823/30) 0 (143/30) 0 t1 t2 h12 (by linarith) (by linarith) (by norm_num)

/-! ### Samples of the output label curves at the universe points -/

lemma sExc_0 : servicioExcelente 0 = 0 := by decide

lemma sExc_1 : servicioExcelente 1 = 0 := by decide

lemma sExc_2 : servicioExcelente 2 = 0 := by decide

lemma sExc_3 : servicioExcelente 3 = 0 := by decide

lemma sExc_4 : servicioExcelente 4 = 0 := by decide

lemma sExc_5 : servicioExcelente 5 = 0 := by decide

lemma sExc_6 : servicioExcelente 6 = 0 := by decide

lemma sExc_7 : servicioExcelente 7 = 0 := by decide

lemma sExc_8 : servicioExcelente 8 = 0 := by decide

lemma sExc_9 : servicioExcelente 9 = 0 := by decide

lemma sExc_10 : servicioExcelente 10 = 0 := by decide

lemma sExc_11 : servicioExcelente 11 = 0 := by decide

lemma sExc_12 : servicioExcelente 12 = 0 := by decide

lemma sExc_13 : servicioExcelente 13 = 0 := by decide

lemma sExc_14 : servicioExcelente 14 = 0 := by decide

lemma sExc_15 : servicioExcelente 15 = 0 := by decide

lemma sExc_16 : servicioExcelente 16 = 0 := by decide

lemma sExc_17 : servicioExcelente 17 = 0 := by decide

lemma sExc_18 : servicioExcelente 18 = 0 := by decide

lemma sExc_19 : servicioExcelente 19 = 0 := by decide

lemma sExc_20 : servicioExcelente 20 = 0 := by decide

lemma sExc_21 : servicioExcelente 21 = 0 := by decide

lemma sExc_22 : servicioExcelente 22 = 0 := by decide

lemma sExc_23 : servicioExcelente 23 = 0 := by decide

lemma sExc_24 : servicioExcelente 24 = 0 := by decide

lemma sExc_25 : servicioExcelente 25 = 0 := by decide

lemma sExc_26 : servicioExcelente 26 = 0 := by decide

lemma sExc_27 : servicioExcelente 27 = 0 := by decide

lemma sExc_28 : servicioExcelente 28 = 0 := by decide

lemma sExc_29 : servicioExcelente 29 = 0 := by decide

lemma sExc_30 : servicioExcelente 30 = 0 := by decide

lemma sExc_31 : servicioExcelente 31 = 0 := by decide

lemma sExc_32 : servicioExcelente 32 = 0 := by decide

lemma sExc_33 : servicioExcelente 33 = 0 := by decide

lemma sExc_34 : servicioExcelente 34 = 0 := by decide

lemma sExc_35 : servicioExcelente 35 = 0 := by decide

lemma sExc_36 : servicioExcelente 36 = 0 := by decide

lemma sExc_37 : servicioExcelente 37 = 0 := by decide

lemma sExc_38 : servicioExcelente 38 = 0 := by decide

lemma sExc_39 : servicioExcelente 39 = 0 := by decide

lemma sExc_40 : servicioExcelente 40 = 0 := by decide

lemma sExc_41 : servicioExcelente 41 = 0 := by decide

lemma sExc_42 : servicioExcelente 42 = 0 := by decide

lemma sExc_43 : servicioExcelente 43 = 0 := by decide

lemma sExc_44 : servicioExcelente 44 = 0 := by decide

lemma sExc_45 : servicioExcelente 45 = 0 := by decide

lemma sExc_46 : servicioExcelente 46 = 0 := by decide

lemma sExc_47 : servicioExcelente 47 = 0 := by decide

lemma sExc_48 : servicioExcelente 48 = 0 := by decide

lemma sExc_49 : servicioExcelente 49 = 0 := by decide

lemma sExc_50 : servicioExcelente 50 = 0 := by decide

lemma sExc_51 : servicioExcelente 51 = 0 := by decide

lemma sExc_52 : servicioExcelente 52 = 0 := by decide

lemma sExc_53 : servicioExcelente 53 = 0 := by decide

lemma sExc_54 : servicioExcelente 54 = 0 := by decide

lemma sExc_55 : servicioExcelente 55 = 0 := by decide

lemma sExc_56 : servicioExcelente 56 = 0 := by decide

lemma sExc_57 : servicioExcelente 57 = 0 := by decide

lemma sExc_58 : servicioExcelente 58 = 0 := by decide

lemma sExc_59 : servicioExcelente 59 = 0 := by decide

lemma sExc_60 : servicioExcelente 60 = 0 := by decide

lemma sExc_61 : servicioExcelente 61 = 0 := by decide

lemma sExc_62 : servicioExcelente 62 = 0 := by decide

lemma sExc_63 : servicioExcelente 63 = 0 := by decide

lemma sExc_64 : servicioExcelente 64 = 0 := by decide

lemma sExc_65 : servicioExcelente 65 = 0 := by decide

lemma sExc_66 : servicioExcelente 66 = 0 := by decide

lemma sExc_67 : servicioExcelente 67 = 0 := by decide

lemma sExc_68 : servicioExcelente 68 = 0 := by decide

lemma sExc_69 : servicioExcelente 69 = 0 := by decide

lemma sExc_70 : servicioExcelente 70 = 0 := by decide

lemma sExc_71 : servicioExcelente 71 = 0 := by decide

lemma sExc_72 : servicioExcelente 72 = 0 := by decide

lemma sExc_73 : servicioExcelente 73 = 0 := by decide

lemma sExc_74 : servicioExcelente 74 = 0 := by decide

lemma sExc_75 : servicioExcelente 75 = 0 := by decide

lemma sExc_76 : servicioExcelente 76 = 0 := by decide

lemma sExc_77 : servicioExcelente 77 = 0 := by decide

lemma sExc_78 : servicioExcelente 78 = 0 := by decide

lemma sExc_79 : servicioExcelente 79 = 0 := by decide

lemma sExc_80 : servicioExcelente 80 = 0 := by decide

lemma sExc_81 : servicioExcelente 81 = 0 := by decide

lemma sExc_82 : servicioExcelente 82 = 0 := by decide

lemma sExc_83 : servicioExcelente 83 = 0 := by decide

lemma sExc_84 : servicioExcelente 84 = 0 := by decide

lemma sExc_85 : servicioExcelente 85 = 0 := by decide

lemma sExc_86 : servicioExcelente 86 = 0 := by decide

lemma sExc_87 : servicioExcelente 87 = 0 := by decide

lemma sExc_88 : servicioExcelente 88 = 0 := by decide

lemma sExc_89 : servicioExcelente 89 = 0 := by decide

lemma sExc_90 : servicioExcelente 90 = 0 := by decide

lemma sExc_91 : servicioExcelente 91 = 1/10 := by decide

lemma sExc_92 : servicioExcelente 92 = 1/5 := by decide

lemma sExc_93 : servicioExcelente 93 = 3/10 := by decide

lemma sExc_94 : servicioExcelente 94 = 2/5 := by decide

lemma sExc_95 : servicioExcelente 95 = 1/2 := by decide

lemma sExc_96 : servicioExcelente 96 = 3/5 := by decide

lemma sExc_97 : servicioExcelente 97 = 7/10 := by decide

lemma sExc_98 : servicioExcelente 98 = 4/5 := by decide

lemma sExc_99 : servicioExcelente 99 = 9/10 := by decide

lemma sExc_100 : servicioExcelente 100 = 1 := by decide

lemma sBue_0 : servicioBuena 0 = 0 := by decide

lemma sBue_1 : servicioBuena 1 = 0 := by decide

lemma sBue_2 : servicioBuena 2 = 0 := by decide

lemma sBue_3 : servicioBuena 3 = 0 := by decide

lemma sBue_4 : servicioBuena 4 = 0 := by decide

lemma sBue_5 : servicioBuena 5 = 0 := by decide

lemma sBue_6 : servicioBuena 6 = 0 := by decide

lemma sBue_7 : servicioBuena 7 = 0 := by decide

lemma sBue_8 : servicioBuena 8 = 0 := by decide

lemma sBue_9 : servicioBuena 9 = 0 := by decide

lemma sBue_10 : servicioBuena 10 = 0 := by decide

lemma sBue_11 : servicioBuena 11 = 0 := by decide

lemma sBue_12 : servicioBuena 12 = 0 := by decide

lemma sBue_13 : servicioBuena 13 = 0 := by decide

lemma sBue_14 : servicioBuena 14 = 0 := by decide

lemma sBue_15 : servicioBuena 15 = 0 := by decide

lemma sBue_16 : servicioBuena 16 = 0 := by decide

lemma sBue_17 : servicioBuena 17 = 0 := by decide

lemma sBue_18 : servicioBuena 18 = 0 := by decide

lemma sBue_19 : servicioBuena 19 = 0 := by decide

lemma sBue_20 : servicioBuena 20 = 0 := by decide

lemma sBue_21 : servicioBuena 21 = 0 := by decide

lemma sBue_22 : servicioBuena 22 = 0 := by decide

lemma sBue_23 : servicioBuena 23 = 0 := by decide

lemma sBue_24 : servicioBuena 24 = 0 := by decide

lemma sBue_25 : servicioBuena 25 = 0 := by decide

lemma sBue_26 : servicioBuena 26 = 0 := by decide

lemma sBue_27 : servicioBuena 27 = 0 := by decide

lemma sBue_28 : servicioBuena 28 = 0 := by decide

lemma sBue_29 : servicioBuena 29 = 0 := by decide

lemma sBue_30 : servicioBuena 30 = 0 := by decide

lemma sBue_31 : servicioBuena 31 = 0 := by decide

lemma sBue_32 : servicioBuena 32 = 0 := by decide

lemma sBue_33 : servicioBuena 33 = 0 := by decide

lemma sBue_34 : servicioBuena 34 = 0 := by decide

lemma sBue_35 : servicioBuena 35 = 0 := by decide

lemma sBue_36 : servicioBuena 36 = 0 := by decide

lemma sBue_37 : servicioBuena 37 = 0 := by decide

lemma sBue_38 : servicioBuena 38 = 0 := by decide

lemma sBue_39 : servicioBuena 39 = 0 := by decide

lemma sBue_40 : servicioBuena 40 = 0 := by decide

lemma sBue_41 : servicioBuena 41 = 0 := by decide

lemma sBue_42 : servicioBuena 42 = 0 := by decide

lemma sBue_43 : servicioBuena 43 = 0 := by decide

lemma sBue_44 : servicioBuena 44 = 0 := by decide

lemma sBue_45 : servicioBuena 45 = 0 := by decide

lemma sBue_46 : servicioBuena 46 = 0 := by decide

lemma sBue_47 : servicioBuena 47 = 0 := by decide

lemma sBue_48 : servicioBuena 48 = 0 := by decide

lemma sBue_49 : servicioBuena 49 = 0 := by decide

lemma sBue_50 : servicioBuena 50 = 0 := by decide

lemma sBue_51 : servicioBuena 51 = 0 := by decide

lemma sBue_52 : servicioBuena 52 = 0 := by decide

lemma sBue_53 : servicioBuena 53 = 0 := by decide

lemma sBue_54 : servicioBuena 54 = 0 := by decide

lemma sBue_55 : servicioBuena 55 = 0 := by decide

lemma sBue_56 : servicioBuena 56 = 0 := by decide

lemma sBue_57 : servicioBuena 57 = 0 := by decide

lemma sBue_58 : servicioBuena 58 = 0 := by decide

lemma sBue_59 : servicioBuena 59 = 0 := by decide

lemma sBue_60 : servicioBuena 60 = 0 := by decide

lemma sBue_61 : servicioBuena 61 = 1/20 := by decide

lemma sBue_62 : servicioBuena 62 = 1/10 := by decide

lemma sBue_63 : servicioBuena 63 = 3/20 := by decide

lemma sBue_64 : servicioBuena 64 = 1/5 := by decide

lemma sBue_65 : servicioBuena 65 = 1/4 := by decide

lemma sBue_66 : servicioBuena 66 = 3/10 := by decide

lemma sBue_67 : servicioBuena 67 = 7/20 := by decide

lemma sBue_68 : servicioBuena 68 = 2/5 := by decide

lemma sBue_69 : servicioBuena 69 = 9/20 := by decide

lemma sBue_70 : servicioBuena 70 = 1/2 := by decide

lemma sBue_71 : servicioBuena 71 = 11/20 := by decide

lemma sBue_72 : servicioBuena 72 = 3/5 := by decide

lemma sBue_73 : servicioBuena 73 = 13/20 := by decide

lemma sBue_74 : servicioBuena 74 = 7/10 := by decide

lemma sBue_75 : servicioBuena 75 = 3/4 := by decide

lemma sBue_76 : servicioBuena 76 = 4/5 := by decide

lemma sBue_77 : servicioBuena 77 = 17/20 := by decide

lemma sBue_78 : servicioBuena 78 = 9/10 := by decide

lemma sBue_79 : servicioBuena 79 = 19/20 := by decide

lemma sBue_80 : servicioBuena 80 = 1 := by decide

lemma sBue_81 : servicioBuena 81 = 14/15 := by decide

lemma sBue_82 : servicioBuena 82 = 13/15 := by decide

lemma sBue_83 : servicioBuena 83 = 4/5 := by decide

lemma sBue_84 : servicioBuena 84 = 11/15 := by decide

lemma sBue_85 : servicioBuena 85 = 2/3 := by decide

lemma sBue_86 : servicioBuena 86 = 3/5 := by decide

lemma sBue_87 : servicioBuena 87 = 8/15 := by decide

lemma sBue_88 : servicioBuena 88 = 7/15 := by decide

lemma sBue_89 : servicioBuena 89 = 2/5 := by decide

lemma sBue_90 : servicioBuena 90 = 1/3 := by decide

lemma sBue_91 : servicioBuena 91 = 4/15 := by decide

lemma sBue_92 : servicioBuena 92 = 1/5 := by decide

lemma sBue_93 : servicioBuena 93 = 2/15 := by decide

lemma sBue_94 : servicioBuena 94 = 1/15 := by decide

lemma sBue_95 : servicioBuena 95 = 0 := by decide

lemma sBue_96 : servicioBuena 96 = 0 := by decide

lemma sBue_97 : servicioBuena 97 = 0 := by decide

lemma sBue_98 : servicioBuena 98 = 0 := by decide

lemma sBue_99 : servicioBuena 99 = 0 := by decide

lemma sBue_100 : servicioBuena 100 = 0 := by decide

lemma denS1 (te : ℚ) (hp : 5 ≤ te) (hq : te ≤ 6) :
    centroidDen te 9 = 61/10 + (-4/15) * te := by
  have haw : ∀ u : ℚ, aggregatedDegree te 9 u =
      max (min (tiempoBajo te) (servicioExcelente u))
          (min (tiempoMedio te) (servicioBuena u)) :=
    fun u => aggregated_wait te u (by linarith) (by linarith)
  rw [centroidDen_eq_sum, universeServicio_literal]
  simp only [List.map_cons, List.map_nil, haw,
    tiempoBajo_eq te (by linarith) (by linarith), tiempoMedio_zero_of_le10 te (by linarith),
    sExc_0, sExc_1, sExc_2, sExc_3, sExc_4, sExc_5, sExc_6, sExc_7, sExc_8, sExc_9, sExc_10, sExc_11, sExc_12, sExc_13, sExc_14, sExc_15, sExc_16, sExc_17, sExc_18, sExc_19, sExc_20, sExc_21, sExc_22, sExc_23, sExc_24, sExc_25, sExc_26, sExc_27, sExc_28, sExc_29, sExc_30, sExc_31, sExc_32, sExc_33, sExc_34, sExc_35, sExc_36, sExc_37, sExc_38, sExc_39, sExc_40, sExc_41, sExc_42, sExc_43, sExc_44, sExc_45, sExc_46, sExc_47, sExc_48, sExc_49, sExc_50, sExc_51, sExc_52, sExc_53, sExc_54, sExc_55, sExc_56, sExc_57, sExc_58, sExc_59, sExc_60, sExc_61, sExc_62, sExc_63, sExc_64, sExc_65, sExc_66, sExc_67, sExc_68, sExc_69, sExc_70, sExc_71, sExc_72, sExc_73, sExc_74, sExc_75, sExc_76, sExc_77, sExc_78, sExc_79, sExc_80, sExc_81, sExc_82, sExc_83, sExc_84, sExc_85, sExc_86, sExc_87, sExc_88, sExc_89, sExc_90, sExc_91, sExc_92, sExc_93, sExc_94, sExc_95, sExc_96, sExc_97, sExc_98, sExc_99, sExc_100,
    sBue_0, sBue_1, sBue_2, sBue_3, sBue_4, sBue_5, sBue_6, sBue_7, sBue_8, sBue_9, sBue_10, sBue_11, sBue_12, sBue_13, sBue_14, sBue_15, sBue_16, sBue_17, sBue_18, sBue_19, sBue_20, sBue_21, sBue_22, sBue_23, sBue_24, sBue_25, sBue_26, sBue_27, sBue_28, sBue_29, sBue_30, sBue_31, sBue_32, sBue_33, sBue_34, sBue_35, sBue_36, sBue_37, sBue_38, sBue_39, sBue_40, sBue_41, sBue_42, sBue_43, sBue_44, sBue_45, sBue_46, sBue_47, sBue_48, sBue_49, sBue_50, sBue_51, sBue_52, sBue_53, sBue_54, sBue_55, sBue_56, sBue_57, sBue_58, sBue_59, sBue_60, sBue_61, sBue_62, sBue_63, sBue_64, sBue_65, sBue_66, sBue_67, sBue_68, sBue_69, sBue_70, sBue_71, sBue_72, sBue_73, sBue_74, sBue_75, sBue_76, sBue_77, sBue_78, sBue_79, sBue_80, sBue_81, sBue_82, sBue_83, sBue_84, sBue_85, sBue_86, sBue_87, sBue_88, sBue_89, sBue_90, sBue_91, sBue_92, sBue_93, sBue_94, sBue_95, sBue_96, sBue_97, sBue_98, sBue_99, sBue_100]
  rw [(show min ((15 - te) / 15) (0:ℚ) = 0 from min_eq_right (by linarith)),
    (show min (0:ℚ) (0:ℚ) = 0 from min_self 0),
    (show min (0:ℚ) (1/20:ℚ) = 0 from min_eq_left (by norm_num)),
    (show min (0:ℚ) (1/10:ℚ) = 0 from min_eq_left (by norm_num)),
    (show min (0:ℚ) (3/20:ℚ) = 0 from min_eq_left (by norm_num)),
    (show min (0:ℚ) (1/5:ℚ) = 0 from min_eq_left (by norm_num)),
    (show min (0:ℚ) (1/4:ℚ) = 0 from min_eq_left (by norm_num)),
    (show min (0:ℚ) (3/10:ℚ) = 0 from min_eq_left (by norm_num)),
    (show min (0:ℚ) (7/20:ℚ) = 0 from min_eq_left (by norm_num)),
    (show min (0:ℚ) (2/5:ℚ) = 0 from min_eq_left (by norm_num)),
    (show min (0:ℚ) (9/20:ℚ) = 0 from min_eq_left (by norm_num)),
    (show min (0:ℚ) (1/2:ℚ) = 0 from min_eq_left (by norm_num)),
    (show min (0:ℚ) (11/20:ℚ) = 0 from min_eq_left (by norm_num)),
    (show min (0:ℚ) (3/5:ℚ) = 0 from min_eq_left (by norm_num)),
    (show min (0:ℚ) (13/20:ℚ) = 0 from min_eq_left (by norm_num)),
    (show min (0:ℚ) (7/10:ℚ) = 0 from min_eq_left (by norm_num)),
    (show min (0:ℚ) (3/4:ℚ) = 0 from min_eq_left (by norm_num)),
    (show min (0:ℚ) (4/5:ℚ) = 0 from min_eq_left (by norm_num)),
    (show min (0:ℚ) (17/20:ℚ) = 0 from min_eq_left (by norm_num)),
    (show min (0:ℚ) (9/10:ℚ) = 0 from min_eq_left (by norm_num)),
    (show min (0:ℚ) (19/20:ℚ) = 0 from min_eq_left (by norm_num)),
    (show min (0:ℚ) (1:ℚ) = 0 from min_eq_left (by norm_num)),
    (show min (0:ℚ) (14/15:ℚ) = 0 from min_eq_left (by norm_num)),
    (show min (0:ℚ) (13/15:ℚ) = 0 from min_eq_left (by norm_num)),
    (show min (0:ℚ) (11/15:ℚ) = 0 from min_eq_left (by norm_num)),
    (show min (0:ℚ) (2/3:ℚ) = 0 from min_eq_left (by norm_num)),
    (show min (0:ℚ) (8/15:ℚ) = 0 from min_eq_left (by norm_num)),
    (show min (0:ℚ) (7/15:ℚ) = 0 from min_eq_left (by norm_num)),
    (show min (0:ℚ) (1/3:ℚ) = 0 from min_eq_left (by norm_num)),
    (show min ((15 - te) / 15) (1/10:ℚ) = 1/10 from min_eq_right (by linarith)),
    (show min (0:ℚ) (4/15:ℚ) = 0 from min_eq_left (by norm_num)),
    (show min ((15 - te) / 15) (1/5:ℚ) = 1/5 from min_eq_right (by linarith)),
    (show min ((15 - te) / 15) (3/10:ℚ) = 3/10 from min_eq_right (by linarith)),
    (show min (0:ℚ) (2/15:ℚ) = 0 from min_eq_left (by norm_num)),
    (show min ((15 - te) / 15) (2/5:ℚ) = 2/5 from min_eq_right (by linarith)),
    (show min (0:ℚ) (1/15:ℚ) = 0 from min_eq_left (by norm_num)),
    (show min ((15 - te) / 15) (1/2:ℚ) = 1/2 from min_eq_right (by linarith)),
    (show min ((15 - te) / 15) (3/5:ℚ) = 3/5 from min_eq_right (by linarith)),
    (show min ((15 - te) / 15) (7/10:ℚ) = (15 - te) / 15 from min_eq_left (by linarith)),
    (show min ((15 - te) / 15) (4/5:ℚ) = (15 - te) / 15 from min_eq_left (by linarith)),
    (show min ((15 - te) / 15) (9/10:ℚ) = (15 - te) / 15 from min_eq_left (by linarith)),
    (show min ((15 - te) / 15) (1:ℚ) = (15 - te) / 15 from min_eq_left (by linarith)),
    (show max (0:ℚ) (0:ℚ) = 0 from max_self 0),
    (show max (1/10:ℚ) (0:ℚ) = (1/10:ℚ) from max_eq_left (by norm_num)),
    (show max (1/5:ℚ) (0:ℚ) = (1/5:ℚ) from max_eq_left (by norm_num)),
    (show max (3/10:ℚ) (0:ℚ) = (3/10:ℚ) from max_eq_left (by norm_num)),
    (show max (2/5:ℚ) (0:ℚ) = (2/5:ℚ) from max_eq_left (by norm_num)),
    (show max (1/2:ℚ) (0:ℚ) = (1/2:ℚ) from max_eq_left (by norm_num)),
    (show max (3/5:ℚ) (0:ℚ) = (3/5:ℚ) from max_eq_left (by norm_num)),
    (show max ((15 - te) / 15) (0:ℚ) = ((15 - te) / 15) from max_eq_left (by linarith))]
  simp only [List.sum_cons, List.sum_nil]
  ring

lemma numS1 (te : ℚ) (hp : 5 ≤ te) (hq : te ≤ 6) :
    centroidNum te 9 = 5921/10 + (-394/15) * te := by
  have haw : ∀ u : ℚ, aggregatedDegree te 9 u =
      max (min (tiempoBajo te) (servicioExcelente u))
          (min (tiempoMedio te) (servicioBuena u)) :=
    fun u => aggregated_wait te u (by linarith) (by linarith)
  rw [centroidNum_eq_sum, universeServicio_literal]
  simp only [List.map_cons, List.map_nil, haw,
    tiempoBajo_eq te (by linarith) (by linarith), tiempoMedio_zero_of_le10 te (by linarith),
    sExc_0, sExc_1, sExc_2, sExc_3, sExc_4, sExc_5, sExc_6, sExc_7, sExc_8, sExc_9, sExc_10, sExc_11, sExc_12, sExc_13, sExc_14, sExc_15, sExc_16, sExc_17, sExc_18, sExc_19, sExc_20, sExc_21, sExc_22, sExc_23, sExc_24, sExc_25, sExc_26, sExc_27, sExc_28, sExc_29, sExc_30, sExc_31, sExc_32, sExc_33, sExc_34, sExc_35, sExc_36, sExc_37, sExc_38, sExc_39, sExc_40, sExc_41, sExc_42, sExc_43, sExc_44, sExc_45, sExc_46, sExc_47, sExc_48, sExc_49, sExc_50, sExc_51, sExc_52, sExc_53, sExc_54, sExc_55, sExc_56, sExc_57, sExc_58, sExc_59, sExc_60, sExc_61, sExc_62, sExc_63, sExc_64, sExc_65, sExc_66, sExc_67, sExc_68, sExc_69, sExc_70, sExc_71, sExc_72, sExc_73, sExc_74, sExc_75, sExc_76, sExc_77, sExc_78, sExc_79, sExc_80, sExc_81, sExc_82, sExc_83, sExc_84, sExc_85, sExc_86, sExc_87, sExc_88, sExc_89, sExc_90, sExc_91, sExc_92, sExc_93, sExc_94, sExc_95, sExc_96, sExc_97, sExc_98, sExc_99, sExc_100,
    sBue_0, sBue_1, sBue_2, sBue_3, sBue_4, sBue_5, sBue_6, sBue_7, sBue_8, sBue_9, sBue_10, sBue_11, sBue_12, sBue_13, sBue_14, sBue_15, sBue_16, sBue_17, sBue_18, sBue_19, sBue_20, sBue_21, sBue_22, sBue_23, sBue_24, sBue_25, sBue_26, sBue_27, sBue_28, sBue_29, sBue_30, sBue_31, sBue_32, sBue_33, sBue_34, sBue_35, sBue_36, sBue_37, sBue_38, sBue_39, sBue_40, sBue_41, sBue_42, sBue_43, sBue_44, sBue_45, sBue_46, sBue_47, sBue_48, sBue_49, sBue_50, sBue_51, sBue_52, sBue_53, sBue_54, sBue_55, sBue_56, sBue_57, sBue_58, sBue_59, sBue_60, sBue_61, sBue_62, sBue_63, sBue_64, sBue_65, sBue_66, sBue_67, sBue_68, sBue_69, sBue_70, sBue_71, sBue_72, sBue_73, sBue_74, sBue_75, sBue_76, sBue_77, sBue_78, sBue_79, sBue_80, sBue_81, sBue_82, sBue_83, sBue_84, sBue_85, sBue_86, sBue_87, sBue_88, sBue_89, sBue_90, sBue_91, sBue_92, sBue_93, sBue_94, sBue_95, sBue_96, sBue_97, sBue_98, sBue_99, sBue_100]
  rw [(show min ((15 - te) / 15) (0:ℚ) = 0 from min_eq_right (by linarith)),
    (show min (0:ℚ) (0:ℚ) = 0 from min_self 0),
    (show min (0:ℚ) (1/20:ℚ) = 0 from min_eq_left (by norm_num)),
    (show min (0:ℚ) (1/10:ℚ) = 0 from min_eq_left (by norm_num)),
    (show min (0:ℚ) (3/20:ℚ) = 0 from min_eq_left (by norm_num)),
    (show min (0:ℚ) (1/5:ℚ) = 0 from min_eq_left (by norm_num)),
    (show min (0:ℚ) (1/4:ℚ) = 0 from min_eq_left (by norm_num)),
    (show min (0:ℚ) (3/10:ℚ) = 0 from min_eq_left (by norm_num)),
    (show min (0:ℚ) (7/20:ℚ) = 0 from min_eq_left (by norm_num)),
    (show min (0:ℚ) (2/5:ℚ) = 0 from min_eq_left (by norm_num)),
    (show min (0:ℚ) (9/20:ℚ) = 0 from min_eq_left (by norm_num)),
    (show min (0:ℚ) (1/2:ℚ) = 0 from min_eq_left (by norm_num)),
    (show min (0:ℚ) (11/20:ℚ) = 0 from min_eq_left (by norm_num)),
    (show min (0:ℚ) (3/5:ℚ) = 0 from min_eq_left (by norm_num)),
    (show min (0:ℚ) (13/20:ℚ) = 0 from min_eq_left (by norm_num)),
    (show min (0:ℚ) (7/10:ℚ) = 0 from min_eq_left (by norm_num)),
    (show min (0:ℚ) (3/4:ℚ) = 0 from min_eq_left (by norm_num)),
    (show min (0:ℚ) (4/5:ℚ) = 0 from min_eq_left (by norm_num)),
    (show min (0:ℚ) (17/20:ℚ) = 0 from min_eq_left (by norm_num)),
    (show min (0:ℚ) (9/10:ℚ) = 0 from min_eq_left (by norm_num)),
    (show min (0:ℚ) (19/20:ℚ) = 0 from min_eq_left (by norm_num)),
    (show min (0:ℚ) (1:ℚ) = 0 from min_eq_left (by norm_num)),
    (show min (0:ℚ) (14/15:ℚ) = 0 from min_eq_left (by norm_num)),
    (show min (0:ℚ) (13/15:ℚ) = 0 from min_eq_left (by norm_num)),
    (show min (0:ℚ) (11/15:ℚ) = 0 from min_eq_left (by norm_num)),
    (show min (0:ℚ) (2/3:ℚ) = 0 from min_eq_left (by norm_num)),
    (show min (0:ℚ) (8/15:ℚ) = 0 from min_eq_left (by norm_num)),
    (show min (0:ℚ) (7/15:ℚ) = 0 from min_eq_left (by norm_num)),
    (show min (0:ℚ) (1/3:ℚ) = 0 from min_eq_left (by norm_num)),
    (show min ((15 - te) / 15) (1/10:ℚ) = 1/10 from min_eq_right (by linarith)),
    (show min (0:ℚ) (4/15:ℚ) = 0 from min_eq_left (by norm_num)),
    (show min ((15 - te) / 15) (1/5:ℚ) = 1/5 from min_eq_right (by linarith)),
    (show min ((15 - te) / 15) (3/10:ℚ) = 3/10 from min_eq_right (by linarith)),
    (show min (0:ℚ) (2/15:ℚ) = 0 from min_eq_left (by norm_num)),
    (show min ((15 - te) / 15) (2/5:ℚ) = 2/5 from min_eq_right (by linarith)),
    (show min (0:ℚ) (1/15:ℚ) = 0 from min_eq_left (by norm_num)),
    (show min ((15 - te) / 15) (1/2:ℚ) = 1/2 from min_eq_right (by linarith)),
    (show min ((15 - te) / 15) (3/5:ℚ) = 3/5 from min_eq_right (by linarith)),
    (show min ((15 - te) / 15) (7/10:ℚ) = (15 - te) / 15 from min_eq_left (by linarith)),
    (show min ((15 - te) / 15) (4/5:ℚ) = (15 - te) / 15 from min_eq_left (by linarith)),
    (show min ((15 - te) / 15) (9/10:ℚ) = (15 - te) / 15 from min_eq_left (by linarith)),
    (show min ((15 - te) / 15) (1:ℚ) = (15 - te) / 15 from min_eq_left (by linarith)),
    (show max (0:ℚ) (0:ℚ) = 0 from max_self 0),
    (show max (1/10:ℚ) (0:ℚ) = (1/10:ℚ) from max_eq_left (by norm_num)),
    (show max (1/5:ℚ) (0:ℚ) = (1/5:ℚ) from max_eq_left (by norm_num)),
    (show max (3/10:ℚ) (0:ℚ) = (3/10:ℚ) from max_eq_left (by norm_num)),
    (show max (2/5:ℚ) (0:ℚ) = (2/5:ℚ) from max_eq_left (by norm_num)),
    (show max (1/2:ℚ) (0:ℚ) = (1/2:ℚ) from max_eq_left (by norm_num)),
    (show max (3/5:ℚ) (0:ℚ) = (3/5:ℚ) from max_eq_left (by norm_num)),
    (show max ((15 - te) / 15) (0:ℚ) = ((15 - te) / 15) from max_eq_left (by linarith))]
  simp only [List.sum_cons, List.sum_nil]
  ring

lemma monoS1 : ∀ t1 t2 : ℚ, 5 ≤ t1 → t1 ≤ t2 → t2 ≤ 6 → crispWait t2 ≤ crispWait t1 := by
  intro t1 t2 hp h12 hq
  unfold crispWait
  rw [denS1 t1 hp (by linarith), numS1 t1 hp (by linarith),
    denS1 t2 (by linarith) hq, numS1 t2 (by linarith) hq]
  exact frac_mono (5921/10) (-394/15) (61/10) (-4/15) t1 t2 h12
    (by linarith) (by linarith) (by norm_num)

lemma denS2 (te : ℚ) (hp : 6 ≤ te) (hq : te ≤ (15/2)) :
    centroidDen te 9 = 13/2 + (-1/3) * te := by
  have haw : ∀ u : ℚ, aggregatedDegree te 9 u =
      max (min (tiempoBajo te) (servicioExcelente u))
          (min (tiempoMedio te) (servicioBuena u)) :=
    fun u => aggregated_wait te u (by linarith) (by linarith)
  rw [centroidDen_eq_sum, universeServicio_literal]
  simp only [List.map_cons, List.map_nil, haw,
    tiempoBajo_eq te (by linarith) (by linarith), tiempoMedio_zero_of_le10 te (by linarith),
    sExc_0, sExc_1, sExc_2, sExc_3, sExc_4, sExc_5, sExc_6, sExc_7, sExc_8, sExc_9, sExc_10, sExc_11, sExc_12, sExc_13, sExc_14, sExc_15, sExc_16, sExc_17, sExc_18, sExc_19, sExc_20, sExc_21, sExc_22, sExc_23, sExc_24, sExc_25, sExc_26, sExc_27, sExc_28, sExc_29, sExc_30, sExc_31, sExc_32, sExc_33, sExc_34, sExc_35, sExc_36, sExc_37, sExc_38, sExc_39, sExc_40, sExc_41, sExc_42, sExc_43, sExc_44, sExc_45, sExc_46, sExc_47, sExc_48, sExc_49, sExc_50, sExc_51, sExc_52, sExc_53, sExc_54, sExc_55, sExc_56, sExc_57, sExc_58, sExc_59, sExc_60, sExc_61, sExc_62, sExc_63, sExc_64, sExc_65, sExc_66, sExc_67, sExc_68, sExc_69, sExc_70, sExc_71, sExc_72, sExc_73, sExc_74, sExc_75, sExc_76, sExc_77, sExc_78, sExc_79, sExc_80, sExc_81, sExc_82, sExc_83, sExc_84, sExc_85, sExc_86, sExc_87, sExc_88, sExc_89, sExc_90, sExc_91, sExc_92, sExc_93, sExc_94, sExc_95, sExc_96, sExc_97, sExc_98, sExc_99, sExc_100,
    sBue_0, sBue_1, sBue_2, sBue_3, sBue_4, sBue_5, sBue_6, sBue_7, sBue_8, sBue_9, sBue_10, sBue_11, sBue_12, sBue_13, sBue_14, sBue_15, sBue_16, sBue_17, sBue_18, sBue_19, sBue_20, sBue_21, sBue_22, sBue_23, sBue_24, sBue_25, sBue_26, sBue_27, sBue_28, sBue_29, sBue_30, sBue_31, sBue_32, sBue_33, sBue_34, sBue_35, sBue_36, sBue_37, sBue_38, sBue_39, sBue_40, sBue_41, sBue_42, sBue_43, sBue_44, sBue_45, sBue_46, sBue_47, sBue_48, sBue_49, sBue_50, sBue_51, sBue_52, sBue_53, sBue_54, sBue_55, sBue_56, sBue_57, sBue_58, sBue_59, sBue_60, sBue_61, sBue_62, sBue_63, sBue_64, sBue_65, sBue_66, sBue_67, sBue_68, sBue_69, sBue_70, sBue_71, sBue_72, sBue_73, sBue_74, sBue_75, sBue_76, sBue_77, sBue_78, sBue_79, sBue_80, sBue_81, sBue_82, sBue_83, sBue_84, sBue_85, sBue_86, sBue_87, sBue_88, sBue_89, sBue_90, sBue_91, sBue_92, sBue_93, sBue_94, sBue_95, sBue_96, sBue_97, sBue_98, sBue_99, sBue_100]
  rw [(show min ((15 - te) / 15) (0:ℚ) = 0 from min_eq_right (by linarith)),
    (show min (0:ℚ) (0:ℚ) = 0 from min_self 0),
    (show min (0:ℚ) (1/20:ℚ) = 0 from min_eq_left (by norm_num)),
    (show min (0:ℚ) (1/10:ℚ) = 0 from min_eq_left (by norm_num)),
    (show min (0:ℚ) (3/20:ℚ) = 0 from min_eq_left (by norm_num)),
    (show min (0:ℚ) (1/5:ℚ) = 0 from min_eq_left (by norm_num)),
    (show min (0:ℚ) (1/4:ℚ) = 0 from min_eq_left (by norm_num)),
    (show min (0:ℚ) (3/10:ℚ) = 0 from min_eq_left (by norm_num)),
    (show min (0:ℚ) (7/20:ℚ) = 0 from min_eq_left (by norm_num)),
    (show min (0:ℚ) (2/5:ℚ) = 0 from min_eq_left (by norm_num)),
    (show min (0:ℚ) (9/20:ℚ) = 0 from min_eq_left (by norm_num)),
    (show min (0:ℚ) (1/2:ℚ) = 0 from min_eq_left (by norm_num)),
    (show min (0:ℚ) (11/20:ℚ) = 0 from min_eq_left (by norm_num)),
    (show min (0:ℚ) (3/5:ℚ) = 0 from min_eq_left (by norm_num)),
    (show min (0:ℚ) (13/20:ℚ) = 0 from min_eq_left (by norm_num)),
    (show min (0:ℚ) (7/10:ℚ) = 0 from min_eq_left (by norm_num)),
    (show min (0:ℚ) (3/4:ℚ) = 0 from min_eq_left (by norm_num)),
    (show min (0:ℚ) (4/5:ℚ) = 0 from min_eq_left (by norm_num)),
    (show min (0:ℚ) (17/20:ℚ) = 0 from min_eq_left (by norm_num)),
    (show min (0:ℚ) (9/10:ℚ) = 0 from min_eq_left (by norm_num)),
    (show min (0:ℚ) (19/20:ℚ) = 0 from min_eq_left (by norm_num)),
    (show min (0:ℚ) (1:ℚ) = 0 from min_eq_left (by norm_num)),
    (show min (0:ℚ) (14/15:ℚ) = 0 from min_eq_left (by norm_num)),
    (show min (0:ℚ) (13/15:ℚ) = 0 from min_eq_left (by norm_num)),
    (show min (0:ℚ) (11/15:ℚ) = 0 from min_eq_left (by norm_num)),
    (show min (0:ℚ) (2/3:ℚ) = 0 from min_eq_left (by norm_num)),
    (show min (0:ℚ) (8/15:ℚ) = 0 from min_eq_left (by norm_num)),
    (show min (0:ℚ) (7/15:ℚ) = 0 from min_eq_left (by norm_num)),
    (show min (0:ℚ) (1/3:ℚ) = 0 from min_eq_left (by norm_num)),
    (show min ((15 - te) / 15) (1/10:ℚ) = 1/10 from min_eq_right (by linarith)),
    (show min (0:ℚ) (4/15:ℚ) = 0 from min_eq_left (by norm_num)),
    (show min ((15 - te) / 15) (1/5:ℚ) = 1/5 from min_eq_right (by linarith)),
    (show min ((15 - te) / 15) (3/10:ℚ) = 3/10 from min_eq_right (by linarith)),
    (show min (0:ℚ) (2/15:ℚ) = 0 from min_eq_left (by norm_num)),
    (show min ((15 - te) / 15) (2/5:ℚ) = 2/5 from min_eq_right (by linarith)),
    (show min (0:ℚ) (1/15:ℚ) = 0 from min_eq_left (by norm_num)),
    (show min ((15 - te) / 15) (1/2:ℚ) = 1/2 from min_eq_right (by linarith)),
    (show min ((15 - te) / 15) (3/5:ℚ) = (15 - te) / 15 from min_eq_left (by linarith)),
    (show min ((15 - te) / 15) (7/10:ℚ) = (15 - te) / 15 from min_eq_left (by linarith)),
    (show min ((15 - te) / 15) (4/5:ℚ) = (15 - te) / 15 from min_eq_left (by linarith)),
    (show min ((15 - te) / 15) (9/10:ℚ) = (15 - te) / 15 from min_eq_left (by linarith)),
    (show min ((15 - te) / 15) (1:ℚ) = (15 - te) / 15 from min_eq_left (by linarith)),
    (show max (0:ℚ) (0:ℚ) = 0 from max_self 0),
    (show max (1/10:ℚ) (0:ℚ) = (1/10:ℚ) from max_eq_left (by norm_num)),
    (show max (1/5:ℚ) (0:ℚ) = (1/5:ℚ) from max_eq_left (by norm_num)),
    (show max (3/10:ℚ) (0:ℚ) = (3/10:ℚ) from max_eq_left (by norm_num)),
    (show max (2/5:ℚ) (0:ℚ) = (2/5:ℚ) from max_eq_left (by norm_num)),
    (show max (1/2:ℚ) (0:ℚ) = (1/2:ℚ) from max_eq_left (by norm_num)),
    (show max ((15 - te) / 15) (0:ℚ) = ((15 - te) / 15) from max_eq_left (by linarith))]
  simp only [List.sum_cons, List.sum_nil]
  ring

lemma numS2 (te : ℚ) (hp : 6 ≤ te) (hq : te ≤ (15/2)) :
    centroidNum te 9 = 1261/2 + (-98/3) * te := by
  have haw : ∀ u : ℚ, aggregatedDegree te 9 u =
      max (min (tiempoBajo te) (servicioExcelente u))
          (min (tiempoMedio te) (servicioBuena u)) :=
    fun u => aggregated_wait te u (by linarith) (by linarith)
  rw [centroidNum_eq_sum, universeServicio_literal]
  simp only [List.map_cons, List.map_nil, haw,
    tiempoBajo_eq te (by linarith) (by linarith), tiempoMedio_zero_of_le10 te (by linarith),
    sExc_0, sExc_1, sExc_2, sExc_3, sExc_4, sExc_5, sExc_6, sExc_7, sExc_8, sExc_9, sExc_10, sExc_11, sExc_12, sExc_13, sExc_14, sExc_15, sExc_16, sExc_17, sExc_18, sExc_19, sExc_20, sExc_21, sExc_22, sExc_23, sExc_24, sExc_25, sExc_26, sExc_27, sExc_28, sExc_29, sExc_30, sExc_31, sExc_32, sExc_33, sExc_34, sExc_35, sExc_36, sExc_37, sExc_38, sExc_39, sExc_40, sExc_41, sExc_42, sExc_43, sExc_44, sExc_45, sExc_46, sExc_47, sExc_48, sExc_49, sExc_50, sExc_51, sExc_52, sExc_53, sExc_54, sExc_55, sExc_56, sExc_57, sExc_58, sExc_59, sExc_60, sExc_61, sExc_62, sExc_63, sExc_64, sExc_65, sExc_66, sExc_67, sExc_68, sExc_69, sExc_70, sExc_71, sExc_72, sExc_73, sExc_74, sExc_75, sExc_76, sExc_77, sExc_78, sExc_79, sExc_80, sExc_81, sExc_82, sExc_83, sExc_84, sExc_85, sExc_86, sExc_87, sExc_88, sExc_89, sExc_90, sExc_91, sExc_92, sExc_93, sExc_94, sExc_95, sExc_96, sExc_97, sExc_98, sExc_99, sExc_100,
    sBue_0, sBue_1, sBue_2, sBue_3, sBue_4, sBue_5, sBue_6, sBue_7, sBue_8, sBue_9, sBue_10, sBue_11, sBue_12, sBue_13, sBue_14, sBue_15, sBue_16, sBue_17, sBue_18, sBue_19, sBue_20, sBue_21, sBue_22, sBue_23, sBue_24, sBue_25, sBue_26, sBue_27, sBue_28, sBue_29, sBue_30, sBue_31, sBue_32, sBue_33, sBue_34, sBue_35, sBue_36, sBue_37, sBue_38, sBue_39, sBue_40, sBue_41, sBue_42, sBue_43, sBue_44, sBue_45, sBue_46, sBue_47, sBue_48, sBue_49, sBue_50, sBue_51, sBue_52, sBue_53, sBue_54, sBue_55, sBue_56, sBue_57, sBue_58, sBue_59, sBue_60, sBue_61, sBue_62, sBue_63, sBue_64, sBue_65, sBue_66, sBue_67, sBue_68, sBue_69, sBue_70, sBue_71, sBue_72, sBue_73, sBue_74, sBue_75, sBue_76, sBue_77, sBue_78, sBue_79, sBue_80, sBue_81, sBue_82, sBue_83, sBue_84, sBue_85, sBue_86, sBue_87, sBue_88, sBue_89, sBue_90, sBue_91, sBue_92, sBue_93, sBue_94, sBue_95, sBue_96, sBue_97, sBue_98, sBue_99, sBue_100]
  rw [(show min ((15 - te) / 15) (0:ℚ) = 0 from min_eq_right (by linarith)),
    (show min (0:ℚ) (0:ℚ) = 0 from min_self 0),
    (show min (0:ℚ) (1/20:ℚ) = 0 from min_eq_left (by norm_num)),
    (show min (0:ℚ) (1/10:ℚ) = 0 from min_eq_left (by norm_num)),
    (show min (0:ℚ) (3/20:ℚ) = 0 from min_eq_left (by norm_num)),
    (show min (0:ℚ) (1/5:ℚ) = 0 from min_eq_left (by norm_num)),
    (show min (0:ℚ) (1/4:ℚ) = 0 from min_eq_left (by norm_num)),
    (show min (0:ℚ) (3/10:ℚ) = 0 from min_eq_left (by norm_num)),
    (show min (0:ℚ) (7/20:ℚ) = 0 from min_eq_left (by norm_num)),
    (show min (0:ℚ) (2/5:ℚ) = 0 from min_eq_left (by norm_num)),
    (show min (0:ℚ) (9/20:ℚ) = 0 from min_eq_left (by norm_num)),
    (show min (0:ℚ) (1/2:ℚ) = 0 from min_eq_left (by norm_num)),
    (show min (0:ℚ) (11/20:ℚ) = 0 from min_eq_left (by norm_num)),
    (show min (0:ℚ) (3/5:ℚ) = 0 from min_eq_left (by norm_num)),
    (show min (0:ℚ) (13/20:ℚ) = 0 from min_eq_left (by norm_num)),
    (show min (0:ℚ) (7/10:ℚ) = 0 from min_eq_left (by norm_num)),
    (show min (0:ℚ) (3/4:ℚ) = 0 from min_eq_left (by norm_num)),
    (show min (0:ℚ) (4/5:ℚ) = 0 from min_eq_left (by norm_num)),
    (show min (0:ℚ) (17/20:ℚ) = 0 from min_eq_left (by norm_num)),
    (show min (0:ℚ) (9/10:ℚ) = 0 from min_eq_left (by norm_num)),
    (show min (0:ℚ) (19/20:ℚ) = 0 from min_eq_left (by norm_num)),
    (show min (0:ℚ) (1:ℚ) = 0 from min_eq_left (by norm_num)),
    (show min (0:ℚ) (14/15:ℚ) = 0 from min_eq_left (by norm_num)),
    (show min (0:ℚ) (13/15:ℚ) = 0 from min_eq_left (by norm_num)),
    (show min (0:ℚ) (11/15:ℚ) = 0 from min_eq_left (by norm_num)),
    (show min (0:ℚ) (2/3:ℚ) = 0 from min_eq_left (by norm_num)),
    (show min (0:ℚ) (8/15:ℚ) = 0 from min_eq_left (by norm_num)),
    (show min (0:ℚ) (7/15:ℚ) = 0 from min_eq_left (by norm_num)),
    (show min (0:ℚ) (1/3:ℚ) = 0 from min_eq_left (by norm_num)),
    (show min ((15 - te) / 15) (1/10:ℚ) = 1/10 from min_eq_right (by linarith)),
    (show min (0:ℚ) (4/15:ℚ) = 0 from min_eq_left (by norm_num)),
    (show min ((15 - te) / 15) (1/5:ℚ) = 1/5 from min_eq_right (by linarith)),
    (show min ((15 - te) / 15) (3/10:ℚ) = 3/10 from min_eq_right (by linarith)),
    (show min (0:ℚ) (2/15:ℚ) = 0 from min_eq_left (by norm_num)),
    (show min ((15 - te) / 15) (2/5:ℚ) = 2/5 from min_eq_right (by linarith)),
    (show min (0:ℚ) (1/15:ℚ) = 0 from min_eq_left (by norm_num)),
    (show min ((15 - te) / 15) (1/2:ℚ) = 1/2 from min_eq_right (by linarith)),
    (show min ((15 - te) / 15) (3/5:ℚ) = (15 - te) / 15 from min_eq_left (by linarith)),
    (show min ((15 - te) / 15) (7/10:ℚ) = (15 - te) / 15 from min_eq_left (by linarith)),
    (show min ((15 - te) / 15) (4/5:ℚ) = (15 - te) / 15 from min_eq_left (by linarith)),
    (show min ((15 - te) / 15) (9/10:ℚ) = (15 - te) / 15 from min_eq_left (by linarith)),
    (show min ((15 - te) / 15) (1:ℚ) = (15 - te) / 15 from min_eq_left (by linarith)),
    (show max (0:ℚ) (0:ℚ) = 0 from max_self 0),
    (show max (1/10:ℚ) (0:ℚ) = (1/10:ℚ) from max_eq_left (by norm_num)),
    (show max (1/5:ℚ) (0:ℚ) = (1/5:ℚ) from max_eq_left (by norm_num)),
    (show max (3/10:ℚ) (0:ℚ) = (3/10:ℚ) from max_eq_left (by norm_num)),
    (show max (2/5:ℚ) (0:ℚ) = (2/5:ℚ) from max_eq_left (by norm_num)),
    (show max (1/2:ℚ) (0:ℚ) = (1/2:ℚ) from max_eq_left (by norm_num)),
    (show max ((15 - te) / 15) (0:ℚ) = ((15 - te) / 15) from max_eq_left (by linarith))]
  simp only [List.sum_cons, List.sum_nil]
  ring

lemma monoS2 : ∀ t1 t2 : ℚ, 6 ≤ t1 → t1 ≤ t2 → t2 ≤ (15/2) → crispWait t2 ≤ crispWait t1 := by
  intro t1 t2 hp h12 hq
  unfold crispWait
  rw [denS2 t1 hp (by linarith), numS2 t1 hp (by linarith),
    denS2 t2 (by linarith) hq, numS2 t2 (by linarith) hq]
  exact frac_mono (1261/2) (-98/3) (13/2) (-1/3) t1 t2 h12
    (by linarith) (by linarith) (by norm_num)

lemma denS3 (te : ℚ) (hp : (15/2) ≤ te) (hq : te ≤ 9) :
    centroidDen te 9 = 7 + (-2/5) * te := by
  have haw : ∀ u : ℚ, aggregatedDegree te 9 u =
      max (min (tiempoBajo te) (servicioExcelente u))
          (min (tiempoMedio te) (servicioBuena u)) :=
    fun u => aggregated_wait te u (by linarith) (by linarith)
  rw [centroidDen_eq_sum, universeServicio_literal]
  simp only [List.map_cons, List.map_nil, haw,
    tiempoBajo_eq te (by linarith) (by linarith), tiempoMedio_zero_of_le10 te (by linarith),
    sExc_0, sExc_1, sExc_2, sExc_3, sExc_4, sExc_5, sExc_6, sExc_7, sExc_8, sExc_9, sExc_10, sExc_11, sExc_12, sExc_13, sExc_14, sExc_15, sExc_16, sExc_17, sExc_18, sExc_19, sExc_20, sExc_21, sExc_22, sExc_23, sExc_24, sExc_25, sExc_26, sExc_27, sExc_28, sExc_29, sExc_30, sExc_31, sExc_32, sExc_33, sExc_34, sExc_35, sExc_36, sExc_37, sExc_38, sExc_39, sExc_40, sExc_41, sExc_42, sExc_43, sExc_44, sExc_45, sExc_46, sExc_47, sExc_48, sExc_49, sExc_50, sExc_51, sExc_52, sExc_53, sExc_54, sExc_55, sExc_56, sExc_57, sExc_58, sExc_59, sExc_60, sExc_61, sExc_62, sExc_63, sExc_64, sExc_65, sExc_66, sExc_67, sExc_68, sExc_69, sExc_70, sExc_71, sExc_72, sExc_73, sExc_74, sExc_75, sExc_76, sExc_77, sExc_78, sExc_79, sExc_80, sExc_81, sExc_82, sExc_83, sExc_84, sExc_85, sExc_86, sExc_87, sExc_88, sExc_89, sExc_90, sExc_91, sExc_92, sExc_93, sExc_94, sExc_95, sExc_96, sExc_97, sExc_98, sExc_99, sExc_100,
    sBue_0, sBue_1, sBue_2, sBue_3, sBue_4, sBue_5, sBue_6, sBue_7, sBue_8, sBue_9, sBue_10, sBue_11, sBue_12, sBue_13, sBue_14, sBue_15, sBue_16, sBue_17, sBue_18, sBue_19, sBue_20, sBue_21, sBue_22, sBue_23, sBue_24, sBue_25, sBue_26, sBue_27, sBue_28, sBue_29, sBue_30, sBue_31, sBue_32, sBue_33, sBue_34, sBue_35, sBue_36, sBue_37, sBue_38, sBue_39, sBue_40, sBue_41, sBue_42, sBue_43, sBue_44, sBue_45, sBue_46, sBue_47, sBue_48, sBue_49, sBue_50, sBue_51, sBue_52, sBue_53, sBue_54, sBue_55, sBue_56, sBue_57, sBue_58, sBue_59, sBue_60, sBue_61, sBue_62, sBue_63, sBue_64, sBue_65, sBue_66, sBue_67, sBue_68, sBue_69, sBue_70, sBue_71, sBue_72, sBue_73, sBue_74, sBue_75, sBue_76, sBue_77, sBue_78, sBue_79, sBue_80, sBue_81, sBue_82, sBue_83, sBue_84, sBue_85, sBue_86, sBue_87, sBue_88, sBue_89, sBue_90, sBue_91, sBue_92, sBue_93, sBue_94, sBue_95, sBue_96, sBue_97, sBue_98, sBue_99, sBue_100]
  rw [(show min ((15 - te) / 15) (0:ℚ) = 0 from min_eq_right (by linarith)),
    (show min (0:ℚ) (0:ℚ) = 0 from min_self 0),
    (show min (0:ℚ) (1/20:ℚ) = 0 from min_eq_left (by norm_num)),
    (show min (0:ℚ) (1/10:ℚ) = 0 from min_eq_left (by norm_num)),
    (show min (0:ℚ) (3/20:ℚ) = 0 from min_eq_left (by norm_num)),
    (show min (0:ℚ) (1/5:ℚ) = 0 from min_eq_left (by norm_num)),
    (show min (0:ℚ) (1/4:ℚ) = 0 from min_eq_left (by norm_num)),
    (show min (0:ℚ) (3/10:ℚ) = 0 from min_eq_left (by norm_num)),
    (show min (0:ℚ) (7/20:ℚ) = 0 from min_eq_left (by norm_num)),
    (show min (0:ℚ) (2/5:ℚ) = 0 from min_eq_left (by norm_num)),
    (show min (0:ℚ) (9/20:ℚ) = 0 from min_eq_left (by norm_num)),
    (show min (0:ℚ) (1/2:ℚ) = 0 from min_eq_left (by norm_num)),
    (show min (0:ℚ) (11/20:ℚ) = 0 from min_eq_left (by norm_num)),
    (show min (0:ℚ) (3/5:ℚ) = 0 from min_eq_left (by norm_num)),
    (show min (0:ℚ) (13/20:ℚ) = 0 from min_eq_left (by norm_num)),
    (show min (0:ℚ) (7/10:ℚ) = 0 from min_eq_left (by norm_num)),
    (show min (0:ℚ) (3/4:ℚ) = 0 from min_eq_left (by norm_num)),
    (show min (0:ℚ) (4/5:ℚ) = 0 from min_eq_left (by norm_num)),
    (show min (0:ℚ) (17/20:ℚ) = 0 from min_eq_left (by norm_num)),
    (show min (0:ℚ) (9/10:ℚ) = 0 from min_eq_left (by norm_num)),
    (show min (0:ℚ) (19/20:ℚ) = 0 from min_eq_left (by norm_num)),
    (show min (0:ℚ) (1:ℚ) = 0 from min_eq_left (by norm_num)),
    (show min (0:ℚ) (14/15:ℚ) = 0 from min_eq_left (by norm_num)),
    (show min (0:ℚ) (13/15:ℚ) = 0 from min_eq_left (by norm_num)),
    (show min (0:ℚ) (11/15:ℚ) = 0 from min_eq_left (by norm_num)),
    (show min (0:ℚ) (2/3:ℚ) = 0 from min_eq_left (by norm_num)),
    (show min (0:ℚ) (8/15:ℚ) = 0 from min_eq_left (by norm_num)),
    (show min (0:ℚ) (7/15:ℚ) = 0 from min_eq_left (by norm_num)),
    (show min (0:ℚ) (1/3:ℚ) = 0 from min_eq_left (by norm_num)),
    (show min ((15 - te) / 15) (1/10:ℚ) = 1/10 from min_eq_right (by linarith)),
    (show min (0:ℚ) (4/15:ℚ) = 0 from min_eq_left (by norm_num)),
    (show min ((15 - te) / 15) (1/5:ℚ) = 1/5 from min_eq_right (by linarith)),
    (show min ((15 - te) / 15) (3/10:ℚ) = 3/10 from min_eq_right (by linarith)),
    (show min (0:ℚ) (2/15:ℚ) = 0 from min_eq_left (by norm_num)),
    (show min ((15 - te) / 15) (2/5:ℚ) = 2/5 from min_eq_right (by linarith)),
    (show min (0:ℚ) (1/15:ℚ) = 0 from min_eq_left (by norm_num)),
    (show min ((15 - te) / 15) (1/2:ℚ) = (15 - te) / 15 from min_eq_left (by linarith)),
    (show min ((15 - te) / 15) (3/5:ℚ) = (15 - te) / 15 from min_eq_left (by linarith)),
    (show min ((15 - te) / 15) (7/10:ℚ) = (15 - te) / 15 from min_eq_left (by linarith)),
    (show min ((15 - te) / 15) (4/5:ℚ) = (15 - te) / 15 from min_eq_left (by linarith)),
    (show min ((15 - te) / 15) (9/10:ℚ) = (15 - te) / 15 from min_eq_left (by linarith)),
    (show min ((15 - te) / 15) (1:ℚ) = (15 - te) / 15 from min_eq_left (by linarith)),
    (show max (0:ℚ) (0:ℚ) = 0 from max_self 0),
    (show max (1/10:ℚ) (0:ℚ) = (1/10:ℚ) from max_eq_left (by norm_num)),
    (show max (1/5:ℚ) (0:ℚ) = (1/5:ℚ) from max_eq_left (by norm_num)),
    (show max (3/10:ℚ) (0:ℚ) = (3/10:ℚ) from max_eq_left (by norm_num)),
    (show max (2/5:ℚ) (0:ℚ) = (2/5:ℚ) from max_eq_left (by norm_num)),
    (show max ((15 - te) / 15) (0:ℚ) = ((15 - te) / 15) from max_eq_left (by linarith))]
  simp only [List.sum_cons, List.sum_nil]
  ring

lemma numS3 (te : ℚ) (hp : (15/2) ≤ te) (hq : te ≤ 9) :
    centroidNum te 9 = 678 + (-39) * te := by
  have haw : ∀ u : ℚ, aggregatedDegree te 9 u =
      max (min (tiempoBajo te) (servicioExcelente u))
          (min (tiempoMedio te) (servicioBuena u)) :=
    fun u => aggregated_wait te u (by linarith) (by linarith)
  rw [centroidNum_eq_sum, universeServicio_literal]
  simp only [List.map_cons, List.map_nil, haw,
    tiempoBajo_eq te (by linarith) (by linarith), tiempoMedio_zero_of_le10 te (by linarith),
    sExc_0, sExc_1, sExc_2, sExc_3, sExc_4, sExc_5, sExc_6, sExc_7, sExc_8, sExc_9, sExc_10, sExc_11, sExc_12, sExc_13, sExc_14, sExc_15, sExc_16, sExc_17, sExc_18, sExc_19, sExc_20, sExc_21, sExc_22, sExc_23, sExc_24, sExc_25, sExc_26, sExc_27, sExc_28, sExc_29, sExc_30, sExc_31, sExc_32, sExc_33, sExc_34, sExc_35, sExc_36, sExc_37, sExc_38, sExc_39, sExc_40, sExc_41, sExc_42, sExc_43, sExc_44, sExc_45, sExc_46, sExc_47, sExc_48, sExc_49, sExc_50, sExc_51, sExc_52, sExc_53, sExc_54, sExc_55, sExc_56, sExc_57, sExc_58, sExc_59, sExc_60, sExc_61, sExc_62, sExc_63, sExc_64, sExc_65, sExc_66, sExc_67, sExc_68, sExc_69, sExc_70, sExc_71, sExc_72, sExc_73, sExc_74, sExc_75, sExc_76, sExc_77, sExc_78, sExc_79, sExc_80, sExc_81, sExc_82, sExc_83, sExc_84, sExc_85, sExc_86, sExc_87, sExc_88, sExc_89, sExc_90, sExc_91, sExc_92, sExc_93, sExc_94, sExc_95, sExc_96, sExc_97, sExc_98, sExc_99, sExc_100,
    sBue_0, sBue_1, sBue_2, sBue_3, sBue_4, sBue_5, sBue_6, sBue_7, sBue_8, sBue_9, sBue_10, sBue_11, sBue_12, sBue_13, sBue_14, sBue_15, sBue_16, sBue_17, sBue_18, sBue_19, sBue_20, sBue_21, sBue_22, sBue_23, sBue_24, sBue_25, sBue_26, sBue_27, sBue_28, sBue_29, sBue_30, sBue_31, sBue_32, sBue_33, sBue_34, sBue_35, sBue_36, sBue_37, sBue_38, sBue_39, sBue_40, sBue_41, sBue_42, sBue_43, sBue_44, sBue_45, sBue_46, sBue_47, sBue_48, sBue_49, sBue_50, sBue_51, sBue_52, sBue_53, sBue_54, sBue_55, sBue_56, sBue_57, sBue_58, sBue_59, sBue_60, sBue_61, sBue_62, sBue_63, sBue_64, sBue_65, sBue_66, sBue_67, sBue_68, sBue_69, sBue_70, sBue_71, sBue_72, sBue_73, sBue_74, sBue_75, sBue_76, sBue_77, sBue_78, sBue_79, sBue_80, sBue_81, sBue_82, sBue_83, sBue_84, sBue_85, sBue_86, sBue_87, sBue_88, sBue_89, sBue_90, sBue_91, sBue_92, sBue_93, sBue_94, sBue_95, sBue_96, sBue_97, sBue_98, sBue_99, sBue_100]
  rw [(show min ((15 - te) / 15) (0:ℚ) = 0 from min_eq_right (by linarith)),
    (show min (0:ℚ) (0:ℚ) = 0 from min_self 0),
    (show min (0:ℚ) (1/20:ℚ) = 0 from min_eq_left (by norm_num)),
    (show min (0:ℚ) (1/10:ℚ) = 0 from min_eq_left (by norm_num)),
    (show min (0:ℚ) (3/20:ℚ) = 0 from min_eq_left (by norm_num)),
    (show min (0:ℚ) (1/5:ℚ) = 0 from min_eq_left (by norm_num)),
    (show min (0:ℚ) (1/4:ℚ) = 0 from min_eq_left (by norm_num)),
    (show min (0:ℚ) (3/10:ℚ) = 0 from min_eq_left (by norm_num)),
    (show min (0:ℚ) (7/20:ℚ) = 0 from min_eq_left (by norm_num)),
    (show min (0:ℚ) (2/5:ℚ) = 0 from min_eq_left (by norm_num)),
    (show min (0:ℚ) (9/20:ℚ) = 0 from min_eq_left (by norm_num)),
    (show min (0:ℚ) (1/2:ℚ) = 0 from min_eq_left (by norm_num)),
    (show min (0:ℚ) (11/20:ℚ) = 0 from min_eq_left (by norm_num)),
    (show min (0:ℚ) (3/5:ℚ) = 0 from min_eq_left (by norm_num)),
    (show min (0:ℚ) (13/20:ℚ) = 0 from min_eq_left (by norm_num)),
    (show min (0:ℚ) (7/10:ℚ) = 0 from min_eq_left (by norm_num)),
    (show min (0:ℚ) (3/4:ℚ) = 0 from min_eq_left (by norm_num)),
    (show min (0:ℚ) (4/5:ℚ) = 0 from min_eq_left (by norm_num)),
    (show min (0:ℚ) (17/20:ℚ) = 0 from min_eq_left (by norm_num)),
    (show min (0:ℚ) (9/10:ℚ) = 0 from min_eq_left (by norm_num)),
    (show min (0:ℚ) (19/20:ℚ) = 0 from min_eq_left (by norm_num)),
    (show min (0:ℚ) (1:ℚ) = 0 from min_eq_left (by norm_num)),
    (show min (0:ℚ) (14/15:ℚ) = 0 from min_eq_left (by norm_num)),
    (show min (0:ℚ) (13/15:ℚ) = 0 from min_eq_left (by norm_num)),
    (show min (0:ℚ) (11/15:ℚ) = 0 from min_eq_left (by norm_num)),
    (show min (0:ℚ) (2/3:ℚ) = 0 from min_eq_left (by norm_num)),
    (show min (0:ℚ) (8/15:ℚ) = 0 from min_eq_left (by norm_num)),
    (show min (0:ℚ) (7/15:ℚ) = 0 from min_eq_left (by norm_num)),
    (show min (0:ℚ) (1/3:ℚ) = 0 from min_eq_left (by norm_num)),
    (show min ((15 - te) / 15) (1/10:ℚ) = 1/10 from min_eq_right (by linarith)),
    (show min (0:ℚ) (4/15:ℚ) = 0 from min_eq_left (by norm_num)),
    (show min ((15 - te) / 15) (1/5:ℚ) = 1/5 from min_eq_right (by linarith)),
    (show min ((15 - te) / 15) (3/10:ℚ) = 3/10 from min_eq_right (by linarith)),
    (show min (0:ℚ) (2/15:ℚ) = 0 from min_eq_left (by norm_num)),
    (show min ((15 - te) / 15) (2/5:ℚ) = 2/5 from min_eq_right (by linarith)),
    (show min (0:ℚ) (1/15:ℚ) = 0 from min_eq_left (by norm_num)),
    (show min ((15 - te) / 15) (1/2:ℚ) = (15 - te) / 15 from min_eq_left (by linarith)),
    (show min ((15 - te) / 15) (3/5:ℚ) = (15 - te) / 15 from min_eq_left (by linarith)),
    (show min ((15 - te) / 15) (7/10:ℚ) = (15 - te) / 15 from min_eq_left (by linarith)),
    (show min ((15 - te) / 15) (4/5:ℚ) = (15 - te) / 15 from min_eq_left (by linarith)),
    (show min ((15 - te) / 15) (9/10:ℚ) = (15 - te) / 15 from min_eq_left (by linarith)),
    (show min ((15 - te) / 15) (1:ℚ) = (15 - te) / 15 from min_eq_left (by linarith)),
    (show max (0:ℚ) (0:ℚ) = 0 from max_self 0),
    (show max (1/10:ℚ) (0:ℚ) = (1/10:ℚ) from max_eq_left (by norm_num)),
    (show max (1/5:ℚ) (0:ℚ) = (1/5:ℚ) from max_eq_left (by norm_num)),
    (show max (3/10:ℚ) (0:ℚ) = (3/10:ℚ) from max_eq_left (by norm_num)),
    (show max (2/5:ℚ) (0:ℚ) = (2/5:ℚ) from max_eq_left (by norm_num)),
    (show max ((15 - te) / 15) (0:ℚ) = ((15 - te) / 15) from max_eq_left (by linarith))]
  simp only [List.sum_cons, List.sum_nil]
  ring

lemma monoS3 : ∀ t1 t2 : ℚ, (15/2) ≤ t1 → t1 ≤ t2 → t2 ≤ 9 → crispWait t2 ≤ crispWait t1 := by
  intro t1 t2 hp h12 hq
  unfold crispWait
  rw [denS3 t1 hp (by linarith), numS3 t1 hp (by linarith),
    denS3 t2 (by linarith) hq, numS3 t2 (by linarith) hq]
  exact frac_mono (678) (-39) (7) (-2/5) t1 t2 h12
    (by linarith) (by linarith) (by norm_num)

lemma denS4 (te : ℚ) (hp : 9 ≤ te) (hq : te ≤ 10) :
    centroidDen te 9 = 38/5 + (-7/15) * te := by
  have haw : ∀ u : ℚ, aggregatedDegree te 9 u =
      max (min (tiempoBajo te) (servicioExcelente u))
          (min (tiempoMedio te) (servicioBuena u)) :=
    fun u => aggregated_wait te u (by linarith) (by linarith)
  rw [centroidDen_eq_sum, universeServicio_literal]
  simp only [List.map_cons, List.map_nil, haw,
    tiempoBajo_eq te (by linarith) (by linarith), tiempoMedio_zero_of_le10 te (by linarith),
    sExc_0, sExc_1, sExc_2, sExc_3, sExc_4, sExc_5, sExc_6, sExc_7, sExc_8, sExc_9, sExc_10, sExc_11, sExc_12, sExc_13, sExc_14, sExc_15, sExc_16, sExc_17, sExc_18, sExc_19, sExc_20, sExc_21, sExc_22, sExc_23, sExc_24, sExc_25, sExc_26, sExc_27, sExc_28, sExc_29, sExc_30, sExc_31, sExc_32, sExc_33, sExc_34, sExc_35, sExc_36, sExc_37, sExc_38, sExc_39, sExc_40, sExc_41, sExc_42, sExc_43, sExc_44, sExc_45, sExc_46, sExc_47, sExc_48, sExc_49, sExc_50, sExc_51, sExc_52, sExc_53, sExc_54, sExc_55, sExc_56, sExc_57, sExc_58, sExc_59, sExc_60, sExc_61, sExc_62, sExc_63, sExc_64, sExc_65, sExc_66, sExc_67, sExc_68, sExc_69, sExc_70, sExc_71, sExc_72, sExc_73, sExc_74, sExc_75, sExc_76, sExc_77, sExc_78, sExc_79, sExc_80, sExc_81, sExc_82, sExc_83, sExc_84, sExc_85, sExc_86, sExc_87, sExc_88, sExc_89, sExc_90, sExc_91, sExc_92, sExc_93, sExc_94, sExc_95, sExc_96, sExc_97, sExc_98, sExc_99, sExc_100,
    sBue_0, sBue_1, sBue_2, sBue_3, sBue_4, sBue_5, sBue_6, sBue_7, sBue_8, sBue_9, sBue_10, sBue_11, sBue_12, sBue_13, sBue_14, sBue_15, sBue_16, sBue_17, sBue_18, sBue_19, sBue_20, sBue_21, sBue_22, sBue_23, sBue_24, sBue_25, sBue_26, sBue_27, sBue_28, sBue_29, sBue_30, sBue_31, sBue_32, sBue_33, sBue_34, sBue_35, sBue_36, sBue_37, sBue_38, sBue_39, sBue_40, sBue_41, sBue_42, sBue_43, sBue_44, sBue_45, sBue_46, sBue_47, sBue_48, sBue_49, sBue_50, sBue_51, sBue_52, sBue_53, sBue_54, sBue_55, sBue_56, sBue_57, sBue_58, sBue_59, sBue_60, sBue_61, sBue_62, sBue_63, sBue_64, sBue_65, sBue_66, sBue_67, sBue_68, sBue_69, sBue_70, sBue_71, sBue_72, sBue_73, sBue_74, sBue_75, sBue_76, sBue_77, sBue_78, sBue_79, sBue_80, sBue_81, sBue_82, sBue_83, sBue_84, sBue_85, sBue_86, sBue_87, sBue_88, sBue_89, sBue_90, sBue_91, sBue_92, sBue_93, sBue_94, sBue_95, sBue_96, sBue_97, sBue_98, sBue_99, sBue_100]
  rw [(show min ((15 - te) / 15) (0:ℚ) = 0 from min_eq_right (by linarith)),
    (show min (0:ℚ) (0:ℚ) = 0 from min_self 0),
    (show min (0:ℚ) (1/20:ℚ) = 0 from min_eq_left (by norm_num)),
    (show min (0:ℚ) (1/10:ℚ) = 0 from min_eq_left (by norm_num)),
    (show min (0:ℚ) (3/20:ℚ) = 0 from min_eq_left (by norm_num)),
    (show min (0:ℚ) (1/5:ℚ) = 0 from min_eq_left (by norm_num)),
    (show min (0:ℚ) (1/4:ℚ) = 0 from min_eq_left (by norm_num)),
    (show min (0:ℚ) (3/10:ℚ) = 0 from min_eq_left (by norm_num)),
    (show min (0:ℚ) (7/20:ℚ) = 0 from min_eq_left (by norm_num)),
    (show min (0:ℚ) (2/5:ℚ) = 0 from min_eq_left (by norm_num)),
    (show min (0:ℚ) (9/20:ℚ) = 0 from min_eq_left (by norm_num)),
    (show min (0:ℚ) (1/2:ℚ) = 0 from min_eq_left (by norm_num)),
    (show min (0:ℚ) (11/20:ℚ) = 0 from min_eq_left (by norm_num)),
    (show min (0:ℚ) (3/5:ℚ) = 0 from min_eq_left (by norm_num)),
    (show min (0:ℚ) (13/20:ℚ) = 0 from min_eq_left (by norm_num)),
    (show min (0:ℚ) (7/10:ℚ) = 0 from min_eq_left (by norm_num)),
    (show min (0:ℚ) (3/4:ℚ) = 0 from min_eq_left (by norm_num)),
    (show min (0:ℚ) (4/5:ℚ) = 0 from min_eq_left (by norm_num)),
    (show min (0:ℚ) (17/20:ℚ) = 0 from min_eq_left (by norm_num)),
    (show min (0:ℚ) (9/10:ℚ) = 0 from min_eq_left (by norm_num)),
    (show min (0:ℚ) (19/20:ℚ) = 0 from min_eq_left (by norm_num)),
    (show min (0:ℚ) (1:ℚ) = 0 from min_eq_left (by norm_num)),
    (show min (0:ℚ) (14/15:ℚ) = 0 from min_eq_left (by norm_num)),
    (show min (0:ℚ) (13/15:ℚ) = 0 from min_eq_left (by norm_num)),
    (show min (0:ℚ) (11/15:ℚ) = 0 from min_eq_left (by norm_num)),
    (show min (0:ℚ) (2/3:ℚ) = 0 from min_eq_left (by norm_num)),
    (show min (0:ℚ) (8/15:ℚ) = 0 from min_eq_left (by norm_num)),
    (show min (0:ℚ) (7/15:ℚ) = 0 from min_eq_left (by norm_num)),
    (show min (0:ℚ) (1/3:ℚ) = 0 from min_eq_left (by norm_num)),
    (show min ((15 - te) / 15) (1/10:ℚ) = 1/10 from min_eq_right (by linarith)),
    (show min (0:ℚ) (4/15:ℚ) = 0 from min_eq_left (by norm_num)),
    (show min ((15 - te) / 15) (1/5:ℚ) = 1/5 from min_eq_right (by linarith)),
    (show min ((15 - te) / 15) (3/10:ℚ) = 3/10 from min_eq_right (by linarith)),
    (show min (0:ℚ) (2/15:ℚ) = 0 from min_eq_left (by norm_num)),
    (show min ((15 - te) / 15) (2/5:ℚ) = (15 - te) / 15 from min_eq_left (by linarith)),
    (show min (0:ℚ) (1/15:ℚ) = 0 from min_eq_left (by norm_num)),
    (show min ((15 - te) / 15) (1/2:ℚ) = (15 - te) / 15 from min_eq_left (by linarith)),
    (show min ((15 - te) / 15) (3/5:ℚ) = (15 - te) / 15 from min_eq_left (by linarith)),
    (show min ((15 - te) / 15) (7/10:ℚ) = (15 - te) / 15 from min_eq_left (by linarith)),
    (show min ((15 - te) / 15) (4/5:ℚ) = (15 - te) / 15 from min_eq_left (by linarith)),
    (show min ((15 - te) / 15) (9/10:ℚ) = (15 - te) / 15 from min_eq_left (by linarith)),
    (show min ((15 - te) / 15) (1:ℚ) = (15 - te) / 15 from min_eq_left (by linarith)),
    (show max (0:ℚ) (0:ℚ) = 0 from max_self 0),
    (show max (1/10:ℚ) (0:ℚ) = (1/10:ℚ) from max_eq_left (by norm_num)),
    (show max (1/5:ℚ) (0:ℚ) = (1/5:ℚ) from max_eq_left (by norm_num)),
    (show max (3/10:ℚ) (0:ℚ) = (3/10:ℚ) from max_eq_left (by norm_num)),
    (show max ((15 - te) / 15) (0:ℚ) = ((15 - te) / 15) from max_eq_left (by linarith))]
  simp only [List.sum_cons, List.sum_nil]
  ring

lemma numS4 (te : ℚ) (hp : 9 ≤ te) (hq : te ≤ 10) :
    centroidNum te 9 = 3672/5 + (-679/15) * te := by
  have haw : ∀ u : ℚ, aggregatedDegree te 9 u =
      max (min (tiempoBajo te) (servicioExcelente u))
          (min (tiempoMedio te) (servicioBuena u)) :=
    fun u => aggregated_wait te u (by linarith) (by linarith)
  rw [centroidNum_eq_sum, universeServicio_literal]
  simp only [List.map_cons, List.map_nil, haw,
    tiempoBajo_eq te (by linarith) (by linarith), tiempoMedio_zero_of_le10 te (by linarith),
    sExc_0, sExc_1, sExc_2, sExc_3, sExc_4, sExc_5, sExc_6, sExc_7, sExc_8, sExc_9, sExc_10, sExc_11, sExc_12, sExc_13, sExc_14, sExc_15, sExc_16, sExc_17, sExc_18, sExc_19, sExc_20, sExc_21, sExc_22, sExc_23, sExc_24, sExc_25, sExc_26, sExc_27, sExc_28, sExc_29, sExc_30, sExc_31, sExc_32, sExc_33, sExc_34, sExc_35, sExc_36, sExc_37, sExc_38, sExc_39, sExc_40, sExc_41, sExc_42, sExc_43, sExc_44, sExc_45, sExc_46, sExc_47, sExc_48, sExc_49, sExc_50, sExc_51, sExc_52, sExc_53, sExc_54, sExc_55, sExc_56, sExc_57, sExc_58, sExc_59, sExc_60, sExc_61, sExc_62, sExc_63, sExc_64, sExc_65, sExc_66, sExc_67, sExc_68, sExc_69, sExc_70, sExc_71, sExc_72, sExc_73, sExc_74, sExc_75, sExc_76, sExc_77, sExc_78, sExc_79, sExc_80, sExc_81, sExc_82, sExc_83, sExc_84, sExc_85, sExc_86, sExc_87, sExc_88, sExc_89, sExc_90, sExc_91, sExc_92, sExc_93, sExc_94, sExc_95, sExc_96, sExc_97, sExc_98, sExc_99, sExc_100,
    sBue_0, sBue_1, sBue_2, sBue_3, sBue_4, sBue_5, sBue_6, sBue_7, sBue_8, sBue_9, sBue_10, sBue_11, sBue_12, sBue_13, sBue_14, sBue_15, sBue_16, sBue_17, sBue_18, sBue_19, sBue_20, sBue_21, sBue_22, sBue_23, sBue_24, sBue_25, sBue_26, sBue_27, sBue_28, sBue_29, sBue_30, sBue_31, sBue_32, sBue_33, sBue_34, sBue_35, sBue_36, sBue_37, sBue_38, sBue_39, sBue_40, sBue_41, sBue_42, sBue_43, sBue_44, sBue_45, sBue_46, sBue_47, sBue_48, sBue_49, sBue_50, sBue_51, sBue_52, sBue_53, sBue_54, sBue_55, sBue_56, sBue_57, sBue_58, sBue_59, sBue_60, sBue_61, sBue_62, sBue_63, sBue_64, sBue_65, sBue_66, sBue_67, sBue_68, sBue_69, sBue_70, sBue_71, sBue_72, sBue_73, sBue_74, sBue_75, sBue_76, sBue_77, sBue_78, sBue_79, sBue_80, sBue_81, sBue_82, sBue_83, sBue_84, sBue_85, sBue_86, sBue_87, sBue_88, sBue_89, sBue_90, sBue_91, sBue_92, sBue_93, sBue_94, sBue_95, sBue_96, sBue_97, sBue_98, sBue_99, sBue_100]
  rw [(show min ((15 - te) / 15) (0:ℚ) = 0 from min_eq_right (by linarith)),
    (show min (0:ℚ) (0:ℚ) = 0 from min_self 0),
    (show min (0:ℚ) (1/20:ℚ) = 0 from min_eq_left (by norm_num)),
    (show min (0:ℚ) (1/10:ℚ) = 0 from min_eq_left (by norm_num)),
    (show min (0:ℚ) (3/20:ℚ) = 0 from min_eq_left (by norm_num)),
    (show min (0:ℚ) (1/5:ℚ) = 0 from min_eq_left (by norm_num)),
    (show min (0:ℚ) (1/4:ℚ) = 0 from min_eq_left (by norm_num)),
    (show min (0:ℚ) (3/10:ℚ) = 0 from min_eq_left (by norm_num)),
    (show min (0:ℚ) (7/20:ℚ) = 0 from min_eq_left (by norm_num)),
    (show min (0:ℚ) (2/5:ℚ) = 0 from min_eq_left (by norm_num)),
    (show min (0:ℚ) (9/20:ℚ) = 0 from min_eq_left (by norm_num)),
    (show min (0:ℚ) (1/2:ℚ) = 0 from min_eq_left (by norm_num)),
    (show min (0:ℚ) (11/20:ℚ) = 0 from min_eq_left (by norm_num)),
    (show min (0:ℚ) (3/5:ℚ) = 0 from min_eq_left (by norm_num)),
    (show min (0:ℚ) (13/20:ℚ) = 0 from min_eq_left (by norm_num)),
    (show min (0:ℚ) (7/10:ℚ) = 0 from min_eq_left (by norm_num)),
    (show min (0:ℚ) (3/4:ℚ) = 0 from min_eq_left (by norm_num)),
    (show min (0:ℚ) (4/5:ℚ) = 0 from min_eq_left (by norm_num)),
    (show min (0:ℚ) (17/20:ℚ) = 0 from min_eq_left (by norm_num)),
    (show min (0:ℚ) (9/10:ℚ) = 0 from min_eq_left (by norm_num)),
    (show min (0:ℚ) (19/20:ℚ) = 0 from min_eq_left (by norm_num)),
    (show min (0:ℚ) (1:ℚ) = 0 from min_eq_left (by norm_num)),
    (show min (0:ℚ) (14/15:ℚ) = 0 from min_eq_left (by norm_num)),
    (show min (0:ℚ) (13/15:ℚ) = 0 from min_eq_left (by norm_num)),
    (show min (0:ℚ) (11/15:ℚ) = 0 from min_eq_left (by norm_num)),
    (show min (0:ℚ) (2/3:ℚ) = 0 from min_eq_left (by norm_num)),
    (show min (0:ℚ) (8/15:ℚ) = 0 from min_eq_left (by norm_num)),
    (show min (0:ℚ) (7/15:ℚ) = 0 from min_eq_left (by norm_num)),
    (show min (0:ℚ) (1/3:ℚ) = 0 from min_eq_left (by norm_num)),
    (show min ((15 - te) / 15) (1/10:ℚ) = 1/10 from min_eq_right (by linarith)),
    (show min (0:ℚ) (4/15:ℚ) = 0 from min_eq_left (by norm_num)),
    (show min ((15 - te) / 15) (1/5:ℚ) = 1/5 from min_eq_right (by linarith)),
    (show min ((15 - te) / 15) (3/10:ℚ) = 3/10 from min_eq_right (by linarith)),
    (show min (0:ℚ) (2/15:ℚ) = 0 from min_eq_left (by norm_num)),
    (show min ((15 - te) / 15) (2/5:ℚ) = (15 - te) / 15 from min_eq_left (by linarith)),
    (show min (0:ℚ) (1/15:ℚ) = 0 from min_eq_left (by norm_num)),
    (show min ((15 - te) / 15) (1/2:ℚ) = (15 - te) / 15 from min_eq_left (by linarith)),
    (show min ((15 - te) / 15) (3/5:ℚ) = (15 - te) / 15 from min_eq_left (by linarith)),
    (show min ((15 - te) / 15) (7/10:ℚ) = (15 - te) / 15 from min_eq_left (by linarith)),
    (show min ((15 - te) / 15) (4/5:ℚ) = (15 - te) / 15 from min_eq_left (by linarith)),
    (show min ((15 - te) / 15) (9/10:ℚ) = (15 - te) / 15 from min_eq_left (by linarith)),
    (show min ((15 - te) / 15) (1:ℚ) = (15 - te) / 15 from min_eq_left (by linarith)),
    (show max (0:ℚ) (0:ℚ) = 0 from max_self 0),
    (show max (1/10:ℚ) (0:ℚ) = (1/10:ℚ) from max_eq_left (by norm_num)),
    (show max (1/5:ℚ) (0:ℚ) = (1/5:ℚ) from max_eq_left (by norm_num)),
    (show max (3/10:ℚ) (0:ℚ) = (3/10:ℚ) from max_eq_left (by norm_num)),
    (show max ((15 - te) / 15) (0:ℚ) = ((15 - te) / 15) from max_eq_left (by linarith))]
  simp only [List.sum_cons, List.sum_nil]
  ring

lemma monoS4 : ∀ t1 t2 : ℚ, 9 ≤ t1 → t1 ≤ t2 → t2 ≤ 10 → crispWait t2 ≤ crispWait t1 := by
  intro t1 t2 hp h12 hq
  unfold crispWait
  rw [denS4 t1 hp (by linarith), numS4 t1 hp (by linarith),
    denS4 t2 (by linarith) hq, numS4 t2 (by linarith) hq]
  exact frac_mono (3672/5) (-679/15) (38/5) (-7/15) t1 t2 h12
    (by linarith) (by linarith) (by norm_num)

lemma denS5 (te : ℚ) (hp : 10 ≤ te) (hq : te ≤ (21/2)) :
    centroidDen te 9 = -62/5 + (23/15) * te := by
  have haw : ∀ u : ℚ, aggregatedDegree te 9 u =
      max (min (tiempoBajo te) (servicioExcelente u))
          (min (tiempoMedio te) (servicioBuena u)) :=
    fun u => aggregated_wait te u (by linarith) (by linarith)
  rw [centroidDen_eq_sum, universeServicio_literal]
  simp only [List.map_cons, List.map_nil, haw,
    tiempoBajo_eq te (by linarith) (by linarith), tiempoMedio_eq te (by linarith) (by linarith),
    sExc_0, sExc_1, sExc_2, sExc_3, sExc_4, sExc_5, sExc_6, sExc_7, sExc_8, sExc_9, sExc_10, sExc_11, sExc_12, sExc_13, sExc_14, sExc_15, sExc_16, sExc_17, sExc_18, sExc_19, sExc_20, sExc_21, sExc_22, sExc_23, sExc_24, sExc_25, sExc_26, sExc_27, sExc_28, sExc_29, sExc_30, sExc_31, sExc_32, sExc_33, sExc_34, sExc_35, sExc_36, sExc_37, sExc_38, sExc_39, sExc_40, sExc_41, sExc_42, sExc_43, sExc_44, sExc_45, sExc_46, sExc_47, sExc_48, sExc_49, sExc_50, sExc_51, sExc_52, sExc_53, sExc_54, sExc_55, sExc_56, sExc_57, sExc_58, sExc_59, sExc_60, sExc_61, sExc_62, sExc_63, sExc_64, sExc_65, sExc_66, sExc_67, sExc_68, sExc_69, sExc_70, sExc_71, sExc_72, sExc_73, sExc_74, sExc_75, sExc_76, sExc_77, sExc_78, sExc_79, sExc_80, sExc_81, sExc_82, sExc_83, sExc_84, sExc_85, sExc_86, sExc_87, sExc_88, sExc_89, sExc_90, sExc_91, sExc_92, sExc_93, sExc_94, sExc_95, sExc_96, sExc_97, sExc_98, sExc_99, sExc_100,
    sBue_0, sBue_1, sBue_2, sBue_3, sBue_4, sBue_5, sBue_6, sBue_7, sBue_8, sBue_9, sBue_10, sBue_11, sBue_12, sBue_13, sBue_14, sBue_15, sBue_16, sBue_17, sBue_18, sBue_19, sBue_20, sBue_21, sBue_22, sBue_23, sBue_24, sBue_25, sBue_26, sBue_27, sBue_28, sBue_29, sBue_30, sBue_31, sBue_32, sBue_33, sBue_34, sBue_35, sBue_36, sBue_37, sBue_38, sBue_39, sBue_40, sBue_41, sBue_42, sBue_43, sBue_44, sBue_45, sBue_46, sBue_47, sBue_48, sBue_49, sBue_50, sBue_51, sBue_52, sBue_53, sBue_54, sBue_55, sBue_56, sBue_57, sBue_58, sBue_59, sBue_60, sBue_61, sBue_62, sBue_63, sBue_64, sBue_65, sBue_66, sBue_67, sBue_68, sBue_69, sBue_70, sBue_71, sBue_72, sBue_73, sBue_74, sBue_75, sBue_76, sBue_77, sBue_78, sBue_79, sBue_80, sBue_81, sBue_82, sBue_83, sBue_84, sBue_85, sBue_86, sBue_87, sBue_88, sBue_89, sBue_90, sBue_91, sBue_92, sBue_93, sBue_94, sBue_95, sBue_96, sBue_97, sBue_98, sBue_99, sBue_100]
  rw [(show min ((15 - te) / 15) (0:ℚ) = 0 from min_eq_right (by linarith)),
    (show min ((te - 10) / 15) (0:ℚ) = 0 from min_eq_right (by linarith)),
    (show min ((te - 10) / 15) (1/20:ℚ) = (te - 10) / 15 from min_eq_left (by linarith)),
    (show min ((te - 10) / 15) (1/10:ℚ) = (te - 10) / 15 from min_eq_left (by linarith)),
    (show min ((te - 10) / 15) (3/20:ℚ) = (te - 10) / 15 from min_eq_left (by linarith)),
    (show min ((te - 10) / 15) (1/5:ℚ) = (te - 10) / 15 from min_eq_left (by linarith)),
    (show min ((te - 10) / 15) (1/4:ℚ) = (te - 10) / 15 from min_eq_left (by linarith)),
    (show min ((te - 10) / 15) (3/10:ℚ) = (te - 10) / 15 from min_eq_left (by linarith)),
    (show min ((te - 10) / 15) (7/20:ℚ) = (te - 10) / 15 from min_eq_left (by linarith)),
    (show min ((te - 10) / 15) (2/5:ℚ) = (te - 10) / 15 from min_eq_left (by linarith)),
    (show min ((te - 10) / 15) (9/20:ℚ) = (te - 10) / 15 from min_eq_left (by linarith)),
    (show min ((te - 10) / 15) (1/2:ℚ) = (te - 10) / 15 from min_eq_left (by linarith)),
    (show min ((te - 10) / 15) (11/20:ℚ) = (te - 10) / 15 from min_eq_left (by linarith)),
    (show min ((te - 10) / 15) (3/5:ℚ) = (te - 10) / 15 from min_eq_left (by linarith)),
    (show min ((te - 10) / 15) (13/20:ℚ) = (te - 10) / 15 from min_eq_left (by linarith)),
    (show min ((te - 10) / 15) (7/10:ℚ) = (te - 10) / 15 from min_eq_left (by linarith)),
    (show min ((te - 10) / 15) (3/4:ℚ) = (te - 10) / 15 from min_eq_left (by linarith)),
    (show min ((te - 10) / 15) (4/5:ℚ) = (te - 10) / 15 from min_eq_left (by linarith)),
    (show min ((te - 10) / 15) (17/20:ℚ) = (te - 10) / 15 from min_eq_left (by linarith)),
    (show min ((te - 10) / 15) (9/10:ℚ) = (te - 10) / 15 from min_eq_left (by linarith)),
    (show min ((te - 10) / 15) (19/20:ℚ) = (te - 10) / 15 from min_eq_left (by linarith)),
    (show min ((te - 10) / 15) (1:ℚ) = (te - 10) / 15 from min_eq_left (by linarith)),
    (show min ((te - 10) / 15) (14/15:ℚ) = (te - 10) / 15 from min_eq_left (by linarith)),
    (show min ((te - 10) / 15) (13/15:ℚ) = (te - 10) / 15 from min_eq_left (by linarith)),
    (show min ((te - 10) / 15) (11/15:ℚ) = (te - 10) / 15 from min_eq_left (by linarith)),
    (show min ((te - 10) / 15) (2/3:ℚ) = (te - 10) / 15 from min_eq_left (by linarith)),
    (show min ((te - 10) / 15) (8/15:ℚ) = (te - 10) / 15 from min_eq_left (by linarith)),
    (show min ((te - 10) / 15) (7/15:ℚ) = (te - 10) / 15 from min_eq_left (by linarith)),
    (show min ((te - 10) / 15) (1/3:ℚ) = (te - 10) / 15 from min_eq_left (by linarith)),
    (show min ((15 - te) / 15) (1/10:ℚ) = 1/10 from min_eq_right (by linarith)),
    (show min ((te - 10) / 15) (4/15:ℚ) = (te - 10) / 15 from min_eq_left (by linarith)),
    (show min ((15 - te) / 15) (1/5:ℚ) = 1/5 from min_eq_right (by linarith)),
    (show min ((15 - te) / 15) (3/10:ℚ) = 3/10 from min_eq_right (by linarith)),
    (show min ((te - 10) / 15) (2/15:ℚ) = (te - 10) / 15 from min_eq_left (by linarith)),
    (show min ((15 - te) / 15) (2/5:ℚ) = (15 - te) / 15 from min_eq_left (by linarith)),
    (show min ((te - 10) / 15) (1/15:ℚ) = (te - 10) / 15 from min_eq_left (by linarith)),
    (show min ((15 - te) / 15) (1/2:ℚ) = (15 - te) / 15 from min_eq_left (by linarith)),
    (show min ((15 - te) / 15) (3/5:ℚ) = (15 - te) / 15 from min_eq_left (by linarith)),
    (show min ((15 - te) / 15) (7/10:ℚ) = (15 - te) / 15 from min_eq_left (by linarith)),
    (show min ((15 - te) / 15) (4/5:ℚ) = (15 - te) / 15 from min_eq_left (by linarith)),
    (show min ((15 - te) / 15) (9/10:ℚ) = (15 - te) / 15 from min_eq_left (by linarith)),
    (show min ((15 - te) / 15) (1:ℚ) = (15 - te) / 15 from min_eq_left (by linarith)),
    (show max (0:ℚ) (0:ℚ) = 0 from max_self 0),
    (show max (0:ℚ) ((te - 10) / 15) = ((te - 10) / 15) from max_eq_right (by linarith)),
    (show max (1/10:ℚ) ((te - 10) / 15) = (1/10:ℚ) from max_eq_left (by linarith)),
    (show max (1/5:ℚ) ((te - 10) / 15) = (1/5:ℚ) from max_eq_left (by linarith)),
    (show max (3/10:ℚ) ((te - 10) / 15) = (3/10:ℚ) from max_eq_left (by linarith)),
    (show max ((15 - te) / 15) ((te - 10) / 15) = ((15 - te) / 15) from max_eq_left (by linarith)),
    (show max ((15 - te) / 15) (0:ℚ) = ((15 - te) / 15) from max_eq_left (by linarith))]
  simp only [List.sum_cons, List.sum_nil]
  ring

lemma numS5 (te : ℚ) (hp : 10 ≤ te) (hq : te ≤ (21/2)) :
    centroidNum te 9 = -3878/5 + (1586/15) * te := by
  have haw : ∀ u : ℚ, aggregatedDegree te 9 u =
      max (min (tiempoBajo te) (servicioExcelente u))
          (min (tiempoMedio te) (servicioBuena u)) :=
    fun u => aggregated_wait te u (by linarith) (by linarith)
  rw [centroidNum_eq_sum, universeServicio_literal]
  simp only [List.map_cons, List.map_nil, haw,
    tiempoBajo_eq te (by linarith) (by linarith), tiempoMedio_eq te (by linarith) (by linarith),
    sExc_0, sExc_1, sExc_2, sExc_3, sExc_4, sExc_5, sExc_6, sExc_7, sExc_8, sExc_9, sExc_10, sExc_11, sExc_12, sExc_13, sExc_14, sExc_15, sExc_16, sExc_17, sExc_18, sExc_19, sExc_20, sExc_21, sExc_22, sExc_23, sExc_24, sExc_25, sExc_26, sExc_27, sExc_28, sExc_29, sExc_30, sExc_31, sExc_32, sExc_33, sExc_34, sExc_35, sExc_36, sExc_37, sExc_38, sExc_39, sExc_40, sExc_41, sExc_42, sExc_43, sExc_44, sExc_45, sExc_46, sExc_47, sExc_48, sExc_49, sExc_50, sExc_51, sExc_52, sExc_53, sExc_54, sExc_55, sExc_56, sExc_57, sExc_58, sExc_59, sExc_60, sExc_61, sExc_62, sExc_63, sExc_64, sExc_65, sExc_66, sExc_67, sExc_68, sExc_69, sExc_70, sExc_71, sExc_72, sExc_73, sExc_74, sExc_75, sExc_76, sExc_77, sExc_78, sExc_79, sExc_80, sExc_81, sExc_82, sExc_83, sExc_84, sExc_85, sExc_86, sExc_87, sExc_88, sExc_89, sExc_90, sExc_91, sExc_92, sExc_93, sExc_94, sExc_95, sExc_96, sExc_97, sExc_98, sExc_99, sExc_100,
    sBue_0, sBue_1, sBue_2, sBue_3, sBue_4, sBue_5, sBue_6, sBue_7, sBue_8, sBue_9, sBue_10, sBue_11, sBue_12, sBue_13, sBue_14, sBue_15, sBue_16, sBue_17, sBue_18, sBue_19, sBue_20, sBue_21, sBue_22, sBue_23, sBue_24, sBue_25, sBue_26, sBue_27, sBue_28, sBue_29, sBue_30, sBue_31, sBue_32, sBue_33, sBue_34, sBue_35, sBue_36, sBue_37, sBue_38, sBue_39, sBue_40, sBue_41, sBue_42, sBue_43, sBue_44, sBue_45, sBue_46, sBue_47, sBue_48, sBue_49, sBue_50, sBue_51, sBue_52, sBue_53, sBue_54, sBue_55, sBue_56, sBue_57, sBue_58, sBue_59, sBue_60, sBue_61, sBue_62, sBue_63, sBue_64, sBue_65, sBue_66, sBue_67, sBue_68, sBue_69, sBue_70, sBue_71, sBue_72, sBue_73, sBue_74, sBue_75, sBue_76, sBue_77, sBue_78, sBue_79, sBue_80, sBue_81, sBue_82, sBue_83, sBue_84, sBue_85, sBue_86, sBue_87, sBue_88, sBue_89, sBue_90, sBue_91, sBue_92, sBue_93, sBue_94, sBue_95, sBue_96, sBue_97, sBue_98, sBue_99, sBue_100]
  rw [(show min ((15 - te) / 15) (0:ℚ) = 0 from min_eq_right (by linarith)),
    (show min ((te - 10) / 15) (0:ℚ) = 0 from min_eq_right (by linarith)),
    (show min ((te - 10) / 15) (1/20:ℚ) = (te - 10) / 15 from min_eq_left (by linarith)),
    (show min ((te - 10) / 15) (1/10:ℚ) = (te - 10) / 15 from min_eq_left (by linarith)),
    (show min ((te - 10) / 15) (3/20:ℚ) = (te - 10) / 15 from min_eq_left (by linarith)),
    (show min ((te - 10) / 15) (1/5:ℚ) = (te - 10) / 15 from min_eq_left (by linarith)),
    (show min ((te - 10) / 15) (1/4:ℚ) = (te - 10) / 15 from min_eq_left (by linarith)),
    (show min ((te - 10) / 15) (3/10:ℚ) = (te - 10) / 15 from min_eq_left (by linarith)),
    (show min ((te - 10) / 15) (7/20:ℚ) = (te - 10) / 15 from min_eq_left (by linarith)),
    (show min ((te - 10) / 15) (2/5:ℚ) = (te - 10) / 15 from min_eq_left (by linarith)),
    (show min ((te - 10) / 15) (9/20:ℚ) = (te - 10) / 15 from min_eq_left (by linarith)),
    (show min ((te - 10) / 15) (1/2:ℚ) = (te - 10) / 15 from min_eq_left (by linarith)),
    (show min ((te - 10) / 15) (11/20:ℚ) = (te - 10) / 15 from min_eq_left (by linarith)),
    (show min ((te - 10) / 15) (3/5:ℚ) = (te - 10) / 15 from min_eq_left (by linarith)),
    (show min ((te - 10) / 15) (13/20:ℚ) = (te - 10) / 15 from min_eq_left (by linarith)),
    (show min ((te - 10) / 15) (7/10:ℚ) = (te - 10) / 15 from min_eq_left (by linarith)),
    (show min ((te - 10) / 15) (3/4:ℚ) = (te - 10) / 15 from min_eq_left (by linarith)),
    (show min ((te - 10) / 15) (4/5:ℚ) = (te - 10) / 15 from min_eq_left (by linarith)),
    (show min ((te - 10) / 15) (17/20:ℚ) = (te - 10) / 15 from min_eq_left (by linarith)),
    (show min ((te - 10) / 15) (9/10:ℚ) = (te - 10) / 15 from min_eq_left (by linarith)),
    (show min ((te - 10) / 15) (19/20:ℚ) = (te - 10) / 15 from min_eq_left (by linarith)),
    (show min ((te - 10) / 15) (1:ℚ) = (te - 10) / 15 from min_eq_left (by linarith)),
    (show min ((te - 10) / 15) (14/15:ℚ) = (te - 10) / 15 from min_eq_left (by linarith)),
    (show min ((te - 10) / 15) (13/15:ℚ) = (te - 10) / 15 from min_eq_left (by linarith)),
    (show min ((te - 10) / 15) (11/15:ℚ) = (te - 10) / 15 from min_eq_left (by linarith)),
    (show min ((te - 10) / 15) (2/3:ℚ) = (te - 10) / 15 from min_eq_left (by linarith)),
    (show min ((te - 10) / 15) (8/15:ℚ) = (te - 10) / 15 from min_eq_left (by linarith)),
    (show min ((te - 10) / 15) (7/15:ℚ) = (te - 10) / 15 from min_eq_left (by linarith)),
    (show min ((te - 10) / 15) (1/3:ℚ) = (te - 10) / 15 from min_eq_left (by linarith)),
    (show min ((15 - te) / 15) (1/10:ℚ) = 1/10 from min_eq_right (by linarith)),
    (show min ((te - 10) / 15) (4/15:ℚ) = (te - 10) / 15 from min_eq_left (by linarith)),
    (show min ((15 - te) / 15) (1/5:ℚ) = 1/5 from min_eq_right (by linarith)),
    (show min ((15 - te) / 15) (3/10:ℚ) = 3/10 from min_eq_right (by linarith)),
    (show min ((te - 10) / 15) (2/15:ℚ) = (te - 10) / 15 from min_eq_left (by linarith)),
    (show min ((15 - te) / 15) (2/5:ℚ) = (15 - te) / 15 from min_eq_left (by linarith)),
    (show min ((te - 10) / 15) (1/15:ℚ) = (te - 10) / 15 from min_eq_left (by linarith)),
    (show min ((15 - te) / 15) (1/2:ℚ) = (15 - te) / 15 from min_eq_left (by linarith)),
    (show min ((15 - te) / 15) (3/5:ℚ) = (15 - te) / 15 from min_eq_left (by linarith)),
    (show min ((15 - te) / 15) (7/10:ℚ) = (15 - te) / 15 from min_eq_left (by linarith)),
    (show min ((15 - te) / 15) (4/5:ℚ) = (15 - te) / 15 from min_eq_left (by linarith)),
    (show min ((15 - te) / 15) (9/10:ℚ) = (15 - te) / 15 from min_eq_left (by linarith)),
    (show min ((15 - te) / 15) (1:ℚ) = (15 - te) / 15 from min_eq_left (by linarith)),
    (show max (0:ℚ) (0:ℚ) = 0 from max_self 0),
    (show max (0:ℚ) ((te - 10) / 15) = ((te - 10) / 15) from max_eq_right (by linarith)),
    (show max (1/10:ℚ) ((te - 10) / 15) = (1/10:ℚ) from max_eq_left (by linarith)),
    (show max (1/5:ℚ) ((te - 10) / 15) = (1/5:ℚ) from max_eq_left (by linarith)),
    (show max (3/10:ℚ) ((te - 10) / 15) = (3/10:ℚ) from max_eq_left (by linarith)),
    (show max ((15 - te) / 15) ((te - 10) / 15) = ((15 - te) / 15) from max_eq_left (by linarith)),
    (show max ((15 - te) / 15) (0:ℚ) = ((15 - te) / 15) from max_eq_left (by linarith))]
  simp only [List.sum_cons, List.sum_nil]
  ring

lemma monoS5 : ∀ t1 t2 : ℚ, 10 ≤ t1 → t1 ≤ t2 → t2 ≤ (21/2) → crispWait t2 ≤ crispWait t1 := by
  intro t1 t2 hp h12 hq
  unfold crispWait
  rw [denS5 t1 hp (by linarith), numS5 t1 hp (by linarith),
    denS5 t2 (by linarith) hq, numS5 t2 (by linarith) hq]
  exact frac_mono (-3878/5) (1586/15) (-62/5) (23/15) t1 t2 h12
    (by linarith) (by linarith) (by norm_num)

lemma denS6 (te : ℚ) (hp : (21/2) ≤ te) (hq : te ≤ (43/4)) :
    centroidDen te 9 = -117/10 + (22/15) * te := by
  have haw : ∀ u : ℚ, aggregatedDegree te 9 u =
      max (min (tiempoBajo te) (servicioExcelente u))
          (min (tiempoMedio te) (servicioBuena u)) :=
    fun u => aggregated_wait te u (by linarith) (by linarith)
  rw [centroidDen_eq_sum, universeServicio_literal]
  simp only [List.map_cons, List.map_nil, haw,
    tiempoBajo_eq te (by linarith) (by linarith), tiempoMedio_eq te (by linarith) (by linarith),
    sExc_0, sExc_1, sExc_2, sExc_3, sExc_4, sExc_5, sExc_6, sExc_7, sExc_8, sExc_9, sExc_10, sExc_11, sExc_12, sExc_13, sExc_14, sExc_15, sExc_16, sExc_17, sExc_18, sExc_19, sExc_20, sExc_21, sExc_22, sExc_23, sExc_24, sExc_25, sExc_26, sExc_27, sExc_28, sExc_29, sExc_30, sExc_31, sExc_32, sExc_33, sExc_34, sExc_35, sExc_36, sExc_37, sExc_38, sExc_39, sExc_40, sExc_41, sExc_42, sExc_43, sExc_44, sExc_45, sExc_46, sExc_47, sExc_48, sExc_49, sExc_50, sExc_51, sExc_52, sExc_53, sExc_54, sExc_55, sExc_56, sExc_57, sExc_58, sExc_59, sExc_60, sExc_61, sExc_62, sExc_63, sExc_64, sExc_65, sExc_66, sExc_67, sExc_68, sExc_69, sExc_70, sExc_71, sExc_72, sExc_73, sExc_74, sExc_75, sExc_76, sExc_77, sExc_78, sExc_79, sExc_80, sExc_81, sExc_82, sExc_83, sExc_84, sExc_85, sExc_86, sExc_87, sExc_88, sExc_89, sExc_90, sExc_91, sExc_92, sExc_93, sExc_94, sExc_95, sExc_96, sExc_97, sExc_98, sExc_99, sExc_100,
    sBue_0, sBue_1, sBue_2, sBue_3, sBue_4, sBue_5, sBue_6, sBue_7, sBue_8, sBue_9, sBue_10, sBue_11, sBue_12, sBue_13, sBue_14, sBue_15, sBue_16, sBue_17, sBue_18, sBue_19, sBue_20, sBue_21, sBue_22, sBue_23, sBue_24, sBue_25, sBue_26, sBue_27, sBue_28, sBue_29, sBue_30, sBue_31, sBue_32, sBue_33, sBue_34, sBue_35, sBue_36, sBue_37, sBue_38, sBue_39, sBue_40, sBue_41, sBue_42, sBue_43, sBue_44, sBue_45, sBue_46, sBue_47, sBue_48, sBue_49, sBue_50, sBue_51, sBue_52, sBue_53, sBue_54, sBue_55, sBue_56, sBue_57, sBue_58, sBue_59, sBue_60, sBue_61, sBue_62, sBue_63, sBue_64, sBue_65, sBue_66, sBue_67, sBue_68, sBue_69, sBue_70, sBue_71, sBue_72, sBue_73, sBue_74, sBue_75, sBue_76, sBue_77, sBue_78, sBue_79, sBue_80, sBue_81, sBue_82, sBue_83, sBue_84, sBue_85, sBue_86, sBue_87, sBue_88, sBue_89, sBue_90, sBue_91, sBue_92, sBue_93, sBue_94, sBue_95, sBue_96, sBue_97, sBue_98, sBue_99, sBue_100]
  rw [(show min ((15 - te) / 15) (0:ℚ) = 0 from min_eq_right (by linarith)),
    (show min ((te - 10) / 15) (0:ℚ) = 0 from min_eq_right (by linarith)),
    (show min ((te - 10) / 15) (1/20:ℚ) = (te - 10) / 15 from min_eq_left (by linarith)),
    (show min ((te - 10) / 15) (1/10:ℚ) = (te - 10) / 15 from min_eq_left (by linarith)),
    (show min ((te - 10) / 15) (3/20:ℚ) = (te - 10) / 15 from min_eq_left (by linarith)),
    (show min ((te - 10) / 15) (1/5:ℚ) = (te - 10) / 15 from min_eq_left (by linarith)),
    (show min ((te - 10) / 15) (1/4:ℚ) = (te - 10) / 15 from min_eq_left (by linarith)),
    (show min ((te - 10) / 15) (3/10:ℚ) = (te - 10) / 15 from min_eq_left (by linarith)),
    (show min ((te - 10) / 15) (7/20:ℚ) = (te - 10) / 15 from min_eq_left (by linarith)),
    (show min ((te - 10) / 15) (2/5:ℚ) = (te - 10) / 15 from min_eq_left (by linarith)),
    (show min ((te - 10) / 15) (9/20:ℚ) = (te - 10) / 15 from min_eq_left (by linarith)),
    (show min ((te - 10) / 15) (1/2:ℚ) = (te - 10) / 15 from min_eq_left (by linarith)),
    (show min ((te - 10) / 15) (11/20:ℚ) = (te - 10) / 15 from min_eq_left (by linarith)),
    (show min ((te - 10) / 15) (3/5:ℚ) = (te - 10) / 15 from min_eq_left (by linarith)),
    (show min ((te - 10) / 15) (13/20:ℚ) = (te - 10) / 15 from min_eq_left (by linarith)),
    (show min ((te - 10) / 15) (7/10:ℚ) = (te - 10) / 15 from min_eq_left (by linarith)),
    (show min ((te - 10) / 15) (3/4:ℚ) = (te - 10) / 15 from min_eq_left (by linarith)),
    (show min ((te - 10) / 15) (4/5:ℚ) = (te - 10) / 15 from min_eq_left (by linarith)),
    (show min ((te - 10) / 15) (17/20:ℚ) = (te - 10) / 15 from min_eq_left (by linarith)),
    (show min ((te - 10) / 15) (9/10:ℚ) = (te - 10) / 15 from min_eq_left (by linarith)),
    (show min ((te - 10) / 15) (19/20:ℚ) = (te - 10) / 15 from min_eq_left (by linarith)),
    (show min ((te - 10) / 15) (1:ℚ) = (te - 10) / 15 from min_eq_left (by linarith)),
    (show min ((te - 10) / 15) (14/15:ℚ) = (te - 10) / 15 from min_eq_left (by linarith)),
    (show min ((te - 10) / 15) (13/15:ℚ) = (te - 10) / 15 from min_eq_left (by linarith)),
    (show min ((te - 10) / 15) (11/15:ℚ) = (te - 10) / 15 from min_eq_left (by linarith)),
    (show min ((te - 10) / 15) (2/3:ℚ) = (te - 10) / 15 from min_eq_left (by linarith)),
    (show min ((te - 10) / 15) (8/15:ℚ) = (te - 10) / 15 from min_eq_left (by linarith)),
    (show min ((te - 10) / 15) (7/15:ℚ) = (te - 10) / 15 from min_eq_left (by linarith)),
    (show min ((te - 10) / 15) (1/3:ℚ) = (te - 10) / 15 from min_eq_left (by linarith)),
    (show min ((15 - te) / 15) (1/10:ℚ) = 1/10 from min_eq_right (by linarith)),
    (show min ((te - 10) / 15) (4/15:ℚ) = (te - 10) / 15 from min_eq_left (by linarith)),
    (show min ((15 - te) / 15) (1/5:ℚ) = 1/5 from min_eq_right (by linarith)),
    (show min ((15 - te) / 15) (3/10:ℚ) = (15 - te) / 15 from min_eq_left (by linarith)),
    (show min ((te - 10) / 15) (2/15:ℚ) = (te - 10) / 15 from min_eq_left (by linarith)),
    (show min ((15 - te) / 15) (2/5:ℚ) = (15 - te) / 15 from min_eq_left (by linarith)),
    (show min ((te - 10) / 15) (1/15:ℚ) = (te - 10) / 15 from min_eq_left (by linarith)),
    (show min ((15 - te) / 15) (1/2:ℚ) = (15 - te) / 15 from min_eq_left (by linarith)),
    (show min ((15 - te) / 15) (3/5:ℚ) = (15 - te) / 15 from min_eq_left (by linarith)),
    (show min ((15 - te) / 15) (7/10:ℚ) = (15 - te) / 15 from min_eq_left (by linarith)),
    (show min ((15 - te) / 15) (4/5:ℚ) = (15 - te) / 15 from min_eq_left (by linarith)),
    (show min ((15 - te) / 15) (9/10:ℚ) = (15 - te) / 15 from min_eq_left (by linarith)),
    (show min ((15 - te) / 15) (1:ℚ) = (15 - te) / 15 from min_eq_left (by linarith)),
    (show max (0:ℚ) (0:ℚ) = 0 from max_self 0),
    (show max (0:ℚ) ((te - 10) / 15) = ((te - 10) / 15) from max_eq_right (by linarith)),
    (show max (1/10:ℚ) ((te - 10) / 15) = (1/10:ℚ) from max_eq_left (by linarith)),
    (show max (1/5:ℚ) ((te - 10) / 15) = (1/5:ℚ) from max_eq_left (by linarith)),
    (show max ((15 - te) / 15) ((te - 10) / 15) = ((15 - te) / 15) from max_eq_left (by linarith)),
    (show max ((15 - te) / 15) (0:ℚ) = ((15 - te) / 15) from max_eq_left (by linarith))]
  simp only [List.sum_cons, List.sum_nil]
  ring

lemma numS6 (te : ℚ) (hp : (21/2) ≤ te) (hq : te ≤ (43/4)) :
    centroidNum te 9 = -1421/2 + (1493/15) * te := by
  have haw : ∀ u : ℚ, aggregatedDegree te 9 u =
      max (min (tiempoBajo te) (servicioExcelente u))
          (min (tiempoMedio te) (servicioBuena u)) :=
    fun u => aggregated_wait te u (by linarith) (by linarith)
  rw [centroidNum_eq_sum, universeServicio_literal]
  simp only [List.map_cons, List.map_nil, haw,
    tiempoBajo_eq te (by linarith) (by linarith), tiempoMedio_eq te (by linarith) (by linarith),
    sExc_0, sExc_1, sExc_2, sExc_3, sExc_4, sExc_5, sExc_6, sExc_7, sExc_8, sExc_9, sExc_10, sExc_11, sExc_12, sExc_13, sExc_14, sExc_15, sExc_16, sExc_17, sExc_18, sExc_19, sExc_20, sExc_21, sExc_22, sExc_23, sExc_24, sExc_25, sExc_26, sExc_27, sExc_28, sExc_29, sExc_30, sExc_31, sExc_32, sExc_33, sExc_34, sExc_35, sExc_36, sExc_37, sExc_38, sExc_39, sExc_40, sExc_41, sExc_42, sExc_43, sExc_44, sExc_45, sExc_46, sExc_47, sExc_48, sExc_49, sExc_50, sExc_51, sExc_52, sExc_53, sExc_54, sExc_55, sExc_56, sExc_57, sExc_58, sExc_59, sExc_60, sExc_61, sExc_62, sExc_63, sExc_64, sExc_65, sExc_66, sExc_67, sExc_68, sExc_69, sExc_70, sExc_71, sExc_72, sExc_73, sExc_74, sExc_75, sExc_76, sExc_77, sExc_78, sExc_79, sExc_80, sExc_81, sExc_82, sExc_83, sExc_84, sExc_85, sExc_86, sExc_87, sExc_88, sExc_89, sExc_90, sExc_91, sExc_92, sExc_93, sExc_94, sExc_95, sExc_96, sExc_97, sExc_98, sExc_99, sExc_100,
    sBue_0, sBue_1, sBue_2, sBue_3, sBue_4, sBue_5, sBue_6, sBue_7, sBue_8, sBue_9, sBue_10, sBue_11, sBue_12, sBue_13, sBue_14, sBue_15, sBue_16, sBue_17, sBue_18, sBue_19, sBue_20, sBue_21, sBue_22, sBue_23, sBue_24, sBue_25, sBue_26, sBue_27, sBue_28, sBue_29, sBue_30, sBue_31, sBue_32, sBue_33, sBue_34, sBue_35, sBue_36, sBue_37, sBue_38, sBue_39, sBue_40, sBue_41, sBue_42, sBue_43, sBue_44, sBue_45, sBue_46, sBue_47, sBue_48, sBue_49, sBue_50, sBue_51, sBue_52, sBue_53, sBue_54, sBue_55, sBue_56, sBue_57, sBue_58, sBue_59, sBue_60, sBue_61, sBue_62, sBue_63, sBue_64, sBue_65, sBue_66, sBue_67, sBue_68, sBue_69, sBue_70, sBue_71, sBue_72, sBue_73, sBue_74, sBue_75, sBue_76, sBue_77, sBue_78, sBue_79, sBue_80, sBue_81, sBue_82, sBue_83, sBue_84, sBue_85, sBue_86, sBue_87, sBue_88, sBue_89, sBue_90, sBue_91, sBue_92, sBue_93, sBue_94, sBue_95, sBue_96, sBue_97, sBue_98, sBue_99, sBue_100]
  rw [(show min ((15 - te) / 15) (0:ℚ) = 0 from min_eq_right (by linarith)),
    (show min ((te - 10) / 15) (0:ℚ) = 0 from min_eq_right (by linarith)),
    (show min ((te - 10) / 15) (1/20:ℚ) = (te - 10) / 15 from min_eq_left (by linarith)),
    (show min ((te - 10) / 15) (1/10:ℚ) = (te - 10) / 15 from min_eq_left (by linarith)),
    (show min ((te - 10) / 15) (3/20:ℚ) = (te - 10) / 15 from min_eq_left (by linarith)),
    (show min ((te - 10) / 15) (1/5:ℚ) = (te - 10) / 15 from min_eq_left (by linarith)),
    (show min ((te - 10) / 15) (1/4:ℚ) = (te - 10) / 15 from min_eq_left (by linarith)),
    (show min ((te - 10) / 15) (3/10:ℚ) = (te - 10) / 15 from min_eq_left (by linarith)),
    (show min ((te - 10) / 15) (7/20:ℚ) = (te - 10) / 15 from min_eq_left (by linarith)),
    (show min ((te - 10) / 15) (2/5:ℚ) = (te - 10) / 15 from min_eq_left (by linarith)),
    (show min ((te - 10) / 15) (9/20:ℚ) = (te - 10) / 15 from min_eq_left (by linarith)),
    (show min ((te - 10) / 15) (1/2:ℚ) = (te - 10) / 15 from min_eq_left (by linarith)),
    (show min ((te - 10) / 15) (11/20:ℚ) = (te - 10) / 15 from min_eq_left (by linarith)),
    (show min ((te - 10) / 15) (3/5:ℚ) = (te - 10) / 15 from min_eq_left (by linarith)),
    (show min ((te - 10) / 15) (13/20:ℚ) = (te - 10) / 15 from min_eq_left (by linarith)),
    (show min ((te - 10) / 15) (7/10:ℚ) = (te - 10) / 15 from min_eq_left (by linarith)),
    (show min ((te - 10) / 15) (3/4:ℚ) = (te - 10) / 15 from min_eq_left (by linarith)),
    (show min ((te - 10) / 15) (4/5:ℚ) = (te - 10) / 15 from min_eq_left (by linarith)),
    (show min ((te - 10) / 15) (17/20:ℚ) = (te - 10) / 15 from min_eq_left (by linarith)),
    (show min ((te - 10) / 15) (9/10:ℚ) = (te - 10) / 15 from min_eq_left (by linarith)),
    (show min ((te - 10) / 15) (19/20:ℚ) = (te - 10) / 15 from min_eq_left (by linarith)),
    (show min ((te - 10) / 15) (1:ℚ) = (te - 10) / 15 from min_eq_left (by linarith)),
    (show min ((te - 10) / 15) (14/15:ℚ) = (te - 10) / 15 from min_eq_left (by linarith)),
    (show min ((te - 10) / 15) (13/15:ℚ) = (te - 10) / 15 from min_eq_left (by linarith)),
    (show min ((te - 10) / 15) (11/15:ℚ) = (te - 10) / 15 from min_eq_left (by linarith)),
    (show min ((te - 10) / 15) (2/3:ℚ) = (te - 10) / 15 from min_eq_left (by linarith)),
    (show min ((te - 10) / 15) (8/15:ℚ) = (te - 10) / 15 from min_eq_left (by linarith)),
    (show min ((te - 10) / 15) (7/15:ℚ) = (te - 10) / 15 from min_eq_left (by linarith)),
    (show min ((te - 10) / 15) (1/3:ℚ) = (te - 10) / 15 from min_eq_left (by linarith)),
    (show min ((15 - te) / 15) (1/10:ℚ) = 1/10 from min_eq_right (by linarith)),
    (show min ((te - 10) / 15) (4/15:ℚ) = (te - 10) / 15 from min_eq_left (by linarith)),
    (show min ((15 - te) / 15) (1/5:ℚ) = 1/5 from min_eq_right (by linarith)),
    (show min ((15 - te) / 15) (3/10:ℚ) = (15 - te) / 15 from min_eq_left (by linarith)),
    (show min ((te - 10) / 15) (2/15:ℚ) = (te - 10) / 15 from min_eq_left (by linarith)),
    (show min ((15 - te) / 15) (2/5:ℚ) = (15 - te) / 15 from min_eq_left (by linarith)),
    (show min ((te - 10) / 15) (1/15:ℚ) = (te - 10) / 15 from min_eq_left (by linarith)),
    (show min ((15 - te) / 15) (1/2:ℚ) = (15 - te) / 15 from min_eq_left (by linarith)),
    (show min ((15 - te) / 15) (3/5:ℚ) = (15 - te) / 15 from min_eq_left (by linarith)),
    (show min ((15 - te) / 15) (7/10:ℚ) = (15 - te) / 15 from min_eq_left (by linarith)),
    (show min ((15 - te) / 15) (4/5:ℚ) = (15 - te) / 15 from min_eq_left (by linarith)),
    (show min ((15 - te) / 15) (9/10:ℚ) = (15 - te) / 15 from min_eq_left (by linarith)),
    (show min ((15 - te) / 15) (1:ℚ) = (15 - te) / 15 from min_eq_left (by linarith)),
    (show max (0:ℚ) (0:ℚ) = 0 from max_self 0),
    (show max (0:ℚ) ((te - 10) / 15) = ((te - 10) / 15) from max_eq_right (by linarith)),
    (show max (1/10:ℚ) ((te - 10) / 15) = (1/10:ℚ) from max_eq_left (by linarith)),
    (show max (1/5:ℚ) ((te - 10) / 15) = (1/5:ℚ) from max_eq_left (by linarith)),
    (show max ((15 - te) / 15) ((te - 10) / 15) = ((15 - te) / 15) from max_eq_left (by linarith)),
    (show max ((15 - te) / 15) (0:ℚ) = ((15 - te) / 15) from max_eq_left (by linarith))]
  simp only [List.sum_cons, List.sum_nil]
  ring

lemma monoS6 : ∀ t1 t2 : ℚ, (21/2) ≤ t1 → t1 ≤ t2 → t2 ≤ (43/4) → crispWait t2 ≤ crispWait t1 := by
  intro t1 t2 hp h12 hq
  unfold crispWait
  rw [denS6 t1 hp (by linarith), numS6 t1 hp (by linarith),
    denS6 t2 (by linarith) hq, numS6 t2 (by linarith) hq]
  exact frac_mono (-1421/2) (1493/15) (-117/10) (22/15) t1 t2 h12
    (by linarith) (by linarith) (by norm_num)

lemma denS7 (te : ℚ) (hp : (43/4) ≤ te) (hq : te ≤ 11) :
    centroidDen te 9 = -659/60 + (7/5) * te := by
  have haw : ∀ u : ℚ, aggregatedDegree te 9 u =
      max (min (tiempoBajo te) (servicioExcelente u))
          (min (tiempoMedio te) (servicioBuena u)) :=
    fun u => aggregated_wait te u (by linarith) (by linarith)
  rw [centroidDen_eq_sum, universeServicio_literal]
  simp only [List.map_cons, List.map_nil, haw,
    tiempoBajo_eq te (by linarith) (by linarith), tiempoMedio_eq te (by linarith) (by linarith),
    sExc_0, sExc_1, sExc_2, sExc_3, sExc_4, sExc_5, sExc_6, sExc_7, sExc_8, sExc_9, sExc_10, sExc_11, sExc_12, sExc_13, sExc_14, sExc_15, sExc_16, sExc_17, sExc_18, sExc_19, sExc_20, sExc_21, sExc_22, sExc_23, sExc_24, sExc_25, sExc_26, sExc_27, sExc_28, sExc_29, sExc_30, sExc_31, sExc_32, sExc_33, sExc_34, sExc_35, sExc_36, sExc_37, sExc_38, sExc_39, sExc_40, sExc_41, sExc_42, sExc_43, sExc_44, sExc_45, sExc_46, sExc_47, sExc_48, sExc_49, sExc_50, sExc_51, sExc_52, sExc_53, sExc_54, sExc_55, sExc_56, sExc_57, sExc_58, sExc_59, sExc_60, sExc_61, sExc_62, sExc_63, sExc_64, sExc_65, sExc_66, sExc_67, sExc_68, sExc_69, sExc_70, sExc_71, sExc_72, sExc_73, sExc_74, sExc_75, sExc_76, sExc_77, sExc_78, sExc_79, sExc_80, sExc_81, sExc_82, sExc_83, sExc_84, sExc_85, sExc_86, sExc_87, sExc_88, sExc_89, sExc_90, sExc_91, sExc_92, sExc_93, sExc_94, sExc_95, sExc_96, sExc_97, sExc_98, sExc_99, sExc_100,
    sBue_0, sBue_1, sBue_2, sBue_3, sBue_4, sBue_5, sBue_6, sBue_7, sBue_8, sBue_9, sBue_10, sBue_11, sBue_12, sBue_13, sBue_14, sBue_15, sBue_16, sBue_17, sBue_18, sBue_19, sBue_20, sBue_21, sBue_22, sBue_23, sBue_24, sBue_25, sBue_26, sBue_27, sBue_28, sBue_29, sBue_30, sBue_31, sBue_32, sBue_33, sBue_34, sBue_35, sBue_36, sBue_37, sBue_38, sBue_39, sBue_40, sBue_41, sBue_42, sBue_43, sBue_44, sBue_45, sBue_46, sBue_47, sBue_48, sBue_49, sBue_50, sBue_51, sBue_52, sBue_53, sBue_54, sBue_55, sBue_56, sBue_57, sBue_58, sBue_59, sBue_60, sBue_61, sBue_62, sBue_63, sBue_64, sBue_65, sBue_66, sBue_67, sBue_68, sBue_69, sBue_70, sBue_71, sBue_72, sBue_73, sBue_74, sBue_75, sBue_76, sBue_77, sBue_78, sBue_79, sBue_80, sBue_81, sBue_82, sBue_83, sBue_84, sBue_85, sBue_86, sBue_87, sBue_88, sBue_89, sBue_90, sBue_91, sBue_92, sBue_93, sBue_94, sBue_95, sBue_96, sBue_97, sBue_98, sBue_99, sBue_100]
  rw [(show min ((15 - te) / 15) (0:ℚ) = 0 from min_eq_right (by linarith)),
    (show min ((te - 10) / 15) (0:ℚ) = 0 from min_eq_right (by linarith)),
    (show min ((te - 10) / 15) (1/20:ℚ) = 1/20 from min_eq_right (by linarith)),
    (show min ((te - 10) / 15) (1/10:ℚ) = (te - 10) / 15 from min_eq_left (by linarith)),
    (show min ((te - 10) / 15) (3/20:ℚ) = (te - 10) / 15 from min_eq_left (by linarith)),
    (show min ((te - 10) / 15) (1/5:ℚ) = (te - 10) / 15 from min_eq_left (by linarith)),
    (show min ((te - 10) / 15) (1/4:ℚ) = (te - 10) / 15 from min_eq_left (by linarith)),
    (show min ((te - 10) / 15) (3/10:ℚ) = (te - 10) / 15 from min_eq_left (by linarith)),
    (show min ((te - 10) / 15) (7/20:ℚ) = (te - 10) / 15 from min_eq_left (by linarith)),
    (show min ((te - 10) / 15) (2/5:ℚ) = (te - 10) / 15 from min_eq_left (by linarith)),
    (show min ((te - 10) / 15) (9/20:ℚ) = (te - 10) / 15 from min_eq_left (by linarith)),
    (show min ((te - 10) / 15) (1/2:ℚ) = (te - 10) / 15 from min_eq_left (by linarith)),
    (show min ((te - 10) / 15) (11/20:ℚ) = (te - 10) / 15 from min_eq_left (by linarith)),
    (show min ((te - 10) / 15) (3/5:ℚ) = (te - 10) / 15 from min_eq_left (by linarith)),
    (show min ((te - 10) / 15) (13/20:ℚ) = (te - 10) / 15 from min_eq_left (by linarith)),
    (show min ((te - 10) / 15) (7/10:ℚ) = (te - 10) / 15 from min_eq_left (by linarith)),
    (show min ((te - 10) / 15) (3/4:ℚ) = (te - 10) / 15 from min_eq_left (by linarith)),
    (show min ((te - 10) / 15) (4/5:ℚ) = (te - 10) / 15 from min_eq_left (by linarith)),
    (show min ((te - 10) / 15) (17/20:ℚ) = (te - 10) / 15 from min_eq_left (by linarith)),
    (show min ((te - 10) / 15) (9/10:ℚ) = (te - 10) / 15 from min_eq_left (by linarith)),
    (show min ((te - 10) / 15) (19/20:ℚ) = (te - 10) / 15 from min_eq_left (by linarith)),
    (show min ((te - 10) / 15) (1:ℚ) = (te - 10) / 15 from min_eq_left (by linarith)),
    (show min ((te - 10) / 15) (14/15:ℚ) = (te - 10) / 15 from min_eq_left (by linarith)),
    (show min ((te - 10) / 15) (13/15:ℚ) = (te - 10) / 15 from min_eq_left (by linarith)),
    (show min ((te - 10) / 15) (11/15:ℚ) = (te - 10) / 15 from min_eq_left (by linarith)),
    (show min ((te - 10) / 15) (2/3:ℚ) = (te - 10) / 15 from min_eq_left (by linarith)),
    (show min ((te - 10) / 15) (8/15:ℚ) = (te - 10) / 15 from min_eq_left (by linarith)),
    (show min ((te - 10) / 15) (7/15:ℚ) = (te - 10) / 15 from min_eq_left (by linarith)),
    (show min ((te - 10) / 15) (1/3:ℚ) = (te - 10) / 15 from min_eq_left (by linarith)),
    (show min ((15 - te) / 15) (1/10:ℚ) = 1/10 from min_eq_right (by linarith)),
    (show min ((te - 10) / 15) (4/15:ℚ) = (te - 10) / 15 from min_eq_left (by linarith)),
    (show min ((15 - te) / 15) (1/5:ℚ) = 1/5 from min_eq_right (by linarith)),
    (show min ((15 - te) / 15) (3/10:ℚ) = (15 - te) / 15 from min_eq_left (by linarith)),
    (show min ((te - 10) / 15) (2/15:ℚ) = (te - 10) / 15 from min_eq_left (by linarith)),
    (show min ((15 - te) / 15) (2/5:ℚ) = (15 - te) / 15 from min_eq_left (by linarith)),
    (show min ((te - 10) / 15) (1/15:ℚ) = (te - 10) / 15 from min_eq_left (by linarith)),
    (show min ((15 - te) / 15) (1/2:ℚ) = (15 - te) / 15 from min_eq_left (by linarith)),
    (show min ((15 - te) / 15) (3/5:ℚ) = (15 - te) / 15 from min_eq_left (by linarith)),
    (show min ((15 - te) / 15) (7/10:ℚ) = (15 - te) / 15 from min_eq_left (by linarith)),
    (show min ((15 - te) / 15) (4/5:ℚ) = (15 - te) / 15 from min_eq_left (by linarith)),
    (show min ((15 - te) / 15) (9/10:ℚ) = (15 - te) / 15 from min_eq_left (by linarith)),
    (show min ((15 - te) / 15) (1:ℚ) = (15 - te) / 15 from min_eq_left (by linarith)),
    (show max (0:ℚ) (0:ℚ) = 0 from max_self 0),
    (show max (0:ℚ) (1/20:ℚ) = (1/20:ℚ) from max_eq_right (by norm_num)),
    (show max (0:ℚ) ((te - 10) / 15) = ((te - 10) / 15) from max_eq_right (by linarith)),
    (show max (1/10:ℚ) ((te - 10) / 15) = (1/10:ℚ) from max_eq_left (by linarith)),
    (show max (1/5:ℚ) ((te - 10) / 15) = (1/5:ℚ) from max_eq_left (by linarith)),
    (show max ((15 - te) / 15) ((te - 10) / 15) = ((15 - te) / 15) from max_eq_left (by linarith)),
    (show max ((15 - te) / 15) (0:ℚ) = ((15 - te) / 15) from max_eq_left (by linarith))]
  simp only [List.sum_cons, List.sum_nil]
  ring

lemma numS7 (te : ℚ) (hp : (43/4) ≤ te) (hq : te ≤ 11) :
    centroidNum te 9 = -40007/60 + (1432/15) * te := by
  have haw : ∀ u : ℚ, aggregatedDegree te 9 u =
      max (min (tiempoBajo te) (servicioExcelente u))
          (min (tiempoMedio te) (servicioBuena u)) :=
    fun u => aggregated_wait te u (by linarith) (by linarith)
  rw [centroidNum_eq_sum, universeServicio_literal]
  simp only [List.map_cons, List.map_nil, haw,
    tiempoBajo_eq te (by linarith) (by linarith), tiempoMedio_eq te (by linarith) (by linarith),
    sExc_0, sExc_1, sExc_2, sExc_3, sExc_4, sExc_5, sExc_6, sExc_7, sExc_8, sExc_9, sExc_10, sExc_11, sExc_12, sExc_13, sExc_14, sExc_15, sExc_16, sExc_17, sExc_18, sExc_19, sExc_20, sExc_21, sExc_22, sExc_23, sExc_24, sExc_25, sExc_26, sExc_27, sExc_28, sExc_29, sExc_30, sExc_31, sExc_32, sExc_33, sExc_34, sExc_35, sExc_36, sExc_37, sExc_38, sExc_39, sExc_40, sExc_41, sExc_42, sExc_43, sExc_44, sExc_45, sExc_46, sExc_47, sExc_48, sExc_49, sExc_50, sExc_51, sExc_52, sExc_53, sExc_54, sExc_55, sExc_56, sExc_57, sExc_58, sExc_59, sExc_60, sExc_61, sExc_62, sExc_63, sExc_64, sExc_65, sExc_66, sExc_67, sExc_68, sExc_69, sExc_70, sExc_71, sExc_72, sExc_73, sExc_74, sExc_75, sExc_76, sExc_77, sExc_78, sExc_79, sExc_80, sExc_81, sExc_82, sExc_83, sExc_84, sExc_85, sExc_86, sExc_87, sExc_88, sExc_89, sExc_90, sExc_91, sExc_92, sExc_93, sExc_94, sExc_95, sExc_96, sExc_97, sExc_98, sExc_99, sExc_100,
    sBue_0, sBue_1, sBue_2, sBue_3, sBue_4, sBue_5, sBue_6, sBue_7, sBue_8, sBue_9, sBue_10, sBue_11, sBue_12, sBue_13, sBue_14, sBue_15, sBue_16, sBue_17, sBue_18, sBue_19, sBue_20, sBue_21, sBue_22, sBue_23, sBue_24, sBue_25, sBue_26, sBue_27, sBue_28, sBue_29, sBue_30, sBue_31, sBue_32, sBue_33, sBue_34, sBue_35, sBue_36, sBue_37, sBue_38, sBue_39, sBue_40, sBue_41, sBue_42, sBue_43, sBue_44, sBue_45, sBue_46, sBue_47, sBue_48, sBue_49, sBue_50, sBue_51, sBue_52, sBue_53, sBue_54, sBue_55, sBue_56, sBue_57, sBue_58, sBue_59, sBue_60, sBue_61, sBue_62, sBue_63, sBue_64, sBue_65, sBue_66, sBue_67, sBue_68, sBue_69, sBue_70, sBue_71, sBue_72, sBue_73, sBue_74, sBue_75, sBue_76, sBue_77, sBue_78, sBue_79, sBue_80, sBue_81, sBue_82, sBue_83, sBue_84, sBue_85, sBue_86, sBue_87, sBue_88, sBue_89, sBue_90, sBue_91, sBue_92, sBue_93, sBue_94, sBue_95, sBue_96, sBue_97, sBue_98, sBue_99, sBue_100]
  rw [(show min ((15 - te) / 15) (0:ℚ) = 0 from min_eq_right (by linarith)),
    (show min ((te - 10) / 15) (0:ℚ) = 0 from min_eq_right (by linarith)),
    (show min ((te - 10) / 15) (1/20:ℚ) = 1/20 from min_eq_right (by linarith)),
    (show min ((te - 10) / 15) (1/10:ℚ) = (te - 10) / 15 from min_eq_left (by linarith)),
    (show min ((te - 10) / 15) (3/20:ℚ) = (te - 10) / 15 from min_eq_left (by linarith)),
    (show min ((te - 10) / 15) (1/5:ℚ) = (te - 10) / 15 from min_eq_left (by linarith)),
    (show min ((te - 10) / 15) (1/4:ℚ) = (te - 10) / 15 from min_eq_left (by linarith)),
    (show min ((te - 10) / 15) (3/10:ℚ) = (te - 10) / 15 from min_eq_left (by linarith)),
    (show min ((te - 10) / 15) (7/20:ℚ) = (te - 10) / 15 from min_eq_left (by linarith)),
    (show min ((te - 10) / 15) (2/5:ℚ) = (te - 10) / 15 from min_eq_left (by linarith)),
    (show min ((te - 10) / 15) (9/20:ℚ) = (te - 10) / 15 from min_eq_left (by linarith)),
    (show min ((te - 10) / 15) (1/2:ℚ) = (te - 10) / 15 from min_eq_left (by linarith)),
    (show min ((te - 10) / 15) (11/20:ℚ) = (te - 10) / 15 from min_eq_left (by linarith)),
    (show min ((te - 10) / 15) (3/5:ℚ) = (te - 10) / 15 from min_eq_left (by linarith)),
    (show min ((te - 10) / 15) (13/20:ℚ) = (te - 10) / 15 from min_eq_left (by linarith)),
    (show min ((te - 10) / 15) (7/10:ℚ) = (te - 10) / 15 from min_eq_left (by linarith)),
    (show min ((te - 10) / 15) (3/4:ℚ) = (te - 10) / 15 from min_eq_left (by linarith)),
    (show min ((te - 10) / 15) (4/5:ℚ) = (te - 10) / 15 from min_eq_left (by linarith)),
    (show min ((te - 10) / 15) (17/20:ℚ) = (te - 10) / 15 from min_eq_left (by linarith)),
    (show min ((te - 10) / 15) (9/10:ℚ) = (te - 10) / 15 from min_eq_left (by linarith)),
    (show min ((te - 10) / 15) (19/20:ℚ) = (te - 10) / 15 from min_eq_left (by linarith)),
    (show min ((te - 10) / 15) (1:ℚ) = (te - 10) / 15 from min_eq_left (by linarith)),
    (show min ((te - 10) / 15) (14/15:ℚ) = (te - 10) / 15 from min_eq_left (by linarith)),
    (show min ((te - 10) / 15) (13/15:ℚ) = (te - 10) / 15 from min_eq_left (by linarith)),
    (show min ((te - 10) / 15) (11/15:ℚ) = (te - 10) / 15 from min_eq_left (by linarith)),
    (show min ((te - 10) / 15) (2/3:ℚ) = (te - 10) / 15 from min_eq_left (by linarith)),
    (show min ((te - 10) / 15) (8/15:ℚ) = (te - 10) / 15 from min_eq_left (by linarith)),
    (show min ((te - 10) / 15) (7/15:ℚ) = (te - 10) / 15 from min_eq_left (by linarith)),
    (show min ((te - 10) / 15) (1/3:ℚ) = (te - 10) / 15 from min_eq_left (by linarith)),
    (show min ((15 - te) / 15) (1/10:ℚ) = 1/10 from min_eq_right (by linarith)),
    (show min ((te - 10) / 15) (4/15:ℚ) = (te - 10) / 15 from min_eq_left (by linarith)),
    (show min ((15 - te) / 15) (1/5:ℚ) = 1/5 from min_eq_right (by linarith)),
    (show min ((15 - te) / 15) (3/10:ℚ) = (15 - te) / 15 from min_eq_left (by linarith)),
    (show min ((te - 10) / 15) (2/15:ℚ) = (te - 10) / 15 from min_eq_left (by linarith)),
    (show min ((15 - te) / 15) (2/5:ℚ) = (15 - te) / 15 from min_eq_left (by linarith)),
    (show min ((te - 10) / 15) (1/15:ℚ) = (te - 10) / 15 from min_eq_left (by linarith)),
    (show min ((15 - te) / 15) (1/2:ℚ) = (15 - te) / 15 from min_eq_left (by linarith)),
    (show min ((15 - te) / 15) (3/5:ℚ) = (15 - te) / 15 from min_eq_left (by linarith)),
    (show min ((15 - te) / 15) (7/10:ℚ) = (15 - te) / 15 from min_eq_left (by linarith)),
    (show min ((15 - te) / 15) (4/5:ℚ) = (15 - te) / 15 from min_eq_left (by linarith)),
    (show min ((15 - te) / 15) (9/10:ℚ) = (15 - te) / 15 from min_eq_left (by linarith)),
    (show min ((15 - te) / 15) (1:ℚ) = (15 - te) / 15 from min_eq_left (by linarith)),
    (show max (0:ℚ) (0:ℚ) = 0 from max_self 0),
    (show max (0:ℚ) (1/20:ℚ) = (1/20:ℚ) from max_eq_right (by norm_num)),
    (show max (0:ℚ) ((te - 10) / 15) = ((te - 10) / 15) from max_eq_right (by linarith)),
    (show max (1/10:ℚ) ((te - 10) / 15) = (1/10:ℚ) from max_eq_left (by linarith)),
    (show max (1/5:ℚ) ((te - 10) / 15) = (1/5:ℚ) from max_eq_left (by linarith)),
    (show max ((15 - te) / 15) ((te - 10) / 15) = ((15 - te) / 15) from max_eq_left (by linarith)),
    (show max ((15 - te) / 15) (0:ℚ) = ((15 - te) / 15) from max_eq_left (by linarith))]
  simp only [List.sum_cons, List.sum_nil]
  ring

lemma monoS7 : ∀ t1 t2 : ℚ, (43/4) ≤ t1 → t1 ≤ t2 → t2 ≤ 11 → crispWait t2 ≤ crispWait t1 := by
  intro t1 t2 hp h12 hq
  unfold crispWait
  rw [denS7 t1 hp (by linarith), numS7 t1 hp (by linarith),
    denS7 t2 (by linarith) hq, numS7 t2 (by linarith) hq]
  exact frac_mono (-40007/60) (1432/15) (-659/60) (7/5) t1 t2 h12
    (by linarith) (by linarith) (by norm_num)

lemma denS8 (te : ℚ) (hp : 11 ≤ te) (hq : te ≤ (23/2)) :
    centroidDen te 9 = -659/60 + (7/5) * te := by
  have haw : ∀ u : ℚ, aggregatedDegree te 9 u =
      max (min (tiempoBajo te) (servicioExcelente u))
          (min (tiempoMedio te) (servicioBuena u)) :=
    fun u => aggregated_wait te u (by linarith) (by linarith)
  rw [centroidDen_eq_sum, universeServicio_literal]
  simp only [List.map_cons, List.map_nil, haw,
    tiempoBajo_eq te (by linarith) (by linarith), tiempoMedio_eq te (by linarith) (by linarith),
    sExc_0, sExc_1, sExc_2, sExc_3, sExc_4, sExc_5, sExc_6, sExc_7, sExc_8, sExc_9, sExc_10, sExc_11, sExc_12, sExc_13, sExc_14, sExc_15, sExc_16, sExc_17, sExc_18, sExc_19, sExc_20, sExc_21, sExc_22, sExc_23, sExc_24, sExc_25, sExc_26, sExc_27, sExc_28, sExc_29, sExc_30, sExc_31, sExc_32, sExc_33, sExc_34, sExc_35, sExc_36, sExc_37, sExc_38, sExc_39, sExc_40, sExc_41, sExc_42, sExc_43, sExc_44, sExc_45, sExc_46, sExc_47, sExc_48, sExc_49, sExc_50, sExc_51, sExc_52, sExc_53, sExc_54, sExc_55, sExc_56, sExc_57, sExc_58, sExc_59, sExc_60, sExc_61, sExc_62, sExc_63, sExc_64, sExc_65, sExc_66, sExc_67, sExc_68, sExc_69, sExc_70, sExc_71, sExc_72, sExc_73, sExc_74, sExc_75, sExc_76, sExc_77, sExc_78, sExc_79, sExc_80, sExc_81, sExc_82, sExc_83, sExc_84, sExc_85, sExc_86, sExc_87, sExc_88, sExc_89, sExc_90, sExc_91, sExc_92, sExc_93, sExc_94, sExc_95, sExc_96, sExc_97, sExc_98, sExc_99, sExc_100,
    sBue_0, sBue_1, sBue_2, sBue_3, sBue_4, sBue_5, sBue_6, sBue_7, sBue_8, sBue_9, sBue_10, sBue_11, sBue_12, sBue_13, sBue_14, sBue_15, sBue_16, sBue_17, sBue_18, sBue_19, sBue_20, sBue_21, sBue_22, sBue_23, sBue_24, sBue_25, sBue_26, sBue_27, sBue_28, sBue_29, sBue_30, sBue_31, sBue_32, sBue_33, sBue_34, sBue_35, sBue_36, sBue_37, sBue_38, sBue_39, sBue_40, sBue_41, sBue_42, sBue_43, sBue_44, sBue_45, sBue_46, sBue_47, sBue_48, sBue_49, sBue_50, sBue_51, sBue_52, sBue_53, sBue_54, sBue_55, sBue_56, sBue_57, sBue_58, sBue_59, sBue_60, sBue_61, sBue_62, sBue_63, sBue_64, sBue_65, sBue_66, sBue_67, sBue_68, sBue_69, sBue_70, sBue_71, sBue_72, sBue_73, sBue_74, sBue_75, sBue_76, sBue_77, sBue_78, sBue_79, sBue_80, sBue_81, sBue_82, sBue_83, sBue_84, sBue_85, sBue_86, sBue_87, sBue_88, sBue_89, sBue_90, sBue_91, sBue_92, sBue_93, sBue_94, sBue_95, sBue_96, sBue_97, sBue_98, sBue_99, sBue_100]
  rw [(show min ((15 - te) / 15) (0:ℚ) = 0 from min_eq_right (by linarith)),
    (show min ((te - 10) / 15) (0:ℚ) = 0 from min_eq_right (by linarith)),
    (show min ((te - 10) / 15) (1/20:ℚ) = 1/20 from min_eq_right (by linarith)),
    (show min ((te - 10) / 15) (1/10:ℚ) = (te - 10) / 15 from min_eq_left (by linarith)),
    (show min ((te - 10) / 15) (3/20:ℚ) = (te - 10) / 15 from min_eq_left (by linarith)),
    (show min ((te - 10) / 15) (1/5:ℚ) = (te - 10) / 15 from min_eq_left (by linarith)),
    (show min ((te - 10) / 15) (1/4:ℚ) = (te - 10) / 15 from min_eq_left (by linarith)),
    (show min ((te - 10) / 15) (3/10:ℚ) = (te - 10) / 15 from min_eq_left (by linarith)),
    (show min ((te - 10) / 15) (7/20:ℚ) = (te - 10) / 15 from min_eq_left (by linarith)),
    (show min ((te - 10) / 15) (2/5:ℚ) = (te - 10) / 15 from min_eq_left (by linarith)),
    (show min ((te - 10) / 15) (9/20:ℚ) = (te - 10) / 15 from min_eq_left (by linarith)),
    (show min ((te - 10) / 15) (1/2:ℚ) = (te - 10) / 15 from min_eq_left (by linarith)),
    (show min ((te - 10) / 15) (11/20:ℚ) = (te - 10) / 15 from min_eq_left (by linarith)),
    (show min ((te - 10) / 15) (3/5:ℚ) = (te - 10) / 15 from min_eq_left (by linarith)),
    (show min ((te - 10) / 15) (13/20:ℚ) = (te - 10) / 15 from min_eq_left (by linarith)),
    (show min ((te - 10) / 15) (7/10:ℚ) = (te - 10) / 15 from min_eq_left (by linarith)),
    (show min ((te - 10) / 15) (3/4:ℚ) = (te - 10) / 15 from min_eq_left (by linarith)),
    (show min ((te - 10) / 15) (4/5:ℚ) = (te - 10) / 15 from min_eq_left (by linarith)),
    (show min ((te - 10) / 15) (17/20:ℚ) = (te - 10) / 15 from min_eq_left (by linarith)),
    (show min ((te - 10) / 15) (9/10:ℚ) = (te - 10) / 15 from min_eq_left (by linarith)),
    (show min ((te - 10) / 15) (19/20:ℚ) = (te - 10) / 15 from min_eq_left (by linarith)),
    (show min ((te - 10) / 15) (1:ℚ) = (te - 10) / 15 from min_eq_left (by linarith)),
    (show min ((te - 10) / 15) (14/15:ℚ) = (te - 10) / 15 from min_eq_left (by linarith)),
    (show min ((te - 10) / 15) (13/15:ℚ) = (te - 10) / 15 from min_eq_left (by linarith)),
    (show min ((te - 10) / 15) (11/15:ℚ) = (te - 10) / 15 from min_eq_left (by linarith)),
    (show min ((te - 10) / 15) (2/3:ℚ) = (te - 10) / 15 from min_eq_left (by linarith)),
    (show min ((te - 10) / 15) (8/15:ℚ) = (te - 10) / 15 from min_eq_left (by linarith)),
    (show min ((te - 10) / 15) (7/15:ℚ) = (te - 10) / 15 from min_eq_left (by linarith)),
    (show min ((te - 10) / 15) (1/3:ℚ) = (te - 10) / 15 from min_eq_left (by linarith)),
    (show min ((15 - te) / 15) (1/10:ℚ) = 1/10 from min_eq_right (by linarith)),
    (show min ((te - 10) / 15) (4/15:ℚ) = (te - 10) / 15 from min_eq_left (by linarith)),
    (show min ((15 - te) / 15) (1/5:ℚ) = 1/5 from min_eq_right (by linarith)),
    (show min ((15 - te) / 15) (3/10:ℚ) = (15 - te) / 15 from min_eq_left (by linarith)),
    (show min ((te - 10) / 15) (2/15:ℚ) = (te - 10) / 15 from min_eq_left (by linarith)),
    (show min ((15 - te) / 15) (2/5:ℚ) = (15 - te) / 15 from min_eq_left (by linarith)),
    (show min ((te - 10) / 15) (1/15:ℚ) = 1/15 from min_eq_right (by linarith)),
    (show min ((15 - te) / 15) (1/2:ℚ) = (15 - te) / 15 from min_eq_left (by linarith)),
    (show min ((15 - te) / 15) (3/5:ℚ) = (15 - te) / 15 from min_eq_left (by linarith)),
    (show min ((15 - te) / 15) (7/10:ℚ) = (15 - te) / 15 from min_eq_left (by linarith)),
    (show min ((15 - te) / 15) (4/5:ℚ) = (15 - te) / 15 from min_eq_left (by linarith)),
    (show min ((15 - te) / 15) (9/10:ℚ) = (15 - te) / 15 from min_eq_left (by linarith)),
    (show min ((15 - te) / 15) (1:ℚ) = (15 - te) / 15 from min_eq_left (by linarith)),
    (show max (0:ℚ) (0:ℚ) = 0 from max_self 0),
    (show max (0:ℚ) (1/20:ℚ) = (1/20:ℚ) from max_eq_right (by norm_num)),
    (show max (0:ℚ) ((te - 10) / 15) = ((te - 10) / 15) from max_eq_right (by linarith)),
    (show max (1/10:ℚ) ((te - 10) / 15) = (1/10:ℚ) from max_eq_left (by linarith)),
    (show max (1/5:ℚ) ((te - 10) / 15) = (1/5:ℚ) from max_eq_left (by linarith)),
    (show max ((15 - te) / 15) ((te - 10) / 15) = ((15 - te) / 15) from max_eq_left (by linarith)),
    (show max ((15 - te) / 15) (1/15:ℚ) = ((15 - te) / 15) from max_eq_left (by linarith)),
    (show max ((15 - te) / 15) (0:ℚ) = ((15 - te) / 15) from max_eq_left (by linarith))]
  simp only [List.sum_cons, List.sum_nil]
  ring

lemma numS8 (te : ℚ) (hp : 11 ≤ te) (hq : te ≤ (23/2)) :
    centroidNum te 9 = -40007/60 + (1432/15) * te := by
  have haw : ∀ u : ℚ, aggregatedDegree te 9 u =
      max (min (tiempoBajo te) (servicioExcelente u))
          (min (tiempoMedio te) (servicioBuena u)) :=
    fun u => aggregated_wait te u (by linarith) (by linarith)
  rw [centroidNum_eq_sum, universeServicio_literal]
  simp only [List.map_cons, List.map_nil, haw,
    tiempoBajo_eq te (by linarith) (by linarith), tiempoMedio_eq te (by linarith) (by linarith),
    sExc_0, sExc_1, sExc_2, sExc_3, sExc_4, sExc_5, sExc_6, sExc_7, sExc_8, sExc_9, sExc_10, sExc_11, sExc_12, sExc_13, sExc_14, sExc_15, sExc_16, sExc_17, sExc_18, sExc_19, sExc_20, sExc_21, sExc_22, sExc_23, sExc_24, sExc_25, sExc_26, sExc_27, sExc_28, sExc_29, sExc_30, sExc_31, sExc_32, sExc_33, sExc_34, sExc_35, sExc_36, sExc_37, sExc_38, sExc_39, sExc_40, sExc_41, sExc_42, sExc_43, sExc_44, sExc_45, sExc_46, sExc_47, sExc_48, sExc_49, sExc_50, sExc_51, sExc_52, sExc_53, sExc_54, sExc_55, sExc_56, sExc_57, sExc_58, sExc_59, sExc_60, sExc_61, sExc_62, sExc_63, sExc_64, sExc_65, sExc_66, sExc_67, sExc_68, sExc_69, sExc_70, sExc_71, sExc_72, sExc_73, sExc_74, sExc_75, sExc_76, sExc_77, sExc_78, sExc_79, sExc_80, sExc_81, sExc_82, sExc_83, sExc_84, sExc_85, sExc_86, sExc_87, sExc_88, sExc_89, sExc_90, sExc_91, sExc_92, sExc_93, sExc_94, sExc_95, sExc_96, sExc_97, sExc_98, sExc_99, sExc_100,
    sBue_0, sBue_1, sBue_2, sBue_3, sBue_4, sBue_5, sBue_6, sBue_7, sBue_8, sBue_9, sBue_10, sBue_11, sBue_12, sBue_13, sBue_14, sBue_15, sBue_16, sBue_17, sBue_18, sBue_19, sBue_20, sBue_21, sBue_22, sBue_23, sBue_24, sBue_25, sBue_26, sBue_27, sBue_28, sBue_29, sBue_30, sBue_31, sBue_32, sBue_33, sBue_34, sBue_35, sBue_36, sBue_37, sBue_38, sBue_39, sBue_40, sBue_41, sBue_42, sBue_43, sBue_44, sBue_45, sBue_46, sBue_47, sBue_48, sBue_49, sBue_50, sBue_51, sBue_52, sBue_53, sBue_54, sBue_55, sBue_56, sBue_57, sBue_58, sBue_59, sBue_60, sBue_61, sBue_62, sBue_63, sBue_64, sBue_65, sBue_66, sBue_67, sBue_68, sBue_69, sBue_70, sBue_71, sBue_72, sBue_73, sBue_74, sBue_75, sBue_76, sBue_77, sBue_78, sBue_79, sBue_80, sBue_81, sBue_82, sBue_83, sBue_84, sBue_85, sBue_86, sBue_87, sBue_88, sBue_89, sBue_90, sBue_91, sBue_92, sBue_93, sBue_94, sBue_95, sBue_96, sBue_97, sBue_98, sBue_99, sBue_100]
  rw [(show min ((15 - te) / 15) (0:ℚ) = 0 from min_eq_right (by linarith)),
    (show min ((te - 10) / 15) (0:ℚ) = 0 from min_eq_right (by linarith)),
    (show min ((te - 10) / 15) (1/20:ℚ) = 1/20 from min_eq_right (by linarith)),
    (show min ((te - 10) / 15) (1/10:ℚ) = (te - 10) / 15 from min_eq_left (by linarith)),
    (show min ((te - 10) / 15) (3/20:ℚ) = (te - 10) / 15 from min_eq_left (by linarith)),
    (show min ((te - 10) / 15) (1/5:ℚ) = (te - 10) / 15 from min_eq_left (by linarith)),
    (show min ((te - 10) / 15) (1/4:ℚ) = (te - 10) / 15 from min_eq_left (by linarith)),
    (show min ((te - 10) / 15) (3/10:ℚ) = (te - 10) / 15 from min_eq_left (by linarith)),
    (show min ((te - 10) / 15) (7/20:ℚ) = (te - 10) / 15 from min_eq_left (by linarith)),
    (show min ((te - 10) / 15) (2/5:ℚ) = (te - 10) / 15 from min_eq_left (by linarith)),
    (show min ((te - 10) / 15) (9/20:ℚ) = (te - 10) / 15 from min_eq_left (by linarith)),
    (show min ((te - 10) / 15) (1/2:ℚ) = (te - 10) / 15 from min_eq_left (by linarith)),
    (show min ((te - 10) / 15) (11/20:ℚ) = (te - 10) / 15 from min_eq_left (by linarith)),
    (show min ((te - 10) / 15) (3/5:ℚ) = (te - 10) / 15 from min_eq_left (by linarith)),
    (show min ((te - 10) / 15) (13/20:ℚ) = (te - 10) / 15 from min_eq_left (by linarith)),
    (show min ((te - 10) / 15) (7/10:ℚ) = (te - 10) / 15 from min_eq_left (by linarith)),
    (show min ((te - 10) / 15) (3/4:ℚ) = (te - 10) / 15 from min_eq_left (by linarith)),
    (show min ((te - 10) / 15) (4/5:ℚ) = (te - 10) / 15 from min_eq_left (by linarith)),
    (show min ((te - 10) / 15) (17/20:ℚ) = (te - 10) / 15 from min_eq_left (by linarith)),
    (show min ((te - 10) / 15) (9/10:ℚ) = (te - 10) / 15 from min_eq_left (by linarith)),
    (show min ((te - 10) / 15) (19/20:ℚ) = (te - 10) / 15 from min_eq_left (by linarith)),
    (show min ((te - 10) / 15) (1:ℚ) = (te - 10) / 15 from min_eq_left (by linarith)),
    (show min ((te - 10) / 15) (14/15:ℚ) = (te - 10) / 15 from min_eq_left (by linarith)),
    (show min ((te - 10) / 15) (13/15:ℚ) = (te - 10) / 15 from min_eq_left (by linarith)),
    (show min ((te - 10) / 15) (11/15:ℚ) = (te - 10) / 15 from min_eq_left (by linarith)),
    (show min ((te - 10) / 15) (2/3:ℚ) = (te - 10) / 15 from min_eq_left (by linarith)),
    (show min ((te - 10) / 15) (8/15:ℚ) = (te - 10) / 15 from min_eq_left (by linarith)),
    (show min ((te - 10) / 15) (7/15:ℚ) = (te - 10) / 15 from min_eq_left (by linarith)),
    (show min ((te - 10) / 15) (1/3:ℚ) = (te - 10) / 15 from min_eq_left (by linarith)),
    (show min ((15 - te) / 15) (1/10:ℚ) = 1/10 from min_eq_right (by linarith)),
    (show min ((te - 10) / 15) (4/15:ℚ) = (te - 10) / 15 from min_eq_left (by linarith)),
    (show min ((15 - te) / 15) (1/5:ℚ) = 1/5 from min_eq_right (by linarith)),
    (show min ((15 - te) / 15) (3/10:ℚ) = (15 - te) / 15 from min_eq_left (by linarith)),
    (show min ((te - 10) / 15) (2/15:ℚ) = (te - 10) / 15 from min_eq_left (by linarith)),
    (show min ((15 - te) / 15) (2/5:ℚ) = (15 - te) / 15 from min_eq_left (by linarith)),
    (show min ((te - 10) / 15) (1/15:ℚ) = 1/15 from min_eq_right (by linarith)),
    (show min ((15 - te) / 15) (1/2:ℚ) = (15 - te) / 15 from min_eq_left (by linarith)),
    (show min ((15 - te) / 15) (3/5:ℚ) = (15 - te) / 15 from min_eq_left (by linarith)),
    (show min ((15 - te) / 15) (7/10:ℚ) = (15 - te) / 15 from min_eq_left (by linarith)),
    (show min ((15 - te) / 15) (4/5:ℚ) = (15 - te) / 15 from min_eq_left (by linarith)),
    (show min ((15 - te) / 15) (9/10:ℚ) = (15 - te) / 15 from min_eq_left (by linarith)),
    (show min ((15 - te) / 15) (1:ℚ) = (15 - te) / 15 from min_eq_left (by linarith)),
    (show max (0:ℚ) (0:ℚ) = 0 from max_self 0),
    (show max (0:ℚ) (1/20:ℚ) = (1/20:ℚ) from max_eq_right (by norm_num)),
    (show max (0:ℚ) ((te - 10) / 15) = ((te - 10) / 15) from max_eq_right (by linarith)),
    (show max (1/10:ℚ) ((te - 10) / 15) = (1/10:ℚ) from max_eq_left (by linarith)),
    (show max (1/5:ℚ) ((te - 10) / 15) = (1/5:ℚ) from max_eq_left (by linarith)),
    (show max ((15 - te) / 15) ((te - 10) / 15) = ((15 - te) / 15) from max_eq_left (by linarith)),
    (show max ((15 - te) / 15) (1/15:ℚ) = ((15 - te) / 15) from max_eq_left (by linarith)),
    (show max ((15 - te) / 15) (0:ℚ) = ((15 - te) / 15) from max_eq_left (by linarith))]
  simp only [List.sum_cons, List.sum_nil]
  ring

lemma monoS8 : ∀ t1 t2 : ℚ, 11 ≤ t1 → t1 ≤ t2 → t2 ≤ (23/2) → crispWait t2 ≤ crispWait t1 := by
  intro t1 t2 hp h12 hq
  unfold crispWait
  rw [denS8 t1 hp (by linarith), numS8 t1 hp (by linarith),
    denS8 t2 (by linarith) hq, numS8 t2 (by linarith) hq]
  exact frac_mono (-40007/60) (1432/15) (-659/60) (7/5) t1 t2 h12
    (by linarith) (by linarith) (by norm_num)

lemma denS9 (te : ℚ) (hp : (23/2) ≤ te) (hq : te ≤ 12) :
    centroidDen te 9 = -659/60 + (7/5) * te := by
  have haw : ∀ u : ℚ, aggregatedDegree te 9 u =
      max (min (tiempoBajo te) (servicioExcelente u))
          (min (tiempoMedio te) (servicioBuena u)) :=
    fun u => aggregated_wait te u (by linarith) (by linarith)
  rw [centroidDen_eq_sum, universeServicio_literal]
  simp only [List.map_cons, List.map_nil, haw,
    tiempoBajo_eq te (by linarith) (by linarith), tiempoMedio_eq te (by linarith) (by linarith),
    sExc_0, sExc_1, sExc_2, sExc_3, sExc_4, sExc_5, sExc_6, sExc_7, sExc_8, sExc_9, sExc_10, sExc_11, sExc_12, sExc_13, sExc_14, sExc_15, sExc_16, sExc_17, sExc_18, sExc_19, sExc_20, sExc_21, sExc_22, sExc_23, sExc_24, sExc_25, sExc_26, sExc_27, sExc_28, sExc_29, sExc_30, sExc_31, sExc_32, sExc_33, sExc_34, sExc_35, sExc_36, sExc_37, sExc_38, sExc_39, sExc_40, sExc_41, sExc_42, sExc_43, sExc_44, sExc_45, sExc_46, sExc_47, sExc_48, sExc_49, sExc_50, sExc_51, sExc_52, sExc_53, sExc_54, sExc_55, sExc_56, sExc_57, sExc_58, sExc_59, sExc_60, sExc_61, sExc_62, sExc_63, sExc_64, sExc_65, sExc_66, sExc_67, sExc_68, sExc_69, sExc_70, sExc_71, sExc_72, sExc_73, sExc_74, sExc_75, sExc_76, sExc_77, sExc_78, sExc_79, sExc_80, sExc_81, sExc_82, sExc_83, sExc_84, sExc_85, sExc_86, sExc_87, sExc_88, sExc_89, sExc_90, sExc_91, sExc_92, sExc_93, sExc_94, sExc_95, sExc_96, sExc_97, sExc_98, sExc_99, sExc_100,
    sBue_0, sBue_1, sBue_2, sBue_3, sBue_4, sBue_5, sBue_6, sBue_7, sBue_8, sBue_9, sBue_10, sBue_11, sBue_12, sBue_13, sBue_14, sBue_15, sBue_16, sBue_17, sBue_18, sBue_19, sBue_20, sBue_21, sBue_22, sBue_23, sBue_24, sBue_25, sBue_26, sBue_27, sBue_28, sBue_29, sBue_30, sBue_31, sBue_32, sBue_33, sBue_34, sBue_35, sBue_36, sBue_37, sBue_38, sBue_39, sBue_40, sBue_41, sBue_42, sBue_43, sBue_44, sBue_45, sBue_46, sBue_47, sBue_48, sBue_49, sBue_50, sBue_51, sBue_52, sBue_53, sBue_54, sBue_55, sBue_56, sBue_57, sBue_58, sBue_59, sBue_60, sBue_61, sBue_62, sBue_63, sBue_64, sBue_65, sBue_66, sBue_67, sBue_68, sBue_69, sBue_70, sBue_71, sBue_72, sBue_73, sBue_74, sBue_75, sBue_76, sBue_77, sBue_78, sBue_79, sBue_80, sBue_81, sBue_82, sBue_83, sBue_84, sBue_85, sBue_86, sBue_87, sBue_88, sBue_89, sBue_90, sBue_91, sBue_92, sBue_93, sBue_94, sBue_95, sBue_96, sBue_97, sBue_98, sBue_99, sBue_100]
  rw [(show min ((15 - te) / 15) (0:ℚ) = 0 from min_eq_right (by linarith)),
    (show min ((te - 10) / 15) (0:ℚ) = 0 from min_eq_right (by linarith)),
    (show min ((te - 10) / 15) (1/20:ℚ) = 1/20 from min_eq_right (by linarith)),
    (show min ((te - 10) / 15) (1/10:ℚ) = 1/10 from min_eq_right (by linarith)),
    (show min ((te - 10) / 15) (3/20:ℚ) = (te - 10) / 15 from min_eq_left (by linarith)),
    (show min ((te - 10) / 15) (1/5:ℚ) = (te - 10) / 15 from min_eq_left (by linarith)),
    (show min ((te - 10) / 15) (1/4:ℚ) = (te - 10) / 15 from min_eq_left (by linarith)),
    (show min ((te - 10) / 15) (3/10:ℚ) = (te - 10) / 15 from min_eq_left (by linarith)),
    (show min ((te - 10) / 15) (7/20:ℚ) = (te - 10) / 15 from min_eq_left (by linarith)),
    (show min ((te - 10) / 15) (2/5:ℚ) = (te - 10) / 15 from min_eq_left (by linarith)),
    (show min ((te - 10) / 15) (9/20:ℚ) = (te - 10) / 15 from min_eq_left (by linarith)),
    (show min ((te - 10) / 15) (1/2:ℚ) = (te - 10) / 15 from min_eq_left (by linarith)),
    (show min ((te - 10) / 15) (11/20:ℚ) = (te - 10) / 15 from min_eq_left (by linarith)),
    (show min ((te - 10) / 15) (3/5:ℚ) = (te - 10) / 15 from min_eq_left (by linarith)),
    (show min ((te - 10) / 15) (13/20:ℚ) = (te - 10) / 15 from min_eq_left (by linarith)),
    (show min ((te - 10) / 15) (7/10:ℚ) = (te - 10) / 15 from min_eq_left (by linarith)),
    (show min ((te - 10) / 15) (3/4:ℚ) = (te - 10) / 15 from min_eq_left (by linarith)),
    (show min ((te - 10) / 15) (4/5:ℚ) = (te - 10) / 15 from min_eq_left (by linarith)),
    (show min ((te - 10) / 15) (17/20:ℚ) = (te - 10) / 15 from min_eq_left (by linarith)),
    (show min ((te - 10) / 15) (9/10:ℚ) = (te - 10) / 15 from min_eq_left (by linarith)),
    (show min ((te - 10) / 15) (19/20:ℚ) = (te - 10) / 15 from min_eq_left (by linarith)),
    (show min ((te - 10) / 15) (1:ℚ) = (te - 10) / 15 from min_eq_left (by linarith)),
    (show min ((te - 10) / 15) (14/15:ℚ) = (te - 10) / 15 from min_eq_left (by linarith)),
    (show min ((te - 10) / 15) (13/15:ℚ) = (te - 10) / 15 from min_eq_left (by linarith)),
    (show min ((te - 10) / 15) (11/15:ℚ) = (te - 10) / 15 from min_eq_left (by linarith)),
    (show min ((te - 10) / 15) (2/3:ℚ) = (te - 10) / 15 from min_eq_left (by linarith)),
    (show min ((te - 10) / 15) (8/15:ℚ) = (te - 10) / 15 from min_eq_left (by linarith)),
    (show min ((te - 10) / 15) (7/15:ℚ) = (te - 10) / 15 from min_eq_left (by linarith)),
    (show min ((te - 10) / 15) (1/3:ℚ) = (te - 10) / 15 from min_eq_left (by linarith)),
    (show min ((15 - te) / 15) (1/10:ℚ) = 1/10 from min_eq_right (by linarith)),
    (show min ((te - 10) / 15) (4/15:ℚ) = (te - 10) / 15 from min_eq_left (by linarith)),
    (show min ((15 - te) / 15) (1/5:ℚ) = 1/5 from min_eq_right (by linarith)),
    (show min ((15 - te) / 15) (3/10:ℚ) = (15 - te) / 15 from min_eq_left (by linarith)),
    (show min ((te - 10) / 15) (2/15:ℚ) = (te - 10) / 15 from min_eq_left (by linarith)),
    (show min ((15 - te) / 15) (2/5:ℚ) = (15 - te) / 15 from min_eq_left (by linarith)),
    (show min ((te - 10) / 15) (1/15:ℚ) = 1/15 from min_eq_right (by linarith)),
    (show min ((15 - te) / 15) (1/2:ℚ) = (15 - te) / 15 from min_eq_left (by linarith)),
    (show min ((15 - te) / 15) (3/5:ℚ) = (15 - te) / 15 from min_eq_left (by linarith)),
    (show min ((15 - te) / 15) (7/10:ℚ) = (15 - te) / 15 from min_eq_left (by linarith)),
    (show min ((15 - te) / 15) (4/5:ℚ) = (15 - te) / 15 from min_eq_left (by linarith)),
    (show min ((15 - te) / 15) (9/10:ℚ) = (15 - te) / 15 from min_eq_left (by linarith)),
    (show min ((15 - te) / 15) (1:ℚ) = (15 - te) / 15 from min_eq_left (by linarith)),
    (show max (0:ℚ) (0:ℚ) = 0 from max_self 0),
    (show max (0:ℚ) (1/20:ℚ) = (1/20:ℚ) from max_eq_right (by norm_num)),
    (show max (0:ℚ) (1/10:ℚ) = (1/10:ℚ) from max_eq_right (by norm_num)),
    (show max (0:ℚ) ((te - 10) / 15) = ((te - 10) / 15) from max_eq_right (by linarith)),
    (show max (1/10:ℚ) ((te - 10) / 15) = ((te - 10) / 15) from max_eq_right (by linarith)),
    (show max (1/5:ℚ) ((te - 10) / 15) = (1/5:ℚ) from max_eq_left (by linarith)),
    (show max ((15 - te) / 15) ((te - 10) / 15) = ((15 - te) / 15) from max_eq_left (by linarith)),
    (show max ((15 - te) / 15) (1/15:ℚ) = ((15 - te) / 15) from max_eq_left (by linarith)),
    (show max ((15 - te) / 15) (0:ℚ) = ((15 - te) / 15) from max_eq_left (by linarith))]
  simp only [List.sum_cons, List.sum_nil]
  ring

lemma numS9 (te : ℚ) (hp : (23/2) ≤ te) (hq : te ≤ 12) :
    centroidNum te 9 = -41341/60 + (487/5) * te := by
  have haw : ∀ u : ℚ, aggregatedDegree te 9 u =
      max (min (tiempoBajo te) (servicioExcelente u))
          (min (tiempoMedio te) (servicioBuena u)) :=
    fun u => aggregated_wait te u (by linarith) (by linarith)
  rw [centroidNum_eq_sum, universeServicio_literal]
  simp only [List.map_cons, List.map_nil, haw,
    tiempoBajo_eq te (by linarith) (by linarith), tiempoMedio_eq te (by linarith) (by linarith),
    sExc_0, sExc_1, sExc_2, sExc_3, sExc_4, sExc_5, sExc_6, sExc_7, sExc_8, sExc_9, sExc_10, sExc_11, sExc_12, sExc_13, sExc_14, sExc_15, sExc_16, sExc_17, sExc_18, sExc_19, sExc_20, sExc_21, sExc_22, sExc_23, sExc_24, sExc_25, sExc_26, sExc_27, sExc_28, sExc_29, sExc_30, sExc_31, sExc_32, sExc_33, sExc_34, sExc_35, sExc_36, sExc_37, sExc_38, sExc_39, sExc_40, sExc_41, sExc_42, sExc_43, sExc_44, sExc_45, sExc_46, sExc_47, sExc_48, sExc_49, sExc_50, sExc_51, sExc_52, sExc_53, sExc_54, sExc_55, sExc_56, sExc_57, sExc_58, sExc_59, sExc_60, sExc_61, sExc_62, sExc_63, sExc_64, sExc_65, sExc_66, sExc_67, sExc_68, sExc_69, sExc_70, sExc_71, sExc_72, sExc_73, sExc_74, sExc_75, sExc_76, sExc_77, sExc_78, sExc_79, sExc_80, sExc_81, sExc_82, sExc_83, sExc_84, sExc_85, sExc_86, sExc_87, sExc_88, sExc_89, sExc_90, sExc_91, sExc_92, sExc_93, sExc_94, sExc_95, sExc_96, sExc_97, sExc_98, sExc_99, sExc_100,
    sBue_0, sBue_1, sBue_2, sBue_3, sBue_4, sBue_5, sBue_6, sBue_7, sBue_8, sBue_9, sBue_10, sBue_11, sBue_12, sBue_13, sBue_14, sBue_15, sBue_16, sBue_17, sBue_18, sBue_19, sBue_20, sBue_21, sBue_22, sBue_23, sBue_24, sBue_25, sBue_26, sBue_27, sBue_28, sBue_29, sBue_30, sBue_31, sBue_32, sBue_33, sBue_34, sBue_35, sBue_36, sBue_37, sBue_38, sBue_39, sBue_40, sBue_41, sBue_42, sBue_43, sBue_44, sBue_45, sBue_46, sBue_47, sBue_48, sBue_49, sBue_50, sBue_51, sBue_52, sBue_53, sBue_54, sBue_55, sBue_56, sBue_57, sBue_58, sBue_59, sBue_60, sBue_61, sBue_62, sBue_63, sBue_64, sBue_65, sBue_66, sBue_67, sBue_68, sBue_69, sBue_70, sBue_71, sBue_72, sBue_73, sBue_74, sBue_75, sBue_76, sBue_77, sBue_78, sBue_79, sBue_80, sBue_81, sBue_82, sBue_83, sBue_84, sBue_85, sBue_86, sBue_87, sBue_88, sBue_89, sBue_90, sBue_91, sBue_92, sBue_93, sBue_94, sBue_95, sBue_96, sBue_97, sBue_98, sBue_99, sBue_100]
  rw [(show min ((15 - te) / 15) (0:ℚ) = 0 from min_eq_right (by linarith)),
    (show min ((te - 10) / 15) (0:ℚ) = 0 from min_eq_right (by linarith)),
    (show min ((te - 10) / 15) (1/20:ℚ) = 1/20 from min_eq_right (by linarith)),
    (show min ((te - 10) / 15) (1/10:ℚ) = 1/10 from min_eq_right (by linarith)),
    (show min ((te - 10) / 15) (3/20:ℚ) = (te - 10) / 15 from min_eq_left (by linarith)),
    (show min ((te - 10) / 15) (1/5:ℚ) = (te - 10) / 15 from min_eq_left (by linarith)),
    (show min ((te - 10) / 15) (1/4:ℚ) = (te - 10) / 15 from min_eq_left (by linarith)),
    (show min ((te - 10) / 15) (3/10:ℚ) = (te - 10) / 15 from min_eq_left (by linarith)),
    (show min ((te - 10) / 15) (7/20:ℚ) = (te - 10) / 15 from min_eq_left (by linarith)),
    (show min ((te - 10) / 15) (2/5:ℚ) = (te - 10) / 15 from min_eq_left (by linarith)),
    (show min ((te - 10) / 15) (9/20:ℚ) = (te - 10) / 15 from min_eq_left (by linarith)),
    (show min ((te - 10) / 15) (1/2:ℚ) = (te - 10) / 15 from min_eq_left (by linarith)),
    (show min ((te - 10) / 15) (11/20:ℚ) = (te - 10) / 15 from min_eq_left (by linarith)),
    (show min ((te - 10) / 15) (3/5:ℚ) = (te - 10) / 15 from min_eq_left (by linarith)),
    (show min ((te - 10) / 15) (13/20:ℚ) = (te - 10) / 15 from min_eq_left (by linarith)),
    (show min ((te - 10) / 15) (7/10:ℚ) = (te - 10) / 15 from min_eq_left (by linarith)),
    (show min ((te - 10) / 15) (3/4:ℚ) = (te - 10) / 15 from min_eq_left (by linarith)),
    (show min ((te - 10) / 15) (4/5:ℚ) = (te - 10) / 15 from min_eq_left (by linarith)),
    (show min ((te - 10) / 15) (17/20:ℚ) = (te - 10) / 15 from min_eq_left (by linarith)),
    (show min ((te - 10) / 15) (9/10:ℚ) = (te - 10) / 15 from min_eq_left (by linarith)),
    (show min ((te - 10) / 15) (19/20:ℚ) = (te - 10) / 15 from min_eq_left (by linarith)),
    (show min ((te - 10) / 15) (1:ℚ) = (te - 10) / 15 from min_eq_left (by linarith)),
    (show min ((te - 10) / 15) (14/15:ℚ) = (te - 10) / 15 from min_eq_left (by linarith)),
    (show min ((te - 10) / 15) (13/15:ℚ) = (te - 10) / 15 from min_eq_left (by linarith)),
    (show min ((te - 10) / 15) (11/15:ℚ) = (te - 10) / 15 from min_eq_left (by linarith)),
    (show min ((te - 10) / 15) (2/3:ℚ) = (te - 10) / 15 from min_eq_left (by linarith)),
    (show min ((te - 10) / 15) (8/15:ℚ) = (te - 10) / 15 from min_eq_left (by linarith)),
    (show min ((te - 10) / 15) (7/15:ℚ) = (te - 10) / 15 from min_eq_left (by linarith)),
    (show min ((te - 10) / 15) (1/3:ℚ) = (te - 10) / 15 from min_eq_left (by linarith)),
    (show min ((15 - te) / 15) (1/10:ℚ) = 1/10 from min_eq_right (by linarith)),
    (show min ((te - 10) / 15) (4/15:ℚ) = (te - 10) / 15 from min_eq_left (by linarith)),
    (show min ((15 - te) / 15) (1/5:ℚ) = 1/5 from min_eq_right (by linarith)),
    (show min ((15 - te) / 15) (3/10:ℚ) = (15 - te) / 15 from min_eq_left (by linarith)),
    (show min ((te - 10) / 15) (2/15:ℚ) = (te - 10) / 15 from min_eq_left (by linarith)),
    (show min ((15 - te) / 15) (2/5:ℚ) = (15 - te) / 15 from min_eq_left (by linarith)),
    (show min ((te - 10) / 15) (1/15:ℚ) = 1/15 from min_eq_right (by linarith)),
    (show min ((15 - te) / 15) (1/2:ℚ) = (15 - te) / 15 from min_eq_left (by linarith)),
    (show min ((15 - te) / 15) (3/5:ℚ) = (15 - te) / 15 from min_eq_left (by linarith)),
    (show min ((15 - te) / 15) (7/10:ℚ) = (15 - te) / 15 from min_eq_left (by linarith)),
    (show min ((15 - te) / 15) (4/5:ℚ) = (15 - te) / 15 from min_eq_left (by linarith)),
    (show min ((15 - te) / 15) (9/10:ℚ) = (15 - te) / 15 from min_eq_left (by linarith)),
    (show min ((15 - te) / 15) (1:ℚ) = (15 - te) / 15 from min_eq_left (by linarith)),
    (show max (0:ℚ) (0:ℚ) = 0 from max_self 0),
    (show max (0:ℚ) (1/20:ℚ) = (1/20:ℚ) from max_eq_right (by norm_num)),
    (show max (0:ℚ) (1/10:ℚ) = (1/10:ℚ) from max_eq_right (by norm_num)),
    (show max (0:ℚ) ((te - 10) / 15) = ((te - 10) / 15) from max_eq_right (by linarith)),
    (show max (1/10:ℚ) ((te - 10) / 15) = ((te - 10) / 15) from max_eq_right (by linarith)),
    (show max (1/5:ℚ) ((te - 10) / 15) = (1/5:ℚ) from max_eq_left (by linarith)),
    (show max ((15 - te) / 15) ((te - 10) / 15) = ((15 - te) / 15) from max_eq_left (by linarith)),
    (show max ((15 - te) / 15) (1/15:ℚ) = ((15 - te) / 15) from max_eq_left (by linarith)),
    (show max ((15 - te) / 15) (0:ℚ) = ((15 - te) / 15) from max_eq_left (by linarith))]
  simp only [List.sum_cons, List.sum_nil]
  ring

lemma monoS9 : ∀ t1 t2 : ℚ, (23/2) ≤ t1 → t1 ≤ t2 → t2 ≤ 12 → crispWait t2 ≤ crispWait t1 := by
  intro t1 t2 hp h12 hq
  unfold crispWait
  rw [denS9 t1 hp (by linarith), numS9 t1 hp (by linarith),
    denS9 t2 (by linarith) hq, numS9 t2 (by linarith) hq]
  exact frac_mono (-41341/60) (487/5) (-659/60) (7/5) t1 t2 h12
    (by linarith) (by linarith) (by norm_num)

lemma denS10 (te : ℚ) (hp : 12 ≤ te) (hq : te ≤ (49/4)) :
    centroidDen te 9 = -611/60 + (4/3) * te := by
  have haw : ∀ u : ℚ, aggregatedDegree te 9 u =
      max (min (tiempoBajo te) (servicioExcelente u))
          (min (tiempoMedio te) (servicioBuena u)) :=
    fun u => aggregated_wait te u (by linarith) (by linarith)
  rw [centroidDen_eq_sum, universeServicio_literal]
  simp only [List.map_cons, List.map_nil, haw,
    tiempoBajo_eq te (by linarith) (by linarith), tiempoMedio_eq te (by linarith) (by linarith),
    sExc_0, sExc_1, sExc_2, sExc_3, sExc_4, sExc_5, sExc_6, sExc_7, sExc_8, sExc_9, sExc_10, sExc_11, sExc_12, sExc_13, sExc_14, sExc_15, sExc_16, sExc_17, sExc_18, sExc_19, sExc_20, sExc_21, sExc_22, sExc_23, sExc_24, sExc_25, sExc_26, sExc_27, sExc_28, sExc_29, sExc_30, sExc_31, sExc_32, sExc_33, sExc_34, sExc_35, sExc_36, sExc_37, sExc_38, sExc_39, sExc_40, sExc_41, sExc_42, sExc_43, sExc_44, sExc_45, sExc_46, sExc_47, sExc_48, sExc_49, sExc_50, sExc_51, sExc_52, sExc_53, sExc_54, sExc_55, sExc_56, sExc_57, sExc_58, sExc_59, sExc_60, sExc_61, sExc_62, sExc_63, sExc_64, sExc_65, sExc_66, sExc_67, sExc_68, sExc_69, sExc_70, sExc_71, sExc_72, sExc_73, sExc_74, sExc_75, sExc_76, sExc_77, sExc_78, sExc_79, sExc_80, sExc_81, sExc_82, sExc_83, sExc_84, sExc_85, sExc_86, sExc_87, sExc_88, sExc_89, sExc_90, sExc_91, sExc_92, sExc_93, sExc_94, sExc_95, sExc_96, sExc_97, sExc_98, sExc_99, sExc_100,
    sBue_0, sBue_1, sBue_2, sBue_3, sBue_4, sBue_5, sBue_6, sBue_7, sBue_8, sBue_9, sBue_10, sBue_11, sBue_12, sBue_13, sBue_14, sBue_15, sBue_16, sBue_17, sBue_18, sBue_19, sBue_20, sBue_21, sBue_22, sBue_23, sBue_24, sBue_25, sBue_26, sBue_27, sBue_28, sBue_29, sBue_30, sBue_31, sBue_32, sBue_33, sBue_34, sBue_35, sBue_36, sBue_37, sBue_38, sBue_39, sBue_40, sBue_41, sBue_42, sBue_43, sBue_44, sBue_45, sBue_46, sBue_47, sBue_48, sBue_49, sBue_50, sBue_51, sBue_52, sBue_53, sBue_54, sBue_55, sBue_56, sBue_57, sBue_58, sBue_59, sBue_60, sBue_61, sBue_62, sBue_63, sBue_64, sBue_65, sBue_66, sBue_67, sBue_68, sBue_69, sBue_70, sBue_71, sBue_72, sBue_73, sBue_74, sBue_75, sBue_76, sBue_77, sBue_78, sBue_79, sBue_80, sBue_81, sBue_82, sBue_83, sBue_84, sBue_85, sBue_86, sBue_87, sBue_88, sBue_89, sBue_90, sBue_91, sBue_92, sBue_93, sBue_94, sBue_95, sBue_96, sBue_97, sBue_98, sBue_99, sBue_100]
  rw [(show min ((15 - te) / 15) (0:ℚ) = 0 from min_eq_right (by linarith)),
    (show min ((te - 10) / 15) (0:ℚ) = 0 from min_eq_right (by linarith)),
    (show min ((te - 10) / 15) (1/20:ℚ) = 1/20 from min_eq_right (by linarith)),
    (show min ((te - 10) / 15) (1/10:ℚ) = 1/10 from min_eq_right (by linarith)),
    (show min ((te - 10) / 15) (3/20:ℚ) = (te - 10) / 15 from min_eq_left (by linarith)),
    (show min ((te - 10) / 15) (1/5:ℚ) = (te - 10) / 15 from min_eq_left (by linarith)),
    (show min ((te - 10) / 15) (1/4:ℚ) = (te - 10) / 15 from min_eq_left (by linarith)),
    (show min ((te - 10) / 15) (3/10:ℚ) = (te - 10) / 15 from min_eq_left (by linarith)),
    (show min ((te - 10) / 15) (7/20:ℚ) = (te - 10) / 15 from min_eq_left (by linarith)),
    (show min ((te - 10) / 15) (2/5:ℚ) = (te - 10) / 15 from min_eq_left (by linarith)),
    (show min ((te - 10) / 15) (9/20:ℚ) = (te - 10) / 15 from min_eq_left (by linarith)),
    (show min ((te - 10) / 15) (1/2:ℚ) = (te - 10) / 15 from min_eq_left (by linarith)),
    (show min ((te - 10) / 15) (11/20:ℚ) = (te - 10) / 15 from min_eq_left (by linarith)),
    (show min ((te - 10) / 15) (3/5:ℚ) = (te - 10) / 15 from min_eq_left (by linarith)),
    (show min ((te - 10) / 15) (13/20:ℚ) = (te - 10) / 15 from min_eq_left (by linarith)),
    (show min ((te - 10) / 15) (7/10:ℚ) = (te - 10) / 15 from min_eq_left (by linarith)),
    (show min ((te - 10) / 15) (3/4:ℚ) = (te - 10) / 15 from min_eq_left (by linarith)),
    (show min ((te - 10) / 15) (4/5:ℚ) = (te - 10) / 15 from min_eq_left (by linarith)),
    (show min ((te - 10) / 15) (17/20:ℚ) = (te - 10) / 15 from min_eq_left (by linarith)),
    (show min ((te - 10) / 15) (9/10:ℚ) = (te - 10) / 15 from min_eq_left (by linarith)),
    (show min ((te - 10) / 15) (19/20:ℚ) = (te - 10) / 15 from min_eq_left (by linarith)),
    (show min ((te - 10) / 15) (1:ℚ) = (te - 10) / 15 from min_eq_left (by linarith)),
    (show min ((te - 10) / 15) (14/15:ℚ) = (te - 10) / 15 from min_eq_left (by linarith)),
    (show min ((te - 10) / 15) (13/15:ℚ) = (te - 10) / 15 from min_eq_left (by linarith)),
    (show min ((te - 10) / 15) (11/15:ℚ) = (te - 10) / 15 from min_eq_left (by linarith)),
    (show min ((te - 10) / 15) (2/3:ℚ) = (te - 10) / 15 from min_eq_left (by linarith)),
    (show min ((te - 10) / 15) (8/15:ℚ) = (te - 10) / 15 from min_eq_left (by linarith)),
    (show min ((te - 10) / 15) (7/15:ℚ) = (te - 10) / 15 from min_eq_left (by linarith)),
    (show min ((te - 10) / 15) (1/3:ℚ) = (te - 10) / 15 from min_eq_left (by linarith)),
    (show min ((15 - te) / 15) (1/10:ℚ) = 1/10 from min_eq_right (by linarith)),
    (show min ((te - 10) / 15) (4/15:ℚ) = (te - 10) / 15 from min_eq_left (by linarith)),
    (show min ((15 - te) / 15) (1/5:ℚ) = (15 - te) / 15 from min_eq_left (by linarith)),
    (show min ((15 - te) / 15) (3/10:ℚ) = (15 - te) / 15 from min_eq_left (by linarith)),
    (show min ((te - 10) / 15) (2/15:ℚ) = 2/15 from min_eq_right (by linarith)),
    (show min ((15 - te) / 15) (2/5:ℚ) = (15 - te) / 15 from min_eq_left (by linarith)),
    (show min ((te - 10) / 15) (1/15:ℚ) = 1/15 from min_eq_right (by linarith)),
    (show min ((15 - te) / 15) (1/2:ℚ) = (15 - te) / 15 from min_eq_left (by linarith)),
    (show min ((15 - te) / 15) (3/5:ℚ) = (15 - te) / 15 from min_eq_left (by linarith)),
    (show min ((15 - te) / 15) (7/10:ℚ) = (15 - te) / 15 from min_eq_left (by linarith)),
    (show min ((15 - te) / 15) (4/5:ℚ) = (15 - te) / 15 from min_eq_left (by linarith)),
    (show min ((15 - te) / 15) (9/10:ℚ) = (15 - te) / 15 from min_eq_left (by linarith)),
    (show min ((15 - te) / 15) (1:ℚ) = (15 - te) / 15 from min_eq_left (by linarith)),
    (show max (0:ℚ) (0:ℚ) = 0 from max_self 0),
    (show max (0:ℚ) (1/20:ℚ) = (1/20:ℚ) from max_eq_right (by norm_num)),
    (show max (0:ℚ) (1/10:ℚ) = (1/10:ℚ) from max_eq_right (by norm_num)),
    (show max (0:ℚ) ((te - 10) / 15) = ((te - 10) / 15) from max_eq_right (by linarith)),
    (show max (1/10:ℚ) ((te - 10) / 15) = ((te - 10) / 15) from max_eq_right (by linarith)),
    (show max ((15 - te) / 15) ((te - 10) / 15) = ((15 - te) / 15) from max_eq_left (by linarith)),
    (show max ((15 - te) / 15) (2/15:ℚ) = ((15 - te) / 15) from max_eq_left (by linarith)),
    (show max ((15 - te) / 15) (1/15:ℚ) = ((15 - te) / 15) from max_eq_left (by linarith)),
    (show max ((15 - te) / 15) (0:ℚ) = ((15 - te) / 15) from max_eq_left (by linarith))]
  simp only [List.sum_cons, List.sum_nil]
  ring

lemma numS10 (te : ℚ) (hp : 12 ≤ te) (hq : te ≤ (49/4)) :
    centroidNum te 9 = -7385/12 + (1369/15) * te := by
  have haw : ∀ u : ℚ, aggregatedDegree te 9 u =
      max (min (tiempoBajo te) (servicioExcelente u))
          (min (tiempoMedio te) (servicioBuena u)) :=
    fun u => aggregated_wait te u (by linarith) (by linarith)
  rw [centroidNum_eq_sum, universeServicio_literal]
  simp only [List.map_cons, List.map_nil, haw,
    tiempoBajo_eq te (by linarith) (by linarith), tiempoMedio_eq te (by linarith) (by linarith),
    sExc_0, sExc_1, sExc_2, sExc_3, sExc_4, sExc_5, sExc_6, sExc_7, sExc_8, sExc_9, sExc_10, sExc_11, sExc_12, sExc_13, sExc_14, sExc_15, sExc_16, sExc_17, sExc_18, sExc_19, sExc_20, sExc_21, sExc_22, sExc_23, sExc_24, sExc_25, sExc_26, sExc_27, sExc_28, sExc_29, sExc_30, sExc_31, sExc_32, sExc_33, sExc_34, sExc_35, sExc_36, sExc_37, sExc_38, sExc_39, sExc_40, sExc_41, sExc_42, sExc_43, sExc_44, sExc_45, sExc_46, sExc_47, sExc_48, sExc_49, sExc_50, sExc_51, sExc_52, sExc_53, sExc_54, sExc_55, sExc_56, sExc_57, sExc_58, sExc_59, sExc_60, sExc_61, sExc_62, sExc_63, sExc_64, sExc_65, sExc_66, sExc_67, sExc_68, sExc_69, sExc_70, sExc_71, sExc_72, sExc_73, sExc_74, sExc_75, sExc_76, sExc_77, sExc_78, sExc_79, sExc_80, sExc_81, sExc_82, sExc_83, sExc_84, sExc_85, sExc_86, sExc_87, sExc_88, sExc_89, sExc_90, sExc_91, sExc_92, sExc_93, sExc_94, sExc_95, sExc_96, sExc_97, sExc_98, sExc_99, sExc_100,
    sBue_0, sBue_1, sBue_2, sBue_3, sBue_4, sBue_5, sBue_6, sBue_7, sBue_8, sBue_9, sBue_10, sBue_11, sBue_12, sBue_13, sBue_14, sBue_15, sBue_16, sBue_17, sBue_18, sBue_19, sBue_20, sBue_21, sBue_22, sBue_23, sBue_24, sBue_25, sBue_26, sBue_27, sBue_28, sBue_29, sBue_30, sBue_31, sBue_32, sBue_33, sBue_34, sBue_35, sBue_36, sBue_37, sBue_38, sBue_39, sBue_40, sBue_41, sBue_42, sBue_43, sBue_44, sBue_45, sBue_46, sBue_47, sBue_48, sBue_49, sBue_50, sBue_51, sBue_52, sBue_53, sBue_54, sBue_55, sBue_56, sBue_57, sBue_58, sBue_59, sBue_60, sBue_61, sBue_62, sBue_63, sBue_64, sBue_65, sBue_66, sBue_67, sBue_68, sBue_69, sBue_70, sBue_71, sBue_72, sBue_73, sBue_74, sBue_75, sBue_76, sBue_77, sBue_78, sBue_79, sBue_80, sBue_81, sBue_82, sBue_83, sBue_84, sBue_85, sBue_86, sBue_87, sBue_88, sBue_89, sBue_90, sBue_91, sBue_92, sBue_93, sBue_94, sBue_95, sBue_96, sBue_97, sBue_98, sBue_99, sBue_100]
  rw [(show min ((15 - te) / 15) (0:ℚ) = 0 from min_eq_right (by linarith)),
    (show min ((te - 10) / 15) (0:ℚ) = 0 from min_eq_right (by linarith)),
    (show min ((te - 10) / 15) (1/20:ℚ) = 1/20 from min_eq_right (by linarith)),
    (show min ((te - 10) / 15) (1/10:ℚ) = 1/10 from min_eq_right (by linarith)),
    (show min ((te - 10) / 15) (3/20:ℚ) = (te - 10) / 15 from min_eq_left (by linarith)),
    (show min ((te - 10) / 15) (1/5:ℚ) = (te - 10) / 15 from min_eq_left (by linarith)),
    (show min ((te - 10) / 15) (1/4:ℚ) = (te - 10) / 15 from min_eq_left (by linarith)),
    (show min ((te - 10) / 15) (3/10:ℚ) = (te - 10) / 15 from min_eq_left (by linarith)),
    (show min ((te - 10) / 15) (7/20:ℚ) = (te - 10) / 15 from min_eq_left (by linarith)),
    (show min ((te - 10) / 15) (2/5:ℚ) = (te - 10) / 15 from min_eq_left (by linarith)),
    (show min ((te - 10) / 15) (9/20:ℚ) = (te - 10) / 15 from min_eq_left (by linarith)),
    (show min ((te - 10) / 15) (1/2:ℚ) = (te - 10) / 15 from min_eq_left (by linarith)),
    (show min ((te - 10) / 15) (11/20:ℚ) = (te - 10) / 15 from min_eq_left (by linarith)),
    (show min ((te - 10) / 15) (3/5:ℚ) = (te - 10) / 15 from min_eq_left (by linarith)),
    (show min ((te - 10) / 15) (13/20:ℚ) = (te - 10) / 15 from min_eq_left (by linarith)),
    (show min ((te - 10) / 15) (7/10:ℚ) = (te - 10) / 15 from min_eq_left (by linarith)),
    (show min ((te - 10) / 15) (3/4:ℚ) = (te - 10) / 15 from min_eq_left (by linarith)),
    (show min ((te - 10) / 15) (4/5:ℚ) = (te - 10) / 15 from min_eq_left (by linarith)),
    (show min ((te - 10) / 15) (17/20:ℚ) = (te - 10) / 15 from min_eq_left (by linarith)),
    (show min ((te - 10) / 15) (9/10:ℚ) = (te - 10) / 15 from min_eq_left (by linarith)),
    (show min ((te - 10) / 15) (19/20:ℚ) = (te - 10) / 15 from min_eq_left (by linarith)),
    (show min ((te - 10) / 15) (1:ℚ) = (te - 10) / 15 from min_eq_left (by linarith)),
    (show min ((te - 10) / 15) (14/15:ℚ) = (te - 10) / 15 from min_eq_left (by linarith)),
    (show min ((te - 10) / 15) (13/15:ℚ) = (te - 10) / 15 from min_eq_left (by linarith)),
    (show min ((te - 10) / 15) (11/15:ℚ) = (te - 10) / 15 from min_eq_left (by linarith)),
    (show min ((te - 10) / 15) (2/3:ℚ) = (te - 10) / 15 from min_eq_left (by linarith)),
    (show min ((te - 10) / 15) (8/15:ℚ) = (te - 10) / 15 from min_eq_left (by linarith)),
    (show min ((te - 10) / 15) (7/15:ℚ) = (te - 10) / 15 from min_eq_left (by linarith)),
    (show min ((te - 10) / 15) (1/3:ℚ) = (te - 10) / 15 from min_eq_left (by linarith)),
    (show min ((15 - te) / 15) (1/10:ℚ) = 1/10 from min_eq_right (by linarith)),
    (show min ((te - 10) / 15) (4/15:ℚ) = (te - 10) / 15 from min_eq_left (by linarith)),
    (show min ((15 - te) / 15) (1/5:ℚ) = (15 - te) / 15 from min_eq_left (by linarith)),
    (show min ((15 - te) / 15) (3/10:ℚ) = (15 - te) / 15 from min_eq_left (by linarith)),
    (show min ((te - 10) / 15) (2/15:ℚ) = 2/15 from min_eq_right (by linarith)),
    (show min ((15 - te) / 15) (2/5:ℚ) = (15 - te) / 15 from min_eq_left (by linarith)),
    (show min ((te - 10) / 15) (1/15:ℚ) = 1/15 from min_eq_right (by linarith)),
    (show min ((15 - te) / 15) (1/2:ℚ) = (15 - te) / 15 from min_eq_left (by linarith)),
    (show min ((15 - te) / 15) (3/5:ℚ) = (15 - te) / 15 from min_eq_left (by linarith)),
    (show min ((15 - te) / 15) (7/10:ℚ) = (15 - te) / 15 from min_eq_left (by linarith)),
    (show min ((15 - te) / 15) (4/5:ℚ) = (15 - te) / 15 from min_eq_left (by linarith)),
    (show min ((15 - te) / 15) (9/10:ℚ) = (15 - te) / 15 from min_eq_left (by linarith)),
    (show min ((15 - te) / 15) (1:ℚ) = (15 - te) / 15 from min_eq_left (by linarith)),
    (show max (0:ℚ) (0:ℚ) = 0 from max_self 0),
    (show max (0:ℚ) (1/20:ℚ) = (1/20:ℚ) from max_eq_right (by norm_num)),
    (show max (0:ℚ) (1/10:ℚ) = (1/10:ℚ) from max_eq_right (by norm_num)),
    (show max (0:ℚ) ((te - 10) / 15) = ((te - 10) / 15) from max_eq_right (by linarith)),
    (show max (1/10:ℚ) ((te - 10) / 15) = ((te - 10) / 15) from max_eq_right (by linarith)),
    (show max ((15 - te) / 15) ((te - 10) / 15) = ((15 - te) / 15) from max_eq_left (by linarith)),
    (show max ((15 - te) / 15) (2/15:ℚ) = ((15 - te) / 15) from max_eq_left (by linarith)),
    (show max ((15 - te) / 15) (1/15:ℚ) = ((15 - te) / 15) from max_eq_left (by linarith)),
    (show max ((15 - te) / 15) (0:ℚ) = ((15 - te) / 15) from max_eq_left (by linarith))]
  simp only [List.sum_cons, List.sum_nil]
  ring

lemma monoS10 : ∀ t1 t2 : ℚ, 12 ≤ t1 → t1 ≤ t2 → t2 ≤ (49/4) → crispWait t2 ≤ crispWait t1 := by
  intro t1 t2 hp h12 hq
  unfold crispWait
  rw [denS10 t1 hp (by linarith), numS10 t1 hp (by linarith),
    denS10 t2 (by linarith) hq, numS10 t2 (by linarith) hq]
  exact frac_mono (-7385/12) (1369/15) (-611/60) (4/3) t1 t2 h12
    (by linarith) (by linarith) (by norm_num)

lemma denS11 (te : ℚ) (hp : (49/4) ≤ te) (hq : te ≤ (25/2)) :
    centroidDen te 9 = -281/30 + (19/15) * te := by
  have haw : ∀ u : ℚ, aggregatedDegree te 9 u =
      max (min (tiempoBajo te) (servicioExcelente u))
          (min (tiempoMedio te) (servicioBuena u)) :=
    fun u => aggregated_wait te u (by linarith) (by linarith)
  rw [centroidDen_eq_sum, universeServicio_literal]
  simp only [List.map_cons, List.map_nil, haw,
    tiempoBajo_eq te (by linarith) (by linarith), tiempoMedio_eq te (by linarith) (by linarith),
    sExc_0, sExc_1, sExc_2, sExc_3, sExc_4, sExc_5, sExc_6, sExc_7, sExc_8, sExc_9, sExc_10, sExc_11, sExc_12, sExc_13, sExc_14, sExc_15, sExc_16, sExc_17, sExc_18, sExc_19, sExc_20, sExc_21, sExc_22, sExc_23, sExc_24, sExc_25, sExc_26, sExc_27, sExc_28, sExc_29, sExc_30, sExc_31, sExc_32, sExc_33, sExc_34, sExc_35, sExc_36, sExc_37, sExc_38, sExc_39, sExc_40, sExc_41, sExc_42, sExc_43, sExc_44, sExc_45, sExc_46, sExc_47, sExc_48, sExc_49, sExc_50, sExc_51, sExc_52, sExc_53, sExc_54, sExc_55, sExc_56, sExc_57, sExc_58, sExc_59, sExc_60, sExc_61, sExc_62, sExc_63, sExc_64, sExc_65, sExc_66, sExc_67, sExc_68, sExc_69, sExc_70, sExc_71, sExc_72, sExc_73, sExc_74, sExc_75, sExc_76, sExc_77, sExc_78, sExc_79, sExc_80, sExc_81, sExc_82, sExc_83, sExc_84, sExc_85, sExc_86, sExc_87, sExc_88, sExc_89, sExc_90, sExc_91, sExc_92, sExc_93, sExc_94, sExc_95, sExc_96, sExc_97, sExc_98, sExc_99, sExc_100,
    sBue_0, sBue_1, sBue_2, sBue_3, sBue_4, sBue_5, sBue_6, sBue_7, sBue_8, sBue_9, sBue_10, sBue_11, sBue_12, sBue_13, sBue_14, sBue_15, sBue_16, sBue_17, sBue_18, sBue_19, sBue_20, sBue_21, sBue_22, sBue_23, sBue_24, sBue_25, sBue_26, sBue_27, sBue_28, sBue_29, sBue_30, sBue_31, sBue_32, sBue_33, sBue_34, sBue_35, sBue_36, sBue_37, sBue_38, sBue_39, sBue_40, sBue_41, sBue_42, sBue_43, sBue_44, sBue_45, sBue_46, sBue_47, sBue_48, sBue_49, sBue_50, sBue_51, sBue_52, sBue_53, sBue_54, sBue_55, sBue_56, sBue_57, sBue_58, sBue_59, sBue_60, sBue_61, sBue_62, sBue_63, sBue_64, sBue_65, sBue_66, sBue_67, sBue_68, sBue_69, sBue_70, sBue_71, sBue_72, sBue_73, sBue_74, sBue_75, sBue_76, sBue_77, sBue_78, sBue_79, sBue_80, sBue_81, sBue_82, sBue_83, sBue_84, sBue_85, sBue_86, sBue_87, sBue_88, sBue_89, sBue_90, sBue_91, sBue_92, sBue_93, sBue_94, sBue_95, sBue_96, sBue_97, sBue_98, sBue_99, sBue_100]
  rw [(show min ((15 - te) / 15) (0:ℚ) = 0 from min_eq_right (by linarith)),
    (show min ((te - 10) / 15) (0:ℚ) = 0 from min_eq_right (by linarith)),
    (show min ((te - 10) / 15) (1/20:ℚ) = 1/20 from min_eq_right (by linarith)),
    (show min ((te - 10) / 15) (1/10:ℚ) = 1/10 from min_eq_right (by linarith)),
    (show min ((te - 10) / 15) (3/20:ℚ) = 3/20 from min_eq_right (by linarith)),
    (show min ((te - 10) / 15) (1/5:ℚ) = (te - 10) / 15 from min_eq_left (by linarith)),
    (show min ((te - 10) / 15) (1/4:ℚ) = (te - 10) / 15 from min_eq_left (by linarith)),
    (show min ((te - 10) / 15) (3/10:ℚ) = (te - 10) / 15 from min_eq_left (by linarith)),
    (show min ((te - 10) / 15) (7/20:ℚ) = (te - 10) / 15 from min_eq_left (by linarith)),
    (show min ((te - 10) / 15) (2/5:ℚ) = (te - 10) / 15 from min_eq_left (by linarith)),
    (show min ((te - 10) / 15) (9/20:ℚ) = (te - 10) / 15 from min_eq_left (by linarith)),
    (show min ((te - 10) / 15) (1/2:ℚ) = (te - 10) / 15 from min_eq_left (by linarith)),
    (show min ((te - 10) / 15) (11/20:ℚ) = (te - 10) / 15 from min_eq_left (by linarith)),
    (show min ((te - 10) / 15) (3/5:ℚ) = (te - 10) / 15 from min_eq_left (by linarith)),
    (show min ((te - 10) / 15) (13/20:ℚ) = (te - 10) / 15 from min_eq_left (by linarith)),
    (show min ((te - 10) / 15) (7/10:ℚ) = (te - 10) / 15 from min_eq_left (by linarith)),
    (show min ((te - 10) / 15) (3/4:ℚ) = (te - 10) / 15 from min_eq_left (by linarith)),
    (show min ((te - 10) / 15) (4/5:ℚ) = (te - 10) / 15 from min_eq_left (by linarith)),
    (show min ((te - 10) / 15) (17/20:ℚ) = (te - 10) / 15 from min_eq_left (by linarith)),
    (show min ((te - 10) / 15) (9/10:ℚ) = (te - 10) / 15 from min_eq_left (by linarith)),
    (show min ((te - 10) / 15) (19/20:ℚ) = (te - 10) / 15 from min_eq_left (by linarith)),
    (show min ((te - 10) / 15) (1:ℚ) = (te - 10) / 15 from min_eq_left (by linarith)),
    (show min ((te - 10) / 15) (14/15:ℚ) = (te - 10) / 15 from min_eq_left (by linarith)),
    (show min ((te - 10) / 15) (13/15:ℚ) = (te - 10) / 15 from min_eq_left (by linarith)),
    (show min ((te - 10) / 15) (11/15:ℚ) = (te - 10) / 15 from min_eq_left (by linarith)),
    (show min ((te - 10) / 15) (2/3:ℚ) = (te - 10) / 15 from min_eq_left (by linarith)),
    (show min ((te - 10) / 15) (8/15:ℚ) = (te - 10) / 15 from min_eq_left (by linarith)),
    (show min ((te - 10) / 15) (7/15:ℚ) = (te - 10) / 15 from min_eq_left (by linarith)),
    (show min ((te - 10) / 15) (1/3:ℚ) = (te - 10) / 15 from min_eq_left (by linarith)),
    (show min ((15 - te) / 15) (1/10:ℚ) = 1/10 from min_eq_right (by linarith)),
    (show min ((te - 10) / 15) (4/15:ℚ) = (te - 10) / 15 from min_eq_left (by linarith)),
    (show min ((15 - te) / 15) (1/5:ℚ) = (15 - te) / 15 from min_eq_left (by linarith)),
    (show min ((15 - te) / 15) (3/10:ℚ) = (15 - te) / 15 from min_eq_left (by linarith)),
    (show min ((te - 10) / 15) (2/15:ℚ) = 2/15 from min_eq_right (by linarith)),
    (show min ((15 - te) / 15) (2/5:ℚ) = (15 - te) / 15 from min_eq_left (by linarith)),
    (show min ((te - 10) / 15) (1/15:ℚ) = 1/15 from min_eq_right (by linarith)),
    (show min ((15 - te) / 15) (1/2:ℚ) = (15 - te) / 15 from min_eq_left (by linarith)),
    (show min ((15 - te) / 15) (3/5:ℚ) = (15 - te) / 15 from min_eq_left (by linarith)),
    (show min ((15 - te) / 15) (7/10:ℚ) = (15 - te) / 15 from min_eq_left (by linarith)),
    (show min ((15 - te) / 15) (4/5:ℚ) = (15 - te) / 15 from min_eq_left (by linarith)),
    (show min ((15 - te) / 15) (9/10:ℚ) = (15 - te) / 15 from min_eq_left (by linarith)),
    (show min ((15 - te) / 15) (1:ℚ) = (15 - te) / 15 from min_eq_left (by linarith)),
    (show max (0:ℚ) (0:ℚ) = 0 from max_self 0),
    (show max (0:ℚ) (1/20:ℚ) = (1/20:ℚ) from max_eq_right (by norm_num)),
    (show max (0:ℚ) (1/10:ℚ) = (1/10:ℚ) from max_eq_right (by norm_num)),
    (show max (0:ℚ) (3/20:ℚ) = (3/20:ℚ) from max_eq_right (by norm_num)),
    (show max (0:ℚ) ((te - 10) / 15) = ((te - 10) / 15) from max_eq_right (by linarith)),
    (show max (1/10:ℚ) ((te - 10) / 15) = ((te - 10) / 15) from max_eq_right (by linarith)),
    (show max ((15 - te) / 15) ((te - 10) / 15) = ((15 - te) / 15) from max_eq_left (by linarith)),
    (show max ((15 - te) / 15) (2/15:ℚ) = ((15 - te) / 15) from max_eq_left (by linarith)),
    (show max ((15 - te) / 15) (1/15:ℚ) = ((15 - te) / 15) from max_eq_left (by linarith)),
    (show max ((15 - te) / 15) (0:ℚ) = ((15 - te) / 15) from max_eq_left (by linarith))]
  simp only [List.sum_cons, List.sum_nil]
  ring

lemma numS11 (te : ℚ) (hp : (49/4) ≤ te) (hq : te ≤ (25/2)) :
    centroidNum te 9 = -16919/30 + (1306/15) * te := by
  have haw : ∀ u : ℚ, aggregatedDegree te 9 u =
      max (min (tiempoBajo te) (servicioExcelente u))
          (min (tiempoMedio te) (servicioBuena u)) :=
    fun u => aggregated_wait te u (by linarith) (by linarith)
  rw [centroidNum_eq_sum, universeServicio_literal]
  simp only [List.map_cons, List.map_nil, haw,
    tiempoBajo_eq te (by linarith) (by linarith), tiempoMedio_eq te (by linarith) (by linarith),
    sExc_0, sExc_1, sExc_2, sExc_3, sExc_4, sExc_5, sExc_6, sExc_7, sExc_8, sExc_9, sExc_10, sExc_11, sExc_12, sExc_13, sExc_14, sExc_15, sExc_16, sExc_17, sExc_18, sExc_19, sExc_20, sExc_21, sExc_22, sExc_23, sExc_24, sExc_25, sExc_26, sExc_27, sExc_28, sExc_29, sExc_30, sExc_31, sExc_32, sExc_33, sExc_34, sExc_35, sExc_36, sExc_37, sExc_38, sExc_39, sExc_40, sExc_41, sExc_42, sExc_43, sExc_44, sExc_45, sExc_46, sExc_47, sExc_48, sExc_49, sExc_50, sExc_51, sExc_52, sExc_53, sExc_54, sExc_55, sExc_56, sExc_57, sExc_58, sExc_59, sExc_60, sExc_61, sExc_62, sExc_63, sExc_64, sExc_65, sExc_66, sExc_67, sExc_68, sExc_69, sExc_70, sExc_71, sExc_72, sExc_73, sExc_74, sExc_75, sExc_76, sExc_77, sExc_78, sExc_79, sExc_80, sExc_81, sExc_82, sExc_83, sExc_84, sExc_85, sExc_86, sExc_87, sExc_88, sExc_89, sExc_90, sExc_91, sExc_92, sExc_93, sExc_94, sExc_95, sExc_96, sExc_97, sExc_98, sExc_99, sExc_100,
    sBue_0, sBue_1, sBue_2, sBue_3, sBue_4, sBue_5, sBue_6, sBue_7, sBue_8, sBue_9, sBue_10, sBue_11, sBue_12, sBue_13, sBue_14, sBue_15, sBue_16, sBue_17, sBue_18, sBue_19, sBue_20, sBue_21, sBue_22, sBue_23, sBue_24, sBue_25, sBue_26, sBue_27, sBue_28, sBue_29, sBue_30, sBue_31, sBue_32, sBue_33, sBue_34, sBue_35, sBue_36, sBue_37, sBue_38, sBue_39, sBue_40, sBue_41, sBue_42, sBue_43, sBue_44, sBue_45, sBue_46, sBue_47, sBue_48, sBue_49, sBue_50, sBue_51, sBue_52, sBue_53, sBue_54, sBue_55, sBue_56, sBue_57, sBue_58, sBue_59, sBue_60, sBue_61, sBue_62, sBue_63, sBue_64, sBue_65, sBue_66, sBue_67, sBue_68, sBue_69, sBue_70, sBue_71, sBue_72, sBue_73, sBue_74, sBue_75, sBue_76, sBue_77, sBue_78, sBue_79, sBue_80, sBue_81, sBue_82, sBue_83, sBue_84, sBue_85, sBue_86, sBue_87, sBue_88, sBue_89, sBue_90, sBue_91, sBue_92, sBue_93, sBue_94, sBue_95, sBue_96, sBue_97, sBue_98, sBue_99, sBue_100]
  rw [(show min ((15 - te) / 15) (0:ℚ) = 0 from min_eq_right (by linarith)),
    (show min ((te - 10) / 15) (0:ℚ) = 0 from min_eq_right (by linarith)),
    (show min ((te - 10) / 15) (1/20:ℚ) = 1/20 from min_eq_right (by linarith)),
    (show min ((te - 10) / 15) (1/10:ℚ) = 1/10 from min_eq_right (by linarith)),
    (show min ((te - 10) / 15) (3/20:ℚ) = 3/20 from min_eq_right (by linarith)),
    (show min ((te - 10) / 15) (1/5:ℚ) = (te - 10) / 15 from min_eq_left (by linarith)),
    (show min ((te - 10) / 15) (1/4:ℚ) = (te - 10) / 15 from min_eq_left (by linarith)),
    (show min ((te - 10) / 15) (3/10:ℚ) = (te - 10) / 15 from min_eq_left (by linarith)),
    (show min ((te - 10) / 15) (7/20:ℚ) = (te - 10) / 15 from min_eq_left (by linarith)),
    (show min ((te - 10) / 15) (2/5:ℚ) = (te - 10) / 15 from min_eq_left (by linarith)),
    (show min ((te - 10) / 15) (9/20:ℚ) = (te - 10) / 15 from min_eq_left (by linarith)),
    (show min ((te - 10) / 15) (1/2:ℚ) = (te - 10) / 15 from min_eq_left (by linarith)),
    (show min ((te - 10) / 15) (11/20:ℚ) = (te - 10) / 15 from min_eq_left (by linarith)),
    (show min ((te - 10) / 15) (3/5:ℚ) = (te - 10) / 15 from min_eq_left (by linarith)),
    (show min ((te - 10) / 15) (13/20:ℚ) = (te - 10) / 15 from min_eq_left (by linarith)),
    (show min ((te - 10) / 15) (7/10:ℚ) = (te - 10) / 15 from min_eq_left (by linarith)),
    (show min ((te - 10) / 15) (3/4:ℚ) = (te - 10) / 15 from min_eq_left (by linarith)),
    (show min ((te - 10) / 15) (4/5:ℚ) = (te - 10) / 15 from min_eq_left (by linarith)),
    (show min ((te - 10) / 15) (17/20:ℚ) = (te - 10) / 15 from min_eq_left (by linarith)),
    (show min ((te - 10) / 15) (9/10:ℚ) = (te - 10) / 15 from min_eq_left (by linarith)),
    (show min ((te - 10) / 15) (19/20:ℚ) = (te - 10) / 15 from min_eq_left (by linarith)),
    (show min ((te - 10) / 15) (1:ℚ) = (te - 10) / 15 from min_eq_left (by linarith)),
    (show min ((te - 10) / 15) (14/15:ℚ) = (te - 10) / 15 from min_eq_left (by linarith)),
    (show min ((te - 10) / 15) (13/15:ℚ) = (te - 10) / 15 from min_eq_left (by linarith)),
    (show min ((te - 10) / 15) (11/15:ℚ) = (te - 10) / 15 from min_eq_left (by linarith)),
    (show min ((te - 10) / 15) (2/3:ℚ) = (te - 10) / 15 from min_eq_left (by linarith)),
    (show min ((te - 10) / 15) (8/15:ℚ) = (te - 10) / 15 from min_eq_left (by linarith)),
    (show min ((te - 10) / 15) (7/15:ℚ) = (te - 10) / 15 from min_eq_left (by linarith)),
    (show min ((te - 10) / 15) (1/3:ℚ) = (te - 10) / 15 from min_eq_left (by linarith)),
    (show min ((15 - te) / 15) (1/10:ℚ) = 1/10 from min_eq_right (by linarith)),
    (show min ((te - 10) / 15) (4/15:ℚ) = (te - 10) / 15 from min_eq_left (by linarith)),
    (show min ((15 - te) / 15) (1/5:ℚ) = (15 - te) / 15 from min_eq_left (by linarith)),
    (show min ((15 - te) / 15) (3/10:ℚ) = (15 - te) / 15 from min_eq_left (by linarith)),
    (show min ((te - 10) / 15) (2/15:ℚ) = 2/15 from min_eq_right (by linarith)),
    (show min ((15 - te) / 15) (2/5:ℚ) = (15 - te) / 15 from min_eq_left (by linarith)),
    (show min ((te - 10) / 15) (1/15:ℚ) = 1/15 from min_eq_right (by linarith)),
    (show min ((15 - te) / 15) (1/2:ℚ) = (15 - te) / 15 from min_eq_left (by linarith)),
    (show min ((15 - te) / 15) (3/5:ℚ) = (15 - te) / 15 from min_eq_left (by linarith)),
    (show min ((15 - te) / 15) (7/10:ℚ) = (15 - te) / 15 from min_eq_left (by linarith)),
    (show min ((15 - te) / 15) (4/5:ℚ) = (15 - te) / 15 from min_eq_left (by linarith)),
    (show min ((15 - te) / 15) (9/10:ℚ) = (15 - te) / 15 from min_eq_left (by linarith)),
    (show min ((15 - te) / 15) (1:ℚ) = (15 - te) / 15 from min_eq_left (by linarith)),
    (show max (0:ℚ) (0:ℚ) = 0 from max_self 0),
    (show max (0:ℚ) (1/20:ℚ) = (1/20:ℚ) from max_eq_right (by norm_num)),
    (show max (0:ℚ) (1/10:ℚ) = (1/10:ℚ) from max_eq_right (by norm_num)),
    (show max (0:ℚ) (3/20:ℚ) = (3/20:ℚ) from max_eq_right (by norm_num)),
    (show max (0:ℚ) ((te - 10) / 15) = ((te - 10) / 15) from max_eq_right (by linarith)),
    (show max (1/10:ℚ) ((te - 10) / 15) = ((te - 10) / 15) from max_eq_right (by linarith)),
    (show max ((15 - te) / 15) ((te - 10) / 15) = ((15 - te) / 15) from max_eq_left (by linarith)),
    (show max ((15 - te) / 15) (2/15:ℚ) = ((15 - te) / 15) from max_eq_left (by linarith)),
    (show max ((15 - te) / 15) (1/15:ℚ) = ((15 - te) / 15) from max_eq_left (by linarith)),
    (show max ((15 - te) / 15) (0:ℚ) = ((15 - te) / 15) from max_eq_left (by linarith))]
  simp only [List.sum_cons, List.sum_nil]
  ring

lemma monoS11 : ∀ t1 t2 : ℚ, (49/4) ≤ t1 → t1 ≤ t2 → t2 ≤ (25/2) → crispWait t2 ≤ crispWait t1 := by
  intro t1 t2 hp h12 hq
  unfold crispWait
  rw [denS11 t1 hp (by linarith), numS11 t1 hp (by linarith),
    denS11 t2 (by linarith) hq, numS11 t2 (by linarith) hq]
  exact frac_mono (-16919/30) (1306/15) (-281/30) (19/15) t1 t2 h12
    (by linarith) (by linarith) (by norm_num)

lemma denS12 (te : ℚ) (hp : (25/2) ≤ te) (hq : te ≤ 13) :
    centroidDen te 9 = -331/30 + (7/5) * te := by
  have haw : ∀ u : ℚ, aggregatedDegree te 9 u =
      max (min (tiempoBajo te) (servicioExcelente u))
          (min (tiempoMedio te) (servicioBuena u)) :=
    fun u => aggregated_wait te u (by linarith) (by linarith)
  rw [centroidDen_eq_sum, universeServicio_literal]
  simp only [List.map_cons, List.map_nil, haw,
    tiempoBajo_eq te (by linarith) (by linarith), tiempoMedio_eq te (by linarith) (by linarith),
    sExc_0, sExc_1, sExc_2, sExc_3, sExc_4, sExc_5, sExc_6, sExc_7, sExc_8, sExc_9, sExc_10, sExc_11, sExc_12, sExc_13, sExc_14, sExc_15, sExc_16, sExc_17, sExc_18, sExc_19, sExc_20, sExc_21, sExc_22, sExc_23, sExc_24, sExc_25, sExc_26, sExc_27, sExc_28, sExc_29, sExc_30, sExc_31, sExc_32, sExc_33, sExc_34, sExc_35, sExc_36, sExc_37, sExc_38, sExc_39, sExc_40, sExc_41, sExc_42, sExc_43, sExc_44, sExc_45, sExc_46, sExc_47, sExc_48, sExc_49, sExc_50, sExc_51, sExc_52, sExc_53, sExc_54, sExc_55, sExc_56, sExc_57, sExc_58, sExc_59, sExc_60, sExc_61, sExc_62, sExc_63, sExc_64, sExc_65, sExc_66, sExc_67, sExc_68, sExc_69, sExc_70, sExc_71, sExc_72, sExc_73, sExc_74, sExc_75, sExc_76, sExc_77, sExc_78, sExc_79, sExc_80, sExc_81, sExc_82, sExc_83, sExc_84, sExc_85, sExc_86, sExc_87, sExc_88, sExc_89, sExc_90, sExc_91, sExc_92, sExc_93, sExc_94, sExc_95, sExc_96, sExc_97, sExc_98, sExc_99, sExc_100,
    sBue_0, sBue_1, sBue_2, sBue_3, sBue_4, sBue_5, sBue_6, sBue_7, sBue_8, sBue_9, sBue_10, sBue_11, sBue_12, sBue_13, sBue_14, sBue_15, sBue_16, sBue_17, sBue_18, sBue_19, sBue_20, sBue_21, sBue_22, sBue_23, sBue_24, sBue_25, sBue_26, sBue_27, sBue_28, sBue_29, sBue_30, sBue_31, sBue_32, sBue_33, sBue_34, sBue_35, sBue_36, sBue_37, sBue_38, sBue_39, sBue_40, sBue_41, sBue_42, sBue_43, sBue_44, sBue_45, sBue_46, sBue_47, sBue_48, sBue_49, sBue_50, sBue_51, sBue_52, sBue_53, sBue_54, sBue_55, sBue_56, sBue_57, sBue_58, sBue_59, sBue_60, sBue_61, sBue_62, sBue_63, sBue_64, sBue_65, sBue_66, sBue_67, sBue_68, sBue_69, sBue_70, sBue_71, sBue_72, sBue_73, sBue_74, sBue_75, sBue_76, sBue_77, sBue_78, sBue_79, sBue_80, sBue_81, sBue_82, sBue_83, sBue_84, sBue_85, sBue_86, sBue_87, sBue_88, sBue_89, sBue_90, sBue_91, sBue_92, sBue_93, sBue_94, sBue_95, sBue_96, sBue_97, sBue_98, sBue_99, sBue_100]
  rw [(show min ((15 - te) / 15) (0:ℚ) = 0 from min_eq_right (by linarith)),
    (show min ((te - 10) / 15) (0:ℚ) = 0 from min_eq_right (by linarith)),
    (show min ((te - 10) / 15) (1/20:ℚ) = 1/20 from min_eq_right (by linarith)),
    (show min ((te - 10) / 15) (1/10:ℚ) = 1/10 from min_eq_right (by linarith)),
    (show min ((te - 10) / 15) (3/20:ℚ) = 3/20 from min_eq_right (by linarith)),
    (show min ((te - 10) / 15) (1/5:ℚ) = (te - 10) / 15 from min_eq_left (by linarith)),
    (show min ((te - 10) / 15) (1/4:ℚ) = (te - 10) / 15 from min_eq_left (by linarith)),
    (show min ((te - 10) / 15) (3/10:ℚ) = (te - 10) / 15 from min_eq_left (by linarith)),
    (show min ((te - 10) / 15) (7/20:ℚ) = (te - 10) / 15 from min_eq_left (by linarith)),
    (show min ((te - 10) / 15) (2/5:ℚ) = (te - 10) / 15 from min_eq_left (by linarith)),
    (show min ((te - 10) / 15) (9/20:ℚ) = (te - 10) / 15 from min_eq_left (by linarith)),
    (show min ((te - 10) / 15) (1/2:ℚ) = (te - 10) / 15 from min_eq_left (by linarith)),
    (show min ((te - 10) / 15) (11/20:ℚ) = (te - 10) / 15 from min_eq_left (by linarith)),
    (show min ((te - 10) / 15) (3/5:ℚ) = (te - 10) / 15 from min_eq_left (by linarith)),
    (show min ((te - 10) / 15) (13/20:ℚ) = (te - 10) / 15 from min_eq_left (by linarith)),
    (show min ((te - 10) / 15) (7/10:ℚ) = (te - 10) / 15 from min_eq_left (by linarith)),
    (show min ((te - 10) / 15) (3/4:ℚ) = (te - 10) / 15 from min_eq_left (by linarith)),
    (show min ((te - 10) / 15) (4/5:ℚ) = (te - 10) / 15 from min_eq_left (by linarith)),
    (show min ((te - 10) / 15) (17/20:ℚ) = (te - 10) / 15 from min_eq_left (by linarith)),
    (show min ((te - 10) / 15) (9/10:ℚ) = (te - 10) / 15 from min_eq_left (by linarith)),
    (show min ((te - 10) / 15) (19/20:ℚ) = (te - 10) / 15 from min_eq_left (by linarith)),
    (show min ((te - 10) / 15) (1:ℚ) = (te - 10) / 15 from min_eq_left (by linarith)),
    (show min ((te - 10) / 15) (14/15:ℚ) = (te - 10) / 15 from min_eq_left (by linarith)),
    (show min ((te - 10) / 15) (13/15:ℚ) = (te - 10) / 15 from min_eq_left (by linarith)),
    (show min ((te - 10) / 15) (11/15:ℚ) = (te - 10) / 15 from min_eq_left (by linarith)),
    (show min ((te - 10) / 15) (2/3:ℚ) = (te - 10) / 15 from min_eq_left (by linarith)),
    (show min ((te - 10) / 15) (8/15:ℚ) = (te - 10) / 15 from min_eq_left (by linarith)),
    (show min ((te - 10) / 15) (7/15:ℚ) = (te - 10) / 15 from min_eq_left (by linarith)),
    (show min ((te - 10) / 15) (1/3:ℚ) = (te - 10) / 15 from min_eq_left (by linarith)),
    (show min ((15 - te) / 15) (1/10:ℚ) = 1/10 from min_eq_right (by linarith)),
    (show min ((te - 10) / 15) (4/15:ℚ) = (te - 10) / 15 from min_eq_left (by linarith)),
    (show min ((15 - te) / 15) (1/5:ℚ) = (15 - te) / 15 from min_eq_left (by linarith)),
    (show min ((15 - te) / 15) (3/10:ℚ) = (15 - te) / 15 from min_eq_left (by linarith)),
    (show min ((te - 10) / 15) (2/15:ℚ) = 2/15 from min_eq_right (by linarith)),
    (show min ((15 - te) / 15) (2/5:ℚ) = (15 - te) / 15 from min_eq_left (by linarith)),
    (show min ((te - 10) / 15) (1/15:ℚ) = 1/15 from min_eq_right (by linarith)),
    (show min ((15 - te) / 15) (1/2:ℚ) = (15 - te) / 15 from min_eq_left (by linarith)),
    (show min ((15 - te) / 15) (3/5:ℚ) = (15 - te) / 15 from min_eq_left (by linarith)),
    (show min ((15 - te) / 15) (7/10:ℚ) = (15 - te) / 15 from min_eq_left (by linarith)),
    (show min ((15 - te) / 15) (4/5:ℚ) = (15 - te) / 15 from min_eq_left (by linarith)),
    (show min ((15 - te) / 15) (9/10:ℚ) = (15 - te) / 15 from min_eq_left (by linarith)),
    (show min ((15 - te) / 15) (1:ℚ) = (15 - te) / 15 from min_eq_left (by linarith)),
    (show max (0:ℚ) (0:ℚ) = 0 from max_self 0),
    (show max (0:ℚ) (1/20:ℚ) = (1/20:ℚ) from max_eq_right (by norm_num)),
    (show max (0:ℚ) (1/10:ℚ) = (1/10:ℚ) from max_eq_right (by norm_num)),
    (show max (0:ℚ) (3/20:ℚ) = (3/20:ℚ) from max_eq_right (by norm_num)),
    (show max (0:ℚ) ((te - 10) / 15) = ((te - 10) / 15) from max_eq_right (by linarith)),
    (show max (1/10:ℚ) ((te - 10) / 15) = ((te - 10) / 15) from max_eq_right (by linarith)),
    (show max ((15 - te) / 15) ((te - 10) / 15) = ((te - 10) / 15) from max_eq_right (by linarith)),
    (show max ((15 - te) / 15) (2/15:ℚ) = ((15 - te) / 15) from max_eq_left (by linarith)),
    (show max ((15 - te) / 15) (1/15:ℚ) = ((15 - te) / 15) from max_eq_left (by linarith)),
    (show max ((15 - te) / 15) (0:ℚ) = ((15 - te) / 15) from max_eq_left (by linarith))]
  simp only [List.sum_cons, List.sum_nil]
  ring

lemma numS12 (te : ℚ) (hp : (25/2) ≤ te) (hq : te ≤ 13) :
    centroidNum te 9 = -7173/10 + (298/3) * te := by
  have haw : ∀ u : ℚ, aggregatedDegree te 9 u =
      max (min (tiempoBajo te) (servicioExcelente u))
          (min (tiempoMedio te) (servicioBuena u)) :=
    fun u => aggregated_wait te u (by linarith) (by linarith)
  rw [centroidNum_eq_sum, universeServicio_literal]
  simp only [List.map_cons, List.map_nil, haw,
    tiempoBajo_eq te (by linarith) (by linarith), tiempoMedio_eq te (by linarith) (by linarith),
    sExc_0, sExc_1, sExc_2, sExc_3, sExc_4, sExc_5, sExc_6, sExc_7, sExc_8, sExc_9, sExc_10, sExc_11, sExc_12, sExc_13, sExc_14, sExc_15, sExc_16, sExc_17, sExc_18, sExc_19, sExc_20, sExc_21, sExc_22, sExc_23, sExc_24, sExc_25, sExc_26, sExc_27, sExc_28, sExc_29, sExc_30, sExc_31, sExc_32, sExc_33, sExc_34, sExc_35, sExc_36, sExc_37, sExc_38, sExc_39, sExc_40, sExc_41, sExc_42, sExc_43, sExc_44, sExc_45, sExc_46, sExc_47, sExc_48, sExc_49, sExc_50, sExc_51, sExc_52, sExc_53, sExc_54, sExc_55, sExc_56, sExc_57, sExc_58, sExc_59, sExc_60, sExc_61, sExc_62, sExc_63, sExc_64, sExc_65, sExc_66, sExc_67, sExc_68, sExc_69, sExc_70, sExc_71, sExc_72, sExc_73, sExc_74, sExc_75, sExc_76, sExc_77, sExc_78, sExc_79, sExc_80, sExc_81, sExc_82, sExc_83, sExc_84, sExc_85, sExc_86, sExc_87, sExc_88, sExc_89, sExc_90, sExc_91, sExc_92, sExc_93, sExc_94, sExc_95, sExc_96, sExc_97, sExc_98, sExc_99, sExc_100,
    sBue_0, sBue_1, sBue_2, sBue_3, sBue_4, sBue_5, sBue_6, sBue_7, sBue_8, sBue_9, sBue_10, sBue_11, sBue_12, sBue_13, sBue_14, sBue_15, sBue_16, sBue_17, sBue_18, sBue_19, sBue_20, sBue_21, sBue_22, sBue_23, sBue_24, sBue_25, sBue_26, sBue_27, sBue_28, sBue_29, sBue_30, sBue_31, sBue_32, sBue_33, sBue_34, sBue_35, sBue_36, sBue_37, sBue_38, sBue_39, sBue_40, sBue_41, sBue_42, sBue_43, sBue_44, sBue_45, sBue_46, sBue_47, sBue_48, sBue_49, sBue_50, sBue_51, sBue_52, sBue_53, sBue_54, sBue_55, sBue_56, sBue_57, sBue_58, sBue_59, sBue_60, sBue_61, sBue_62, sBue_63, sBue_64, sBue_65, sBue_66, sBue_67, sBue_68, sBue_69, sBue_70, sBue_71, sBue_72, sBue_73, sBue_74, sBue_75, sBue_76, sBue_77, sBue_78, sBue_79, sBue_80, sBue_81, sBue_82, sBue_83, sBue_84, sBue_85, sBue_86, sBue_87, sBue_88, sBue_89, sBue_90, sBue_91, sBue_92, sBue_93, sBue_94, sBue_95, sBue_96, sBue_97, sBue_98, sBue_99, sBue_100]
  rw [(show min ((15 - te) / 15) (0:ℚ) = 0 from min_eq_right (by linarith)),
    (show min ((te - 10) / 15) (0:ℚ) = 0 from min_eq_right (by linarith)),
    (show min ((te - 10) / 15) (1/20:ℚ) = 1/20 from min_eq_right (by linarith)),
    (show min ((te - 10) / 15) (1/10:ℚ) = 1/10 from min_eq_right (by linarith)),
    (show min ((te - 10) / 15) (3/20:ℚ) = 3/20 from min_eq_right (by linarith)),
    (show min ((te - 10) / 15) (1/5:ℚ) = (te - 10) / 15 from min_eq_left (by linarith)),
    (show min ((te - 10) / 15) (1/4:ℚ) = (te - 10) / 15 from min_eq_left (by linarith)),
    (show min ((te - 10) / 15) (3/10:ℚ) = (te - 10) / 15 from min_eq_left (by linarith)),
    (show min ((te - 10) / 15) (7/20:ℚ) = (te - 10) / 15 from min_eq_left (by linarith)),
    (show min ((te - 10) / 15) (2/5:ℚ) = (te - 10) / 15 from min_eq_left (by linarith)),
    (show min ((te - 10) / 15) (9/20:ℚ) = (te - 10) / 15 from min_eq_left (by linarith)),
    (show min ((te - 10) / 15) (1/2:ℚ) = (te - 10) / 15 from min_eq_left (by linarith)),
    (show min ((te - 10) / 15) (11/20:ℚ) = (te - 10) / 15 from min_eq_left (by linarith)),
    (show min ((te - 10) / 15) (3/5:ℚ) = (te - 10) / 15 from min_eq_left (by linarith)),
    (show min ((te - 10) / 15) (13/20:ℚ) = (te - 10) / 15 from min_eq_left (by linarith)),
    (show min ((te - 10) / 15) (7/10:ℚ) = (te - 10) / 15 from min_eq_left (by linarith)),
    (show min ((te - 10) / 15) (3/4:ℚ) = (te - 10) / 15 from min_eq_left (by linarith)),
    (show min ((te - 10) / 15) (4/5:ℚ) = (te - 10) / 15 from min_eq_left (by linarith)),
    (show min ((te - 10) / 15) (17/20:ℚ) = (te - 10) / 15 from min_eq_left (by linarith)),
    (show min ((te - 10) / 15) (9/10:ℚ) = (te - 10) / 15 from min_eq_left (by linarith)),
    (show min ((te - 10) / 15) (19/20:ℚ) = (te - 10) / 15 from min_eq_left (by linarith)),
    (show min ((te - 10) / 15) (1:ℚ) = (te - 10) / 15 from min_eq_left (by linarith)),
    (show min ((te - 10) / 15) (14/15:ℚ) = (te - 10) / 15 from min_eq_left (by linarith)),
    (show min ((te - 10) / 15) (13/15:ℚ) = (te - 10) / 15 from min_eq_left (by linarith)),
    (show min ((te - 10) / 15) (11/15:ℚ) = (te - 10) / 15 from min_eq_left (by linarith)),
    (show min ((te - 10) / 15) (2/3:ℚ) = (te - 10) / 15 from min_eq_left (by linarith)),
    (show min ((te - 10) / 15) (8/15:ℚ) = (te - 10) / 15 from min_eq_left (by linarith)),
    (show min ((te - 10) / 15) (7/15:ℚ) = (te - 10) / 15 from min_eq_left (by linarith)),
    (show min ((te - 10) / 15) (1/3:ℚ) = (te - 10) / 15 from min_eq_left (by linarith)),
    (show min ((15 - te) / 15) (1/10:ℚ) = 1/10 from min_eq_right (by linarith)),
    (show min ((te - 10) / 15) (4/15:ℚ) = (te - 10) / 15 from min_eq_left (by linarith)),
    (show min ((15 - te) / 15) (1/5:ℚ) = (15 - te) / 15 from min_eq_left (by linarith)),
    (show min ((15 - te) / 15) (3/10:ℚ) = (15 - te) / 15 from min_eq_left (by linarith)),
    (show min ((te - 10) / 15) (2/15:ℚ) = 2/15 from min_eq_right (by linarith)),
    (show min ((15 - te) / 15) (2/5:ℚ) = (15 - te) / 15 from min_eq_left (by linarith)),
    (show min ((te - 10) / 15) (1/15:ℚ) = 1/15 from min_eq_right (by linarith)),
    (show min ((15 - te) / 15) (1/2:ℚ) = (15 - te) / 15 from min_eq_left (by linarith)),
    (show min ((15 - te) / 15) (3/5:ℚ) = (15 - te) / 15 from min_eq_left (by linarith)),
    (show min ((15 - te) / 15) (7/10:ℚ) = (15 - te) / 15 from min_eq_left (by linarith)),
    (show min ((15 - te) / 15) (4/5:ℚ) = (15 - te) / 15 from min_eq_left (by linarith)),
    (show min ((15 - te) / 15) (9/10:ℚ) = (15 - te) / 15 from min_eq_left (by linarith)),
    (show min ((15 - te) / 15) (1:ℚ) = (15 - te) / 15 from min_eq_left (by linarith)),
    (show max (0:ℚ) (0:ℚ) = 0 from max_self 0),
    (show max (0:ℚ) (1/20:ℚ) = (1/20:ℚ) from max_eq_right (by norm_num)),
    (show max (0:ℚ) (1/10:ℚ) = (1/10:ℚ) from max_eq_right (by norm_num)),
    (show max (0:ℚ) (3/20:ℚ) = (3/20:ℚ) from max_eq_right (by norm_num)),
    (show max (0:ℚ) ((te - 10) / 15) = ((te - 10) / 15) from max_eq_right (by linarith)),
    (show max (1/10:ℚ) ((te - 10) / 15) = ((te - 10) / 15) from max_eq_right (by linarith)),
    (show max ((15 - te) / 15) ((te - 10) / 15) = ((te - 10) / 15) from max_eq_right (by linarith)),
    (show max ((15 - te) / 15) (2/15:ℚ) = ((15 - te) / 15) from max_eq_left (by linarith)),
    (show max ((15 - te) / 15) (1/15:ℚ) = ((15 - te) / 15) from max_eq_left (by linarith)),
    (show max ((15 - te) / 15) (0:ℚ) = ((15 - te) / 15) from max_eq_left (by linarith))]
  simp only [List.sum_cons, List.sum_nil]
  ring

lemma monoS12 : ∀ t1 t2 : ℚ, (25/2) ≤ t1 → t1 ≤ t2 → t2 ≤ 13 → crispWait t2 ≤ crispWait t1 := by
  intro t1 t2 hp h12 hq
  unfold crispWait
  rw [denS12 t1 hp (by linarith), numS12 t1 hp (by linarith),
    denS12 t2 (by linarith) hq, numS12 t2 (by linarith) hq]
  exact frac_mono (-7173/10) (298/3) (-331/30) (7/5) t1 t2 h12
    (by linarith) (by linarith) (by norm_num)

lemma denS13 (te : ℚ) (hp : 13 ≤ te) (hq : te ≤ (27/2)) :
    centroidDen te 9 = -61/6 + (4/3) * te := by
  have haw : ∀ u : ℚ, aggregatedDegree te 9 u =
      max (min (tiempoBajo te) (servicioExcelente u))
          (min (tiempoMedio te) (servicioBuena u)) :=
    fun u => aggregated_wait te u (by linarith) (by linarith)
  rw [centroidDen_eq_sum, universeServicio_literal]
  simp only [List.map_cons, List.map_nil, haw,
    tiempoBajo_eq te (by linarith) (by linarith), tiempoMedio_eq te (by linarith) (by linarith),
    sExc_0, sExc_1, sExc_2, sExc_3, sExc_4, sExc_5, sExc_6, sExc_7, sExc_8, sExc_9, sExc_10, sExc_11, sExc_12, sExc_13, sExc_14, sExc_15, sExc_16, sExc_17, sExc_18, sExc_19, sExc_20, sExc_21, sExc_22, sExc_23, sExc_24, sExc_25, sExc_26, sExc_27, sExc_28, sExc_29, sExc_30, sExc_31, sExc_32, sExc_33, sExc_34, sExc_35, sExc_36, sExc_37, sExc_38, sExc_39, sExc_40, sExc_41, sExc_42, sExc_43, sExc_44, sExc_45, sExc_46, sExc_47, sExc_48, sExc_49, sExc_50, sExc_51, sExc_52, sExc_53, sExc_54, sExc_55, sExc_56, sExc_57, sExc_58, sExc_59, sExc_60, sExc_61, sExc_62, sExc_63, sExc_64, sExc_65, sExc_66, sExc_67, sExc_68, sExc_69, sExc_70, sExc_71, sExc_72, sExc_73, sExc_74, sExc_75, sExc_76, sExc_77, sExc_78, sExc_79, sExc_80, sExc_81, sExc_82, sExc_83, sExc_84, sExc_85, sExc_86, sExc_87, sExc_88, sExc_89, sExc_90, sExc_91, sExc_92, sExc_93, sExc_94, sExc_95, sExc_96, sExc_97, sExc_98, sExc_99, sExc_100,
    sBue_0, sBue_1, sBue_2, sBue_3, sBue_4, sBue_5, sBue_6, sBue_7, sBue_8, sBue_9, sBue_10, sBue_11, sBue_12, sBue_13, sBue_14, sBue_15, sBue_16, sBue_17, sBue_18, sBue_19, sBue_20, sBue_21, sBue_22, sBue_23, sBue_24, sBue_25, sBue_26, sBue_27, sBue_28, sBue_29, sBue_30, sBue_31, sBue_32, sBue_33, sBue_34, sBue_35, sBue_36, sBue_37, sBue_38, sBue_39, sBue_40, sBue_41, sBue_42, sBue_43, sBue_44, sBue_45, sBue_46, sBue_47, sBue_48, sBue_49, sBue_50, sBue_51, sBue_52, sBue_53, sBue_54, sBue_55, sBue_56, sBue_57, sBue_58, sBue_59, sBue_60, sBue_61, sBue_62, sBue_63, sBue_64, sBue_65, sBue_66, sBue_67, sBue_68, sBue_69, sBue_70, sBue_71, sBue_72, sBue_73, sBue_74, sBue_75, sBue_76, sBue_77, sBue_78, sBue_79, sBue_80, sBue_81, sBue_82, sBue_83, sBue_84, sBue_85, sBue_86, sBue_87, sBue_88, sBue_89, sBue_90, sBue_91, sBue_92, sBue_93, sBue_94, sBue_95, sBue_96, sBue_97, sBue_98, sBue_99, sBue_100]
  rw [(show min ((15 - te) / 15) (0:ℚ) = 0 from min_eq_right (by linarith)),
    (show min ((te - 10) / 15) (0:ℚ) = 0 from min_eq_right (by linarith)),
    (show min ((te - 10) / 15) (1/20:ℚ) = 1/20 from min_eq_right (by linarith)),
    (show min ((te - 10) / 15) (1/10:ℚ) = 1/10 from min_eq_right (by linarith)),
    (show min ((te - 10) / 15) (3/20:ℚ) = 3/20 from min_eq_right (by linarith)),
    (show min ((te - 10) / 15) (1/5:ℚ) = 1/5 from min_eq_right (by linarith)),
    (show min ((te - 10) / 15) (1/4:ℚ) = (te - 10) / 15 from min_eq_left (by linarith)),
    (show min ((te - 10) / 15) (3/10:ℚ) = (te - 10) / 15 from min_eq_left (by linarith)),
    (show min ((te - 10) / 15) (7/20:ℚ) = (te - 10) / 15 from min_eq_left (by linarith)),
    (show min ((te - 10) / 15) (2/5:ℚ) = (te - 10) / 15 from min_eq_left (by linarith)),
    (show min ((te - 10) / 15) (9/20:ℚ) = (te - 10) / 15 from min_eq_left (by linarith)),
    (show min ((te - 10) / 15) (1/2:ℚ) = (te - 10) / 15 from min_eq_left (by linarith)),
    (show min ((te - 10) / 15) (11/20:ℚ) = (te - 10) / 15 from min_eq_left (by linarith)),
    (show min ((te - 10) / 15) (3/5:ℚ) = (te - 10) / 15 from min_eq_left (by linarith)),
    (show min ((te - 10) / 15) (13/20:ℚ) = (te - 10) / 15 from min_eq_left (by linarith)),
    (show min ((te - 10) / 15) (7/10:ℚ) = (te - 10) / 15 from min_eq_left (by linarith)),
    (show min ((te - 10) / 15) (3/4:ℚ) = (te - 10) / 15 from min_eq_left (by linarith)),
    (show min ((te - 10) / 15) (4/5:ℚ) = (te - 10) / 15 from min_eq_left (by linarith)),
    (show min ((te - 10) / 15) (17/20:ℚ) = (te - 10) / 15 from min_eq_left (by linarith)),
    (show min ((te - 10) / 15) (9/10:ℚ) = (te - 10) / 15 from min_eq_left (by linarith)),
    (show min ((te - 10) / 15) (19/20:ℚ) = (te - 10) / 15 from min_eq_left (by linarith)),
    (show min ((te - 10) / 15) (1:ℚ) = (te - 10) / 15 from min_eq_left (by linarith)),
    (show min ((te - 10) / 15) (14/15:ℚ) = (te - 10) / 15 from min_eq_left (by linarith)),
    (show min ((te - 10) / 15) (13/15:ℚ) = (te - 10) / 15 from min_eq_left (by linarith)),
    (show min ((te - 10) / 15) (11/15:ℚ) = (te - 10) / 15 from min_eq_left (by linarith)),
    (show min ((te - 10) / 15) (2/3:ℚ) = (te - 10) / 15 from min_eq_left (by linarith)),
    (show min ((te - 10) / 15) (8/15:ℚ) = (te - 10) / 15 from min_eq_left (by linarith)),
    (show min ((te - 10) / 15) (7/15:ℚ) = (te - 10) / 15 from min_eq_left (by linarith)),
    (show min ((te - 10) / 15) (1/3:ℚ) = (te - 10) / 15 from min_eq_left (by linarith)),
    (show min ((15 - te) / 15) (1/10:ℚ) = 1/10 from min_eq_right (by linarith)),
    (show min ((te - 10) / 15) (4/15:ℚ) = (te - 10) / 15 from min_eq_left (by linarith)),
    (show min ((15 - te) / 15) (1/5:ℚ) = (15 - te) / 15 from min_eq_left (by linarith)),
    (show min ((15 - te) / 15) (3/10:ℚ) = (15 - te) / 15 from min_eq_left (by linarith)),
    (show min ((te - 10) / 15) (2/15:ℚ) = 2/15 from min_eq_right (by linarith)),
    (show min ((15 - te) / 15) (2/5:ℚ) = (15 - te) / 15 from min_eq_left (by linarith)),
    (show min ((te - 10) / 15) (1/15:ℚ) = 1/15 from min_eq_right (by linarith)),
    (show min ((15 - te) / 15) (1/2:ℚ) = (15 - te) / 15 from min_eq_left (by linarith)),
    (show min ((15 - te) / 15) (3/5:ℚ) = (15 - te) / 15 from min_eq_left (by linarith)),
    (show min ((15 - te) / 15) (7/10:ℚ) = (15 - te) / 15 from min_eq_left (by linarith)),
    (show min ((15 - te) / 15) (4/5:ℚ) = (15 - te) / 15 from min_eq_left (by linarith)),
    (show min ((15 - te) / 15) (9/10:ℚ) = (15 - te) / 15 from min_eq_left (by linarith)),
    (show min ((15 - te) / 15) (1:ℚ) = (15 - te) / 15 from min_eq_left (by linarith)),
    (show max (0:ℚ) (0:ℚ) = 0 from max_self 0),
    (show max (0:ℚ) (1/20:ℚ) = (1/20:ℚ) from max_eq_right (by norm_num)),
    (show max (0:ℚ) (1/10:ℚ) = (1/10:ℚ) from max_eq_right (by norm_num)),
    (show max (0:ℚ) (3/20:ℚ) = (3/20:ℚ) from max_eq_right (by norm_num)),
    (show max (0:ℚ) (1/5:ℚ) = (1/5:ℚ) from max_eq_right (by norm_num)),
    (show max (0:ℚ) ((te - 10) / 15) = ((te - 10) / 15) from max_eq_right (by linarith)),
    (show max (1/10:ℚ) ((te - 10) / 15) = ((te - 10) / 15) from max_eq_right (by linarith)),
    (show max ((15 - te) / 15) (1/5:ℚ) = (1/5:ℚ) from max_eq_right (by linarith)),
    (show max ((15 - te) / 15) (2/15:ℚ) = (2/15:ℚ) from max_eq_right (by linarith)),
    (show max ((15 - te) / 15) (1/15:ℚ) = ((15 - te) / 15) from max_eq_left (by linarith)),
    (show max ((15 - te) / 15) (0:ℚ) = ((15 - te) / 15) from max_eq_left (by linarith))]
  simp only [List.sum_cons, List.sum_nil]
  ring

lemma numS13 (te : ℚ) (hp : 13 ≤ te) (hq : te ≤ (27/2)) :
    centroidNum te 9 = -6627/10 + (1427/15) * te := by
  have haw : ∀ u : ℚ, aggregatedDegree te 9 u =
      max (min (tiempoBajo te) (servicioExcelente u))
          (min (tiempoMedio te) (servicioBuena u)) :=
    fun u => aggregated_wait te u (by linarith) (by linarith)
  rw [centroidNum_eq_sum, universeServicio_literal]
  simp only [List.map_cons, List.map_nil, haw,
    tiempoBajo_eq te (by linarith) (by linarith), tiempoMedio_eq te (by linarith) (by linarith),
    sExc_0, sExc_1, sExc_2, sExc_3, sExc_4, sExc_5, sExc_6, sExc_7, sExc_8, sExc_9, sExc_10, sExc_11, sExc_12, sExc_13, sExc_14, sExc_15, sExc_16, sExc_17, sExc_18, sExc_19, sExc_20, sExc_21, sExc_22, sExc_23, sExc_24, sExc_25, sExc_26, sExc_27, sExc_28, sExc_29, sExc_30, sExc_31, sExc_32, sExc_33, sExc_34, sExc_35, sExc_36, sExc_37, sExc_38, sExc_39, sExc_40, sExc_41, sExc_42, sExc_43, sExc_44, sExc_45, sExc_46, sExc_47, sExc_48, sExc_49, sExc_50, sExc_51, sExc_52, sExc_53, sExc_54, sExc_55, sExc_56, sExc_57, sExc_58, sExc_59, sExc_60, sExc_61, sExc_62, sExc_63, sExc_64, sExc_65, sExc_66, sExc_67, sExc_68, sExc_69, sExc_70, sExc_71, sExc_72, sExc_73, sExc_74, sExc_75, sExc_76, sExc_77, sExc_78, sExc_79, sExc_80, sExc_81, sExc_82, sExc_83, sExc_84, sExc_85, sExc_86, sExc_87, sExc_88, sExc_89, sExc_90, sExc_91, sExc_92, sExc_93, sExc_94, sExc_95, sExc_96, sExc_97, sExc_98, sExc_99, sExc_100,
    sBue_0, sBue_1, sBue_2, sBue_3, sBue_4, sBue_5, sBue_6, sBue_7, sBue_8, sBue_9, sBue_10, sBue_11, sBue_12, sBue_13, sBue_14, sBue_15, sBue_16, sBue_17, sBue_18, sBue_19, sBue_20, sBue_21, sBue_22, sBue_23, sBue_24, sBue_25, sBue_26, sBue_27, sBue_28, sBue_29, sBue_30, sBue_31, sBue_32, sBue_33, sBue_34, sBue_35, sBue_36, sBue_37, sBue_38, sBue_39, sBue_40, sBue_41, sBue_42, sBue_43, sBue_44, sBue_45, sBue_46, sBue_47, sBue_48, sBue_49, sBue_50, sBue_51, sBue_52, sBue_53, sBue_54, sBue_55, sBue_56, sBue_57, sBue_58, sBue_59, sBue_60, sBue_61, sBue_62, sBue_63, sBue_64, sBue_65, sBue_66, sBue_67, sBue_68, sBue_69, sBue_70, sBue_71, sBue_72, sBue_73, sBue_74, sBue_75, sBue_76, sBue_77, sBue_78, sBue_79, sBue_80, sBue_81, sBue_82, sBue_83, sBue_84, sBue_85, sBue_86, sBue_87, sBue_88, sBue_89, sBue_90, sBue_91, sBue_92, sBue_93, sBue_94, sBue_95, sBue_96, sBue_97, sBue_98, sBue_99, sBue_100]
  rw [(show min ((15 - te) / 15) (0:ℚ) = 0 from min_eq_right (by linarith)),
    (show min ((te - 10) / 15) (0:ℚ) = 0 from min_eq_right (by linarith)),
    (show min ((te - 10) / 15) (1/20:ℚ) = 1/20 from min_eq_right (by linarith)),
    (show min ((te - 10) / 15) (1/10:ℚ) = 1/10 from min_eq_right (by linarith)),
    (show min ((te - 10) / 15) (3/20:ℚ) = 3/20 from min_eq_right (by linarith)),
    (show min ((te - 10) / 15) (1/5:ℚ) = 1/5 from min_eq_right (by linarith)),
    (show min ((te - 10) / 15) (1/4:ℚ) = (te - 10) / 15 from min_eq_left (by linarith)),
    (show min ((te - 10) / 15) (3/10:ℚ) = (te - 10) / 15 from min_eq_left (by linarith)),
    (show min ((te - 10) / 15) (7/20:ℚ) = (te - 10) / 15 from min_eq_left (by linarith)),
    (show min ((te - 10) / 15) (2/5:ℚ) = (te - 10) / 15 from min_eq_left (by linarith)),
    (show min ((te - 10) / 15) (9/20:ℚ) = (te - 10) / 15 from min_eq_left (by linarith)),
    (show min ((te - 10) / 15) (1/2:ℚ) = (te - 10) / 15 from min_eq_left (by linarith)),
    (show min ((te - 10) / 15) (11/20:ℚ) = (te - 10) / 15 from min_eq_left (by linarith)),
    (show min ((te - 10) / 15) (3/5:ℚ) = (te - 10) / 15 from min_eq_left (by linarith)),
    (show min ((te - 10) / 15) (13/20:ℚ) = (te - 10) / 15 from min_eq_left (by linarith)),
    (show min ((te - 10) / 15) (7/10:ℚ) = (te - 10) / 15 from min_eq_left (by linarith)),
    (show min ((te - 10) / 15) (3/4:ℚ) = (te - 10) / 15 from min_eq_left (by linarith)),
    (show min ((te - 10) / 15) (4/5:ℚ) = (te - 10) / 15 from min_eq_left (by linarith)),
    (show min ((te - 10) / 15) (17/20:ℚ) = (te - 10) / 15 from min_eq_left (by linarith)),
    (show min ((te - 10) / 15) (9/10:ℚ) = (te - 10) / 15 from min_eq_left (by linarith)),
    (show min ((te - 10) / 15) (19/20:ℚ) = (te - 10) / 15 from min_eq_left (by linarith)),
    (show min ((te - 10) / 15) (1:ℚ) = (te - 10) / 15 from min_eq_left (by linarith)),
    (show min ((te - 10) / 15) (14/15:ℚ) = (te - 10) / 15 from min_eq_left (by linarith)),
    (show min ((te - 10) / 15) (13/15:ℚ) = (te - 10) / 15 from min_eq_left (by linarith)),
    (show min ((te - 10) / 15) (11/15:ℚ) = (te - 10) / 15 from min_eq_left (by linarith)),
    (show min ((te - 10) / 15) (2/3:ℚ) = (te - 10) / 15 from min_eq_left (by linarith)),
    (show min ((te - 10) / 15) (8/15:ℚ) = (te - 10) / 15 from min_eq_left (by linarith)),
    (show min ((te - 10) / 15) (7/15:ℚ) = (te - 10) / 15 from min_eq_left (by linarith)),
    (show min ((te - 10) / 15) (1/3:ℚ) = (te - 10) / 15 from min_eq_left (by linarith)),
    (show min ((15 - te) / 15) (1/10:ℚ) = 1/10 from min_eq_right (by linarith)),
    (show min ((te - 10) / 15) (4/15:ℚ) = (te - 10) / 15 from min_eq_left (by linarith)),
    (show min ((15 - te) / 15) (1/5:ℚ) = (15 - te) / 15 from min_eq_left (by linarith)),
    (show min ((15 - te) / 15) (3/10:ℚ) = (15 - te) / 15 from min_eq_left (by linarith)),
    (show min ((te - 10) / 15) (2/15:ℚ) = 2/15 from min_eq_right (by linarith)),
    (show min ((15 - te) / 15) (2/5:ℚ) = (15 - te) / 15 from min_eq_left (by linarith)),
    (show min ((te - 10) / 15) (1/15:ℚ) = 1/15 from min_eq_right (by linarith)),
    (show min ((15 - te) / 15) (1/2:ℚ) = (15 - te) / 15 from min_eq_left (by linarith)),
    (show min ((15 - te) / 15) (3/5:ℚ) = (15 - te) / 15 from min_eq_left (by linarith)),
    (show min ((15 - te) / 15) (7/10:ℚ) = (15 - te) / 15 from min_eq_left (by linarith)),
    (show min ((15 - te) / 15) (4/5:ℚ) = (15 - te) / 15 from min_eq_left (by linarith)),
    (show min ((15 - te) / 15) (9/10:ℚ) = (15 - te) / 15 from min_eq_left (by linarith)),
    (show min ((15 - te) / 15) (1:ℚ) = (15 - te) / 15 from min_eq_left (by linarith)),
    (show max (0:ℚ) (0:ℚ) = 0 from max_self 0),
    (show max (0:ℚ) (1/20:ℚ) = (1/20:ℚ) from max_eq_right (by norm_num)),
    (show max (0:ℚ) (1/10:ℚ) = (1/10:ℚ) from max_eq_right (by norm_num)),
    (show max (0:ℚ) (3/20:ℚ) = (3/20:ℚ) from max_eq_right (by norm_num)),
    (show max (0:ℚ) (1/5:ℚ) = (1/5:ℚ) from max_eq_right (by norm_num)),
    (show max (0:ℚ) ((te - 10) / 15) = ((te - 10) / 15) from max_eq_right (by linarith)),
    (show max (1/10:ℚ) ((te - 10) / 15) = ((te - 10) / 15) from max_eq_right (by linarith)),
    (show max ((15 - te) / 15) (1/5:ℚ) = (1/5:ℚ) from max_eq_right (by linarith)),
    (show max ((15 - te) / 15) (2/15:ℚ) = (2/15:ℚ) from max_eq_right (by linarith)),
    (show max ((15 - te) / 15) (1/15:ℚ) = ((15 - te) / 15) from max_eq_left (by linarith)),
    (show max ((15 - te) / 15) (0:ℚ) = ((15 - te) / 15) from max_eq_left (by linarith))]
  simp only [List.sum_cons, List.sum_nil]
  ring

lemma monoS13 : ∀ t1 t2 : ℚ, 13 ≤ t1 → t1 ≤ t2 → t2 ≤ (27/2) → crispWait t2 ≤ crispWait t1 := by
  intro t1 t2 hp h12 hq
  unfold crispWait
  rw [denS13 t1 hp (by linarith), numS13 t1 hp (by linarith),
    denS13 t2 (by linarith) hq, numS13 t2 (by linarith) hq]
  exact frac_mono (-6627/10) (1427/15) (-61/6) (4/3) t1 t2 h12
    (by linarith) (by linarith) (by norm_num)

lemma denS14 (te : ℚ) (hp : (27/2) ≤ te) (hq : te ≤ (55/4)) :
    centroidDen te 9 = -61/6 + (4/3) * te := by
  have haw : ∀ u : ℚ, aggregatedDegree te 9 u =
      max (min (tiempoBajo te) (servicioExcelente u))
          (min (tiempoMedio te) (servicioBuena u)) :=
    fun u => aggregated_wait te u (by linarith) (by linarith)
  rw [centroidDen_eq_sum, universeServicio_literal]
  simp only [List.map_cons, List.map_nil, haw,
    tiempoBajo_eq te (by linarith) (by linarith), tiempoMedio_eq te (by linarith) (by linarith),
    sExc_0, sExc_1, sExc_2, sExc_3, sExc_4, sExc_5, sExc_6, sExc_7, sExc_8, sExc_9, sExc_10, sExc_11, sExc_12, sExc_13, sExc_14, sExc_15, sExc_16, sExc_17, sExc_18, sExc_19, sExc_20, sExc_21, sExc_22, sExc_23, sExc_24, sExc_25, sExc_26, sExc_27, sExc_28, sExc_29, sExc_30, sExc_31, sExc_32, sExc_33, sExc_34, sExc_35, sExc_36, sExc_37, sExc_38, sExc_39, sExc_40, sExc_41, sExc_42, sExc_43, sExc_44, sExc_45, sExc_46, sExc_47, sExc_48, sExc_49, sExc_50, sExc_51, sExc_52, sExc_53, sExc_54, sExc_55, sExc_56, sExc_57, sExc_58, sExc_59, sExc_60, sExc_61, sExc_62, sExc_63, sExc_64, sExc_65, sExc_66, sExc_67, sExc_68, sExc_69, sExc_70, sExc_71, sExc_72, sExc_73, sExc_74, sExc_75, sExc_76, sExc_77, sExc_78, sExc_79, sExc_80, sExc_81, sExc_82, sExc_83, sExc_84, sExc_85, sExc_86, sExc_87, sExc_88, sExc_89, sExc_90, sExc_91, sExc_92, sExc_93, sExc_94, sExc_95, sExc_96, sExc_97, sExc_98, sExc_99, sExc_100,
    sBue_0, sBue_1, sBue_2, sBue_3, sBue_4, sBue_5, sBue_6, sBue_7, sBue_8, sBue_9, sBue_10, sBue_11, sBue_12, sBue_13, sBue_14, sBue_15, sBue_16, sBue_17, sBue_18, sBue_19, sBue_20, sBue_21, sBue_22, sBue_23, sBue_24, sBue_25, sBue_26, sBue_27, sBue_28, sBue_29, sBue_30, sBue_31, sBue_32, sBue_33, sBue_34, sBue_35, sBue_36, sBue_37, sBue_38, sBue_39, sBue_40, sBue_41, sBue_42, sBue_43, sBue_44, sBue_45, sBue_46, sBue_47, sBue_48, sBue_49, sBue_50, sBue_51, sBue_52, sBue_53, sBue_54, sBue_55, sBue_56, sBue_57, sBue_58, sBue_59, sBue_60, sBue_61, sBue_62, sBue_63, sBue_64, sBue_65, sBue_66, sBue_67, sBue_68, sBue_69, sBue_70, sBue_71, sBue_72, sBue_73, sBue_74, sBue_75, sBue_76, sBue_77, sBue_78, sBue_79, sBue_80, sBue_81, sBue_82, sBue_83, sBue_84, sBue_85, sBue_86, sBue_87, sBue_88, sBue_89, sBue_90, sBue_91, sBue_92, sBue_93, sBue_94, sBue_95, sBue_96, sBue_97, sBue_98, sBue_99, sBue_100]
  rw [(show min ((15 - te) / 15) (0:ℚ) = 0 from min_eq_right (by linarith)),
    (show min ((te - 10) / 15) (0:ℚ) = 0 from min_eq_right (by linarith)),
    (show min ((te - 10) / 15) (1/20:ℚ) = 1/20 from min_eq_right (by linarith)),
    (show min ((te - 10) / 15) (1/10:ℚ) = 1/10 from min_eq_right (by linarith)),
    (show min ((te - 10) / 15) (3/20:ℚ) = 3/20 from min_eq_right (by linarith)),
    (show min ((te - 10) / 15) (1/5:ℚ) = 1/5 from min_eq_right (by linarith)),
    (show min ((te - 10) / 15) (1/4:ℚ) = (te - 10) / 15 from min_eq_left (by linarith)),
    (show min ((te - 10) / 15) (3/10:ℚ) = (te - 10) / 15 from min_eq_left (by linarith)),
    (show min ((te - 10) / 15) (7/20:ℚ) = (te - 10) / 15 from min_eq_left (by linarith)),
    (show min ((te - 10) / 15) (2/5:ℚ) = (te - 10) / 15 from min_eq_left (by linarith)),
    (show min ((te - 10) / 15) (9/20:ℚ) = (te - 10) / 15 from min_eq_left (by linarith)),
    (show min ((te - 10) / 15) (1/2:ℚ) = (te - 10) / 15 from min_eq_left (by linarith)),
    (show min ((te - 10) / 15) (11/20:ℚ) = (te - 10) / 15 from min_eq_left (by linarith)),
    (show min ((te - 10) / 15) (3/5:ℚ) = (te - 10) / 15 from min_eq_left (by linarith)),
    (show min ((te - 10) / 15) (13/20:ℚ) = (te - 10) / 15 from min_eq_left (by linarith)),
    (show min ((te - 10) / 15) (7/10:ℚ) = (te - 10) / 15 from min_eq_left (by linarith)),
    (show min ((te - 10) / 15) (3/4:ℚ) = (te - 10) / 15 from min_eq_left (by linarith)),
    (show min ((te - 10) / 15) (4/5:ℚ) = (te - 10) / 15 from min_eq_left (by linarith)),
    (show min ((te - 10) / 15) (17/20:ℚ) = (te - 10) / 15 from min_eq_left (by linarith)),
    (show min ((te - 10) / 15) (9/10:ℚ) = (te - 10) / 15 from min_eq_left (by linarith)),
    (show min ((te - 10) / 15) (19/20:ℚ) = (te - 10) / 15 from min_eq_left (by linarith)),
    (show min ((te - 10) / 15) (1:ℚ) = (te - 10) / 15 from min_eq_left (by linarith)),
    (show min ((te - 10) / 15) (14/15:ℚ) = (te - 10) / 15 from min_eq_left (by linarith)),
    (show min ((te - 10) / 15) (13/15:ℚ) = (te - 10) / 15 from min_eq_left (by linarith)),
    (show min ((te - 10) / 15) (11/15:ℚ) = (te - 10) / 15 from min_eq_left (by linarith)),
    (show min ((te - 10) / 15) (2/3:ℚ) = (te - 10) / 15 from min_eq_left (by linarith)),
    (show min ((te - 10) / 15) (8/15:ℚ) = (te - 10) / 15 from min_eq_left (by linarith)),
    (show min ((te - 10) / 15) (7/15:ℚ) = (te - 10) / 15 from min_eq_left (by linarith)),
    (show min ((te - 10) / 15) (1/3:ℚ) = (te - 10) / 15 from min_eq_left (by linarith)),
    (show min ((15 - te) / 15) (1/10:ℚ) = (15 - te) / 15 from min_eq_left (by linarith)),
    (show min ((te - 10) / 15) (4/15:ℚ) = (te - 10) / 15 from min_eq_left (by linarith)),
    (show min ((15 - te) / 15) (1/5:ℚ) = (15 - te) / 15 from min_eq_left (by linarith)),
    (show min ((15 - te) / 15) (3/10:ℚ) = (15 - te) / 15 from min_eq_left (by linarith)),
    (show min ((te - 10) / 15) (2/15:ℚ) = 2/15 from min_eq_right (by linarith)),
    (show min ((15 - te) / 15) (2/5:ℚ) = (15 - te) / 15 from min_eq_left (by linarith)),
    (show min ((te - 10) / 15) (1/15:ℚ) = 1/15 from min_eq_right (by linarith)),
    (show min ((15 - te) / 15) (1/2:ℚ) = (15 - te) / 15 from min_eq_left (by linarith)),
    (show min ((15 - te) / 15) (3/5:ℚ) = (15 - te) / 15 from min_eq_left (by linarith)),
    (show min ((15 - te) / 15) (7/10:ℚ) = (15 - te) / 15 from min_eq_left (by linarith)),
    (show min ((15 - te) / 15) (4/5:ℚ) = (15 - te) / 15 from min_eq_left (by linarith)),
    (show min ((15 - te) / 15) (9/10:ℚ) = (15 - te) / 15 from min_eq_left (by linarith)),
    (show min ((15 - te) / 15) (1:ℚ) = (15 - te) / 15 from min_eq_left (by linarith)),
    (show max (0:ℚ) (0:ℚ) = 0 from max_self 0),
    (show max (0:ℚ) (1/20:ℚ) = (1/20:ℚ) from max_eq_right (by norm_num)),
    (show max (0:ℚ) (1/10:ℚ) = (1/10:ℚ) from max_eq_right (by norm_num)),
    (show max (0:ℚ) (3/20:ℚ) = (3/20:ℚ) from max_eq_right (by norm_num)),
    (show max (0:ℚ) (1/5:ℚ) = (1/5:ℚ) from max_eq_right (by norm_num)),
    (show max (0:ℚ) ((te - 10) / 15) = ((te - 10) / 15) from max_eq_right (by linarith)),
    (show max ((15 - te) / 15) ((te - 10) / 15) = ((te - 10) / 15) from max_eq_right (by linarith)),
    (show max ((15 - te) / 15) (1/5:ℚ) = (1/5:ℚ) from max_eq_right (by linarith)),
    (show max ((15 - te) / 15) (2/15:ℚ) = (2/15:ℚ) from max_eq_right (by linarith)),
    (show max ((15 - te) / 15) (1/15:ℚ) = ((15 - te) / 15) from max_eq_left (by linarith)),
    (show max ((15 - te) / 15) (0:ℚ) = ((15 - te) / 15) from max_eq_left (by linarith))]
  simp only [List.sum_cons, List.sum_nil]
  ring

lemma numS14 (te : ℚ) (hp : (27/2) ≤ te) (hq : te ≤ (55/4)) :
    centroidNum te 9 = -6627/10 + (1427/15) * te := by
  have haw : ∀ u : ℚ, aggregatedDegree te 9 u =
      max (min (tiempoBajo te) (servicioExcelente u))
          (min (tiempoMedio te) (servicioBuena u)) :=
    fun u => aggregated_wait te u (by linarith) (by linarith)
  rw [centroidNum_eq_sum, universeServicio_literal]
  simp only [List.map_cons, List.map_nil, haw,
    tiempoBajo_eq te (by linarith) (by linarith), tiempoMedio_eq te (by linarith) (by linarith),
    sExc_0, sExc_1, sExc_2, sExc_3, sExc_4, sExc_5, sExc_6, sExc_7, sExc_8, sExc_9, sExc_10, sExc_11, sExc_12, sExc_13, sExc_14, sExc_15, sExc_16, sExc_17, sExc_18, sExc_19, sExc_20, sExc_21, sExc_22, sExc_23, sExc_24, sExc_25, sExc_26, sExc_27, sExc_28, sExc_29, sExc_30, sExc_31, sExc_32, sExc_33, sExc_34, sExc_35, sExc_36, sExc_37, sExc_38, sExc_39, sExc_40, sExc_41, sExc_42, sExc_43, sExc_44, sExc_45, sExc_46, sExc_47, sExc_48, sExc_49, sExc_50, sExc_51, sExc_52, sExc_53, sExc_54, sExc_55, sExc_56, sExc_57, sExc_58, sExc_59, sExc_60, sExc_61, sExc_62, sExc_63, sExc_64, sExc_65, sExc_66, sExc_67, sExc_68, sExc_69, sExc_70, sExc_71, sExc_72, sExc_73, sExc_74, sExc_75, sExc_76, sExc_77, sExc_78, sExc_79, sExc_80, sExc_81, sExc_82, sExc_83, sExc_84, sExc_85, sExc_86, sExc_87, sExc_88, sExc_89, sExc_90, sExc_91, sExc_92, sExc_93, sExc_94, sExc_95, sExc_96, sExc_97, sExc_98, sExc_99, sExc_100,
    sBue_0, sBue_1, sBue_2, sBue_3, sBue_4, sBue_5, sBue_6, sBue_7, sBue_8, sBue_9, sBue_10, sBue_11, sBue_12, sBue_13, sBue_14, sBue_15, sBue_16, sBue_17, sBue_18, sBue_19, sBue_20, sBue_21, sBue_22, sBue_23, sBue_24, sBue_25, sBue_26, sBue_27, sBue_28, sBue_29, sBue_30, sBue_31, sBue_32, sBue_33, sBue_34, sBue_35, sBue_36, sBue_37, sBue_38, sBue_39, sBue_40, sBue_41, sBue_42, sBue_43, sBue_44, sBue_45, sBue_46, sBue_47, sBue_48, sBue_49, sBue_50, sBue_51, sBue_52, sBue_53, sBue_54, sBue_55, sBue_56, sBue_57, sBue_58, sBue_59, sBue_60, sBue_61, sBue_62, sBue_63, sBue_64, sBue_65, sBue_66, sBue_67, sBue_68, sBue_69, sBue_70, sBue_71, sBue_72, sBue_73, sBue_74, sBue_75, sBue_76, sBue_77, sBue_78, sBue_79, sBue_80, sBue_81, sBue_82, sBue_83, sBue_84, sBue_85, sBue_86, sBue_87, sBue_88, sBue_89, sBue_90, sBue_91, sBue_92, sBue_93, sBue_94, sBue_95, sBue_96, sBue_97, sBue_98, sBue_99, sBue_100]
  rw [(show min ((15 - te) / 15) (0:ℚ) = 0 from min_eq_right (by linarith)),
    (show min ((te - 10) / 15) (0:ℚ) = 0 from min_eq_right (by linarith)),
    (show min ((te - 10) / 15) (1/20:ℚ) = 1/20 from min_eq_right (by linarith)),
    (show min ((te - 10) / 15) (1/10:ℚ) = 1/10 from min_eq_right (by linarith)),
    (show min ((te - 10) / 15) (3/20:ℚ) = 3/20 from min_eq_right (by linarith)),
    (show min ((te - 10) / 15) (1/5:ℚ) = 1/5 from min_eq_right (by linarith)),
    (show min ((te - 10) / 15) (1/4:ℚ) = (te - 10) / 15 from min_eq_left (by linarith)),
    (show min ((te - 10) / 15) (3/10:ℚ) = (te - 10) / 15 from min_eq_left (by linarith)),
    (show min ((te - 10) / 15) (7/20:ℚ) = (te - 10) / 15 from min_eq_left (by linarith)),
    (show min ((te - 10) / 15) (2/5:ℚ) = (te - 10) / 15 from min_eq_left (by linarith)),
    (show min ((te - 10) / 15) (9/20:ℚ) = (te - 10) / 15 from min_eq_left (by linarith)),
    (show min ((te - 10) / 15) (1/2:ℚ) = (te - 10) / 15 from min_eq_left (by linarith)),
    (show min ((te - 10) / 15) (11/20:ℚ) = (te - 10) / 15 from min_eq_left (by linarith)),
    (show min ((te - 10) / 15) (3/5:ℚ) = (te - 10) / 15 from min_eq_left (by linarith)),
    (show min ((te - 10) / 15) (13/20:ℚ) = (te - 10) / 15 from min_eq_left (by linarith)),
    (show min ((te - 10) / 15) (7/10:ℚ) = (te - 10) / 15 from min_eq_left (by linarith)),
    (show min ((te - 10) / 15) (3/4:ℚ) = (te - 10) / 15 from min_eq_left (by linarith)),
    (show min ((te - 10) / 15) (4/5:ℚ) = (te - 10) / 15 from min_eq_left (by linarith)),
    (show min ((te - 10) / 15) (17/20:ℚ) = (te - 10) / 15 from min_eq_left (by linarith)),
    (show min ((te - 10) / 15) (9/10:ℚ) = (te - 10) / 15 from min_eq_left (by linarith)),
    (show min ((te - 10) / 15) (19/20:ℚ) = (te - 10) / 15 from min_eq_left (by linarith)),
    (show min ((te - 10) / 15) (1:ℚ) = (te - 10) / 15 from min_eq_left (by linarith)),
    (show min ((te - 10) / 15) (14/15:ℚ) = (te - 10) / 15 from min_eq_left (by linarith)),
    (show min ((te - 10) / 15) (13/15:ℚ) = (te - 10) / 15 from min_eq_left (by linarith)),
    (show min ((te - 10) / 15) (11/15:ℚ) = (te - 10) / 15 from min_eq_left (by linarith)),
    (show min ((te - 10) / 15) (2/3:ℚ) = (te - 10) / 15 from min_eq_left (by linarith)),
    (show min ((te - 10) / 15) (8/15:ℚ) = (te - 10) / 15 from min_eq_left (by linarith)),
    (show min ((te - 10) / 15) (7/15:ℚ) = (te - 10) / 15 from min_eq_left (by linarith)),
    (show min ((te - 10) / 15) (1/3:ℚ) = (te - 10) / 15 from min_eq_left (by linarith)),
    (show min ((15 - te) / 15) (1/10:ℚ) = (15 - te) / 15 from min_eq_left (by linarith)),
    (show min ((te - 10) / 15) (4/15:ℚ) = (te - 10) / 15 from min_eq_left (by linarith)),
    (show min ((15 - te) / 15) (1/5:ℚ) = (15 - te) / 15 from min_eq_left (by linarith)),
    (show min ((15 - te) / 15) (3/10:ℚ) = (15 - te) / 15 from min_eq_left (by linarith)),
    (show min ((te - 10) / 15) (2/15:ℚ) = 2/15 from min_eq_right (by linarith)),
    (show min ((15 - te) / 15) (2/5:ℚ) = (15 - te) / 15 from min_eq_left (by linarith)),
    (show min ((te - 10) / 15) (1/15:ℚ) = 1/15 from min_eq_right (by linarith)),
    (show min ((15 - te) / 15) (1/2:ℚ) = (15 - te) / 15 from min_eq_left (by linarith)),
    (show min ((15 - te) / 15) (3/5:ℚ) = (15 - te) / 15 from min_eq_left (by linarith)),
    (show min ((15 - te) / 15) (7/10:ℚ) = (15 - te) / 15 from min_eq_left (by linarith)),
    (show min ((15 - te) / 15) (4/5:ℚ) = (15 - te) / 15 from min_eq_left (by linarith)),
    (show min ((15 - te) / 15) (9/10:ℚ) = (15 - te) / 15 from min_eq_left (by linarith)),
    (show min ((15 - te) / 15) (1:ℚ) = (15 - te) / 15 from min_eq_left (by linarith)),
    (show max (0:ℚ) (0:ℚ) = 0 from max_self 0),
    (show max (0:ℚ) (1/20:ℚ) = (1/20:ℚ) from max_eq_right (by norm_num)),
    (show max (0:ℚ) (1/10:ℚ) = (1/10:ℚ) from max_eq_right (by norm_num)),
    (show max (0:ℚ) (3/20:ℚ) = (3/20:ℚ) from max_eq_right (by norm_num)),
    (show max (0:ℚ) (1/5:ℚ) = (1/5:ℚ) from max_eq_right (by norm_num)),
    (show max (0:ℚ) ((te - 10) / 15) = ((te - 10) / 15) from max_eq_right (by linarith)),
    (show max ((15 - te) / 15) ((te - 10) / 15) = ((te - 10) / 15) from max_eq_right (by linarith)),
    (show max ((15 - te) / 15) (1/5:ℚ) = (1/5:ℚ) from max_eq_right (by linarith)),
    (show max ((15 - te) / 15) (2/15:ℚ) = (2/15:ℚ) from max_eq_right (by linarith)),
    (show max ((15 - te) / 15) (1/15:ℚ) = ((15 - te) / 15) from max_eq_left (by linarith)),
    (show max ((15 - te) / 15) (0:ℚ) = ((15 - te) / 15) from max_eq_left (by linarith))]
  simp only [List.sum_cons, List.sum_nil]
  ring

lemma monoS14 : ∀ t1 t2 : ℚ, (27/2) ≤ t1 → t1 ≤ t2 → t2 ≤ (55/4) → crispWait t2 ≤ crispWait t1 := by
  intro t1 t2 hp h12 hq
  unfold crispWait
  rw [denS14 t1 hp (by linarith), numS14 t1 hp (by linarith),
    denS14 t2 (by linarith) hq, numS14 t2 (by linarith) hq]
  exact frac_mono (-6627/10) (1427/15) (-61/6) (4/3) t1 t2 h12
    (by linarith) (by linarith) (by norm_num)

lemma denS15 (te : ℚ) (hp : (55/4) ≤ te) (hq : te ≤ 14) :
    centroidDen te 9 = -37/4 + (19/15) * te := by
  have haw : ∀ u : ℚ, aggregatedDegree te 9 u =
      max (min (tiempoBajo te) (servicioExcelente u))
          (min (tiempoMedio te) (servicioBuena u)) :=
    fun u => aggregated_wait te u (by linarith) (by linarith)
  rw [centroidDen_eq_sum, universeServicio_literal]
  simp only [List.map_cons, List.map_nil, haw,
    tiempoBajo_eq te (by linarith) (by linarith), tiempoMedio_eq te (by linarith) (by linarith),
    sExc_0, sExc_1, sExc_2, sExc_3, sExc_4, sExc_5, sExc_6, sExc_7, sExc_8, sExc_9, sExc_10, sExc_11, sExc_12, sExc_13, sExc_14, sExc_15, sExc_16, sExc_17, sExc_18, sExc_19, sExc_20, sExc_21, sExc_22, sExc_23, sExc_24, sExc_25, sExc_26, sExc_27, sExc_28, sExc_29, sExc_30, sExc_31, sExc_32, sExc_33, sExc_34, sExc_35, sExc_36, sExc_37, sExc_38, sExc_39, sExc_40, sExc_41, sExc_42, sExc_43, sExc_44, sExc_45, sExc_46, sExc_47, sExc_48, sExc_49, sExc_50, sExc_51, sExc_52, sExc_53, sExc_54, sExc_55, sExc_56, sExc_57, sExc_58, sExc_59, sExc_60, sExc_61, sExc_62, sExc_63, sExc_64, sExc_65, sExc_66, sExc_67, sExc_68, sExc_69, sExc_70, sExc_71, sExc_72, sExc_73, sExc_74, sExc_75, sExc_76, sExc_77, sExc_78, sExc_79, sExc_80, sExc_81, sExc_82, sExc_83, sExc_84, sExc_85, sExc_86, sExc_87, sExc_88, sExc_89, sExc_90, sExc_91, sExc_92, sExc_93, sExc_94, sExc_95, sExc_96, sExc_97, sExc_98, sExc_99, sExc_100,
    sBue_0, sBue_1, sBue_2, sBue_3, sBue_4, sBue_5, sBue_6, sBue_7, sBue_8, sBue_9, sBue_10, sBue_11, sBue_12, sBue_13, sBue_14, sBue_15, sBue_16, sBue_17, sBue_18, sBue_19, sBue_20, sBue_21, sBue_22, sBue_23, sBue_24, sBue_25, sBue_26, sBue_27, sBue_28, sBue_29, sBue_30, sBue_31, sBue_32, sBue_33, sBue_34, sBue_35, sBue_36, sBue_37, sBue_38, sBue_39, sBue_40, sBue_41, sBue_42, sBue_43, sBue_44, sBue_45, sBue_46, sBue_47, sBue_48, sBue_49, sBue_50, sBue_51, sBue_52, sBue_53, sBue_54, sBue_55, sBue_56, sBue_57, sBue_58, sBue_59, sBue_60, sBue_61, sBue_62, sBue_63, sBue_64, sBue_65, sBue_66, sBue_67, sBue_68, sBue_69, sBue_70, sBue_71, sBue_72, sBue_73, sBue_74, sBue_75, sBue_76, sBue_77, sBue_78, sBue_79, sBue_80, sBue_81, sBue_82, sBue_83, sBue_84, sBue_85, sBue_86, sBue_87, sBue_88, sBue_89, sBue_90, sBue_91, sBue_92, sBue_93, sBue_94, sBue_95, sBue_96, sBue_97, sBue_98, sBue_99, sBue_100]
  rw [(show min ((15 - te) / 15) (0:ℚ) = 0 from min_eq_right (by linarith)),
    (show min ((te - 10) / 15) (0:ℚ) = 0 from min_eq_right (by linarith)),
    (show min ((te - 10) / 15) (1/20:ℚ) = 1/20 from min_eq_right (by linarith)),
    (show min ((te - 10) / 15) (1/10:ℚ) = 1/10 from min_eq_right (by linarith)),
    (show min ((te - 10) / 15) (3/20:ℚ) = 3/20 from min_eq_right (by linarith)),
    (show min ((te - 10) / 15) (1/5:ℚ) = 1/5 from min_eq_right (by linarith)),
    (show min ((te - 10) / 15) (1/4:ℚ) = 1/4 from min_eq_right (by linarith)),
    (show min ((te - 10) / 15) (3/10:ℚ) = (te - 10) / 15 from min_eq_left (by linarith)),
    (show min ((te - 10) / 15) (7/20:ℚ) = (te - 10) / 15 from min_eq_left (by linarith)),
    (show min ((te - 10) / 15) (2/5:ℚ) = (te - 10) / 15 from min_eq_left (by linarith)),
    (show min ((te - 10) / 15) (9/20:ℚ) = (te - 10) / 15 from min_eq_left (by linarith)),
    (show min ((te - 10) / 15) (1/2:ℚ) = (te - 10) / 15 from min_eq_left (by linarith)),
    (show min ((te - 10) / 15) (11/20:ℚ) = (te - 10) / 15 from min_eq_left (by linarith)),
    (show min ((te - 10) / 15) (3/5:ℚ) = (te - 10) / 15 from min_eq_left (by linarith)),
    (show min ((te - 10) / 15) (13/20:ℚ) = (te - 10) / 15 from min_eq_left (by linarith)),
    (show min ((te - 10) / 15) (7/10:ℚ) = (te - 10) / 15 from min_eq_left (by linarith)),
    (show min ((te - 10) / 15) (3/4:ℚ) = (te - 10) / 15 from min_eq_left (by linarith)),
    (show min ((te - 10) / 15) (4/5:ℚ) = (te - 10) / 15 from min_eq_left (by linarith)),
    (show min ((te - 10) / 15) (17/20:ℚ) = (te - 10) / 15 from min_eq_left (by linarith)),
    (show min ((te - 10) / 15) (9/10:ℚ) = (te - 10) / 15 from min_eq_left (by linarith)),
    (show min ((te - 10) / 15) (19/20:ℚ) = (te - 10) / 15 from min_eq_left (by linarith)),
    (show min ((te - 10) / 15) (1:ℚ) = (te - 10) / 15 from min_eq_left (by linarith)),
    (show min ((te - 10) / 15) (14/15:ℚ) = (te - 10) / 15 from min_eq_left (by linarith)),
    (show min ((te - 10) / 15) (13/15:ℚ) = (te - 10) / 15 from min_eq_left (by linarith)),
    (show min ((te - 10) / 15) (11/15:ℚ) = (te - 10) / 15 from min_eq_left (by linarith)),
    (show min ((te - 10) / 15) (2/3:ℚ) = (te - 10) / 15 from min_eq_left (by linarith)),
    (show min ((te - 10) / 15) (8/15:ℚ) = (te - 10) / 15 from min_eq_left (by linarith)),
    (show min ((te - 10) / 15) (7/15:ℚ) = (te - 10) / 15 from min_eq_left (by linarith)),
    (show min ((te - 10) / 15) (1/3:ℚ) = (te - 10) / 15 from min_eq_left (by linarith)),
    (show min ((15 - te) / 15) (1/10:ℚ) = (15 - te) / 15 from min_eq_left (by linarith)),
    (show min ((te - 10) / 15) (4/15:ℚ) = (te - 10) / 15 from min_eq_left (by linarith)),
    (show min ((15 - te) / 15) (1/5:ℚ) = (15 - te) / 15 from min_eq_left (by linarith)),
    (show min ((15 - te) / 15) (3/10:ℚ) = (15 - te) / 15 from min_eq_left (by linarith)),
    (show min ((te - 10) / 15) (2/15:ℚ) = 2/15 from min_eq_right (by linarith)),
    (show min ((15 - te) / 15) (2/5:ℚ) = (15 - te) / 15 from min_eq_left (by linarith)),
    (show min ((te - 10) / 15) (1/15:ℚ) = 1/15 from min_eq_right (by linarith)),
    (show min ((15 - te) / 15) (1/2:ℚ) = (15 - te) / 15 from min_eq_left (by linarith)),
    (show min ((15 - te) / 15) (3/5:ℚ) = (15 - te) / 15 from min_eq_left (by linarith)),
    (show min ((15 - te) / 15) (7/10:ℚ) = (15 - te) / 15 from min_eq_left (by linarith)),
    (show min ((15 - te) / 15) (4/5:ℚ) = (15 - te) / 15 from min_eq_left (by linarith)),
    (show min ((15 - te) / 15) (9/10:ℚ) = (15 - te) / 15 from min_eq_left (by linarith)),
    (show min ((15 - te) / 15) (1:ℚ) = (15 - te) / 15 from min_eq_left (by linarith)),
    (show max (0:ℚ) (0:ℚ) = 0 from max_self 0),
    (show max (0:ℚ) (1/20:ℚ) = (1/20:ℚ) from max_eq_right (by norm_num)),
    (show max (0:ℚ) (1/10:ℚ) = (1/10:ℚ) from max_eq_right (by norm_num)),
    (show max (0:ℚ) (3/20:ℚ) = (3/20:ℚ) from max_eq_right (by norm_num)),
    (show max (0:ℚ) (1/5:ℚ) = (1/5:ℚ) from max_eq_right (by norm_num)),
    (show max (0:ℚ) (1/4:ℚ) = (1/4:ℚ) from max_eq_right (by norm_num)),
    (show max (0:ℚ) ((te - 10) / 15) = ((te - 10) / 15) from max_eq_right (by linarith)),
    (show max ((15 - te) / 15) ((te - 10) / 15) = ((te - 10) / 15) from max_eq_right (by linarith)),
    (show max ((15 - te) / 15) (1/5:ℚ) = (1/5:ℚ) from max_eq_right (by linarith)),
    (show max ((15 - te) / 15) (2/15:ℚ) = (2/15:ℚ) from max_eq_right (by linarith)),
    (show max ((15 - te) / 15) (1/15:ℚ) = ((15 - te) / 15) from max_eq_left (by linarith)),
    (show max ((15 - te) / 15) (0:ℚ) = ((15 - te) / 15) from max_eq_left (by linarith))]
  simp only [List.sum_cons, List.sum_nil]
  ring

lemma numS15 (te : ℚ) (hp : (55/4) ≤ te) (hq : te ≤ 14) :
    centroidNum te 9 = -36187/60 + (454/5) * te := by
  have haw : ∀ u : ℚ, aggregatedDegree te 9 u =
      max (min (tiempoBajo te) (servicioExcelente u))
          (min (tiempoMedio te) (servicioBuena u)) :=
    fun u => aggregated_wait te u (by linarith) (by linarith)
  rw [centroidNum_eq_sum, universeServicio_literal]
  simp only [List.map_cons, List.map_nil, haw,
    tiempoBajo_eq te (by linarith) (by linarith), tiempoMedio_eq te (by linarith) (by linarith),
    sExc_0, sExc_1, sExc_2, sExc_3, sExc_4, sExc_5, sExc_6, sExc_7, sExc_8, sExc_9, sExc_10, sExc_11, sExc_12, sExc_13, sExc_14, sExc_15, sExc_16, sExc_17, sExc_18, sExc_19, sExc_20, sExc_21, sExc_22, sExc_23, sExc_24, sExc_25, sExc_26, sExc_27, sExc_28, sExc_29, sExc_30, sExc_31, sExc_32, sExc_33, sExc_34, sExc_35, sExc_36, sExc_37, sExc_38, sExc_39, sExc_40, sExc_41, sExc_42, sExc_43, sExc_44, sExc_45, sExc_46, sExc_47, sExc_48, sExc_49, sExc_50, sExc_51, sExc_52, sExc_53, sExc_54, sExc_55, sExc_56, sExc_57, sExc_58, sExc_59, sExc_60, sExc_61, sExc_62, sExc_63, sExc_64, sExc_65, sExc_66, sExc_67, sExc_68, sExc_69, sExc_70, sExc_71, sExc_72, sExc_73, sExc_74, sExc_75, sExc_76, sExc_77, sExc_78, sExc_79, sExc_80, sExc_81, sExc_82, sExc_83, sExc_84, sExc_85, sExc_86, sExc_87, sExc_88, sExc_89, sExc_90, sExc_91, sExc_92, sExc_93, sExc_94, sExc_95, sExc_96, sExc_97, sExc_98, sExc_99, sExc_100,
    sBue_0, sBue_1, sBue_2, sBue_3, sBue_4, sBue_5, sBue_6, sBue_7, sBue_8, sBue_9, sBue_10, sBue_11, sBue_12, sBue_13, sBue_14, sBue_15, sBue_16, sBue_17, sBue_18, sBue_19, sBue_20, sBue_21, sBue_22, sBue_23, sBue_24, sBue_25, sBue_26, sBue_27, sBue_28, sBue_29, sBue_30, sBue_31, sBue_32, sBue_33, sBue_34, sBue_35, sBue_36, sBue_37, sBue_38, sBue_39, sBue_40, sBue_41, sBue_42, sBue_43, sBue_44, sBue_45, sBue_46, sBue_47, sBue_48, sBue_49, sBue_50, sBue_51, sBue_52, sBue_53, sBue_54, sBue_55, sBue_56, sBue_57, sBue_58, sBue_59, sBue_60, sBue_61, sBue_62, sBue_63, sBue_64, sBue_65, sBue_66, sBue_67, sBue_68, sBue_69, sBue_70, sBue_71, sBue_72, sBue_73, sBue_74, sBue_75, sBue_76, sBue_77, sBue_78, sBue_79, sBue_80, sBue_81, sBue_82, sBue_83, sBue_84, sBue_85, sBue_86, sBue_87, sBue_88, sBue_89, sBue_90, sBue_91, sBue_92, sBue_93, sBue_94, sBue_95, sBue_96, sBue_97, sBue_98, sBue_99, sBue_100]
  rw [(show min ((15 - te) / 15) (0:ℚ) = 0 from min_eq_right (by linarith)),
    (show min ((te - 10) / 15) (0:ℚ) = 0 from min_eq_right (by linarith)),
    (show min ((te - 10) / 15) (1/20:ℚ) = 1/20 from min_eq_right (by linarith)),
    (show min ((te - 10) / 15) (1/10:ℚ) = 1/10 from min_eq_right (by linarith)),
    (show min ((te - 10) / 15) (3/20:ℚ) = 3/20 from min_eq_right (by linarith)),
    (show min ((te - 10) / 15) (1/5:ℚ) = 1/5 from min_eq_right (by linarith)),
    (show min ((te - 10) / 15) (1/4:ℚ) = 1/4 from min_eq_right (by linarith)),
    (show min ((te - 10) / 15) (3/10:ℚ) = (te - 10) / 15 from min_eq_left (by linarith)),
    (show min ((te - 10) / 15) (7/20:ℚ) = (te - 10) / 15 from min_eq_left (by linarith)),
    (show min ((te - 10) / 15) (2/5:ℚ) = (te - 10) / 15 from min_eq_left (by linarith)),
    (show min ((te - 10) / 15) (9/20:ℚ) = (te - 10) / 15 from min_eq_left (by linarith)),
    (show min ((te - 10) / 15) (1/2:ℚ) = (te - 10) / 15 from min_eq_left (by linarith)),
    (show min ((te - 10) / 15) (11/20:ℚ) = (te - 10) / 15 from min_eq_left (by linarith)),
    (show min ((te - 10) / 15) (3/5:ℚ) = (te - 10) / 15 from min_eq_left (by linarith)),
    (show min ((te - 10) / 15) (13/20:ℚ) = (te - 10) / 15 from min_eq_left (by linarith)),
    (show min ((te - 10) / 15) (7/10:ℚ) = (te - 10) / 15 from min_eq_left (by linarith)),
    (show min ((te - 10) / 15) (3/4:ℚ) = (te - 10) / 15 from min_eq_left (by linarith)),
    (show min ((te - 10) / 15) (4/5:ℚ) = (te - 10) / 15 from min_eq_left (by linarith)),
    (show min ((te - 10) / 15) (17/20:ℚ) = (te - 10) / 15 from min_eq_left (by linarith)),
    (show min ((te - 10) / 15) (9/10:ℚ) = (te - 10) / 15 from min_eq_left (by linarith)),
    (show min ((te - 10) / 15) (19/20:ℚ) = (te - 10) / 15 from min_eq_left (by linarith)),
    (show min ((te - 10) / 15) (1:ℚ) = (te - 10) / 15 from min_eq_left (by linarith)),
    (show min ((te - 10) / 15) (14/15:ℚ) = (te - 10) / 15 from min_eq_left (by linarith)),
    (show min ((te - 10) / 15) (13/15:ℚ) = (te - 10) / 15 from min_eq_left (by linarith)),
    (show min ((te - 10) / 15) (11/15:ℚ) = (te - 10) / 15 from min_eq_left (by linarith)),
    (show min ((te - 10) / 15) (2/3:ℚ) = (te - 10) / 15 from min_eq_left (by linarith)),
    (show min ((te - 10) / 15) (8/15:ℚ) = (te - 10) / 15 from min_eq_left (by linarith)),
    (show min ((te - 10) / 15) (7/15:ℚ) = (te - 10) / 15 from min_eq_left (by linarith)),
    (show min ((te - 10) / 15) (1/3:ℚ) = (te - 10) / 15 from min_eq_left (by linarith)),
    (show min ((15 - te) / 15) (1/10:ℚ) = (15 - te) / 15 from min_eq_left (by linarith)),
    (show min ((te - 10) / 15) (4/15:ℚ) = (te - 10) / 15 from min_eq_left (by linarith)),
    (show min ((15 - te) / 15) (1/5:ℚ) = (15 - te) / 15 from min_eq_left (by linarith)),
    (show min ((15 - te) / 15) (3/10:ℚ) = (15 - te) / 15 from min_eq_left (by linarith)),
    (show min ((te - 10) / 15) (2/15:ℚ) = 2/15 from min_eq_right (by linarith)),
    (show min ((15 - te) / 15) (2/5:ℚ) = (15 - te) / 15 from min_eq_left (by linarith)),
    (show min ((te - 10) / 15) (1/15:ℚ) = 1/15 from min_eq_right (by linarith)),
    (show min ((15 - te) / 15) (1/2:ℚ) = (15 - te) / 15 from min_eq_left (by linarith)),
    (show min ((15 - te) / 15) (3/5:ℚ) = (15 - te) / 15 from min_eq_left (by linarith)),
    (show min ((15 - te) / 15) (7/10:ℚ) = (15 - te) / 15 from min_eq_left (by linarith)),
    (show min ((15 - te) / 15) (4/5:ℚ) = (15 - te) / 15 from min_eq_left (by linarith)),
    (show min ((15 - te) / 15) (9/10:ℚ) = (15 - te) / 15 from min_eq_left (by linarith)),
    (show min ((15 - te) / 15) (1:ℚ) = (15 - te) / 15 from min_eq_left (by linarith)),
    (show max (0:ℚ) (0:ℚ) = 0 from max_self 0),
    (show max (0:ℚ) (1/20:ℚ) = (1/20:ℚ) from max_eq_right (by norm_num)),
    (show max (0:ℚ) (1/10:ℚ) = (1/10:ℚ) from max_eq_right (by norm_num)),
    (show max (0:ℚ) (3/20:ℚ) = (3/20:ℚ) from max_eq_right (by norm_num)),
    (show max (0:ℚ) (1/5:ℚ) = (1/5:ℚ) from max_eq_right (by norm_num)),
    (show max (0:ℚ) (1/4:ℚ) = (1/4:ℚ) from max_eq_right (by norm_num)),
    (show max (0:ℚ) ((te - 10) / 15) = ((te - 10) / 15) from max_eq_right (by linarith)),
    (show max ((15 - te) / 15) ((te - 10) / 15) = ((te - 10) / 15) from max_eq_right (by linarith)),
    (show max ((15 - te) / 15) (1/5:ℚ) = (1/5:ℚ) from max_eq_right (by linarith)),
    (show max ((15 - te) / 15) (2/15:ℚ) = (2/15:ℚ) from max_eq_right (by linarith)),
    (show max ((15 - te) / 15) (1/15:ℚ) = ((15 - te) / 15) from max_eq_left (by linarith)),
    (show max ((15 - te) / 15) (0:ℚ) = ((15 - te) / 15) from max_eq_left (by linarith))]
  simp only [List.sum_cons, List.sum_nil]
  ring

lemma monoS15 : ∀ t1 t2 : ℚ, (55/4) ≤ t1 → t1 ≤ t2 → t2 ≤ 14 → crispWait t2 ≤ crispWait t1 := by
  intro t1 t2 hp h12 hq
  unfold crispWait
  rw [denS15 t1 hp (by linarith), numS15 t1 hp (by linarith),
    denS15 t2 (by linarith) hq, numS15 t2 (by linarith) hq]
  exact frac_mono (-36187/60) (454/5) (-37/4) (19/15) t1 t2 h12
    (by linarith) (by linarith) (by norm_num)

lemma denS16 (te : ℚ) (hp : 14 ≤ te) (hq : te ≤ (29/2)) :
    centroidDen te 9 = -37/4 + (19/15) * te := by
  have haw : ∀ u : ℚ, aggregatedDegree te 9 u =
      max (min (tiempoBajo te) (servicioExcelente u))
          (min (tiempoMedio te) (servicioBuena u)) :=
    fun u => aggregated_wait te u (by linarith) (by linarith)
  rw [centroidDen_eq_sum, universeServicio_literal]
  simp only [List.map_cons, List.map_nil, haw,
    tiempoBajo_eq te (by linarith) (by linarith), tiempoMedio_eq te (by linarith) (by linarith),
    sExc_0, sExc_1, sExc_2, sExc_3, sExc_4, sExc_5, sExc_6, sExc_7, sExc_8, sExc_9, sExc_10, sExc_11, sExc_12, sExc_13, sExc_14, sExc_15, sExc_16, sExc_17, sExc_18, sExc_19, sExc_20, sExc_21, sExc_22, sExc_23, sExc_24, sExc_25, sExc_26, sExc_27, sExc_28, sExc_29, sExc_30, sExc_31, sExc_32, sExc_33, sExc_34, sExc_35, sExc_36, sExc_37, sExc_38, sExc_39, sExc_40, sExc_41, sExc_42, sExc_43, sExc_44, sExc_45, sExc_46, sExc_47, sExc_48, sExc_49, sExc_50, sExc_51, sExc_52, sExc_53, sExc_54, sExc_55, sExc_56, sExc_57, sExc_58, sExc_59, sExc_60, sExc_61, sExc_62, sExc_63, sExc_64, sExc_65, sExc_66, sExc_67, sExc_68, sExc_69, sExc_70, sExc_71, sExc_72, sExc_73, sExc_74, sExc_75, sExc_76, sExc_77, sExc_78, sExc_79, sExc_80, sExc_81, sExc_82, sExc_83, sExc_84, sExc_85, sExc_86, sExc_87, sExc_88, sExc_89, sExc_90, sExc_91, sExc_92, sExc_93, sExc_94, sExc_95, sExc_96, sExc_97, sExc_98, sExc_99, sExc_100,
    sBue_0, sBue_1, sBue_2, sBue_3, sBue_4, sBue_5, sBue_6, sBue_7, sBue_8, sBue_9, sBue_10, sBue_11, sBue_12, sBue_13, sBue_14, sBue_15, sBue_16, sBue_17, sBue_18, sBue_19, sBue_20, sBue_21, sBue_22, sBue_23, sBue_24, sBue_25, sBue_26, sBue_27, sBue_28, sBue_29, sBue_30, sBue_31, sBue_32, sBue_33, sBue_34, sBue_35, sBue_36, sBue_37, sBue_38, sBue_39, sBue_40, sBue_41, sBue_42, sBue_43, sBue_44, sBue_45, sBue_46, sBue_47, sBue_48, sBue_49, sBue_50, sBue_51, sBue_52, sBue_53, sBue_54, sBue_55, sBue_56, sBue_57, sBue_58, sBue_59, sBue_60, sBue_61, sBue_62, sBue_63, sBue_64, sBue_65, sBue_66, sBue_67, sBue_68, sBue_69, sBue_70, sBue_71, sBue_72, sBue_73, sBue_74, sBue_75, sBue_76, sBue_77, sBue_78, sBue_79, sBue_80, sBue_81, sBue_82, sBue_83, sBue_84, sBue_85, sBue_86, sBue_87, sBue_88, sBue_89, sBue_90, sBue_91, sBue_92, sBue_93, sBue_94, sBue_95, sBue_96, sBue_97, sBue_98, sBue_99, sBue_100]
  rw [(show min ((15 - te) / 15) (0:ℚ) = 0 from min_eq_right (by linarith)),
    (show min ((te - 10) / 15) (0:ℚ) = 0 from min_eq_right (by linarith)),
    (show min ((te - 10) / 15) (1/20:ℚ) = 1/20 from min_eq_right (by linarith)),
    (show min ((te - 10) / 15) (1/10:ℚ) = 1/10 from min_eq_right (by linarith)),
    (show min ((te - 10) / 15) (3/20:ℚ) = 3/20 from min_eq_right (by linarith)),
    (show min ((te - 10) / 15) (1/5:ℚ) = 1/5 from min_eq_right (by linarith)),
    (show min ((te - 10) / 15) (1/4:ℚ) = 1/4 from min_eq_right (by linarith)),
    (show min ((te - 10) / 15) (3/10:ℚ) = (te - 10) / 15 from min_eq_left (by linarith)),
    (show min ((te - 10) / 15) (7/20:ℚ) = (te - 10) / 15 from min_eq_left (by linarith)),
    (show min ((te - 10) / 15) (2/5:ℚ) = (te - 10) / 15 from min_eq_left (by linarith)),
    (show min ((te - 10) / 15) (9/20:ℚ) = (te - 10) / 15 from min_eq_left (by linarith)),
    (show min ((te - 10) / 15) (1/2:ℚ) = (te - 10) / 15 from min_eq_left (by linarith)),
    (show min ((te - 10) / 15) (11/20:ℚ) = (te - 10) / 15 from min_eq_left (by linarith)),
    (show min ((te - 10) / 15) (3/5:ℚ) = (te - 10) / 15 from min_eq_left (by linarith)),
    (show min ((te - 10) / 15) (13/20:ℚ) = (te - 10) / 15 from min_eq_left (by linarith)),
    (show min ((te - 10) / 15) (7/10:ℚ) = (te - 10) / 15 from min_eq_left (by linarith)),
    (show min ((te - 10) / 15) (3/4:ℚ) = (te - 10) / 15 from min_eq_left (by linarith)),
    (show min ((te - 10) / 15) (4/5:ℚ) = (te - 10) / 15 from min_eq_left (by linarith)),
    (show min ((te - 10) / 15) (17/20:ℚ) = (te - 10) / 15 from min_eq_left (by linarith)),
    (show min ((te - 10) / 15) (9/10:ℚ) = (te - 10) / 15 from min_eq_left (by linarith)),
    (show min ((te - 10) / 15) (19/20:ℚ) = (te - 10) / 15 from min_eq_left (by linarith)),
    (show min ((te - 10) / 15) (1:ℚ) = (te - 10) / 15 from min_eq_left (by linarith)),
    (show min ((te - 10) / 15) (14/15:ℚ) = (te - 10) / 15 from min_eq_left (by linarith)),
    (show min ((te - 10) / 15) (13/15:ℚ) = (te - 10) / 15 from min_eq_left (by linarith)),
    (show min ((te - 10) / 15) (11/15:ℚ) = (te - 10) / 15 from min_eq_left (by linarith)),
    (show min ((te - 10) / 15) (2/3:ℚ) = (te - 10) / 15 from min_eq_left (by linarith)),
    (show min ((te - 10) / 15) (8/15:ℚ) = (te - 10) / 15 from min_eq_left (by linarith)),
    (show min ((te - 10) / 15) (7/15:ℚ) = (te - 10) / 15 from min_eq_left (by linarith)),
    (show min ((te - 10) / 15) (1/3:ℚ) = (te - 10) / 15 from min_eq_left (by linarith)),
    (show min ((15 - te) / 15) (1/10:ℚ) = (15 - te) / 15 from min_eq_left (by linarith)),
    (show min ((te - 10) / 15) (4/15:ℚ) = 4/15 from min_eq_right (by linarith)),
    (show min ((15 - te) / 15) (1/5:ℚ) = (15 - te) / 15 from min_eq_left (by linarith)),
    (show min ((15 - te) / 15) (3/10:ℚ) = (15 - te) / 15 from min_eq_left (by linarith)),
    (show min ((te - 10) / 15) (2/15:ℚ) = 2/15 from min_eq_right (by linarith)),
    (show min ((15 - te) / 15) (2/5:ℚ) = (15 - te) / 15 from min_eq_left (by linarith)),
    (show min ((te - 10) / 15) (1/15:ℚ) = 1/15 from min_eq_right (by linarith)),
    (show min ((15 - te) / 15) (1/2:ℚ) = (15 - te) / 15 from min_eq_left (by linarith)),
    (show min ((15 - te) / 15) (3/5:ℚ) = (15 - te) / 15 from min_eq_left (by linarith)),
    (show min ((15 - te) / 15) (7/10:ℚ) = (15 - te) / 15 from min_eq_left (by linarith)),
    (show min ((15 - te) / 15) (4/5:ℚ) = (15 - te) / 15 from min_eq_left (by linarith)),
    (show min ((15 - te) / 15) (9/10:ℚ) = (15 - te) / 15 from min_eq_left (by linarith)),
    (show min ((15 - te) / 15) (1:ℚ) = (15 - te) / 15 from min_eq_left (by linarith)),
    (show max (0:ℚ) (0:ℚ) = 0 from max_self 0),
    (show max (0:ℚ) (1/20:ℚ) = (1/20:ℚ) from max_eq_right (by norm_num)),
    (show max (0:ℚ) (1/10:ℚ) = (1/10:ℚ) from max_eq_right (by norm_num)),
    (show max (0:ℚ) (3/20:ℚ) = (3/20:ℚ) from max_eq_right (by norm_num)),
    (show max (0:ℚ) (1/5:ℚ) = (1/5:ℚ) from max_eq_right (by norm_num)),
    (show max (0:ℚ) (1/4:ℚ) = (1/4:ℚ) from max_eq_right (by norm_num)),
    (show max (0:ℚ) ((te - 10) / 15) = ((te - 10) / 15) from max_eq_right (by linarith)),
    (show max ((15 - te) / 15) (4/15:ℚ) = (4/15:ℚ) from max_eq_right (by linarith)),
    (show max ((15 - te) / 15) (1/5:ℚ) = (1/5:ℚ) from max_eq_right (by linarith)),
    (show max ((15 - te) / 15) (2/15:ℚ) = (2/15:ℚ) from max_eq_right (by linarith)),
    (show max ((15 - te) / 15) (1/15:ℚ) = (1/15:ℚ) from max_eq_right (by linarith)),
    (show max ((15 - te) / 15) (0:ℚ) = ((15 - te) / 15) from max_eq_left (by linarith))]
  simp only [List.sum_cons, List.sum_nil]
  ring

lemma numS16 (te : ℚ) (hp : 14 ≤ te) (hq : te ≤ (29/2)) :
    centroidNum te 9 = -7271/12 + (91) * te := by
  have haw : ∀ u : ℚ, aggregatedDegree te 9 u =
      max (min (tiempoBajo te) (servicioExcelente u))
          (min (tiempoMedio te) (servicioBuena u)) :=
    fun u => aggregated_wait te u (by linarith) (by linarith)
  rw [centroidNum_eq_sum, universeServicio_literal]
  simp only [List.map_cons, List.map_nil, haw,
    tiempoBajo_eq te (by linarith) (by linarith), tiempoMedio_eq te (by linarith) (by linarith),
    sExc_0, sExc_1, sExc_2, sExc_3, sExc_4, sExc_5, sExc_6, sExc_7, sExc_8, sExc_9, sExc_10, sExc_11, sExc_12, sExc_13, sExc_14, sExc_15, sExc_16, sExc_17, sExc_18, sExc_19, sExc_20, sExc_21, sExc_22, sExc_23, sExc_24, sExc_25, sExc_26, sExc_27, sExc_28, sExc_29, sExc_30, sExc_31, sExc_32, sExc_33, sExc_34, sExc_35, sExc_36, sExc_37, sExc_38, sExc_39, sExc_40, sExc_41, sExc_42, sExc_43, sExc_44, sExc_45, sExc_46, sExc_47, sExc_48, sExc_49, sExc_50, sExc_51, sExc_52, sExc_53, sExc_54, sExc_55, sExc_56, sExc_57, sExc_58, sExc_59, sExc_60, sExc_61, sExc_62, sExc_63, sExc_64, sExc_65, sExc_66, sExc_67, sExc_68, sExc_69, sExc_70, sExc_71, sExc_72, sExc_73, sExc_74, sExc_75, sExc_76, sExc_77, sExc_78, sExc_79, sExc_80, sExc_81, sExc_82, sExc_83, sExc_84, sExc_85, sExc_86, sExc_87, sExc_88, sExc_89, sExc_90, sExc_91, sExc_92, sExc_93, sExc_94, sExc_95, sExc_96, sExc_97, sExc_98, sExc_99, sExc_100,
    sBue_0, sBue_1, sBue_2, sBue_3, sBue_4, sBue_5, sBue_6, sBue_7, sBue_8, sBue_9, sBue_10, sBue_11, sBue_12, sBue_13, sBue_14, sBue_15, sBue_16, sBue_17, sBue_18, sBue_19, sBue_20, sBue_21, sBue_22, sBue_23, sBue_24, sBue_25, sBue_26, sBue_27, sBue_28, sBue_29, sBue_30, sBue_31, sBue_32, sBue_33, sBue_34, sBue_35, sBue_36, sBue_37, sBue_38, sBue_39, sBue_40, sBue_41, sBue_42, sBue_43, sBue_44, sBue_45, sBue_46, sBue_47, sBue_48, sBue_49, sBue_50, sBue_51, sBue_52, sBue_53, sBue_54, sBue_55, sBue_56, sBue_57, sBue_58, sBue_59, sBue_60, sBue_61, sBue_62, sBue_63, sBue_64, sBue_65, sBue_66, sBue_67, sBue_68, sBue_69, sBue_70, sBue_71, sBue_72, sBue_73, sBue_74, sBue_75, sBue_76, sBue_77, sBue_78, sBue_79, sBue_80, sBue_81, sBue_82, sBue_83, sBue_84, sBue_85, sBue_86, sBue_87, sBue_88, sBue_89, sBue_90, sBue_91, sBue_92, sBue_93, sBue_94, sBue_95, sBue_96, sBue_97, sBue_98, sBue_99, sBue_100]
  rw [(show min ((15 - te) / 15) (0:ℚ) = 0 from min_eq_right (by linarith)),
    (show min ((te - 10) / 15) (0:ℚ) = 0 from min_eq_right (by linarith)),
    (show min ((te - 10) / 15) (1/20:ℚ) = 1/20 from min_eq_right (by linarith)),
    (show min ((te - 10) / 15) (1/10:ℚ) = 1/10 from min_eq_right (by linarith)),
    (show min ((te - 10) / 15) (3/20:ℚ) = 3/20 from min_eq_right (by linarith)),
    (show min ((te - 10) / 15) (1/5:ℚ) = 1/5 from min_eq_right (by linarith)),
    (show min ((te - 10) / 15) (1/4:ℚ) = 1/4 from min_eq_right (by linarith)),
    (show min ((te - 10) / 15) (3/10:ℚ) = (te - 10) / 15 from min_eq_left (by linarith)),
    (show min ((te - 10) / 15) (7/20:ℚ) = (te - 10) / 15 from min_eq_left (by linarith)),
    (show min ((te - 10) / 15) (2/5:ℚ) = (te - 10) / 15 from min_eq_left (by linarith)),
    (show min ((te - 10) / 15) (9/20:ℚ) = (te - 10) / 15 from min_eq_left (by linarith)),
    (show min ((te - 10) / 15) (1/2:ℚ) = (te - 10) / 15 from min_eq_left (by linarith)),
    (show min ((te - 10) / 15) (11/20:ℚ) = (te - 10) / 15 from min_eq_left (by linarith)),
    (show min ((te - 10) / 15) (3/5:ℚ) = (te - 10) / 15 from min_eq_left (by linarith)),
    (show min ((te - 10) / 15) (13/20:ℚ) = (te - 10) / 15 from min_eq_left (by linarith)),
    (show min ((te - 10) / 15) (7/10:ℚ) = (te - 10) / 15 from min_eq_left (by linarith)),
    (show min ((te - 10) / 15) (3/4:ℚ) = (te - 10) / 15 from min_eq_left (by linarith)),
    (show min ((te - 10) / 15) (4/5:ℚ) = (te - 10) / 15 from min_eq_left (by linarith)),
    (show min ((te - 10) / 15) (17/20:ℚ) = (te - 10) / 15 from min_eq_left (by linarith)),
    (show min ((te - 10) / 15) (9/10:ℚ) = (te - 10) / 15 from min_eq_left (by linarith)),
    (show min ((te - 10) / 15) (19/20:ℚ) = (te - 10) / 15 from min_eq_left (by linarith)),
    (show min ((te - 10) / 15) (1:ℚ) = (te - 10) / 15 from min_eq_left (by linarith)),
    (show min ((te - 10) / 15) (14/15:ℚ) = (te - 10) / 15 from min_eq_left (by linarith)),
    (show min ((te - 10) / 15) (13/15:ℚ) = (te - 10) / 15 from min_eq_left (by linarith)),
    (show min ((te - 10) / 15) (11/15:ℚ) = (te - 10) / 15 from min_eq_left (by linarith)),
    (show min ((te - 10) / 15) (2/3:ℚ) = (te - 10) / 15 from min_eq_left (by linarith)),
    (show min ((te - 10) / 15) (8/15:ℚ) = (te - 10) / 15 from min_eq_left (by linarith)),
    (show min ((te - 10) / 15) (7/15:ℚ) = (te - 10) / 15 from min_eq_left (by linarith)),
    (show min ((te - 10) / 15) (1/3:ℚ) = (te - 10) / 15 from min_eq_left (by linarith)),
    (show min ((15 - te) / 15) (1/10:ℚ) = (15 - te) / 15 from min_eq_left (by linarith)),
    (show min ((te - 10) / 15) (4/15:ℚ) = 4/15 from min_eq_right (by linarith)),
    (show min ((15 - te) / 15) (1/5:ℚ) = (15 - te) / 15 from min_eq_left (by linarith)),
    (show min ((15 - te) / 15) (3/10:ℚ) = (15 - te) / 15 from min_eq_left (by linarith)),
    (show min ((te - 10) / 15) (2/15:ℚ) = 2/15 from min_eq_right (by linarith)),
    (show min ((15 - te) / 15) (2/5:ℚ) = (15 - te) / 15 from min_eq_left (by linarith)),
    (show min ((te - 10) / 15) (1/15:ℚ) = 1/15 from min_eq_right (by linarith)),
    (show min ((15 - te) / 15) (1/2:ℚ) = (15 - te) / 15 from min_eq_left (by linarith)),
    (show min ((15 - te) / 15) (3/5:ℚ) = (15 - te) / 15 from min_eq_left (by linarith)),
    (show min ((15 - te) / 15) (7/10:ℚ) = (15 - te) / 15 from min_eq_left (by linarith)),
    (show min ((15 - te) / 15) (4/5:ℚ) = (15 - te) / 15 from min_eq_left (by linarith)),
    (show min ((15 - te) / 15) (9/10:ℚ) = (15 - te) / 15 from min_eq_left (by linarith)),
    (show min ((15 - te) / 15) (1:ℚ) = (15 - te) / 15 from min_eq_left (by linarith)),
    (show max (0:ℚ) (0:ℚ) = 0 from max_self 0),
    (show max (0:ℚ) (1/20:ℚ) = (1/20:ℚ) from max_eq_right (by norm_num)),
    (show max (0:ℚ) (1/10:ℚ) = (1/10:ℚ) from max_eq_right (by norm_num)),
    (show max (0:ℚ) (3/20:ℚ) = (3/20:ℚ) from max_eq_right (by norm_num)),
    (show max (0:ℚ) (1/5:ℚ) = (1/5:ℚ) from max_eq_right (by norm_num)),
    (show max (0:ℚ) (1/4:ℚ) = (1/4:ℚ) from max_eq_right (by norm_num)),
    (show max (0:ℚ) ((te - 10) / 15) = ((te - 10) / 15) from max_eq_right (by linarith)),
    (show max ((15 - te) / 15) (4/15:ℚ) = (4/15:ℚ) from max_eq_right (by linarith)),
    (show max ((15 - te) / 15) (1/5:ℚ) = (1/5:ℚ) from max_eq_right (by linarith)),
    (show max ((15 - te) / 15) (2/15:ℚ) = (2/15:ℚ) from max_eq_right (by linarith)),
    (show max ((15 - te) / 15) (1/15:ℚ) = (1/15:ℚ) from max_eq_right (by linarith)),
    (show max ((15 - te) / 15) (0:ℚ) = ((15 - te) / 15) from max_eq_left (by linarith))]
  simp only [List.sum_cons, List.sum_nil]
  ring

lemma monoS16 : ∀ t1 t2 : ℚ, 14 ≤ t1 → t1 ≤ t2 → t2 ≤ (29/2) → crispWait t2 ≤ crispWait t1 := by
  intro t1 t2 hp h12 hq
  unfold crispWait
  rw [denS16 t1 hp (by linarith), numS16 t1 hp (by linarith),
    denS16 t2 (by linarith) hq, numS16 t2 (by linarith) hq]
  exact frac_mono (-7271/12) (91) (-37/4) (19/15) t1 t2 h12
    (by linarith) (by linarith) (by norm_num)

lemma denS17 (te : ℚ) (hp : (29/2) ≤ te) (hq : te ≤ 15) :
    centroidDen te 9 = -497/60 + (6/5) * te := by
  have haw : ∀ u : ℚ, aggregatedDegree te 9 u =
      max (min (tiempoBajo te) (servicioExcelente u))
          (min (tiempoMedio te) (servicioBuena u)) :=
    fun u => aggregated_wait te u (by linarith) (by linarith)
  rw [centroidDen_eq_sum, universeServicio_literal]
  simp only [List.map_cons, List.map_nil, haw,
    tiempoBajo_eq te (by linarith) (by linarith), tiempoMedio_eq te (by linarith) (by linarith),
    sExc_0, sExc_1, sExc_2, sExc_3, sExc_4, sExc_5, sExc_6, sExc_7, sExc_8, sExc_9, sExc_10, sExc_11, sExc_12, sExc_13, sExc_14, sExc_15, sExc_16, sExc_17, sExc_18, sExc_19, sExc_20, sExc_21, sExc_22, sExc_23, sExc_24, sExc_25, sExc_26, sExc_27, sExc_28, sExc_29, sExc_30, sExc_31, sExc_32, sExc_33, sExc_34, sExc_35, sExc_36, sExc_37, sExc_38, sExc_39, sExc_40, sExc_41, sExc_42, sExc_43, sExc_44, sExc_45, sExc_46, sExc_47, sExc_48, sExc_49, sExc_50, sExc_51, sExc_52, sExc_53, sExc_54, sExc_55, sExc_56, sExc_57, sExc_58, sExc_59, sExc_60, sExc_61, sExc_62, sExc_63, sExc_64, sExc_65, sExc_66, sExc_67, sExc_68, sExc_69, sExc_70, sExc_71, sExc_72, sExc_73, sExc_74, sExc_75, sExc_76, sExc_77, sExc_78, sExc_79, sExc_80, sExc_81, sExc_82, sExc_83, sExc_84, sExc_85, sExc_86, sExc_87, sExc_88, sExc_89, sExc_90, sExc_91, sExc_92, sExc_93, sExc_94, sExc_95, sExc_96, sExc_97, sExc_98, sExc_99, sExc_100,
    sBue_0, sBue_1, sBue_2, sBue_3, sBue_4, sBue_5, sBue_6, sBue_7, sBue_8, sBue_9, sBue_10, sBue_11, sBue_12, sBue_13, sBue_14, sBue_15, sBue_16, sBue_17, sBue_18, sBue_19, sBue_20, sBue_21, sBue_22, sBue_23, sBue_24, sBue_25, sBue_26, sBue_27, sBue_28, sBue_29, sBue_30, sBue_31, sBue_32, sBue_33, sBue_34, sBue_35, sBue_36, sBue_37, sBue_38, sBue_39, sBue_40, sBue_41, sBue_42, sBue_43, sBue_44, sBue_45, sBue_46, sBue_47, sBue_48, sBue_49, sBue_50, sBue_51, sBue_52, sBue_53, sBue_54, sBue_55, sBue_56, sBue_57, sBue_58, sBue_59, sBue_60, sBue_61, sBue_62, sBue_63, sBue_64, sBue_65, sBue_66, sBue_67, sBue_68, sBue_69, sBue_70, sBue_71, sBue_72, sBue_73, sBue_74, sBue_75, sBue_76, sBue_77, sBue_78, sBue_79, sBue_80, sBue_81, sBue_82, sBue_83, sBue_84, sBue_85, sBue_86, sBue_87, sBue_88, sBue_89, sBue_90, sBue_91, sBue_92, sBue_93, sBue_94, sBue_95, sBue_96, sBue_97, sBue_98, sBue_99, sBue_100]
  rw [(show min ((15 - te) / 15) (0:ℚ) = 0 from min_eq_right (by linarith)),
    (show min ((te - 10) / 15) (0:ℚ) = 0 from min_eq_right (by linarith)),
    (show min ((te - 10) / 15) (1/20:ℚ) = 1/20 from min_eq_right (by linarith)),
    (show min ((te - 10) / 15) (1/10:ℚ) = 1/10 from min_eq_right (by linarith)),
    (show min ((te - 10) / 15) (3/20:ℚ) = 3/20 from min_eq_right (by linarith)),
    (show min ((te - 10) / 15) (1/5:ℚ) = 1/5 from min_eq_right (by linarith)),
    (show min ((te - 10) / 15) (1/4:ℚ) = 1/4 from min_eq_right (by linarith)),
    (show min ((te - 10) / 15) (3/10:ℚ) = 3/10 from min_eq_right (by linarith)),
    (show min ((te - 10) / 15) (7/20:ℚ) = (te - 10) / 15 from min_eq_left (by linarith)),
    (show min ((te - 10) / 15) (2/5:ℚ) = (te - 10) / 15 from min_eq_left (by linarith)),
    (show min ((te - 10) / 15) (9/20:ℚ) = (te - 10) / 15 from min_eq_left (by linarith)),
    (show min ((te - 10) / 15) (1/2:ℚ) = (te - 10) / 15 from min_eq_left (by linarith)),
    (show min ((te - 10) / 15) (11/20:ℚ) = (te - 10) / 15 from min_eq_left (by linarith)),
    (show min ((te - 10) / 15) (3/5:ℚ) = (te - 10) / 15 from min_eq_left (by linarith)),
    (show min ((te - 10) / 15) (13/20:ℚ) = (te - 10) / 15 from min_eq_left (by linarith)),
    (show min ((te - 10) / 15) (7/10:ℚ) = (te - 10) / 15 from min_eq_left (by linarith)),
    (show min ((te - 10) / 15) (3/4:ℚ) = (te - 10) / 15 from min_eq_left (by linarith)),
    (show min ((te - 10) / 15) (4/5:ℚ) = (te - 10) / 15 from min_eq_left (by linarith)),
    (show min ((te - 10) / 15) (17/20:ℚ) = (te - 10) / 15 from min_eq_left (by linarith)),
    (show min ((te - 10) / 15) (9/10:ℚ) = (te - 10) / 15 from min_eq_left (by linarith)),
    (show min ((te - 10) / 15) (19/20:ℚ) = (te - 10) / 15 from min_eq_left (by linarith)),
    (show min ((te - 10) / 15) (1:ℚ) = (te - 10) / 15 from min_eq_left (by linarith)),
    (show min ((te - 10) / 15) (14/15:ℚ) = (te - 10) / 15 from min_eq_left (by linarith)),
    (show min ((te - 10) / 15) (13/15:ℚ) = (te - 10) / 15 from min_eq_left (by linarith)),
    (show min ((te - 10) / 15) (11/15:ℚ) = (te - 10) / 15 from min_eq_left (by linarith)),
    (show min ((te - 10) / 15) (2/3:ℚ) = (te - 10) / 15 from min_eq_left (by linarith)),
    (show min ((te - 10) / 15) (8/15:ℚ) = (te - 10) / 15 from min_eq_left (by linarith)),
    (show min ((te - 10) / 15) (7/15:ℚ) = (te - 10) / 15 from min_eq_left (by linarith)),
    (show min ((te - 10) / 15) (1/3:ℚ) = (te - 10) / 15 from min_eq_left (by linarith)),
    (show min ((15 - te) / 15) (1/10:ℚ) = (15 - te) / 15 from min_eq_left (by linarith)),
    (show min ((te - 10) / 15) (4/15:ℚ) = 4/15 from min_eq_right (by linarith)),
    (show min ((15 - te) / 15) (1/5:ℚ) = (15 - te) / 15 from min_eq_left (by linarith)),
    (show min ((15 - te) / 15) (3/10:ℚ) = (15 - te) / 15 from min_eq_left (by linarith)),
    (show min ((te - 10) / 15) (2/15:ℚ) = 2/15 from min_eq_right (by linarith)),
    (show min ((15 - te) / 15) (2/5:ℚ) = (15 - te) / 15 from min_eq_left (by linarith)),
    (show min ((te - 10) / 15) (1/15:ℚ) = 1/15 from min_eq_right (by linarith)),
    (show min ((15 - te) / 15) (1/2:ℚ) = (15 - te) / 15 from min_eq_left (by linarith)),
    (show min ((15 - te) / 15) (3/5:ℚ) = (15 - te) / 15 from min_eq_left (by linarith)),
    (show min ((15 - te) / 15) (7/10:ℚ) = (15 - te) / 15 from min_eq_left (by linarith)),
    (show min ((15 - te) / 15) (4/5:ℚ) = (15 - te) / 15 from min_eq_left (by linarith)),
    (show min ((15 - te) / 15) (9/10:ℚ) = (15 - te) / 15 from min_eq_left (by linarith)),
    (show min ((15 - te) / 15) (1:ℚ) = (15 - te) / 15 from min_eq_left (by linarith)),
    (show max (0:ℚ) (0:ℚ) = 0 from max_self 0),
    (show max (0:ℚ) (1/20:ℚ) = (1/20:ℚ) from max_eq_right (by norm_num)),
    (show max (0:ℚ) (1/10:ℚ) = (1/10:ℚ) from max_eq_right (by norm_num)),
    (show max (0:ℚ) (3/20:ℚ) = (3/20:ℚ) from max_eq_right (by norm_num)),
    (show max (0:ℚ) (1/5:ℚ) = (1/5:ℚ) from max_eq_right (by norm_num)),
    (show max (0:ℚ) (1/4:ℚ) = (1/4:ℚ) from max_eq_right (by norm_num)),
    (show max (0:ℚ) (3/10:ℚ) = (3/10:ℚ) from max_eq_right (by norm_num)),
    (show max (0:ℚ) ((te - 10) / 15) = ((te - 10) / 15) from max_eq_right (by linarith)),
    (show max ((15 - te) / 15) (4/15:ℚ) = (4/15:ℚ) from max_eq_right (by linarith)),
    (show max ((15 - te) / 15) (1/5:ℚ) = (1/5:ℚ) from max_eq_right (by linarith)),
    (show max ((15 - te) / 15) (2/15:ℚ) = (2/15:ℚ) from max_eq_right (by linarith)),
    (show max ((15 - te) / 15) (1/15:ℚ) = (1/15:ℚ) from max_eq_right (by linarith)),
    (show max ((15 - te) / 15) (0:ℚ) = ((15 - te) / 15) from max_eq_left (by linarith))]
  simp only [List.sum_cons, List.sum_nil]
  ring

lemma numS17 (te : ℚ) (hp : (29/2) ≤ te) (hq : te ≤ 15) :
    centroidNum te 9 = -32527/60 + (433/5) * te := by
  have haw : ∀ u : ℚ, aggregatedDegree te 9 u =
      max (min (tiempoBajo te) (servicioExcelente u))
          (min (tiempoMedio te) (servicioBuena u)) :=
    fun u => aggregated_wait te u (by linarith) (by linarith)
  rw [centroidNum_eq_sum, universeServicio_literal]
  simp only [List.map_cons, List.map_nil, haw,
    tiempoBajo_eq te (by linarith) (by linarith), tiempoMedio_eq te (by linarith) (by linarith),
    sExc_0, sExc_1, sExc_2, sExc_3, sExc_4, sExc_5, sExc_6, sExc_7, sExc_8, sExc_9, sExc_10, sExc_11, sExc_12, sExc_13, sExc_14, sExc_15, sExc_16, sExc_17, sExc_18, sExc_19, sExc_20, sExc_21, sExc_22, sExc_23, sExc_24, sExc_25, sExc_26, sExc_27, sExc_28, sExc_29, sExc_30, sExc_31, sExc_32, sExc_33, sExc_34, sExc_35, sExc_36, sExc_37, sExc_38, sExc_39, sExc_40, sExc_41, sExc_42, sExc_43, sExc_44, sExc_45, sExc_46, sExc_47, sExc_48, sExc_49, sExc_50, sExc_51, sExc_52, sExc_53, sExc_54, sExc_55, sExc_56, sExc_57, sExc_58, sExc_59, sExc_60, sExc_61, sExc_62, sExc_63, sExc_64, sExc_65, sExc_66, sExc_67, sExc_68, sExc_69, sExc_70, sExc_71, sExc_72, sExc_73, sExc_74, sExc_75, sExc_76, sExc_77, sExc_78, sExc_79, sExc_80, sExc_81, sExc_82, sExc_83, sExc_84, sExc_85, sExc_86, sExc_87, sExc_88, sExc_89, sExc_90, sExc_91, sExc_92, sExc_93, sExc_94, sExc_95, sExc_96, sExc_97, sExc_98, sExc_99, sExc_100,
    sBue_0, sBue_1, sBue_2, sBue_3, sBue_4, sBue_5, sBue_6, sBue_7, sBue_8, sBue_9, sBue_10, sBue_11, sBue_12, sBue_13, sBue_14, sBue_15, sBue_16, sBue_17, sBue_18, sBue_19, sBue_20, sBue_21, sBue_22, sBue_23, sBue_24, sBue_25, sBue_26, sBue_27, sBue_28, sBue_29, sBue_30, sBue_31, sBue_32, sBue_33, sBue_34, sBue_35, sBue_36, sBue_37, sBue_38, sBue_39, sBue_40, sBue_41, sBue_42, sBue_43, sBue_44, sBue_45, sBue_46, sBue_47, sBue_48, sBue_49, sBue_50, sBue_51, sBue_52, sBue_53, sBue_54, sBue_55, sBue_56, sBue_57, sBue_58, sBue_59, sBue_60, sBue_61, sBue_62, sBue_63, sBue_64, sBue_65, sBue_66, sBue_67, sBue_68, sBue_69, sBue_70, sBue_71, sBue_72, sBue_73, sBue_74, sBue_75, sBue_76, sBue_77, sBue_78, sBue_79, sBue_80, sBue_81, sBue_82, sBue_83, sBue_84, sBue_85, sBue_86, sBue_87, sBue_88, sBue_89, sBue_90, sBue_91, sBue_92, sBue_93, sBue_94, sBue_95, sBue_96, sBue_97, sBue_98, sBue_99, sBue_100]
  rw [(show min ((15 - te) / 15) (0:ℚ) = 0 from min_eq_right (by linarith)),
    (show min ((te - 10) / 15) (0:ℚ) = 0 from min_eq_right (by linarith)),
    (show min ((te - 10) / 15) (1/20:ℚ) = 1/20 from min_eq_right (by linarith)),
    (show min ((te - 10) / 15) (1/10:ℚ) = 1/10 from min_eq_right (by linarith)),
    (show min ((te - 10) / 15) (3/20:ℚ) = 3/20 from min_eq_right (by linarith)),
    (show min ((te - 10) / 15) (1/5:ℚ) = 1/5 from min_eq_right (by linarith)),
    (show min ((te - 10) / 15) (1/4:ℚ) = 1/4 from min_eq_right (by linarith)),
    (show min ((te - 10) / 15) (3/10:ℚ) = 3/10 from min_eq_right (by linarith)),
    (show min ((te - 10) / 15) (7/20:ℚ) = (te - 10) / 15 from min_eq_left (by linarith)),
    (show min ((te - 10) / 15) (2/5:ℚ) = (te - 10) / 15 from min_eq_left (by linarith)),
    (show min ((te - 10) / 15) (9/20:ℚ) = (te - 10) / 15 from min_eq_left (by linarith)),
    (show min ((te - 10) / 15) (1/2:ℚ) = (te - 10) / 15 from min_eq_left (by linarith)),
    (show min ((te - 10) / 15) (11/20:ℚ) = (te - 10) / 15 from min_eq_left (by linarith)),
    (show min ((te - 10) / 15) (3/5:ℚ) = (te - 10) / 15 from min_eq_left (by linarith)),
    (show min ((te - 10) / 15) (13/20:ℚ) = (te - 10) / 15 from min_eq_left (by linarith)),
    (show min ((te - 10) / 15) (7/10:ℚ) = (te - 10) / 15 from min_eq_left (by linarith)),
    (show min ((te - 10) / 15) (3/4:ℚ) = (te - 10) / 15 from min_eq_left (by linarith)),
    (show min ((te - 10) / 15) (4/5:ℚ) = (te - 10) / 15 from min_eq_left (by linarith)),
    (show min ((te - 10) / 15) (17/20:ℚ) = (te - 10) / 15 from min_eq_left (by linarith)),
    (show min ((te - 10) / 15) (9/10:ℚ) = (te - 10) / 15 from min_eq_left (by linarith)),
    (show min ((te - 10) / 15) (19/20:ℚ) = (te - 10) / 15 from min_eq_left (by linarith)),
    (show min ((te - 10) / 15) (1:ℚ) = (te - 10) / 15 from min_eq_left (by linarith)),
    (show min ((te - 10) / 15) (14/15:ℚ) = (te - 10) / 15 from min_eq_left (by linarith)),
    (show min ((te - 10) / 15) (13/15:ℚ) = (te - 10) / 15 from min_eq_left (by linarith)),
    (show min ((te - 10) / 15) (11/15:ℚ) = (te - 10) / 15 from min_eq_left (by linarith)),
    (show min ((te - 10) / 15) (2/3:ℚ) = (te - 10) / 15 from min_eq_left (by linarith)),
    (show min ((te - 10) / 15) (8/15:ℚ) = (te - 10) / 15 from min_eq_left (by linarith)),
    (show min ((te - 10) / 15) (7/15:ℚ) = (te - 10) / 15 from min_eq_left (by linarith)),
    (show min ((te - 10) / 15) (1/3:ℚ) = (te - 10) / 15 from min_eq_left (by linarith)),
    (show min ((15 - te) / 15) (1/10:ℚ) = (15 - te) / 15 from min_eq_left (by linarith)),
    (show min ((te - 10) / 15) (4/15:ℚ) = 4/15 from min_eq_right (by linarith)),
    (show min ((15 - te) / 15) (1/5:ℚ) = (15 - te) / 15 from min_eq_left (by linarith)),
    (show min ((15 - te) / 15) (3/10:ℚ) = (15 - te) / 15 from min_eq_left (by linarith)),
    (show min ((te - 10) / 15) (2/15:ℚ) = 2/15 from min_eq_right (by linarith)),
    (show min ((15 - te) / 15) (2/5:ℚ) = (15 - te) / 15 from min_eq_left (by linarith)),
    (show min ((te - 10) / 15) (1/15:ℚ) = 1/15 from min_eq_right (by linarith)),
    (show min ((15 - te) / 15) (1/2:ℚ) = (15 - te) / 15 from min_eq_left (by linarith)),
    (show min ((15 - te) / 15) (3/5:ℚ) = (15 - te) / 15 from min_eq_left (by linarith)),
    (show min ((15 - te) / 15) (7/10:ℚ) = (15 - te) / 15 from min_eq_left (by linarith)),
    (show min ((15 - te) / 15) (4/5:ℚ) = (15 - te) / 15 from min_eq_left (by linarith)),
    (show min ((15 - te) / 15) (9/10:ℚ) = (15 - te) / 15 from min_eq_left (by linarith)),
    (show min ((15 - te) / 15) (1:ℚ) = (15 - te) / 15 from min_eq_left (by linarith)),
    (show max (0:ℚ) (0:ℚ) = 0 from max_self 0),
    (show max (0:ℚ) (1/20:ℚ) = (1/20:ℚ) from max_eq_right (by norm_num)),
    (show max (0:ℚ) (1/10:ℚ) = (1/10:ℚ) from max_eq_right (by norm_num)),
    (show max (0:ℚ) (3/20:ℚ) = (3/20:ℚ) from max_eq_right (by norm_num)),
    (show max (0:ℚ) (1/5:ℚ) = (1/5:ℚ) from max_eq_right (by norm_num)),
    (show max (0:ℚ) (1/4:ℚ) = (1/4:ℚ) from max_eq_right (by norm_num)),
    (show max (0:ℚ) (3/10:ℚ) = (3/10:ℚ) from max_eq_right (by norm_num)),
    (show max (0:ℚ) ((te - 10) / 15) = ((te - 10) / 15) from max_eq_right (by linarith)),
    (show max ((15 - te) / 15) (4/15:ℚ) = (4/15:ℚ) from max_eq_right (by linarith)),
    (show max ((15 - te) / 15) (1/5:ℚ) = (1/5:ℚ) from max_eq_right (by linarith)),
    (show max ((15 - te) / 15) (2/15:ℚ) = (2/15:ℚ) from max_eq_right (by linarith)),
    (show max ((15 - te) / 15) (1/15:ℚ) = (1/15:ℚ) from max_eq_right (by linarith)),
    (show max ((15 - te) / 15) (0:ℚ) = ((15 - te) / 15) from max_eq_left (by linarith))]
  simp only [List.sum_cons, List.sum_nil]
  ring

lemma monoS17 : ∀ t1 t2 : ℚ, (29/2) ≤ t1 → t1 ≤ t2 → t2 ≤ 15 → crispWait t2 ≤ crispWait t1 := by
  intro t1 t2 hp h12 hq
  unfold crispWait
  rw [denS17 t1 hp (by linarith), numS17 t1 hp (by linarith),
    denS17 t2 (by linarith) hq, numS17 t2 (by linarith) hq]
  exact frac_mono (-32527/60) (433/5) (-497/60) (6/5) t1 t2 h12
    (by linarith) (by linarith) (by norm_num)

lemma crisp_antitone :
    ∀ t1 t2 : ℚ, 0 ≤ t1 → t1 ≤ t2 → t2 ≤ 15 → crispWait t2 ≤ crispWait t1 := by
  have g1 := mono_glue crispWait 0 5 6 monoS0 monoS1
  have g2 := mono_glue crispWait 0 6 (15/2) g1 monoS2
  have g3 := mono_glue crispWait 0 (15/2) 9 g2 monoS3
  have g4 := mono_glue crispWait 0 9 10 g3 monoS4
  have g5 := mono_glue crispWait 0 10 (21/2) g4 monoS5
  have g6 := mono_glue crispWait 0 (21/2) (43/4) g5 monoS6
  have g7 := mono_glue crispWait 0 (43/4) 11 g6 monoS7
  have g8 := mono_glue crispWait 0 11 (23/2) g7 monoS8
  have g9 := mono_glue crispWait 0 (23/2) 12 g8 monoS9
  have g10 := mono_glue crispWait 0 12 (49/4) g9 monoS10
  have g11 := mono_glue crispWait 0 (49/4) (25/2) g10 monoS11
  have g12 := mono_glue crispWait 0 (25/2) 13 g11 monoS12
  have g13 := mono_glue crispWait 0 13 (27/2) g12 monoS13
  have g14 := mono_glue crispWait 0 (27/2) (55/4) g13 monoS14
  have g15 := mono_glue crispWait 0 (55/4) 14 g14 monoS15
  have g16 := mono_glue crispWait 0 14 (29/2) g15 monoS16
  have g17 := mono_glue crispWait 0 (29/2) 15 g16 monoS17
  exact g17

/-- C8 (amended): for all wait times `0 ≤ t1 ≤ t2 ≤ 15`, with food
quality fixed at 9 (firmly inside Excelente), both evaluations succeed
and the crisp output for `t2` is not greater than the one for `t1`.
This is the maximal initial range: immediately beyond 15 the output
rises (see the counterexample). -/
theorem monotone_wait_through_15 (t1 t2 : ℚ) (h0 : 0 ≤ t1) (h12 : t1 ≤ t2)
    (h15 : t2 ≤ 15) :
    ∃ v1 v2, compute t1 9 = .ok v1 ∧ compute t2 9 = .ok v2 ∧ v2 ≤ v1 :=
  ⟨crispWait t1, crispWait t2,
   compute_ok_wait t1 h0 (le_trans h12 h15),
   compute_ok_wait t2 (le_trans h0 h12) h15,
   crisp_antitone t1 t2 h0 h12 h15⟩

/-- Witness for the amended C8 at `t1 = 10`, `t2 = 15`. -/
theorem monotone_wait_through_15_witness :
    ((0:ℚ) ≤ 10 ∧ (10:ℚ) ≤ 15 ∧ (15:ℚ) ≤ 15) ∧
    ∃ v1 v2, compute 10 9 = .ok v1 ∧ compute 15 9 = .ok v2 ∧ v2 ≤ v1 :=
  ⟨⟨by norm_num, by norm_num, le_refl 15⟩,
   monotone_wait_through_15 10 15 (by norm_num) (by norm_num) (le_refl 15)⟩

/-- Counterexample to C8 as stated: at `t1 = 15 ≤ t2 = 20`, both in
`[0, 60]`, with food quality fixed at 9 (degree 2/3 inside Excelente),
both evaluations succeed but the crisp output rises from `45413/583`
(≈ 77.90) to `24319/311` (≈ 78.20). -/
theorem monotonicity_counterexample :
    (0:ℚ) ≤ 15 ∧ (15:ℚ) ≤ 20 ∧ (20:ℚ) ≤ 60 ∧ comidaExcelente 9 = 2/3 ∧
    compute 15 9 = .ok (45413/583) ∧ compute 20 9 = .ok (24319/311) ∧
    ¬ ((24319/311 : ℚ) ≤ 45413/583) :=
  ⟨by norm_num, by norm_num, by norm_num, comidaExcelente_9,
   compute_15_9, compute_20_9, by norm_num⟩

end RatEval

end ApiServicio
